import Mathlib

/-!
# Template-driven ASN.1 decoder (`lib/libcrypto/asn1/tasn_dec.c`)

A shallow embedding of the decoder engine of `tasn_dec.c`. The handshake
driver of `lib/libssl/tls13_handshake.c` follows it, with its own
introduction, before the theorems.

* Bytes are `UInt8`; every machine integer is an `Int` or a `Nat`.
* A `CBS` is the list of the bytes that remain plus the length it was
  initialised with, so `CBS_offset` is the difference of the two.
* Pointers to item descriptors are indices into the descriptor table
  `Env.item`, so a descriptor may refer to itself.
* A C function that returns an `int` and writes through pointers returns a
  record holding the return value, the new contents of every location it
  writes, and the reason codes it pushed on the error stack, oldest first.
* The mutual recursion of the C code always passes through
  `asn1_item_ex_d2i`. That function recurses on a fuel argument; the
  functions it calls take the decoder of the next level as an argument.
  A result `none` stands for a computation that has not finished.
-/

namespace TasnDec

/-! ## Constants of `asn1.h` and `asn1t.h` -/

def V_ASN1_UNIVERSAL : Int := 0x00
def V_ASN1_APPLICATION : Int := 0x40
def V_ASN1_CONTEXT_SPECIFIC : Int := 0x80
def V_ASN1_PRIVATE : Int := 0xc0

def V_ASN1_ANY : Int := -4
def V_ASN1_OTHER : Int := -3
def V_ASN1_NEG : Int := 0x100

def V_ASN1_BOOLEAN : Int := 1
def V_ASN1_INTEGER : Int := 2
def V_ASN1_BIT_STRING : Int := 3
def V_ASN1_OCTET_STRING : Int := 4
def V_ASN1_NULL : Int := 5
def V_ASN1_OBJECT : Int := 6
def V_ASN1_ENUMERATED : Int := 10
def V_ASN1_UTF8STRING : Int := 12
def V_ASN1_SEQUENCE : Int := 16
def V_ASN1_SET : Int := 17
def V_ASN1_UNIVERSALSTRING : Int := 28
def V_ASN1_BMPSTRING : Int := 30

def ASN1_ITYPE_PRIMITIVE : Nat := 0x0
def ASN1_ITYPE_SEQUENCE : Nat := 0x1
def ASN1_ITYPE_CHOICE : Nat := 0x2
def ASN1_ITYPE_EXTERN : Nat := 0x4
def ASN1_ITYPE_MSTRING : Nat := 0x5
def ASN1_ITYPE_NDEF_SEQUENCE : Nat := 0x6

def ASN1_TFLG_OPTIONAL : Nat := 0x1
def ASN1_TFLG_SET_OF : Nat := 0x1 <<< 1
def ASN1_TFLG_SEQUENCE_OF : Nat := 0x2 <<< 1
def ASN1_TFLG_SK_MASK : Nat := 0x3 <<< 1
def ASN1_TFLG_IMPTAG : Nat := 0x1 <<< 3
def ASN1_TFLG_EXPTAG : Nat := 0x2 <<< 3
def ASN1_TFLG_TAG_CLASS : Nat := 0x3 <<< 6
def ASN1_TFLG_ADB_MASK : Nat := 0x3 <<< 8

def ASN1_OP_D2I_PRE : Int := 4
def ASN1_OP_D2I_POST : Int := 5

def ASN1_MAX_CONSTRUCTED_NEST : Int := 30
def ASN1_MAX_STRING_NEST : Int := 5

def INT_MAX : Nat := 2147483647
def UINT32_MAX : Nat := 4294967295
def SIZE_MAX : Nat := 18446744073709551615
def LONG_MAX : Nat := 9223372036854775807

/-- Reason codes pushed by `ASN1error`. -/
inductive ASN1_R where
  | BAD_OBJECT_HEADER
  | TOO_LONG
  | WRONG_TAG
  | NESTED_ASN1_STRING
  | UNEXPECTED_EOC
  | MISSING_EOC
  | NESTED_ASN1_ERROR
  | MALLOC_FAILURE
  | NULL_IS_WRONG_LENGTH
  | BOOLEAN_IS_WRONG_LENGTH
  | BMPSTRING_IS_WRONG_LENGTH
  | UNIVERSALSTRING_IS_WRONG_LENGTH
  | TYPE_NOT_CONSTRUCTED
  | ILLEGAL_TAGGED_ANY
  | ILLEGAL_OPTIONAL_ANY
  | BAD_TEMPLATE
  | MSTRING_NOT_UNIVERSAL
  | MSTRING_WRONG_TAG
  | AUX_ERROR
  | NO_MATCHING_CHOICE_TYPE
  | SEQUENCE_NOT_CONSTRUCTED
  | SEQUENCE_LENGTH_MISMATCH
  | FIELD_MISSING
  | NESTED_TOO_DEEP
  | ILLEGAL_OPTIONS_ON_ITEM_TEMPLATE
  | EXPLICIT_TAG_NOT_CONSTRUCTED
deriving DecidableEq, Repr

/-! ## Byte cursor -/

/-- Modelled from the spec: the byte cursor `CBS` of `bytestring.h`, an
immutable view plus an offset. `data` holds the bytes from the current
position to the end of the view, `initial_len` the length of the view when
it was initialised. -/
structure CBS where
  data : List UInt8
  initial_len : Nat
deriving DecidableEq, Repr

/-- Modelled from the spec: `CBS_init` over the bytes `d`. -/
def CBS_init (d : List UInt8) : CBS := ⟨d, d.length⟩

/-- Modelled from the spec: `CBS_len`, the number of bytes that remain. -/
def CBS_len (c : CBS) : Nat := c.data.length

/-- Modelled from the spec: `CBS_offset`, the number of bytes read so far. -/
def CBS_offset (c : CBS) : Nat := c.initial_len - c.data.length

/-- Modelled from the spec: `CBS_skip`; fails on underflow. -/
def CBS_skip (c : CBS) (n : Nat) : Option CBS :=
  if n ≤ c.data.length then some ⟨c.data.drop n, c.initial_len⟩ else none

/-- Modelled from the spec: `CBS_get_bytes`; the sub-view and the advanced
cursor, or failure on underflow. -/
def CBS_get_bytes (c : CBS) (n : Nat) : Option (CBS × CBS) :=
  if n ≤ c.data.length then
    some (CBS_init (c.data.take n), ⟨c.data.drop n, c.initial_len⟩)
  else none

/-- Modelled from the spec: `CBS_get_u8`. -/
def CBS_get_u8 (c : CBS) : Option (Nat × CBS) :=
  match c.data with
  | [] => none
  | b :: rest => some (b.toNat, ⟨rest, c.initial_len⟩)

/-- Modelled from the spec: `CBS_peek_u16`, big-endian, without advancing. -/
def CBS_peek_u16 (c : CBS) : Option Nat :=
  match c.data with
  | b0 :: b1 :: _ => some (b0.toNat * 256 + b1.toNat)
  | _ => none

/-! ## Decoded values -/

/-- Modelled from the spec: the decoded value tree behind an `ASN1_VALUE *`
slot. `null` is the absence sentinel (a NULL pointer), `unit` the sentinel
`(ASN1_VALUE *)1` of an ASN.1 NULL, `boolean` an `ASN1_BOOLEAN` stored in
the slot itself, `string` an `ASN1_STRING` (type and data), `object` the
result of an external constructor, `any` an `ASN1_TYPE`, `aggregate` a
CHOICE or SEQUENCE structure (selector, field slots, saved encoding) and
`stack` a `STACK_OF(ASN1_VALUE)`. -/
inductive ASN1_VALUE where
  | null
  | unit
  | boolean (b : Nat)
  | string (type : Int) (data : List UInt8)
  | object (data : List UInt8)
  | any (type : Int) (value : ASN1_VALUE)
  | aggregate (selector : Int) (fields : List ASN1_VALUE) (enc : Option (List UInt8))
  | stack (elems : List ASN1_VALUE)
deriving Repr

/-! ## Descriptors -/

/-- The field descriptor `ASN1_TEMPLATE`. `offset` is the index of the
field slot in the parent structure, `item` the index of the sub-item
descriptor in the descriptor table. -/
structure ASN1_TEMPLATE where
  flags : Nat
  tag : Int
  offset : Nat
  item : Nat
deriving DecidableEq, Repr

/-- Result of a callback: its return value and the value it leaves. -/
structure CbOut where
  ret : Int
  pval : ASN1_VALUE

/-- Result of the decode function of an EXTERN item: return value, slot
contents and number of bytes by which it advanced its input pointer. -/
structure ExternOut where
  ret : Int
  pval : ASN1_VALUE
  consumed : Int

/-- What `it->funcs` points to: nothing, an `ASN1_PRIMITIVE_FUNCS` (its
`prim_c2i` may be NULL), an `ASN1_AUX` (its `asn1_cb` may be NULL) or an
`ASN1_EXTERN_FUNCS`. -/
inductive ASN1_FUNCS where
  | null
  | prim (prim_c2i : Option (ASN1_VALUE → List UInt8 → Int → CbOut))
  | aux (asn1_cb : Option (Int → ASN1_VALUE → CbOut))
  | ext (asn1_ex_d2i : ASN1_VALUE → List UInt8 → Int → Int → Bool → ExternOut)

/-- The item descriptor `ASN1_ITEM`. `templates` is the template array
(`tcount` is its length, a NULL pointer is the empty list); `size` is the
number of field slots of the structure the item describes. -/
structure ASN1_ITEM where
  itype : Nat
  utype : Int
  templates : List ASN1_TEMPLATE
  funcs : ASN1_FUNCS
  size : Nat

/-- The descriptor table together with the helpers of the repository that
the decoder calls and that are defined outside `tasn_dec.c`. -/
structure Env where
  /-- the item descriptor behind each descriptor pointer -/
  item : Nat → ASN1_ITEM
  /-- `c2i_ASN1_OBJECT_cbs`: the object built from the content, if any -/
  c2i_ASN1_OBJECT_cbs : List UInt8 → Option ASN1_VALUE
  /-- `c2i_ASN1_BIT_STRING_cbs`: the bit string built from the content -/
  c2i_ASN1_BIT_STRING_cbs : List UInt8 → Option ASN1_VALUE
  /-- `c2i_ASN1_INTEGER_cbs`: type and data of the `ASN1_INTEGER` built -/
  c2i_ASN1_INTEGER_cbs : List UInt8 → Option (Int × List UInt8)
  /-- `ASN1_tag2bit` -/
  ASN1_tag2bit : Int → Nat
  /-- the table lookup of `asn1_do_adb` for a template with an ADB flag -/
  adb_select : ASN1_VALUE → ASN1_TEMPLATE → Option ASN1_TEMPLATE

/-- `tcount` of an item. -/
def ASN1_ITEM.tcount (it : ASN1_ITEM) : Nat := it.templates.length

/-- The `asn1_cb` of an item whose `funcs` is an `ASN1_AUX`. -/
def ASN1_ITEM.asn1_cb (it : ASN1_ITEM) : Option (Int → ASN1_VALUE → CbOut) :=
  match it.funcs with
  | ASN1_FUNCS.aux cb => cb
  | _ => none

/-- Is `it->funcs` a NULL pointer. -/
def ASN1_ITEM.funcs_null (it : ASN1_ITEM) : Bool :=
  match it.funcs with
  | ASN1_FUNCS.null => true
  | _ => false

/-! ## Value helpers defined outside `tasn_dec.c` -/

/-- Modelled from the spec: `ASN1_item_ex_new` for a CHOICE or SEQUENCE
item allocates an empty aggregate value: no selector, every field slot
holding the absence sentinel, no saved encoding. Allocation does not fail. -/
def ASN1_item_ex_new (it : ASN1_ITEM) : Option ASN1_VALUE :=
  some (ASN1_VALUE.aggregate (-1) (List.replicate it.size ASN1_VALUE.null) none)

/-- Modelled from the spec: `asn1_get_field_ptr` followed by a read: the
contents of the field slot of template `tt` in the structure `v`. -/
def asn1_get_field (v : ASN1_VALUE) (tt : ASN1_TEMPLATE) : ASN1_VALUE :=
  match v with
  | ASN1_VALUE.aggregate _ fs _ => fs.getD tt.offset ASN1_VALUE.null
  | _ => ASN1_VALUE.null

/-- Modelled from the spec: `asn1_get_field_ptr` followed by a write: the
structure `v` with `x` stored in the field slot of template `tt`. -/
def asn1_set_field (v : ASN1_VALUE) (tt : ASN1_TEMPLATE) (x : ASN1_VALUE) : ASN1_VALUE :=
  match v with
  | ASN1_VALUE.aggregate s fs e => ASN1_VALUE.aggregate s (fs.set tt.offset x) e
  | w => w

/-- Modelled from the spec: `asn1_set_choice_selector` records the selector
index in the value. -/
def asn1_set_choice_selector (v : ASN1_VALUE) (i : Int) : ASN1_VALUE :=
  match v with
  | ASN1_VALUE.aggregate _ fs e => ASN1_VALUE.aggregate i fs e
  | w => w

/-- Modelled from the spec: `asn1_enc_save` saves the verbatim span of the
encoding in the aggregate. Allocation does not fail. -/
def asn1_enc_save (v : ASN1_VALUE) (span : List UInt8) : Option ASN1_VALUE :=
  match v with
  | ASN1_VALUE.aggregate s fs _ => some (ASN1_VALUE.aggregate s fs (some span))
  | w => some w

/-- Modelled from the spec: `asn1_do_adb` returns the template itself unless
it carries an ADB flag, in which case the dynamic selection decides. -/
def asn1_do_adb (env : Env) (v : ASN1_VALUE) (tt : ASN1_TEMPLATE) : Option ASN1_TEMPLATE :=
  if tt.flags &&& ASN1_TFLG_ADB_MASK = 0 then some tt else env.adb_select v tt

/-- Run the `asn1_cb` callback of an item, if it has one: `none` when the
callback reports failure, the value it leaves otherwise. -/
def run_asn1_cb (it : ASN1_ITEM) (op : Int) (v : ASN1_VALUE) : Option ASN1_VALUE :=
  match it.asn1_cb with
  | none => some v
  | some cb => if (cb op v).ret = 0 then none else some (cb op v).pval

/-! ## Tag and length reader -/

/-- Modelled from the spec: the long form of a tag number, read by
`asn1_get_identifier_cbs`: base-128 digits, most significant first, the top
bit of each octet telling whether another follows; fails when the input
ends or the number no longer fits 32 bits. -/
def get_tag_long : List UInt8 → Nat → Option (Nat × List UInt8)
  | [], _ => none
  | b :: rest, tag_number =>
    if tag_number > UINT32_MAX >>> 7 then none
    else if b.toNat &&& 0x80 ≠ 0 then
      get_tag_long rest ((tag_number <<< 7) ||| (b.toNat &&& 0x7f))
    else some ((tag_number <<< 7) ||| (b.toNat &&& 0x7f), rest)

/-- Result of `asn1_get_identifier_cbs`. -/
structure IdentOut where
  tag_class : Nat
  constructed : Bool
  tag_number : Nat
  cbs : CBS
deriving DecidableEq, Repr

/-- Modelled from the spec: `asn1_get_identifier_cbs` reads one identifier
octet (low 5 bits = tag or long-form marker; bit 6 = constructed; top 2
bits = class), then the long form of the tag number if marked. -/
def asn1_get_identifier_cbs (cbs : CBS) : Option IdentOut :=
  match cbs.data with
  | [] => none
  | b :: rest =>
    if b.toNat &&& 0x1f = 0x1f then
      match get_tag_long rest 0 with
      | none => none
      | some (t, rest1) =>
        some ⟨(b.toNat >>> 6) &&& 0x3, (b.toNat >>> 5) &&& 0x1 ≠ 0, t, ⟨rest1, cbs.initial_len⟩⟩
    else
      some ⟨(b.toNat >>> 6) &&& 0x3, (b.toNat >>> 5) &&& 0x1 ≠ 0, b.toNat &&& 0x1f,
        ⟨rest, cbs.initial_len⟩⟩

/-- Modelled from the spec: the octets of a long-form length, big-endian;
fails when the input ends or the value no longer fits a `size_t`. -/
def get_length_long : Nat → List UInt8 → Nat → Option (Nat × List UInt8)
  | 0, rest, length => some (length, rest)
  | _ + 1, [], _ => none
  | n + 1, b :: rest, length =>
    if length > SIZE_MAX >>> 8 then none
    else get_length_long n rest ((length <<< 8) ||| b.toNat)

/-- Result of `asn1_get_length_cbs`. -/
structure LengthOut where
  indefinite : Bool
  length : Nat
  cbs : CBS
deriving DecidableEq, Repr

/-- Modelled from the spec: `asn1_get_length_cbs` reads a BER length:
definite short, indefinite (`0x80`) or definite long. -/
def asn1_get_length_cbs (cbs : CBS) : Option LengthOut :=
  match cbs.data with
  | [] => none
  | b :: rest =>
    if b.toNat < 0x80 then some ⟨false, b.toNat, ⟨rest, cbs.initial_len⟩⟩
    else if b.toNat = 0x80 then some ⟨true, 0, ⟨rest, cbs.initial_len⟩⟩
    else if b.toNat &&& 0x7f = 0x7f then none
    else
      match get_length_long (b.toNat &&& 0x7f) rest 0 with
      | none => none
      | some (l, rest1) => some ⟨false, l, ⟨rest1, cbs.initial_len⟩⟩

/-- The function `asn1_check_eoc`: `some` of the advanced cursor when the
next two octets are an end-of-contents marker, `none` (return 0, cursor
untouched) otherwise. -/
def asn1_check_eoc (cbs : CBS) : Option CBS :=
  match CBS_peek_u16 cbs with
  | none => none
  | some eoc => if eoc ≠ 0 then none else CBS_skip cbs 2

/-- What `asn1_check_tag` returns and writes: return value, advanced
cursor, `*out_len`, `*out_tag`, `*out_class`, `*out_indefinite` (as a truth
value), `*out_constructed` (as a truth value) and the errors pushed. -/
structure TagOut where
  ret : Int
  cbs : CBS
  len : Nat
  tag : Int
  cls : Int
  indefinite : Bool
  constructed : Bool
  errs : List ASN1_R
deriving DecidableEq, Repr

/-- The function `asn1_check_tag`. On a failure of one of the two readers
the cursor is reported where the call found it. -/
def asn1_check_tag (cbs : CBS) (expected_tag : Int) (expected_class : Int)
    (optional : Bool) : TagOut :=
  match asn1_get_identifier_cbs cbs with
  | none => ⟨0, cbs, 0, 0, 0, false, false, [ASN1_R.BAD_OBJECT_HEADER]⟩
  | some id =>
    if expected_tag ≥ 0 ∧
        (expected_tag ≠ (id.tag_number : Int) ∨ expected_class ≠ ((id.tag_class <<< 6 : Nat) : Int)) then
      if optional then ⟨-1, id.cbs, 0, 0, 0, false, false, []⟩
      else ⟨0, id.cbs, 0, 0, 0, false, false, [ASN1_R.WRONG_TAG]⟩
    else
      match asn1_get_length_cbs id.cbs with
      | none => ⟨0, id.cbs, 0, 0, 0, false, false, [ASN1_R.BAD_OBJECT_HEADER]⟩
      | some l =>
        if l.indefinite ∧ ¬ id.constructed then
          ⟨0, l.cbs, 0, 0, 0, false, false, [ASN1_R.BAD_OBJECT_HEADER]⟩
        else if ¬ l.indefinite ∧ CBS_len l.cbs < l.length then
          ⟨0, l.cbs, 0, 0, 0, false, false, [ASN1_R.TOO_LONG]⟩
        else if id.tag_number > INT_MAX then
          ⟨0, l.cbs, 0, 0, 0, false, false, [ASN1_R.TOO_LONG]⟩
        else
          ⟨1, l.cbs, if l.indefinite then CBS_len l.cbs else l.length, id.tag_number,
            ((id.tag_class <<< 6 : Nat) : Int), l.indefinite, id.constructed, []⟩

/-! ## Indefinite-length traversal -/

/-- What `asn1_collect` returns and writes: return value, the sink buffer,
the cursor and the errors pushed. -/
structure CollectOut where
  ret : Int
  cbb : List UInt8
  cbs : CBS
  errs : List ASN1_R
deriving DecidableEq, Repr

mutual
/-- The function `asn1_collect`, with a bound on the number of calls and loop
iterations still allowed. -/
def asn1_collect_fuel : Nat → List UInt8 → CBS → Bool → Int → Int → Int → Option CollectOut
  | 0, _, _, _, _, _, _ => none
  | fuel + 1, cbb, cbs, indefinite, expected_tag, expected_class, depth =>
    if depth > ASN1_MAX_STRING_NEST then
      some ⟨0, cbb, cbs, [ASN1_R.NESTED_ASN1_STRING]⟩
    else
      asn1_collect_loop fuel cbb cbs indefinite expected_tag expected_class depth
/-- The `while` loop of `asn1_collect`; the `Bool` is `need_eoc`. -/
def asn1_collect_loop : Nat → List UInt8 → CBS → Bool → Int → Int → Int → Option CollectOut
  | 0, _, _, _, _, _, _ => none
  | fuel + 1, cbb, cbs, need_eoc, expected_tag, expected_class, depth =>
    if CBS_len cbs > 0 then
      match asn1_check_eoc cbs with
      | some cbs1 =>
        if ¬ need_eoc then some ⟨0, cbb, cbs1, [ASN1_R.UNEXPECTED_EOC]⟩
        else some ⟨1, cbb, cbs1, []⟩
      | none =>
        if (asn1_check_tag cbs expected_tag expected_class false).ret = 0 then
          some ⟨0, cbb, (asn1_check_tag cbs expected_tag expected_class false).cbs,
            (asn1_check_tag cbs expected_tag expected_class false).errs
              ++ [ASN1_R.NESTED_ASN1_ERROR]⟩
        else if (asn1_check_tag cbs expected_tag expected_class false).constructed then
          match asn1_collect_fuel fuel cbb
              (asn1_check_tag cbs expected_tag expected_class false).cbs
              (asn1_check_tag cbs expected_tag expected_class false).indefinite
              expected_tag expected_class (depth + 1) with
          | none => none
          | some r =>
            if r.ret = 0 then some r
            else asn1_collect_loop fuel r.cbb r.cbs need_eoc expected_tag expected_class depth
        else
          match CBS_get_bytes (asn1_check_tag cbs expected_tag expected_class false).cbs
              (asn1_check_tag cbs expected_tag expected_class false).len with
          | none =>
            some ⟨0, cbb, (asn1_check_tag cbs expected_tag expected_class false).cbs,
              [ASN1_R.NESTED_ASN1_ERROR]⟩
          | some (content, cbs2) =>
            asn1_collect_loop fuel (cbb ++ content.data) cbs2 need_eoc
              expected_tag expected_class depth
    else if need_eoc then some ⟨0, cbb, cbs, [ASN1_R.MISSING_EOC]⟩
    else some ⟨1, cbb, cbs, []⟩
end

/-- The function `asn1_collect`. Every loop iteration and every nested call
follows the reading of at least two octets, so the bound given here is
never reached (`asn1_collect_total`). -/
def asn1_collect (cbb : List UInt8) (cbs : CBS) (indefinite : Bool) (expected_tag : Int)
    (expected_class : Int) (depth : Int) : Option CollectOut :=
  asn1_collect_fuel (CBS_len cbs + 2) cbb cbs indefinite expected_tag expected_class depth

/-- What `asn1_find_end` returns and writes. -/
structure FindOut where
  ret : Int
  cbs : CBS
  errs : List ASN1_R
deriving DecidableEq, Repr

/-- The `while` loop of `asn1_find_end` and the test that follows it, with
a bound on the number of iterations; `eoc_count` is a `size_t`. -/
def asn1_find_end_loop : Nat → CBS → Nat → Option FindOut
  | 0, _, _ => none
  | fuel + 1, cbs, eoc_count =>
    if CBS_len cbs > 0 then
      match asn1_check_eoc cbs with
      | some cbs1 =>
        if (eoc_count + SIZE_MAX) % (SIZE_MAX + 1) = 0 then some ⟨1, cbs1, []⟩
        else asn1_find_end_loop fuel cbs1 ((eoc_count + SIZE_MAX) % (SIZE_MAX + 1))
      | none =>
        if (asn1_check_tag cbs (-1) 0 false).ret = 0 then
          some ⟨0, (asn1_check_tag cbs (-1) 0 false).cbs,
            (asn1_check_tag cbs (-1) 0 false).errs ++ [ASN1_R.NESTED_ASN1_ERROR]⟩
        else if (asn1_check_tag cbs (-1) 0 false).indefinite then
          asn1_find_end_loop fuel (asn1_check_tag cbs (-1) 0 false).cbs
            ((eoc_count + 1) % (SIZE_MAX + 1))
        else
          match CBS_skip (asn1_check_tag cbs (-1) 0 false).cbs
              (asn1_check_tag cbs (-1) 0 false).len with
          | none => some ⟨0, (asn1_check_tag cbs (-1) 0 false).cbs, []⟩
          | some cbs2 => asn1_find_end_loop fuel cbs2 eoc_count
    else if eoc_count > 0 then some ⟨0, cbs, [ASN1_R.MISSING_EOC]⟩
    else some ⟨1, cbs, []⟩

/-- The function `asn1_find_end`. Every loop iteration reads at least two
octets, so the bound given here is never reached (`asn1_find_end_total`). -/
def asn1_find_end (cbs : CBS) (length : Nat) (indefinite : Bool) : Option FindOut :=
  if ¬ indefinite then
    match CBS_skip cbs length with
    | none => some ⟨0, cbs, [ASN1_R.NESTED_ASN1_ERROR]⟩
    | some cbs1 => some ⟨1, cbs1, []⟩
  else asn1_find_end_loop (CBS_len cbs + 1) cbs 1

/-! ## Primitive value constructors -/

/-- What a value constructor returns and writes: return value, the slot
contents and the errors pushed. -/
structure C2iOut where
  ret : Int
  pval : ASN1_VALUE
  errs : List ASN1_R

/-- The function `asn1_ex_c2i_primitive`. The three constructors defined
outside the file release the slot before they build, so the slot is null
when they fail; string allocation does not fail. -/
def asn1_ex_c2i_primitive (env : Env) (pval : ASN1_VALUE) (content : CBS) (utype : Int)
    (it : ASN1_ITEM) : C2iOut :=
  if ¬ it.funcs_null then ⟨0, pval, []⟩
  else if CBS_len content > INT_MAX then ⟨0, pval, []⟩
  else if utype = V_ASN1_OBJECT then
    match env.c2i_ASN1_OBJECT_cbs content.data with
    | none => ⟨0, ASN1_VALUE.null, []⟩
    | some v => ⟨1, v, []⟩
  else if utype = V_ASN1_NULL then
    if CBS_len content ≠ 0 then ⟨0, pval, [ASN1_R.NULL_IS_WRONG_LENGTH]⟩
    else ⟨1, ASN1_VALUE.unit, []⟩
  else if utype = V_ASN1_BOOLEAN then
    if CBS_len content ≠ 1 then ⟨0, pval, [ASN1_R.BOOLEAN_IS_WRONG_LENGTH]⟩
    else
      match CBS_get_u8 content with
      | none => ⟨0, pval, []⟩
      | some (u8val, _) => ⟨1, ASN1_VALUE.boolean u8val, []⟩
  else if utype = V_ASN1_BIT_STRING then
    match env.c2i_ASN1_BIT_STRING_cbs content.data with
    | none => ⟨0, ASN1_VALUE.null, []⟩
    | some v => ⟨1, v, []⟩
  else if utype = V_ASN1_INTEGER ∨ utype = V_ASN1_ENUMERATED then
    match env.c2i_ASN1_INTEGER_cbs content.data with
    | none => ⟨0, ASN1_VALUE.null, []⟩
    | some (type, data) =>
      ⟨1, ASN1_VALUE.string (Int.lor utype (Int.land type V_ASN1_NEG)) data, []⟩
  else if utype = V_ASN1_BMPSTRING ∧ CBS_len content &&& 1 ≠ 0 then
    ⟨0, pval, [ASN1_R.BMPSTRING_IS_WRONG_LENGTH]⟩
  else if utype = V_ASN1_UNIVERSALSTRING ∧ CBS_len content &&& 3 ≠ 0 then
    ⟨0, pval, [ASN1_R.UNIVERSALSTRING_IS_WRONG_LENGTH]⟩
  else ⟨1, ASN1_VALUE.string utype content.data, []⟩

/-- The function `asn1_ex_c2i_any`. -/
def asn1_ex_c2i_any (env : Env) (pval : ASN1_VALUE) (content : CBS) (utype : Int)
    (it : ASN1_ITEM) : C2iOut :=
  if it.utype ≠ V_ASN1_ANY ∨ ¬ it.funcs_null then ⟨0, pval, []⟩
  else if (asn1_ex_c2i_primitive env ASN1_VALUE.null content utype it).ret = 0 then
    ⟨0, ASN1_VALUE.null, (asn1_ex_c2i_primitive env ASN1_VALUE.null content utype it).errs⟩
  else if utype = V_ASN1_NULL then
    ⟨1, ASN1_VALUE.any utype ASN1_VALUE.null,
      (asn1_ex_c2i_primitive env ASN1_VALUE.null content utype it).errs⟩
  else
    ⟨1, ASN1_VALUE.any utype (asn1_ex_c2i_primitive env ASN1_VALUE.null content utype it).pval,
      (asn1_ex_c2i_primitive env ASN1_VALUE.null content utype it).errs⟩

/-- The function `asn1_ex_c2i`. An `it->funcs` that is not an
`ASN1_PRIMITIVE_FUNCS` is not a primitive function table; the model lets
the call fail. -/
def asn1_ex_c2i (env : Env) (pval : ASN1_VALUE) (content : CBS) (utype : Int)
    (it : ASN1_ITEM) : C2iOut :=
  if CBS_len content > INT_MAX then ⟨0, pval, []⟩
  else
    match it.funcs with
    | ASN1_FUNCS.prim none => ⟨0, pval, []⟩
    | ASN1_FUNCS.prim (some prim_c2i) =>
      ⟨(prim_c2i pval content.data utype).ret, (prim_c2i pval content.data utype).pval, []⟩
    | ASN1_FUNCS.aux _ => ⟨0, pval, []⟩
    | ASN1_FUNCS.ext _ => ⟨0, pval, []⟩
    | ASN1_FUNCS.null =>
      if it.utype = V_ASN1_ANY then asn1_ex_c2i_any env pval content utype it
      else asn1_ex_c2i_primitive env pval content utype it

/-! ## Primitive decoding -/

/-- What a decode function returns and writes: return value (1 success,
0 error, -1 absent), the contents of the value slot `*pval`, the caller's
cursor `*cbs` and the errors pushed. -/
structure Out where
  ret : Int
  pval : ASN1_VALUE
  cbs : CBS
  errs : List ASN1_R

/-- The tail of `asn1_d2i_ex_primitive_content`: build the value from
`cbs_content`, then advance the caller's cursor by the offset reached in
`cbs_object`. -/
def primitive_content_finish (env : Env) (pval : ASN1_VALUE) (cbs cbs_object cbs_content : CBS)
    (utype : Int) (it : ASN1_ITEM) : Out :=
  if (asn1_ex_c2i env pval cbs_content utype it).ret = 0 then
    ⟨0, (asn1_ex_c2i env pval cbs_content utype it).pval, cbs,
      (asn1_ex_c2i env pval cbs_content utype it).errs⟩
  else
    match CBS_skip cbs (CBS_offset cbs_object) with
    | none =>
      ⟨0, (asn1_ex_c2i env pval cbs_content utype it).pval, cbs,
        (asn1_ex_c2i env pval cbs_content utype it).errs⟩
    | some cbs1 =>
      ⟨1, (asn1_ex_c2i env pval cbs_content utype it).pval, cbs1,
        (asn1_ex_c2i env pval cbs_content utype it).errs⟩

/-- The function `asn1_d2i_ex_primitive_content`. -/
def asn1_d2i_ex_primitive_content (env : Env) (pval : ASN1_VALUE) (cbs cbs_object : CBS)
    (utype : Int) (constructed indefinite : Bool) (length : Nat) (it : ASN1_ITEM) :
    Option Out :=
  if (utype = V_ASN1_SEQUENCE ∨ utype = V_ASN1_SET) ∧ ¬ constructed then
    some ⟨0, pval, cbs, [ASN1_R.TYPE_NOT_CONSTRUCTED]⟩
  else if utype = V_ASN1_SEQUENCE ∨ utype = V_ASN1_SET ∨ utype = V_ASN1_OTHER then
    match asn1_find_end cbs_object length indefinite with
    | none => none
    | some f =>
      if f.ret = 0 then some ⟨0, pval, cbs, f.errs⟩
      else
        match CBS_get_bytes cbs (CBS_offset f.cbs) with
        | none => some ⟨0, pval, cbs, []⟩
        | some (cbs_content, _) =>
          some (primitive_content_finish env pval cbs f.cbs cbs_content utype it)
  else if constructed then
    match asn1_collect [] cbs_object indefinite (-1) V_ASN1_UNIVERSAL 0 with
    | none => none
    | some c =>
      if c.ret = 0 then some ⟨0, pval, cbs, c.errs⟩
      else some (primitive_content_finish env pval cbs c.cbs (CBS_init c.cbb) utype it)
  else
    match CBS_get_bytes cbs_object length with
    | none => some ⟨0, pval, cbs, []⟩
    | some (cbs_content, cbs_object1) =>
      some (primitive_content_finish env pval cbs cbs_object1 cbs_content utype it)

/-- The function `asn1_d2i_ex_any`. -/
def asn1_d2i_ex_any (env : Env) (pval : ASN1_VALUE) (cbs : CBS) (it : ASN1_ITEM)
    (tag_number : Int) (_tag_class : Int) (optional : Bool) : Option Out :=
  if it.utype ≠ V_ASN1_ANY then some ⟨0, pval, cbs, []⟩
  else if tag_number ≥ 0 then some ⟨0, pval, cbs, [ASN1_R.ILLEGAL_TAGGED_ANY]⟩
  else if optional then some ⟨0, pval, cbs, [ASN1_R.ILLEGAL_OPTIONAL_ANY]⟩
  else if (asn1_check_tag (CBS_init cbs.data) (-1) 0 false).ret ≠ 1 then
    some ⟨0, pval, cbs,
      (asn1_check_tag (CBS_init cbs.data) (-1) 0 false).errs ++ [ASN1_R.NESTED_ASN1_ERROR]⟩
  else
    asn1_d2i_ex_primitive_content env pval cbs
      (asn1_check_tag (CBS_init cbs.data) (-1) 0 false).cbs
      (if (asn1_check_tag (CBS_init cbs.data) (-1) 0 false).cls ≠ V_ASN1_UNIVERSAL
        then V_ASN1_OTHER else (asn1_check_tag (CBS_init cbs.data) (-1) 0 false).tag)
      (asn1_check_tag (CBS_init cbs.data) (-1) 0 false).constructed
      (asn1_check_tag (CBS_init cbs.data) (-1) 0 false).indefinite
      (asn1_check_tag (CBS_init cbs.data) (-1) 0 false).len it

/-- The function `asn1_d2i_ex_mstring`. -/
def asn1_d2i_ex_mstring (env : Env) (pval : ASN1_VALUE) (cbs : CBS) (it : ASN1_ITEM)
    (tag_number : Int) (_tag_class : Int) (optional : Bool) : Option Out :=
  if tag_number ≠ -1 then some ⟨0, pval, cbs, [ASN1_R.BAD_TEMPLATE]⟩
  else if (asn1_check_tag (CBS_init cbs.data) (-1) 0 true).ret ≠ 1 then
    some ⟨0, pval, cbs,
      (asn1_check_tag (CBS_init cbs.data) (-1) 0 true).errs ++ [ASN1_R.NESTED_ASN1_ERROR]⟩
  else if (asn1_check_tag (CBS_init cbs.data) (-1) 0 true).cls ≠ V_ASN1_UNIVERSAL then
    if optional then some ⟨-1, pval, cbs, []⟩
    else some ⟨0, pval, cbs, [ASN1_R.MSTRING_NOT_UNIVERSAL]⟩
  else if Int.land (env.ASN1_tag2bit (asn1_check_tag (CBS_init cbs.data) (-1) 0 true).tag)
      it.utype = 0 then
    if optional then some ⟨-1, pval, cbs, []⟩
    else some ⟨0, pval, cbs, [ASN1_R.MSTRING_WRONG_TAG]⟩
  else
    asn1_d2i_ex_primitive_content env pval cbs
      (asn1_check_tag (CBS_init cbs.data) (-1) 0 true).cbs
      (asn1_check_tag (CBS_init cbs.data) (-1) 0 true).tag
      (asn1_check_tag (CBS_init cbs.data) (-1) 0 true).constructed
      (asn1_check_tag (CBS_init cbs.data) (-1) 0 true).indefinite
      (asn1_check_tag (CBS_init cbs.data) (-1) 0 true).len it

/-- The function `asn1_d2i_ex_primitive`. -/
def asn1_d2i_ex_primitive (env : Env) (pval : ASN1_VALUE) (cbs : CBS) (it : ASN1_ITEM)
    (tag_number : Int) (tag_class : Int) (optional : Bool) : Option Out :=
  if it.itype = ASN1_ITYPE_MSTRING then some ⟨0, pval, cbs, []⟩
  else if it.utype = V_ASN1_ANY then
    asn1_d2i_ex_any env pval cbs it tag_number tag_class optional
  else if (asn1_check_tag (CBS_init cbs.data)
      (if tag_number = -1 then it.utype else tag_number)
      (if tag_number = -1 then V_ASN1_UNIVERSAL else tag_class) optional).ret = -1 then
    some ⟨-1, pval, cbs, []⟩
  else if (asn1_check_tag (CBS_init cbs.data)
      (if tag_number = -1 then it.utype else tag_number)
      (if tag_number = -1 then V_ASN1_UNIVERSAL else tag_class) optional).ret ≠ 1 then
    some ⟨0, pval, cbs,
      (asn1_check_tag (CBS_init cbs.data)
        (if tag_number = -1 then it.utype else tag_number)
        (if tag_number = -1 then V_ASN1_UNIVERSAL else tag_class) optional).errs
        ++ [ASN1_R.NESTED_ASN1_ERROR]⟩
  else
    asn1_d2i_ex_primitive_content env pval cbs
      (asn1_check_tag (CBS_init cbs.data)
        (if tag_number = -1 then it.utype else tag_number)
        (if tag_number = -1 then V_ASN1_UNIVERSAL else tag_class) optional).cbs
      it.utype
      (asn1_check_tag (CBS_init cbs.data)
        (if tag_number = -1 then it.utype else tag_number)
        (if tag_number = -1 then V_ASN1_UNIVERSAL else tag_class) optional).constructed
      (asn1_check_tag (CBS_init cbs.data)
        (if tag_number = -1 then it.utype else tag_number)
        (if tag_number = -1 then V_ASN1_UNIVERSAL else tag_class) optional).indefinite
      (asn1_check_tag (CBS_init cbs.data)
        (if tag_number = -1 then it.utype else tag_number)
        (if tag_number = -1 then V_ASN1_UNIVERSAL else tag_class) optional).len it

/-! ## Template interpreter -/

/-- The type of `asn1_item_ex_d2i`: slot pointer (`none` is a NULL `pval`),
cursor, item, tag override, class override, optional, depth. -/
abbrev ItemDec := Option ASN1_VALUE → CBS → ASN1_ITEM → Int → Int → Bool → Int → Option Out

/-- The type of `asn1_template_ex_d2i`: slot pointer, cursor, template,
optional, depth. -/
abbrev TemplateDec := Option ASN1_VALUE → CBS → ASN1_TEMPLATE → Bool → Int → Option Out

/-- The `for` loop of `asn1_item_ex_d2i_choice` from field index `i` on.
The result has `ret` 1 when a field was decoded (the selector is set),
0 on a hard error and -1 when the loop fell off the end. -/
def choice_fields (tdec : TemplateDec) (depth : Int) :
    List ASN1_TEMPLATE → Nat → ASN1_VALUE → CBS → List ASN1_R → Option Out
  | [], _, achoice, cbs, errs => some ⟨-1, achoice, cbs, errs⟩
  | tt :: rest, i, achoice, cbs, errs =>
    match tdec (some (asn1_get_field achoice tt)) cbs tt true depth with
    | none => none
    | some r =>
      if r.ret = -1 then
        choice_fields tdec depth rest (i + 1) (asn1_set_field achoice tt r.pval) r.cbs
          (errs ++ r.errs)
      else if r.ret ≠ 1 then
        some ⟨0, asn1_set_field achoice tt r.pval, r.cbs,
          errs ++ r.errs ++ [ASN1_R.NESTED_ASN1_ERROR]⟩
      else
        some ⟨1, asn1_set_choice_selector (asn1_set_field achoice tt r.pval) i, r.cbs,
          errs ++ r.errs⟩

/-- The function `asn1_item_ex_d2i_choice`; `tdec` is
`asn1_template_ex_d2i`. -/
def asn1_item_ex_d2i_choice (tdec : TemplateDec) (pval : ASN1_VALUE) (cbs : CBS)
    (it : ASN1_ITEM) (tag_number : Int) (_tag_class : Int) (optional : Bool) (depth : Int) :
    Option Out :=
  if it.itype ≠ ASN1_ITYPE_CHOICE then some ⟨0, pval, cbs, []⟩
  else if tag_number ≠ -1 then some ⟨0, pval, cbs, [ASN1_R.BAD_TEMPLATE]⟩
  else
    match ASN1_item_ex_new it with
    | none => some ⟨0, ASN1_VALUE.null, cbs, [ASN1_R.NESTED_ASN1_ERROR]⟩
    | some achoice0 =>
      match run_asn1_cb it ASN1_OP_D2I_PRE achoice0 with
      | none => some ⟨0, ASN1_VALUE.null, cbs, [ASN1_R.AUX_ERROR]⟩
      | some achoice1 =>
        match choice_fields tdec depth it.templates 0 achoice1 cbs [] with
        | none => none
        | some l =>
          if l.ret = 0 then some ⟨0, ASN1_VALUE.null, l.cbs, l.errs⟩
          else if l.ret = -1 then
            if optional then some ⟨-1, ASN1_VALUE.null, l.cbs, l.errs⟩
            else some ⟨0, ASN1_VALUE.null, l.cbs, l.errs ++ [ASN1_R.NO_MATCHING_CHOICE_TYPE]⟩
          else
            match run_asn1_cb it ASN1_OP_D2I_POST l.pval with
            | none => some ⟨0, ASN1_VALUE.null, l.cbs, l.errs ++ [ASN1_R.AUX_ERROR]⟩
            | some achoice2 => some ⟨1, achoice2, l.cbs, l.errs⟩

/-- State in which the field loop of `asn1_item_ex_d2i_sequence` ends:
`ret` is 0 when the loop left through `goto err` and 1 otherwise, `i` the
index of the first field not read, `aseq` the structure, `cbs` the cursor
`cbs_seq_content`. -/
structure SeqLoopOut where
  ret : Int
  i : Nat
  aseq : ASN1_VALUE
  cbs : CBS
  eoc_needed : Bool
  errs : List ASN1_R

/-- The value of `optional_field` for the field with index `i`. -/
def optional_field (it : ASN1_ITEM) (i : Nat) (seqtt : ASN1_TEMPLATE) : Bool :=
  if (i : Int) = (it.tcount : Int) - 1 then false
  else decide (seqtt.flags &&& ASN1_TFLG_OPTIONAL ≠ 0)

/-- The first `for` loop of `asn1_item_ex_d2i_sequence` from field index
`i` on. -/
def sequence_fields (env : Env) (tdec : TemplateDec) (it : ASN1_ITEM) (depth : Int)
    (indefinite : Bool) :
    List ASN1_TEMPLATE → Nat → ASN1_VALUE → CBS → Bool → List ASN1_R → Option SeqLoopOut
  | [], i, aseq, content, eoc_needed, errs => some ⟨1, i, aseq, content, eoc_needed, errs⟩
  | tt :: rest, i, aseq, content, eoc_needed, errs =>
    match asn1_check_eoc content with
    | some content1 =>
      if ¬ indefinite then
        some ⟨0, i, aseq, content1, eoc_needed, errs ++ [ASN1_R.UNEXPECTED_EOC]⟩
      else some ⟨1, i, aseq, content1, false, errs⟩
    | none =>
      if CBS_len content = 0 then some ⟨1, i, aseq, content, eoc_needed, errs⟩
      else
        match asn1_do_adb env aseq tt with
        | none => some ⟨0, i, aseq, content, eoc_needed, errs⟩
        | some seqtt =>
          match tdec (some (asn1_get_field aseq seqtt)) content seqtt
              (optional_field it i seqtt) depth with
          | none => none
          | some r =>
            if r.ret = -1 then
              sequence_fields env tdec it depth indefinite rest (i + 1)
                (asn1_set_field aseq seqtt ASN1_VALUE.null) r.cbs eoc_needed (errs ++ r.errs)
            else if r.ret ≠ 1 then
              some ⟨0, i, asn1_set_field aseq seqtt r.pval, r.cbs, eoc_needed, errs ++ r.errs⟩
            else
              sequence_fields env tdec it depth indefinite rest (i + 1)
                (asn1_set_field aseq seqtt r.pval) r.cbs eoc_needed (errs ++ r.errs)

/-- Result of the second loop of `asn1_item_ex_d2i_sequence`. -/
structure MissOut where
  ret : Int
  aseq : ASN1_VALUE
  errs : List ASN1_R

/-- The second `for` loop of `asn1_item_ex_d2i_sequence`, over the fields
that were not read. -/
def sequence_missing (env : Env) : List ASN1_TEMPLATE → ASN1_VALUE → MissOut
  | [], aseq => ⟨1, aseq, []⟩
  | tt :: rest, aseq =>
    match asn1_do_adb env aseq tt with
    | none => ⟨0, aseq, []⟩
    | some seqtt =>
      if seqtt.flags &&& ASN1_TFLG_OPTIONAL = 0 then ⟨0, aseq, [ASN1_R.FIELD_MISSING]⟩
      else sequence_missing env rest (asn1_set_field aseq seqtt ASN1_VALUE.null)

/-- The part of `asn1_item_ex_d2i_sequence` after the length checks: the
second loop, the saving of the encoding, the post callback and the
publication of the value. `cbs_seq` has been advanced to the end of the
SEQUENCE. -/
def sequence_publish (env : Env) (cbs cbs_seq : CBS) (it : ASN1_ITEM) (l : SeqLoopOut) : Out :=
  if (sequence_missing env (it.templates.drop l.i) l.aseq).ret = 0 then
    ⟨0, ASN1_VALUE.null, cbs,
      l.errs ++ (sequence_missing env (it.templates.drop l.i) l.aseq).errs⟩
  else
    match CBS_get_bytes cbs (CBS_offset cbs_seq) with
    | none => ⟨0, ASN1_VALUE.null, cbs, l.errs⟩
    | some (cbs_object, cbs1) =>
      match asn1_enc_save (sequence_missing env (it.templates.drop l.i) l.aseq).aseq
          cbs_object.data with
      | none => ⟨0, ASN1_VALUE.null, cbs1, l.errs ++ [ASN1_R.MALLOC_FAILURE]⟩
      | some aseq1 =>
        match run_asn1_cb it ASN1_OP_D2I_POST aseq1 with
        | none => ⟨0, ASN1_VALUE.null, cbs1, l.errs ++ [ASN1_R.AUX_ERROR]⟩
        | some aseq2 => ⟨1, aseq2, cbs1, l.errs⟩

/-- The part of `asn1_item_ex_d2i_sequence` that follows the field loop.
`cbs_seq` is the cursor after the header (indefinite length) or after the
content (definite length), `l` the state in which the loop ended with the
closing marker, if one was still needed, already looked for in `l.cbs`. -/
def sequence_finish (env : Env) (cbs cbs_seq : CBS) (it : ASN1_ITEM) (indefinite : Bool)
    (l : SeqLoopOut) : Out :=
  if indefinite then
    match CBS_skip cbs_seq (CBS_offset l.cbs) with
    | none => ⟨0, ASN1_VALUE.null, cbs, l.errs⟩
    | some cbs_seq1 => sequence_publish env cbs cbs_seq1 it l
  else if CBS_len l.cbs ≠ 0 then
    ⟨0, ASN1_VALUE.null, cbs, l.errs ++ [ASN1_R.SEQUENCE_LENGTH_MISMATCH]⟩
  else sequence_publish env cbs cbs_seq it l

/-- The part of `asn1_item_ex_d2i_sequence` from the allocation of the
structure on; `cbs_seq_content` is the content cursor. -/
def sequence_body (env : Env) (tdec : TemplateDec) (cbs cbs_seq cbs_seq_content : CBS)
    (it : ASN1_ITEM) (indefinite : Bool) (depth : Int) : Option Out :=
  match ASN1_item_ex_new it with
  | none => some ⟨0, ASN1_VALUE.null, cbs, [ASN1_R.NESTED_ASN1_ERROR]⟩
  | some aseq0 =>
    match run_asn1_cb it ASN1_OP_D2I_PRE aseq0 with
    | none => some ⟨0, ASN1_VALUE.null, cbs, [ASN1_R.AUX_ERROR]⟩
    | some aseq1 =>
      match sequence_fields env tdec it depth indefinite it.templates 0 aseq1
          cbs_seq_content indefinite [] with
      | none => none
      | some l =>
        if l.ret = 0 then some ⟨0, ASN1_VALUE.null, cbs, l.errs⟩
        else if l.eoc_needed then
          match asn1_check_eoc l.cbs with
          | none => some ⟨0, ASN1_VALUE.null, cbs, l.errs ++ [ASN1_R.MISSING_EOC]⟩
          | some content1 =>
            some (sequence_finish env cbs cbs_seq it indefinite
              ⟨l.ret, l.i, l.aseq, content1, l.eoc_needed, l.errs⟩)
        else some (sequence_finish env cbs cbs_seq it indefinite l)

/-- The function `asn1_item_ex_d2i_sequence`; `tdec` is
`asn1_template_ex_d2i`. -/
def asn1_item_ex_d2i_sequence (env : Env) (tdec : TemplateDec) (pval : ASN1_VALUE) (cbs : CBS)
    (it : ASN1_ITEM) (tag_number : Int) (tag_class : Int) (optional : Bool) (depth : Int) :
    Option Out :=
  if it.itype ≠ ASN1_ITYPE_NDEF_SEQUENCE ∧ it.itype ≠ ASN1_ITYPE_SEQUENCE then
    some ⟨0, pval, cbs, []⟩
  else if (asn1_check_tag (CBS_init cbs.data)
      (if tag_number = -1 then V_ASN1_SEQUENCE else tag_number)
      (if tag_number = -1 then V_ASN1_UNIVERSAL else tag_class) optional).ret = -1 then
    some ⟨-1, ASN1_VALUE.null, cbs, []⟩
  else if (asn1_check_tag (CBS_init cbs.data)
      (if tag_number = -1 then V_ASN1_SEQUENCE else tag_number)
      (if tag_number = -1 then V_ASN1_UNIVERSAL else tag_class) optional).ret ≠ 1 then
    some ⟨0, ASN1_VALUE.null, cbs,
      (asn1_check_tag (CBS_init cbs.data)
        (if tag_number = -1 then V_ASN1_SEQUENCE else tag_number)
        (if tag_number = -1 then V_ASN1_UNIVERSAL else tag_class) optional).errs
        ++ [ASN1_R.NESTED_ASN1_ERROR]⟩
  else if ¬ (asn1_check_tag (CBS_init cbs.data)
      (if tag_number = -1 then V_ASN1_SEQUENCE else tag_number)
      (if tag_number = -1 then V_ASN1_UNIVERSAL else tag_class) optional).constructed then
    some ⟨0, ASN1_VALUE.null, cbs, [ASN1_R.SEQUENCE_NOT_CONSTRUCTED]⟩
  else if (asn1_check_tag (CBS_init cbs.data)
      (if tag_number = -1 then V_ASN1_SEQUENCE else tag_number)
      (if tag_number = -1 then V_ASN1_UNIVERSAL else tag_class) optional).indefinite then
    sequence_body env tdec cbs
      (asn1_check_tag (CBS_init cbs.data)
        (if tag_number = -1 then V_ASN1_SEQUENCE else tag_number)
        (if tag_number = -1 then V_ASN1_UNIVERSAL else tag_class) optional).cbs
      (CBS_init (asn1_check_tag (CBS_init cbs.data)
        (if tag_number = -1 then V_ASN1_SEQUENCE else tag_number)
        (if tag_number = -1 then V_ASN1_UNIVERSAL else tag_class) optional).cbs.data)
      it true depth
  else
    match CBS_get_bytes (asn1_check_tag (CBS_init cbs.data)
        (if tag_number = -1 then V_ASN1_SEQUENCE else tag_number)
        (if tag_number = -1 then V_ASN1_UNIVERSAL else tag_class) optional).cbs
        (asn1_check_tag (CBS_init cbs.data)
        (if tag_number = -1 then V_ASN1_SEQUENCE else tag_number)
        (if tag_number = -1 then V_ASN1_UNIVERSAL else tag_class) optional).len with
    | none => some ⟨0, ASN1_VALUE.null, cbs, []⟩
    | some (cbs_seq_content, cbs_seq) =>
      sequence_body env tdec cbs cbs_seq cbs_seq_content it false depth

/-- State in which the element loop of `asn1_template_stack_of_d2i` ends:
`ret` is 0 when the loop left through `goto err` and 1 otherwise. -/
structure StackLoopOut where
  ret : Int
  avals : List ASN1_VALUE
  cbs : CBS
  eoc_needed : Bool
  errs : List ASN1_R

/-- The `while` loop of `asn1_template_stack_of_d2i`, with a bound on the
number of iterations; `d2i` is `asn1_item_ex_d2i`, `it` is `tt->item`. -/
def stack_of_loop (d2i : ItemDec) (it : ASN1_ITEM) (depth : Int) :
    Nat → List ASN1_VALUE → CBS → Bool → List ASN1_R → Option StackLoopOut
  | 0, _, _, _, _ => none
  | n + 1, avals, content, eoc_needed, errs =>
    if CBS_len content > 0 then
      match asn1_check_eoc content with
      | some content1 =>
        if ¬ eoc_needed then
          some ⟨0, avals, content1, eoc_needed, errs ++ [ASN1_R.UNEXPECTED_EOC]⟩
        else some ⟨1, avals, content1, false, errs⟩
      | none =>
        match d2i (some ASN1_VALUE.null) content it (-1) 0 false depth with
        | none => none
        | some r =>
          if r.ret = 0 then
            some ⟨0, avals, r.cbs, eoc_needed, errs ++ r.errs ++ [ASN1_R.NESTED_ASN1_ERROR]⟩
          else stack_of_loop d2i it depth n (avals ++ [r.pval]) r.cbs eoc_needed (errs ++ r.errs)
    else some ⟨1, avals, content, eoc_needed, errs⟩

/-- The part of `asn1_template_stack_of_d2i` from the allocation of the
container on. `cbs_object` is the cursor after the header (indefinite
length) or after the content (definite length). A decoded element shortens
the content, so the iteration bound given here is never reached while
elements decode (`stack_of_loop_total`). -/
def stack_of_body (d2i : ItemDec) (env : Env) (cbs cbs_object cbs_object_content : CBS)
    (tt : ASN1_TEMPLATE) (indefinite : Bool) (depth : Int) : Option Out :=
  match stack_of_loop d2i (env.item tt.item) depth (CBS_len cbs_object_content + 1) []
      cbs_object_content indefinite [] with
  | none => none
  | some l =>
    if l.ret = 0 then some ⟨0, ASN1_VALUE.null, cbs, l.errs⟩
    else if l.eoc_needed then some ⟨0, ASN1_VALUE.null, cbs, l.errs ++ [ASN1_R.MISSING_EOC]⟩
    else
      match (if indefinite then CBS_skip cbs_object (CBS_offset l.cbs) else some cbs_object) with
      | none => some ⟨0, ASN1_VALUE.null, cbs, l.errs⟩
      | some cbs_object1 =>
        match CBS_skip cbs (CBS_offset cbs_object1) with
        | none => some ⟨0, ASN1_VALUE.null, cbs, l.errs⟩
        | some cbs1 => some ⟨1, ASN1_VALUE.stack l.avals, cbs1, l.errs⟩

/-- The tag number that `asn1_template_stack_of_d2i` expects. -/
def stack_of_tag_number (tt : ASN1_TEMPLATE) : Int :=
  if tt.flags &&& ASN1_TFLG_IMPTAG = 0 then
    (if tt.flags &&& ASN1_TFLG_SET_OF ≠ 0 then V_ASN1_SET else V_ASN1_SEQUENCE)
  else tt.tag

/-- The tag class that `asn1_template_stack_of_d2i` expects. -/
def stack_of_tag_class (tt : ASN1_TEMPLATE) : Int :=
  if tt.flags &&& ASN1_TFLG_IMPTAG = 0 then V_ASN1_UNIVERSAL
  else ((tt.flags &&& ASN1_TFLG_TAG_CLASS : Nat) : Int)

/-- The function `asn1_template_stack_of_d2i`; `d2i` is
`asn1_item_ex_d2i`. -/
def asn1_template_stack_of_d2i (d2i : ItemDec) (env : Env) (pval : Option ASN1_VALUE)
    (cbs : CBS) (tt : ASN1_TEMPLATE) (optional : Bool) (depth : Int) : Option Out :=
  match pval with
  | none => some ⟨0, ASN1_VALUE.null, cbs, []⟩
  | some _ =>
    if (asn1_check_tag (CBS_init cbs.data) (stack_of_tag_number tt) (stack_of_tag_class tt)
        optional).ret = -1 then
      some ⟨-1, ASN1_VALUE.null, cbs, []⟩
    else if (asn1_check_tag (CBS_init cbs.data) (stack_of_tag_number tt)
        (stack_of_tag_class tt) optional).ret ≠ 1 then
      some ⟨0, ASN1_VALUE.null, cbs,
        (asn1_check_tag (CBS_init cbs.data) (stack_of_tag_number tt) (stack_of_tag_class tt)
          optional).errs ++ [ASN1_R.NESTED_ASN1_ERROR]⟩
    else if (asn1_check_tag (CBS_init cbs.data) (stack_of_tag_number tt)
        (stack_of_tag_class tt) optional).indefinite then
      stack_of_body d2i env cbs
        (asn1_check_tag (CBS_init cbs.data) (stack_of_tag_number tt) (stack_of_tag_class tt)
          optional).cbs
        (CBS_init (asn1_check_tag (CBS_init cbs.data) (stack_of_tag_number tt)
          (stack_of_tag_class tt) optional).cbs.data)
        tt true depth
    else
      match CBS_get_bytes (asn1_check_tag (CBS_init cbs.data) (stack_of_tag_number tt)
          (stack_of_tag_class tt) optional).cbs
          (asn1_check_tag (CBS_init cbs.data) (stack_of_tag_number tt)
          (stack_of_tag_class tt) optional).len with
      | none => some ⟨0, ASN1_VALUE.null, cbs, []⟩
      | some (cbs_object_content, cbs_object) =>
        stack_of_body d2i env cbs cbs_object cbs_object_content tt false depth

/-- The function `asn1_template_noexp_d2i`; `d2i` is `asn1_item_ex_d2i`. -/
def asn1_template_noexp_d2i (d2i : ItemDec) (env : Env) (pval : Option ASN1_VALUE)
    (cbs : CBS) (tt : ASN1_TEMPLATE) (optional : Bool) (depth : Int) : Option Out :=
  match pval with
  | none => some ⟨0, ASN1_VALUE.null, cbs, []⟩
  | some v =>
    if tt.flags &&& ASN1_TFLG_SK_MASK ≠ 0 then
      asn1_template_stack_of_d2i d2i env (some v) cbs tt optional depth
    else
      match d2i (some v) cbs (env.item tt.item)
          (if tt.flags &&& ASN1_TFLG_IMPTAG ≠ 0 then tt.tag else -1)
          (if tt.flags &&& ASN1_TFLG_IMPTAG ≠ 0
            then ((tt.flags &&& ASN1_TFLG_TAG_CLASS : Nat) : Int) else V_ASN1_UNIVERSAL)
          optional depth with
      | none => none
      | some r =>
        if r.ret = -1 then some ⟨-1, r.pval, r.cbs, r.errs⟩
        else if r.ret ≠ 1 then
          some ⟨0, ASN1_VALUE.null, r.cbs, r.errs ++ [ASN1_R.NESTED_ASN1_ERROR]⟩
        else some ⟨1, r.pval, r.cbs, r.errs⟩

/-- The part of `asn1_template_ex_d2i` that decodes the object inside an
EXPLICIT wrapper. `cbs_exp` is the cursor after the header (indefinite
length) or after the content (definite length). -/
def template_explicit_body (d2i : ItemDec) (env : Env) (v : ASN1_VALUE)
    (cbs cbs_exp cbs_exp_content : CBS) (tt : ASN1_TEMPLATE) (indefinite : Bool)
    (depth : Int) : Option Out :=
  match asn1_template_noexp_d2i d2i env (some v) cbs_exp_content tt false depth with
  | none => none
  | some r =>
    if r.ret ≠ 1 then some ⟨0, r.pval, cbs, r.errs ++ [ASN1_R.NESTED_ASN1_ERROR]⟩
    else if indefinite then
      match asn1_check_eoc r.cbs with
      | none => some ⟨0, ASN1_VALUE.null, cbs, r.errs ++ [ASN1_R.MISSING_EOC]⟩
      | some content1 =>
        match CBS_skip cbs_exp (CBS_offset content1) with
        | none => some ⟨0, ASN1_VALUE.null, cbs, r.errs⟩
        | some cbs_exp1 =>
          match CBS_skip cbs (CBS_offset cbs_exp1) with
          | none => some ⟨0, ASN1_VALUE.null, cbs, r.errs⟩
          | some cbs1 => some ⟨1, r.pval, cbs1, r.errs⟩
    else if CBS_len r.cbs ≠ 0 then
      some ⟨0, ASN1_VALUE.null, cbs, r.errs ++ [ASN1_R.SEQUENCE_LENGTH_MISMATCH]⟩
    else
      match CBS_skip cbs (CBS_offset cbs_exp) with
      | none => some ⟨0, ASN1_VALUE.null, cbs, r.errs⟩
      | some cbs1 => some ⟨1, r.pval, cbs1, r.errs⟩

/-- The function `asn1_template_ex_d2i`; `d2i` is `asn1_item_ex_d2i`. -/
def asn1_template_ex_d2i (d2i : ItemDec) (env : Env) (pval : Option ASN1_VALUE) (cbs : CBS)
    (tt : ASN1_TEMPLATE) (optional : Bool) (depth : Int) : Option Out :=
  match pval with
  | none => some ⟨0, ASN1_VALUE.null, cbs, []⟩
  | some v =>
    if tt.flags &&& ASN1_TFLG_EXPTAG = 0 then
      asn1_template_noexp_d2i d2i env (some v) cbs tt optional depth
    else if (asn1_check_tag (CBS_init cbs.data) tt.tag
        ((tt.flags &&& ASN1_TFLG_TAG_CLASS : Nat) : Int) optional).ret = -1 then
      some ⟨-1, v, cbs, []⟩
    else if (asn1_check_tag (CBS_init cbs.data) tt.tag
        ((tt.flags &&& ASN1_TFLG_TAG_CLASS : Nat) : Int) optional).ret ≠ 1 then
      some ⟨0, v, cbs,
        (asn1_check_tag (CBS_init cbs.data) tt.tag
          ((tt.flags &&& ASN1_TFLG_TAG_CLASS : Nat) : Int) optional).errs
          ++ [ASN1_R.NESTED_ASN1_ERROR]⟩
    else if ¬ (asn1_check_tag (CBS_init cbs.data) tt.tag
        ((tt.flags &&& ASN1_TFLG_TAG_CLASS : Nat) : Int) optional).constructed then
      some ⟨0, v, cbs, [ASN1_R.EXPLICIT_TAG_NOT_CONSTRUCTED]⟩
    else if (asn1_check_tag (CBS_init cbs.data) tt.tag
        ((tt.flags &&& ASN1_TFLG_TAG_CLASS : Nat) : Int) optional).indefinite then
      template_explicit_body d2i env v cbs
        (asn1_check_tag (CBS_init cbs.data) tt.tag
          ((tt.flags &&& ASN1_TFLG_TAG_CLASS : Nat) : Int) optional).cbs
        (CBS_init (asn1_check_tag (CBS_init cbs.data) tt.tag
          ((tt.flags &&& ASN1_TFLG_TAG_CLASS : Nat) : Int) optional).cbs.data)
        tt true depth
    else
      match CBS_get_bytes (asn1_check_tag (CBS_init cbs.data) tt.tag
          ((tt.flags &&& ASN1_TFLG_TAG_CLASS : Nat) : Int) optional).cbs
          (asn1_check_tag (CBS_init cbs.data) tt.tag
          ((tt.flags &&& ASN1_TFLG_TAG_CLASS : Nat) : Int) optional).len with
      | none => some ⟨0, ASN1_VALUE.null, cbs, []⟩
      | some (cbs_exp_content, cbs_exp) =>
        template_explicit_body d2i env v cbs cbs_exp cbs_exp_content tt false depth

/-- The EXTERN case of `asn1_item_ex_d2i`. An `it->funcs` that is not an
`ASN1_EXTERN_FUNCS` is not an external function table; the model lets the
call fail. -/
def extern_item_d2i (v : ASN1_VALUE) (cbs : CBS) (it : ASN1_ITEM) (tag_number tag_class : Int)
    (optional : Bool) : Out :=
  if CBS_len cbs > LONG_MAX then ⟨0, v, cbs, []⟩
  else
    match it.funcs with
    | ASN1_FUNCS.ext asn1_ex_d2i =>
      if (asn1_ex_d2i v cbs.data tag_number tag_class optional).ret = 1 then
        if (asn1_ex_d2i v cbs.data tag_number tag_class optional).consumed < 0 then
          ⟨0, ASN1_VALUE.null, cbs, []⟩
        else
          match CBS_skip cbs (asn1_ex_d2i v cbs.data tag_number tag_class optional).consumed.toNat with
          | none => ⟨0, ASN1_VALUE.null, cbs, []⟩
          | some cbs1 => ⟨1, (asn1_ex_d2i v cbs.data tag_number tag_class optional).pval, cbs1, []⟩
      else
        ⟨(asn1_ex_d2i v cbs.data tag_number tag_class optional).ret,
          (asn1_ex_d2i v cbs.data tag_number tag_class optional).pval, cbs, []⟩
    | _ => ⟨0, v, cbs, []⟩

/-- The function `asn1_item_ex_d2i`. The first argument bounds the number
of nested calls; a call at depth `d` needs no more than `31 - d` of them
(`asn1_item_ex_d2i_total`). -/
def asn1_item_ex_d2i (env : Env) : Nat → ItemDec
  | 0 => fun _ _ _ _ _ _ _ => none
  | fuel + 1 => fun pval cbs it tag_number tag_class optional depth =>
    match pval with
    | none => some ⟨0, ASN1_VALUE.null, cbs, []⟩
    | some v =>
      if depth + 1 > ASN1_MAX_CONSTRUCTED_NEST then
        some ⟨0, ASN1_VALUE.null, cbs, [ASN1_R.NESTED_TOO_DEEP]⟩
      else if it.itype = ASN1_ITYPE_PRIMITIVE then
        match it.templates with
        | tt :: _ =>
          if tag_number ≠ -1 ∨ optional then
            some ⟨0, ASN1_VALUE.null, cbs, [ASN1_R.ILLEGAL_OPTIONS_ON_ITEM_TEMPLATE]⟩
          else
            asn1_template_ex_d2i (asn1_item_ex_d2i env fuel) env (some v) cbs tt optional
              (depth + 1)
        | [] => asn1_d2i_ex_primitive env v cbs it tag_number tag_class optional
      else if it.itype = ASN1_ITYPE_MSTRING then
        asn1_d2i_ex_mstring env v cbs it tag_number tag_class optional
      else if it.itype = ASN1_ITYPE_EXTERN then
        some (extern_item_d2i v cbs it tag_number tag_class optional)
      else if it.itype = ASN1_ITYPE_CHOICE then
        asn1_item_ex_d2i_choice (asn1_template_ex_d2i (asn1_item_ex_d2i env fuel) env)
          v cbs it tag_number tag_class optional (depth + 1)
      else if it.itype = ASN1_ITYPE_NDEF_SEQUENCE ∨ it.itype = ASN1_ITYPE_SEQUENCE then
        asn1_item_ex_d2i_sequence env (asn1_template_ex_d2i (asn1_item_ex_d2i env fuel) env)
          v cbs it tag_number tag_class optional (depth + 1)
      else some ⟨0, v, cbs, []⟩

/-! ## Entry points -/

/-- What an entry point returns and writes: return value, the contents of
the caller's slot, the number of bytes by which the caller's input pointer
`*in` has advanced, and the errors pushed. -/
structure TopOut where
  ret : Int
  pval : ASN1_VALUE
  advanced : Nat
  errs : List ASN1_R

/-- The function `ASN1_item_ex_d2i`. `input` is the memory at `*in`, of
which the call may read the first `inlen` bytes; `pval` is `none` for a
NULL slot pointer, in which case the slot reported is meaningless. -/
def ASN1_item_ex_d2i (env : Env) (pval : Option ASN1_VALUE) (input : List UInt8) (inlen : Int)
    (it : ASN1_ITEM) (tag_number tag_class : Int) (optional : Bool) : Option TopOut :=
  if inlen < 0 then some ⟨0, pval.getD ASN1_VALUE.null, 0, []⟩
  else
    match asn1_item_ex_d2i env 31 pval (CBS_init (input.take inlen.toNat)) it tag_number
        tag_class optional 0 with
    | none => none
    | some r =>
      if r.ret = 1 then some ⟨r.ret, r.pval, CBS_offset r.cbs, r.errs⟩
      else some ⟨r.ret, r.pval, 0, r.errs⟩

/-- The function `ASN1_template_d2i`. -/
def ASN1_template_d2i (env : Env) (pval : Option ASN1_VALUE) (input : List UInt8) (len : Int)
    (tt : ASN1_TEMPLATE) : Option TopOut :=
  if len < 0 then some ⟨0, pval.getD ASN1_VALUE.null, 0, []⟩
  else
    match asn1_template_ex_d2i (asn1_item_ex_d2i env 31) env pval
        (CBS_init (input.take len.toNat)) tt false 0 with
    | none => none
    | some r =>
      if r.ret = 1 then some ⟨r.ret, r.pval, CBS_offset r.cbs, r.errs⟩
      else some ⟨r.ret, r.pval, 0, r.errs⟩

/-! ## A concrete environment for the scenarios of the spec -/

/-- Big-endian value of a byte string. -/
def be_value : List UInt8 → Nat → Nat
  | [], acc => acc
  | b :: rest, acc => be_value rest (acc * 256 + b.toNat)

/-- Big-endian bytes of `n`, at most `fuel` of them, in front of `acc`. -/
def be_bytes : Nat → Nat → List UInt8 → List UInt8
  | 0, _, acc => acc
  | fuel + 1, n, acc =>
    if n < 256 then UInt8.ofNat n :: acc
    else be_bytes fuel (n / 256) (UInt8.ofNat (n % 256) :: acc)

/-- Modelled from the spec: `c2i_ASN1_INTEGER_cbs`, a two's-complement
big-endian decode that preserves the negative flag: the type is INTEGER, or
INTEGER with `V_ASN1_NEG` for a negative number, the data the big-endian
magnitude. Empty content has no value. -/
def spec_c2i_ASN1_INTEGER_cbs (content : List UInt8) : Option (Int × List UInt8) :=
  match content with
  | [] => none
  | b :: rest =>
    if b.toNat &&& 0x80 ≠ 0 then
      some (Int.lor V_ASN1_INTEGER V_ASN1_NEG,
        be_bytes (rest.length + 1) (2 ^ (8 * (rest.length + 1)) - be_value (b :: rest) 0) [])
    else some (V_ASN1_INTEGER, be_bytes (rest.length + 1) (be_value (b :: rest) 0) [])

/-- Modelled from the spec: `c2i_ASN1_OBJECT_cbs` decodes a stream of
subidentifiers; the stream is kept as it is. Content that is empty or ends
inside a subidentifier has no value. -/
def spec_c2i_ASN1_OBJECT_cbs (content : List UInt8) : Option ASN1_VALUE :=
  match content.getLast? with
  | none => none
  | some b => if b.toNat &&& 0x80 ≠ 0 then none else some (ASN1_VALUE.object content)

/-- Modelled from the spec: `c2i_ASN1_BIT_STRING_cbs`: the first content
byte is the count of unused bits (0..7), the remainder the bits. -/
def spec_c2i_ASN1_BIT_STRING_cbs (content : List UInt8) : Option ASN1_VALUE :=
  match content with
  | [] => none
  | b :: rest =>
    if b.toNat > 7 then none else some (ASN1_VALUE.string V_ASN1_BIT_STRING rest)

/-- Modelled from the spec: `ASN1_tag2bit`, the bit of a universal tag in
the bit-set of a multi-string descriptor. -/
def spec_ASN1_tag2bit (tag : Int) : Nat :=
  if tag < 0 ∨ tag > 30 then 0
  else
    [0, 0, 0, 0x0400, 0x0200, 0, 0, 0x1000, 0x1000, 0x1000, 0x1000, 0x1000, 0x2000, 0x1000,
      0x1000, 0x1000, 0x10000, 0, 0x0001, 0x0002, 0x0004, 0x0008, 0x0010, 0x4000, 0x8000,
      0x0020, 0x0040, 0x0080, 0x0100, 0x1000, 0x0800].getD tag.toNat 0

/-- An environment over the descriptor table `item`, with the helpers
modelled from the spec and no ADB tables. -/
def specEnv (item : Nat → ASN1_ITEM) : Env :=
  ⟨item, spec_c2i_ASN1_OBJECT_cbs, spec_c2i_ASN1_BIT_STRING_cbs, spec_c2i_ASN1_INTEGER_cbs,
    spec_ASN1_tag2bit, fun _ _ => none⟩

/-- A primitive item of universal type `utype`. -/
def primitiveItem (utype : Int) : ASN1_ITEM :=
  ⟨ASN1_ITYPE_PRIMITIVE, utype, [], ASN1_FUNCS.null, 0⟩

/-- The descriptor table of the scenarios:
0 INTEGER, 1 UTF8STRING, 2 BOOLEAN, 3 CHOICE {INTEGER, UTF8STRING},
4 SEQUENCE {INTEGER, BOOLEAN}, 5 the SEQUENCE whose single OPTIONAL field is
the same SEQUENCE, 6 SEQUENCE OF INTEGER, 7 OCTET STRING, 8 NULL,
9 SEQUENCE {INTEGER OPTIONAL, INTEGER}, 10 SEQUENCE {INTEGER, BOOLEAN OPTIONAL},
11 SET OF INTEGER, 12 SEQUENCE {BOOLEAN OPTIONAL, INTEGER}, 13 ANY,
14 the multi-string PrintableString or UTF8String, 15 the primitive item of
type SEQUENCE (a SEQUENCE kept in encoded form). -/
def scenarioItems : Nat → ASN1_ITEM
  | 0 => primitiveItem V_ASN1_INTEGER
  | 1 => primitiveItem V_ASN1_UTF8STRING
  | 2 => primitiveItem V_ASN1_BOOLEAN
  | 3 => ⟨ASN1_ITYPE_CHOICE, 0, [⟨0, 0, 0, 0⟩, ⟨0, 0, 0, 1⟩], ASN1_FUNCS.null, 1⟩
  | 4 => ⟨ASN1_ITYPE_SEQUENCE, V_ASN1_SEQUENCE, [⟨0, 0, 0, 0⟩, ⟨0, 0, 1, 2⟩], ASN1_FUNCS.null, 2⟩
  | 5 => ⟨ASN1_ITYPE_SEQUENCE, V_ASN1_SEQUENCE, [⟨ASN1_TFLG_OPTIONAL, 0, 0, 5⟩],
      ASN1_FUNCS.null, 1⟩
  | 6 => ⟨ASN1_ITYPE_PRIMITIVE, -1, [⟨ASN1_TFLG_SEQUENCE_OF, 0, 0, 0⟩], ASN1_FUNCS.null, 0⟩
  | 7 => primitiveItem V_ASN1_OCTET_STRING
  | 8 => primitiveItem V_ASN1_NULL
  | 9 => ⟨ASN1_ITYPE_SEQUENCE, V_ASN1_SEQUENCE,
      [⟨ASN1_TFLG_OPTIONAL, 0, 0, 0⟩, ⟨0, 0, 1, 0⟩], ASN1_FUNCS.null, 2⟩
  | 10 => ⟨ASN1_ITYPE_SEQUENCE, V_ASN1_SEQUENCE,
      [⟨0, 0, 0, 0⟩, ⟨ASN1_TFLG_OPTIONAL, 0, 1, 2⟩], ASN1_FUNCS.null, 2⟩
  | 11 => ⟨ASN1_ITYPE_PRIMITIVE, -1, [⟨ASN1_TFLG_SET_OF, 0, 0, 0⟩], ASN1_FUNCS.null, 0⟩
  | 12 => ⟨ASN1_ITYPE_SEQUENCE, V_ASN1_SEQUENCE,
      [⟨ASN1_TFLG_OPTIONAL, 0, 0, 2⟩, ⟨0, 0, 1, 0⟩], ASN1_FUNCS.null, 2⟩
  | 13 => primitiveItem V_ASN1_ANY
  | 14 => ⟨ASN1_ITYPE_MSTRING, 0x2002, [], ASN1_FUNCS.null, 0⟩
  | 15 => primitiveItem V_ASN1_SEQUENCE
  | _ => primitiveItem V_ASN1_NULL

/-- The environment of the scenarios. -/
def scenarioEnv : Env := specEnv scenarioItems

/-- The string and time types among the case labels of the last branch of
`asn1_ex_c2i_primitive`, with their values from `asn1.h`: OCTET STRING,
NumericString, PrintableString, T61String, VideotexString, IA5String,
UTCTime, GeneralizedTime, GraphicString, VisibleString, GeneralString,
UniversalString, BMPString and UTF8String. -/
def string_and_time_types : List Int :=
  [V_ASN1_OCTET_STRING, 18, 19, 20, 21, 22, 23, 24, 25, 26, 27, V_ASN1_UNIVERSALSTRING,
    V_ASN1_BMPSTRING, V_ASN1_UTF8STRING]

/-! # TLS 1.3 handshake driver (`lib/libssl/tls13_handshake.c`)

A shallow embedding of the table-driven handshake sequencer.

* `tls13_handshake.h` and `tls13_internal.h` are not among the sources; the
  constants and types the driver takes from them are defined below.
* The message callbacks of the action table, the handshake message buffer,
  the record layer and the transcript are defined in other files. A callback
  of the table is a name of `tls13_fn`; what the names and the other outside
  functions do is a field of the environment `HsEnv`.
* A context `tls13_ctx σ μ` holds the fields the driver reads or writes.
  `ext : σ` stands for everything else that is reachable from the context
  (record layer, `SSL`, transcript, error record) and `μ` for the state of a
  handshake message buffer. A function that is handed the context may change
  every field of it; a function that is handed the record layer, the `SSL`
  or the message buffer changes `ext` or the buffer only.
* A call through a null function pointer has no result (`none`); the loop of
  `tls13_handshake_perform` recurses on a fuel argument and `none` also
  stands for a run that has not finished.
-/

/-- Modelled from the spec: `TLS13_IO_SUCCESS` of `tls13_internal.h`. -/
def TLS13_IO_SUCCESS : Int := 1
/-- Modelled from the spec: `TLS13_IO_FAILURE` of `tls13_internal.h`. -/
def TLS13_IO_FAILURE : Int := -1
/-- Modelled from the spec: `TLS13_IO_ALERT` of `tls13_internal.h`. -/
def TLS13_IO_ALERT : Int := -2
/-- Modelled from the spec: `TLS13_IO_WANT_POLLIN` of `tls13_internal.h`, a
would-block code. -/
def TLS13_IO_WANT_POLLIN : Int := -3
/-- Modelled from the spec: `TLS13_IO_WANT_POLLOUT` of `tls13_internal.h`, a
would-block code. -/
def TLS13_IO_WANT_POLLOUT : Int := -4
/-- Modelled from the spec: `TLS13_IO_USE_LEGACY` of `tls13_internal.h`. -/
def TLS13_IO_USE_LEGACY : Int := -6

/-- Modelled from the spec: the role `TLS13_HS_CLIENT` of `tls13_internal.h`. -/
def TLS13_HS_CLIENT : Nat := 1
/-- Modelled from the spec: the role `TLS13_HS_SERVER` of `tls13_internal.h`. -/
def TLS13_HS_SERVER : Nat := 2

/-- Modelled from the spec: the handshake type byte `TLS13_MT_CLIENT_HELLO`. -/
def TLS13_MT_CLIENT_HELLO : Nat := 1
/-- Modelled from the spec: the handshake type byte `TLS13_MT_SERVER_HELLO`. -/
def TLS13_MT_SERVER_HELLO : Nat := 2
/-- Modelled from the spec: the handshake type byte
`TLS13_MT_END_OF_EARLY_DATA`. -/
def TLS13_MT_END_OF_EARLY_DATA : Nat := 5
/-- Modelled from the spec: the handshake type byte
`TLS13_MT_ENCRYPTED_EXTENSIONS`. -/
def TLS13_MT_ENCRYPTED_EXTENSIONS : Nat := 8
/-- Modelled from the spec: the handshake type byte `TLS13_MT_CERTIFICATE`. -/
def TLS13_MT_CERTIFICATE : Nat := 11
/-- Modelled from the spec: the handshake type byte
`TLS13_MT_CERTIFICATE_REQUEST`. -/
def TLS13_MT_CERTIFICATE_REQUEST : Nat := 13
/-- Modelled from the spec: the handshake type byte
`TLS13_MT_CERTIFICATE_VERIFY`. -/
def TLS13_MT_CERTIFICATE_VERIFY : Nat := 15
/-- Modelled from the spec: the handshake type byte `TLS13_MT_FINISHED`. -/
def TLS13_MT_FINISHED : Nat := 20

/-- Modelled from the spec: the alert `SSL_AD_UNEXPECTED_MESSAGE`. -/
def SSL_AD_UNEXPECTED_MESSAGE : Nat := 10
/-- Modelled from the spec: the alert `SSL_AD_DECODE_ERROR`. -/
def SSL_AD_DECODE_ERROR : Nat := 50
/-- Modelled from the spec: the protocol version `TLS1_3_VERSION`. -/
def TLS1_3_VERSION : Nat := 0x0304

/-- Modelled from the spec: the variant key `INITIAL` of `tls13_handshake.h`. -/
def INITIAL : Nat := 0x00
/-- Modelled from the spec: the variant bit `NEGOTIATED` of
`tls13_handshake.h`. -/
def NEGOTIATED : Nat := 0x01
/-- Modelled from the spec: the variant bit `WITHOUT_HRR` of
`tls13_handshake.h`. -/
def WITHOUT_HRR : Nat := 0x02
/-- Modelled from the spec: the variant bit `WITHOUT_CR` of
`tls13_handshake.h`. -/
def WITHOUT_CR : Nat := 0x04
/-- Modelled from the spec: the variant bit `WITH_PSK` of
`tls13_handshake.h`. -/
def WITH_PSK : Nat := 0x08
/-- Modelled from the spec: the variant bit `WITH_CCV` of
`tls13_handshake.h`. -/
def WITH_CCV : Nat := 0x10

/-- Modelled from the spec: the enum `tls13_message_type` of
`tls13_handshake.h`, the symbolic message ids. `INVALID` is its first
member, the value of a table entry that has no initialiser; the enum ends
with the counter `TLS13_NUM_MESSAGE_TYPES`. -/
inductive tls13_message_type where
  | INVALID
  | CLIENT_HELLO
  | SERVER_HELLO_RETRY_REQUEST
  | CLIENT_HELLO_RETRY
  | SERVER_HELLO
  | SERVER_ENCRYPTED_EXTENSIONS
  | SERVER_CERTIFICATE_REQUEST
  | SERVER_CERTIFICATE
  | SERVER_CERTIFICATE_VERIFY
  | SERVER_FINISHED
  | CLIENT_END_OF_EARLY_DATA
  | CLIENT_CERTIFICATE
  | CLIENT_CERTIFICATE_VERIFY
  | CLIENT_FINISHED
  | APPLICATION_DATA
deriving DecidableEq, Repr

/-- Modelled from the spec: `TLS13_NUM_MESSAGE_TYPES`, the length of a row of
`handshakes`, the number of members of `tls13_message_type`. -/
def TLS13_NUM_MESSAGE_TYPES : Nat := 15

/-- The functions the action table `state_machine` points to. -/
inductive tls13_fn where
  | tls13_client_hello_send
  | tls13_client_hello_sent
  | tls13_client_hello_recv
  | tls13_client_hello_retry_send
  | tls13_client_hello_retry_recv
  | tls13_client_end_of_early_data_send
  | tls13_client_end_of_early_data_recv
  | tls13_client_certificate_send
  | tls13_client_certificate_recv
  | tls13_client_certificate_verify_send
  | tls13_client_certificate_verify_recv
  | tls13_client_finished_send
  | tls13_client_finished_sent
  | tls13_client_finished_recv
  | tls13_server_hello_send
  | tls13_server_hello_sent
  | tls13_server_hello_recv
  | tls13_server_hello_retry_request_send
  | tls13_server_hello_retry_request_recv
  | tls13_server_encrypted_extensions_send
  | tls13_server_encrypted_extensions_recv
  | tls13_server_certificate_send
  | tls13_server_certificate_recv
  | tls13_server_certificate_request_send
  | tls13_server_certificate_request_recv
  | tls13_server_certificate_verify_send
  | tls13_server_certificate_verify_recv
  | tls13_server_finished_send
  | tls13_server_finished_sent
  | tls13_server_finished_recv
deriving DecidableEq, Repr

/-- The struct `tls13_handshake_action`. A null function pointer is `none`. -/
structure tls13_handshake_action where
  handshake_type : Nat
  sender : Nat
  handshake_complete : Nat
  send_preserve_transcript_hash : Nat
  recv_preserve_transcript_hash : Nat
  send : Option tls13_fn
  sent : Option tls13_fn
  recv : Option tls13_fn
deriving DecidableEq, Repr

/-- The action table `state_machine`, indexed by the message id. A member
that the initialiser does not name is zero; so is the entry of `INVALID`,
which has no initialiser. -/
def state_machine : tls13_message_type → tls13_handshake_action
  | tls13_message_type.CLIENT_HELLO =>
    ⟨TLS13_MT_CLIENT_HELLO, TLS13_HS_CLIENT, 0, 0, 0,
      some tls13_fn.tls13_client_hello_send, some tls13_fn.tls13_client_hello_sent,
      some tls13_fn.tls13_client_hello_recv⟩
  | tls13_message_type.CLIENT_HELLO_RETRY =>
    ⟨TLS13_MT_CLIENT_HELLO, TLS13_HS_CLIENT, 0, 0, 0,
      some tls13_fn.tls13_client_hello_retry_send, none,
      some tls13_fn.tls13_client_hello_retry_recv⟩
  | tls13_message_type.CLIENT_END_OF_EARLY_DATA =>
    ⟨TLS13_MT_END_OF_EARLY_DATA, TLS13_HS_CLIENT, 0, 0, 0,
      some tls13_fn.tls13_client_end_of_early_data_send, none,
      some tls13_fn.tls13_client_end_of_early_data_recv⟩
  | tls13_message_type.CLIENT_CERTIFICATE =>
    ⟨TLS13_MT_CERTIFICATE, TLS13_HS_CLIENT, 0, 1, 0,
      some tls13_fn.tls13_client_certificate_send, none,
      some tls13_fn.tls13_client_certificate_recv⟩
  | tls13_message_type.CLIENT_CERTIFICATE_VERIFY =>
    ⟨TLS13_MT_CERTIFICATE_VERIFY, TLS13_HS_CLIENT, 0, 0, 1,
      some tls13_fn.tls13_client_certificate_verify_send, none,
      some tls13_fn.tls13_client_certificate_verify_recv⟩
  | tls13_message_type.CLIENT_FINISHED =>
    ⟨TLS13_MT_FINISHED, TLS13_HS_CLIENT, 0, 0, 1,
      some tls13_fn.tls13_client_finished_send, some tls13_fn.tls13_client_finished_sent,
      some tls13_fn.tls13_client_finished_recv⟩
  | tls13_message_type.SERVER_HELLO =>
    ⟨TLS13_MT_SERVER_HELLO, TLS13_HS_SERVER, 0, 0, 0,
      some tls13_fn.tls13_server_hello_send, some tls13_fn.tls13_server_hello_sent,
      some tls13_fn.tls13_server_hello_recv⟩
  | tls13_message_type.SERVER_HELLO_RETRY_REQUEST =>
    ⟨TLS13_MT_SERVER_HELLO, TLS13_HS_SERVER, 0, 0, 0,
      some tls13_fn.tls13_server_hello_retry_request_send, none,
      some tls13_fn.tls13_server_hello_retry_request_recv⟩
  | tls13_message_type.SERVER_ENCRYPTED_EXTENSIONS =>
    ⟨TLS13_MT_ENCRYPTED_EXTENSIONS, TLS13_HS_SERVER, 0, 0, 0,
      some tls13_fn.tls13_server_encrypted_extensions_send, none,
      some tls13_fn.tls13_server_encrypted_extensions_recv⟩
  | tls13_message_type.SERVER_CERTIFICATE =>
    ⟨TLS13_MT_CERTIFICATE, TLS13_HS_SERVER, 0, 1, 0,
      some tls13_fn.tls13_server_certificate_send, none,
      some tls13_fn.tls13_server_certificate_recv⟩
  | tls13_message_type.SERVER_CERTIFICATE_REQUEST =>
    ⟨TLS13_MT_CERTIFICATE_REQUEST, TLS13_HS_SERVER, 0, 0, 0,
      some tls13_fn.tls13_server_certificate_request_send, none,
      some tls13_fn.tls13_server_certificate_request_recv⟩
  | tls13_message_type.SERVER_CERTIFICATE_VERIFY =>
    ⟨TLS13_MT_CERTIFICATE_VERIFY, TLS13_HS_SERVER, 0, 0, 1,
      some tls13_fn.tls13_server_certificate_verify_send, none,
      some tls13_fn.tls13_server_certificate_verify_recv⟩
  | tls13_message_type.SERVER_FINISHED =>
    ⟨TLS13_MT_FINISHED, TLS13_HS_SERVER, 0, 1, 1,
      some tls13_fn.tls13_server_finished_send, some tls13_fn.tls13_server_finished_sent,
      some tls13_fn.tls13_server_finished_recv⟩
  | tls13_message_type.APPLICATION_DATA => ⟨0, 0, 1, 0, 0, none, none, none⟩
  | tls13_message_type.INVALID => ⟨0, 0, 0, 0, 0, none, none, none⟩

/-- The sequence table `handshakes`: the initialised entries of row
`hs_type`, in order. A row without a designator is empty, and every entry
behind the ones listed is zero, that is `INVALID`. -/
def handshakes (hs_type : Nat) : List tls13_message_type :=
  if hs_type = INITIAL then
    [tls13_message_type.CLIENT_HELLO, tls13_message_type.SERVER_HELLO_RETRY_REQUEST,
      tls13_message_type.CLIENT_HELLO_RETRY, tls13_message_type.SERVER_HELLO]
  else if hs_type = NEGOTIATED then
    [tls13_message_type.CLIENT_HELLO, tls13_message_type.SERVER_HELLO_RETRY_REQUEST,
      tls13_message_type.CLIENT_HELLO_RETRY, tls13_message_type.SERVER_HELLO,
      tls13_message_type.SERVER_ENCRYPTED_EXTENSIONS,
      tls13_message_type.SERVER_CERTIFICATE_REQUEST, tls13_message_type.SERVER_CERTIFICATE,
      tls13_message_type.SERVER_CERTIFICATE_VERIFY, tls13_message_type.SERVER_FINISHED,
      tls13_message_type.CLIENT_CERTIFICATE, tls13_message_type.CLIENT_FINISHED,
      tls13_message_type.APPLICATION_DATA]
  else if hs_type = NEGOTIATED ||| WITHOUT_HRR then
    [tls13_message_type.CLIENT_HELLO, tls13_message_type.SERVER_HELLO,
      tls13_message_type.SERVER_ENCRYPTED_EXTENSIONS,
      tls13_message_type.SERVER_CERTIFICATE_REQUEST, tls13_message_type.SERVER_CERTIFICATE,
      tls13_message_type.SERVER_CERTIFICATE_VERIFY, tls13_message_type.SERVER_FINISHED,
      tls13_message_type.CLIENT_CERTIFICATE, tls13_message_type.CLIENT_FINISHED,
      tls13_message_type.APPLICATION_DATA]
  else if hs_type = NEGOTIATED ||| WITHOUT_CR then
    [tls13_message_type.CLIENT_HELLO, tls13_message_type.SERVER_HELLO_RETRY_REQUEST,
      tls13_message_type.CLIENT_HELLO_RETRY, tls13_message_type.SERVER_HELLO,
      tls13_message_type.SERVER_ENCRYPTED_EXTENSIONS, tls13_message_type.SERVER_CERTIFICATE,
      tls13_message_type.SERVER_CERTIFICATE_VERIFY, tls13_message_type.SERVER_FINISHED,
      tls13_message_type.CLIENT_FINISHED, tls13_message_type.APPLICATION_DATA]
  else if hs_type = NEGOTIATED ||| WITHOUT_HRR ||| WITHOUT_CR then
    [tls13_message_type.CLIENT_HELLO, tls13_message_type.SERVER_HELLO,
      tls13_message_type.SERVER_ENCRYPTED_EXTENSIONS, tls13_message_type.SERVER_CERTIFICATE,
      tls13_message_type.SERVER_CERTIFICATE_VERIFY, tls13_message_type.SERVER_FINISHED,
      tls13_message_type.CLIENT_FINISHED, tls13_message_type.APPLICATION_DATA]
  else if hs_type = NEGOTIATED ||| WITH_PSK then
    [tls13_message_type.CLIENT_HELLO, tls13_message_type.SERVER_HELLO_RETRY_REQUEST,
      tls13_message_type.CLIENT_HELLO_RETRY, tls13_message_type.SERVER_HELLO,
      tls13_message_type.SERVER_ENCRYPTED_EXTENSIONS, tls13_message_type.SERVER_FINISHED,
      tls13_message_type.CLIENT_FINISHED, tls13_message_type.APPLICATION_DATA]
  else if hs_type = NEGOTIATED ||| WITHOUT_HRR ||| WITH_PSK then
    [tls13_message_type.CLIENT_HELLO, tls13_message_type.SERVER_HELLO,
      tls13_message_type.SERVER_ENCRYPTED_EXTENSIONS, tls13_message_type.SERVER_FINISHED,
      tls13_message_type.CLIENT_FINISHED, tls13_message_type.APPLICATION_DATA]
  else if hs_type = NEGOTIATED ||| WITH_CCV then
    [tls13_message_type.CLIENT_HELLO, tls13_message_type.SERVER_HELLO_RETRY_REQUEST,
      tls13_message_type.CLIENT_HELLO_RETRY, tls13_message_type.SERVER_HELLO,
      tls13_message_type.SERVER_ENCRYPTED_EXTENSIONS,
      tls13_message_type.SERVER_CERTIFICATE_REQUEST, tls13_message_type.SERVER_CERTIFICATE,
      tls13_message_type.SERVER_CERTIFICATE_VERIFY, tls13_message_type.SERVER_FINISHED,
      tls13_message_type.CLIENT_CERTIFICATE, tls13_message_type.CLIENT_CERTIFICATE_VERIFY,
      tls13_message_type.CLIENT_FINISHED, tls13_message_type.APPLICATION_DATA]
  else if hs_type = NEGOTIATED ||| WITHOUT_HRR ||| WITH_CCV then
    [tls13_message_type.CLIENT_HELLO, tls13_message_type.SERVER_HELLO,
      tls13_message_type.SERVER_ENCRYPTED_EXTENSIONS,
      tls13_message_type.SERVER_CERTIFICATE_REQUEST, tls13_message_type.SERVER_CERTIFICATE,
      tls13_message_type.SERVER_CERTIFICATE_VERIFY, tls13_message_type.SERVER_FINISHED,
      tls13_message_type.CLIENT_CERTIFICATE, tls13_message_type.CLIENT_CERTIFICATE_VERIFY,
      tls13_message_type.CLIENT_FINISHED, tls13_message_type.APPLICATION_DATA]
  else []

/-- The constant `handshake_count`, the number of rows of `handshakes`: one
more than the largest row designator. -/
def handshake_count : Nat := (NEGOTIATED ||| WITHOUT_HRR ||| WITH_CCV) + 1

/-- Modelled from the spec: the struct `tls13_handshake_stage` of
`tls13_internal.h`, the variant key and the index into its row. The spec
gives neither a width, so both are natural numbers. -/
structure tls13_handshake_stage where
  hs_type : Nat
  message_number : Nat
deriving DecidableEq, Repr

/-- Modelled from the spec: the fields of `struct tls13_ctx` that the driver
reads or writes: the handshake state, the completion flag, the pending-alert
slot, the local role and the handshake message buffer (`none` for a null
pointer); `ext` is everything else that is reachable from the context. -/
structure tls13_ctx (σ μ : Type) where
  handshake_stage : tls13_handshake_stage
  handshake_completed : Int
  alert : Nat
  mode : Nat
  hs_msg : Option μ
  ext : σ

/-- The functions the driver calls that are defined outside
`tls13_handshake.c`. `send`, `sent` and `recv` run the function a table entry
points to; the `CBB` handed to a `send` function is a view into the message
buffer of the context, so what is written to it is part of the effect on the
context. The two message hooks are the function pointers
`ctx->handshake_message_sent_cb` and `ctx->handshake_message_recv_cb`;
`version` reads `ctx->ssl->method->internal->version`. -/
structure HsEnv (σ μ : Type) where
  send : tls13_fn → tls13_ctx σ μ → Int × tls13_ctx σ μ
  sent : tls13_fn → tls13_ctx σ μ → Int × tls13_ctx σ μ
  recv : tls13_fn → tls13_ctx σ μ → CBS → Int × tls13_ctx σ μ × CBS
  tls13_handshake_msg_new : σ → Option μ
  tls13_handshake_msg_start : Option μ → Nat → Int × Option μ
  tls13_handshake_msg_finish : Option μ → Int × Option μ
  tls13_handshake_msg_send : Option μ → σ → Int × Option μ × σ
  tls13_handshake_msg_recv : Option μ → σ → Int × Option μ × σ
  tls13_handshake_msg_data : Option μ → List UInt8
  tls13_handshake_msg_type : Option μ → Nat
  tls13_handshake_msg_content : Option μ → Option CBS
  tls1_transcript_record : σ → List UInt8 → Int × σ
  tls1_transcript_hash_value : σ → Int × σ
  tls13_send_alert : σ → Nat → Int × σ
  tls13_record_layer_handshake_completed : σ → σ
  tls13_set_errorx : σ → σ
  handshake_message_sent_cb : Option (tls13_ctx σ μ → tls13_ctx σ μ)
  handshake_message_recv_cb : Option (tls13_ctx σ μ → tls13_ctx σ μ)
  version : σ → Nat

/-- A return value together with the context the call leaves. -/
structure HsResult (σ μ : Type) where
  ret : Int
  ctx : tls13_ctx σ μ

/-- How a part of a function ends: with a `return`, or by going on in the
context it leaves. -/
inductive HsStep (σ μ : Type) where
  | done (r : HsResult σ μ)
  | next (ctx : tls13_ctx σ μ)

/-- The function `tls13_handshake_active_state`. -/
def tls13_handshake_active_state {σ μ : Type} (ctx : tls13_ctx σ μ) : tls13_message_type :=
  if ctx.handshake_stage.hs_type ≥ handshake_count then tls13_message_type.INVALID
  else if ctx.handshake_stage.message_number ≥ TLS13_NUM_MESSAGE_TYPES then
    tls13_message_type.INVALID
  else
    (handshakes ctx.handshake_stage.hs_type).getD ctx.handshake_stage.message_number
      tls13_message_type.INVALID

/-- The function `tls13_handshake_active_action`; `none` is the null
pointer. -/
def tls13_handshake_active_action {σ μ : Type} (ctx : tls13_ctx σ μ) :
    Option tls13_handshake_action :=
  if tls13_handshake_active_state ctx = tls13_message_type.INVALID then none
  else some (state_machine (tls13_handshake_active_state ctx))

/-- The function `tls13_handshake_advance_state_machine`. -/
def tls13_handshake_advance_state_machine {σ μ : Type} (ctx : tls13_ctx σ μ) :
    Int × tls13_ctx σ μ :=
  (if ctx.handshake_stage.message_number + 1 ≥ TLS13_NUM_MESSAGE_TYPES then 0 else 1,
    { ctx with handshake_stage :=
        ⟨ctx.handshake_stage.hs_type, ctx.handshake_stage.message_number + 1⟩ })

/-- The function `tls13_handshake_msg_record`. -/
def tls13_handshake_msg_record {σ μ : Type} (env : HsEnv σ μ) (ctx : tls13_ctx σ μ) :
    Int × tls13_ctx σ μ :=
  ((env.tls1_transcript_record ctx.ext (env.tls13_handshake_msg_data ctx.hs_msg)).1,
    { ctx with ext :=
        (env.tls1_transcript_record ctx.ext (env.tls13_handshake_msg_data ctx.hs_msg)).2 })

/-- The first part of `tls13_handshake_send_action`: the message is built
when the context holds none. -/
def tls13_handshake_send_action_build {σ μ : Type} (env : HsEnv σ μ) (ctx : tls13_ctx σ μ)
    (action : tls13_handshake_action) : Option (HsStep σ μ) :=
  if ctx.hs_msg.isSome then some (HsStep.next ctx)
  else
    match env.tls13_handshake_msg_new ctx.ext with
    | none => some (HsStep.done ⟨TLS13_IO_FAILURE, { ctx with hs_msg := none }⟩)
    | some m =>
      let st := env.tls13_handshake_msg_start (some m) action.handshake_type
      if st.1 = 0 then some (HsStep.done ⟨TLS13_IO_FAILURE, { ctx with hs_msg := st.2 }⟩)
      else
        match action.send with
        | none => none
        | some fn =>
          let b := env.send fn { ctx with hs_msg := st.2 }
          if b.1 = 0 then some (HsStep.done ⟨TLS13_IO_FAILURE, b.2⟩)
          else
            let fi := env.tls13_handshake_msg_finish b.2.hs_msg
            if fi.1 = 0 then
              some (HsStep.done ⟨TLS13_IO_FAILURE, { b.2 with hs_msg := fi.2 }⟩)
            else if b.2.alert ≠ 0 then
              some (HsStep.done ⟨(env.tls13_send_alert b.2.ext b.2.alert).1,
                { b.2 with hs_msg := fi.2, ext := (env.tls13_send_alert b.2.ext b.2.alert).2 }⟩)
            else some (HsStep.next { b.2 with hs_msg := fi.2 })

/-- The last part of `tls13_handshake_send_action`, from the call of
`tls13_handshake_msg_send` on: the message is transmitted and recorded, and
the message buffer is released. -/
def tls13_handshake_send_action_transmit {σ μ : Type} (env : HsEnv σ μ) (c : tls13_ctx σ μ)
    (action : tls13_handshake_action) : HsResult σ μ :=
  let s := env.tls13_handshake_msg_send c.hs_msg c.ext
  if s.1 ≤ 0 then ⟨s.1, { c with hs_msg := s.2.1, ext := s.2.2 }⟩
  else
    let rc := tls13_handshake_msg_record env { c with hs_msg := s.2.1, ext := s.2.2 }
    if rc.1 = 0 then ⟨TLS13_IO_FAILURE, rc.2⟩
    else
      let h := if action.send_preserve_transcript_hash ≠ 0 then
          env.tls1_transcript_hash_value rc.2.ext else (1, rc.2.ext)
      if h.1 = 0 then ⟨TLS13_IO_FAILURE, { rc.2 with ext := h.2 }⟩
      else
        let c4 := match env.handshake_message_sent_cb with
          | none => { rc.2 with ext := h.2 }
          | some cb => cb { rc.2 with ext := h.2 }
        match action.sent with
        | none => ⟨TLS13_IO_SUCCESS, { c4 with hs_msg := none }⟩
        | some fn =>
          if (env.sent fn { c4 with hs_msg := none }).1 = 0 then
            ⟨TLS13_IO_FAILURE, (env.sent fn { c4 with hs_msg := none }).2⟩
          else ⟨TLS13_IO_SUCCESS, (env.sent fn { c4 with hs_msg := none }).2⟩

/-- The function `tls13_handshake_send_action`. -/
def tls13_handshake_send_action {σ μ : Type} (env : HsEnv σ μ) (ctx : tls13_ctx σ μ)
    (action : tls13_handshake_action) : Option (HsResult σ μ) :=
  match tls13_handshake_send_action_build env ctx action with
  | none => none
  | some (HsStep.done r) => some r
  | some (HsStep.next c) => some (tls13_handshake_send_action_transmit env c action)

/-- The first part of `tls13_handshake_recv_action`, up to the call of the
received-message hook: a message is read and recorded in the transcript. -/
def tls13_handshake_recv_action_read {σ μ : Type} (env : HsEnv σ μ) (ctx : tls13_ctx σ μ)
    (action : tls13_handshake_action) : HsStep σ μ :=
  match (if ctx.hs_msg.isSome then ctx.hs_msg else env.tls13_handshake_msg_new ctx.ext) with
  | none => HsStep.done ⟨TLS13_IO_FAILURE, { ctx with hs_msg := none }⟩
  | some m =>
    let s := env.tls13_handshake_msg_recv (some m) ctx.ext
    if s.1 ≤ 0 then HsStep.done ⟨s.1, { ctx with hs_msg := s.2.1, ext := s.2.2 }⟩
    else
      let h := if action.recv_preserve_transcript_hash ≠ 0 then
          env.tls1_transcript_hash_value s.2.2 else (1, s.2.2)
      if h.1 = 0 then
        HsStep.done ⟨TLS13_IO_FAILURE, { ctx with hs_msg := s.2.1, ext := h.2 }⟩
      else
        let rc := tls13_handshake_msg_record env { ctx with hs_msg := s.2.1, ext := h.2 }
        if rc.1 = 0 then HsStep.done ⟨TLS13_IO_FAILURE, rc.2⟩
        else
          match env.handshake_message_recv_cb with
          | none => HsStep.next rc.2
          | some cb => HsStep.next (cb rc.2)

/-- The last part of `tls13_handshake_recv_action`, from the call of the
`recv` function of the action on the message content `cbs`. -/
def tls13_handshake_recv_action_parse {σ μ : Type} (env : HsEnv σ μ) (ctx : tls13_ctx σ μ)
    (action : tls13_handshake_action) (cbs : CBS) : Option (HsResult σ μ) :=
  match action.recv with
  | none => none
  | some fn =>
    let p := env.recv fn ctx cbs
    let c1 : tls13_ctx σ μ := if p.1 ≠ 0 ∧ CBS_len p.2.2 ≠ 0 then
        { p.2.1 with ext := env.tls13_set_errorx p.2.1.ext, alert := SSL_AD_DECODE_ERROR }
      else p.2.1
    let a := if c1.alert ≠ 0 then env.tls13_send_alert c1.ext c1.alert
      else (if p.1 ≠ 0 ∧ CBS_len p.2.2 = 0 then TLS13_IO_SUCCESS else TLS13_IO_FAILURE, c1.ext)
    if env.version a.2 < TLS1_3_VERSION then
      some ⟨TLS13_IO_USE_LEGACY, { c1 with hs_msg := none, ext := a.2 }⟩
    else some ⟨a.1, { c1 with hs_msg := none, ext := a.2 }⟩

/-- The function `tls13_handshake_recv_action`. -/
def tls13_handshake_recv_action {σ μ : Type} (env : HsEnv σ μ) (ctx : tls13_ctx σ μ)
    (action : tls13_handshake_action) : Option (HsResult σ μ) :=
  match tls13_handshake_recv_action_read env ctx action with
  | HsStep.done r => some r
  | HsStep.next c =>
    if env.tls13_handshake_msg_type c.hs_msg ≠ action.handshake_type ∧
        (env.tls13_handshake_msg_type c.hs_msg ≠ TLS13_MT_CERTIFICATE ∨
          action.handshake_type ≠ TLS13_MT_CERTIFICATE_REQUEST) then
      some ⟨(env.tls13_send_alert c.ext SSL_AD_UNEXPECTED_MESSAGE).1,
        { c with ext := (env.tls13_send_alert c.ext SSL_AD_UNEXPECTED_MESSAGE).2 }⟩
    else
      match env.tls13_handshake_msg_content c.hs_msg with
      | none => some ⟨TLS13_IO_FAILURE, c⟩
      | some cbs => tls13_handshake_recv_action_parse env c action cbs

/-- The send path or the receive path of `tls13_handshake_perform` for the
action, by its sender and the local role. -/
def tls13_handshake_dispatch {σ μ : Type} (env : HsEnv σ μ) (ctx : tls13_ctx σ μ)
    (action : tls13_handshake_action) : Option (HsResult σ μ) :=
  if action.sender = ctx.mode then tls13_handshake_send_action env ctx action
  else tls13_handshake_recv_action env ctx action

/-- One iteration of the loop of `tls13_handshake_perform`. -/
def tls13_handshake_perform_iteration {σ μ : Type} (env : HsEnv σ μ) (ctx : tls13_ctx σ μ) :
    Option (HsStep σ μ) :=
  match tls13_handshake_active_action ctx with
  | none => some (HsStep.done ⟨TLS13_IO_FAILURE, ctx⟩)
  | some action =>
    if action.handshake_complete ≠ 0 then
      some (HsStep.done ⟨TLS13_IO_SUCCESS,
        { ctx with handshake_completed := 1,
                   ext := env.tls13_record_layer_handshake_completed ctx.ext }⟩)
    else if ctx.alert ≠ 0 then
      some (HsStep.done ⟨(env.tls13_send_alert ctx.ext ctx.alert).1,
        { ctx with ext := (env.tls13_send_alert ctx.ext ctx.alert).2 }⟩)
    else
      match tls13_handshake_dispatch env ctx action with
      | none => none
      | some r =>
        if r.ret ≤ 0 then some (HsStep.done r)
        else if (tls13_handshake_advance_state_machine r.ctx).1 = 0 then
          some (HsStep.done ⟨TLS13_IO_FAILURE, (tls13_handshake_advance_state_machine r.ctx).2⟩)
        else some (HsStep.next (tls13_handshake_advance_state_machine r.ctx).2)

/-- The function `tls13_handshake_perform`, with a bound on the number of
iterations of its loop. -/
def tls13_handshake_perform {σ μ : Type} (env : HsEnv σ μ) :
    Nat → tls13_ctx σ μ → Option (HsResult σ μ)
  | 0, _ => none
  | fuel + 1, ctx =>
    match tls13_handshake_perform_iteration env ctx with
    | none => none
    | some (HsStep.done r) => some r
    | some (HsStep.next c) => tls13_handshake_perform env fuel c

/-- Follows the claim's words: the actions `mts` are dispatched one after
another, starting in `ctx`; each of them succeeds (returns a value above 0)
and leaves the handshake state as it found it and no alert pending, and the
index is advanced behind each. The result is the context after the last. -/
def dispatch_in_order {σ μ : Type} (env : HsEnv σ μ) :
    List tls13_message_type → tls13_ctx σ μ → Option (tls13_ctx σ μ)
  | [], ctx => some ctx
  | mt :: rest, ctx =>
    match tls13_handshake_dispatch env ctx (state_machine mt) with
    | none => none
    | some r =>
      if r.ret > 0 ∧ r.ctx.handshake_stage = ctx.handshake_stage ∧ r.ctx.alert = 0 then
        dispatch_in_order env rest (tls13_handshake_advance_state_machine r.ctx).2
      else none

/-- The functions that are handed the whole context leave the handshake
state (variant and index) as they find it. -/
def HsEnv.KeepsStage {σ μ : Type} (env : HsEnv σ μ) : Prop :=
  (∀ fn ctx, (env.send fn ctx).2.handshake_stage = ctx.handshake_stage) ∧
  (∀ fn ctx, (env.sent fn ctx).2.handshake_stage = ctx.handshake_stage) ∧
  (∀ fn ctx cbs, (env.recv fn ctx cbs).2.1.handshake_stage = ctx.handshake_stage) ∧
  (∀ cb, env.handshake_message_sent_cb = some cb →
    ∀ ctx, (cb ctx).handshake_stage = ctx.handshake_stage) ∧
  (∀ cb, env.handshake_message_recv_cb = some cb →
    ∀ ctx, (cb ctx).handshake_stage = ctx.handshake_stage)

/-! ## A concrete environment for the handshake scenarios -/

/-- What the scenario environment writes to its log. -/
inductive HsEvent where
  | built (fn : tls13_fn)
  | transmitted (msg_type : Nat)
  | after_send (fn : tls13_fn)
  | parsed (fn : tls13_fn)
  | alert_sent (desc : Nat)
  | completed
deriving DecidableEq, Repr

/-- The world of the scenarios: the log of the outside calls, the handshake
messages that wait to be received (type and body) and the protocol version
of the method in use. -/
structure ScenarioWorld where
  log : List HsEvent
  inbox : List (Nat × List UInt8)
  version : Nat
deriving DecidableEq, Repr

/-- A handshake message of the scenarios: its type and its body. -/
structure ScenarioMsg where
  msg_type : Nat
  body : List UInt8
deriving DecidableEq, Repr

/-- The parser of the scenarios. It fails on a body that starts with `0xEE`
and otherwise reads the body up to the first `0xFF` byte, which it leaves
unread with what follows. The two ServerHello parsers take the protocol
version from the first two bytes of the body, and with `switch` set the
parser of the first server response moves the handshake to the variant
`NEGOTIATED | WITHOUT_HRR`. -/
def scenario_recv (switch : Bool) (fn : tls13_fn) (ctx : tls13_ctx ScenarioWorld ScenarioMsg)
    (cbs : CBS) : Int × tls13_ctx ScenarioWorld ScenarioMsg × CBS :=
  ((if cbs.data.head? = some 0xEE then 0 else 1),
    { ctx with
      handshake_stage :=
        if switch = true ∧ fn = tls13_fn.tls13_server_hello_retry_request_recv then
          ⟨ctx.handshake_stage.hs_type ||| NEGOTIATED ||| WITHOUT_HRR,
            ctx.handshake_stage.message_number⟩
        else ctx.handshake_stage,
      ext :=
        ⟨ctx.ext.log ++ [HsEvent.parsed fn], ctx.ext.inbox,
          if fn = tls13_fn.tls13_server_hello_retry_request_recv ∨
              fn = tls13_fn.tls13_server_hello_recv then
            match cbs.data with
            | b0 :: b1 :: _ => b0.toNat * 256 + b1.toNat
            | _ => ctx.ext.version
          else ctx.ext.version⟩ },
    if cbs.data.head? = some 0xEE then cbs
    else ⟨cbs.data.dropWhile (fun b => b != 0xFF), cbs.initial_len⟩)

/-- The environment of the scenarios: every builder and post-send function
succeeds and is logged, a message is received from the inbox (would-block
when it is empty), sending an alert is logged and reports
`TLS13_IO_ALERT`, and there are no message hooks. -/
def scenarioHsEnvOf (switch : Bool) : HsEnv ScenarioWorld ScenarioMsg where
  send := fun fn ctx =>
    (1, { ctx with ext := ⟨ctx.ext.log ++ [HsEvent.built fn], ctx.ext.inbox, ctx.ext.version⟩ })
  sent := fun fn ctx =>
    (1, { ctx with
      ext := ⟨ctx.ext.log ++ [HsEvent.after_send fn], ctx.ext.inbox, ctx.ext.version⟩ })
  recv := scenario_recv switch
  tls13_handshake_msg_new := fun _ => some ⟨0, []⟩
  tls13_handshake_msg_start := fun m t => (1, m.map (fun x => ⟨t, x.body⟩))
  tls13_handshake_msg_finish := fun m => (1, m)
  tls13_handshake_msg_send := fun m s =>
    (1, m, ⟨s.log ++ [HsEvent.transmitted ((m.map (fun x => x.msg_type)).getD 0)], s.inbox,
      s.version⟩)
  tls13_handshake_msg_recv := fun m s =>
    match s.inbox with
    | [] => (TLS13_IO_WANT_POLLIN, m, s)
    | (t, b) :: rest => (1, some ⟨t, b⟩, ⟨s.log, rest, s.version⟩)
  tls13_handshake_msg_data := fun m => (m.map (fun x => x.body)).getD []
  tls13_handshake_msg_type := fun m => (m.map (fun x => x.msg_type)).getD 0
  tls13_handshake_msg_content := fun m => m.map (fun x => CBS_init x.body)
  tls1_transcript_record := fun s _ => (1, s)
  tls1_transcript_hash_value := fun s => (1, s)
  tls13_send_alert := fun s a =>
    (TLS13_IO_ALERT, ⟨s.log ++ [HsEvent.alert_sent a], s.inbox, s.version⟩)
  tls13_record_layer_handshake_completed := fun s =>
    ⟨s.log ++ [HsEvent.completed], s.inbox, s.version⟩
  tls13_set_errorx := fun s => s
  handshake_message_sent_cb := none
  handshake_message_recv_cb := none
  version := fun s => s.version

/-- The environment of the scenarios in which the parser of the first server
response chooses the variant. -/
def scenarioHsEnv : HsEnv ScenarioWorld ScenarioMsg := scenarioHsEnvOf true

/-- A context of the scenarios: role `mode`, state (`hs_type`, `index`), no
pending alert, no message buffer, TLS 1.3 in use, an empty log and the
messages `inbox` waiting. -/
def scenarioCtx (mode hs_type index : Nat) (inbox : List (Nat × List UInt8)) :
    tls13_ctx ScenarioWorld ScenarioMsg :=
  ⟨⟨hs_type, index⟩, 0, 0, mode, none, ⟨[], inbox, TLS1_3_VERSION⟩⟩

/-- What the scenarios show of a result: the return value, the handshake
state, the completion flag, the pending alert and the log. -/
def HsResult.summary (r : HsResult ScenarioWorld ScenarioMsg) :
    Int × tls13_handshake_stage × Int × Nat × List HsEvent :=
  (r.ret, r.ctx.handshake_stage, r.ctx.handshake_completed, r.ctx.alert, r.ctx.ext.log)

/-! ## The transcript -/

/-- Modelled from the spec: the transcript as the outside state holds it.
`recorded` is the list of the handshake messages recorded so far; `preserved`
is the preserved transcript hash, given as the list of messages it covers. -/
structure TranscriptView (σ : Type) where
  recorded : σ → List (List UInt8)
  preserved : σ → List (List UInt8)

/-- Two outside states with the same transcript and the same preserved
hash. -/
def TranscriptView.Same {σ : Type} (tv : TranscriptView σ) (s1 s2 : σ) : Prop :=
  tv.recorded s1 = tv.recorded s2 ∧ tv.preserved s1 = tv.preserved s2

/-- Modelled from the spec: when it succeeds, `tls1_transcript_record` adds
the message to the end of the transcript and leaves the preserved hash, and
`tls1_transcript_hash_value`, called on the preserved hash, makes it the
hash of the transcript as it is and leaves the transcript. -/
def HsEnv.Transcript {σ μ : Type} (env : HsEnv σ μ) (tv : TranscriptView σ) : Prop :=
  (∀ s d, (env.tls1_transcript_record s d).1 ≠ 0 →
    tv.recorded (env.tls1_transcript_record s d).2 = tv.recorded s ++ [d] ∧
    tv.preserved (env.tls1_transcript_record s d).2 = tv.preserved s) ∧
  (∀ s, (env.tls1_transcript_hash_value s).1 ≠ 0 →
    tv.recorded (env.tls1_transcript_hash_value s).2 = tv.recorded s ∧
    tv.preserved (env.tls1_transcript_hash_value s).2 = tv.recorded s)

/-- The outside functions other than the two transcript functions leave the
transcript and the preserved hash as they find them. -/
def HsEnv.KeepsTranscript {σ μ : Type} (env : HsEnv σ μ) (tv : TranscriptView σ) : Prop :=
  (∀ fn ctx, tv.Same (env.send fn ctx).2.ext ctx.ext) ∧
  (∀ fn ctx, tv.Same (env.sent fn ctx).2.ext ctx.ext) ∧
  (∀ fn ctx cbs, tv.Same (env.recv fn ctx cbs).2.1.ext ctx.ext) ∧
  (∀ m s, tv.Same (env.tls13_handshake_msg_send m s).2.2 s) ∧
  (∀ m s, tv.Same (env.tls13_handshake_msg_recv m s).2.2 s) ∧
  (∀ s a, tv.Same (env.tls13_send_alert s a).2 s) ∧
  (∀ s, tv.Same (env.tls13_set_errorx s) s) ∧
  (∀ cb, env.handshake_message_sent_cb = some cb → ∀ ctx, tv.Same (cb ctx).ext ctx.ext) ∧
  (∀ cb, env.handshake_message_recv_cb = some cb → ∀ ctx, tv.Same (cb ctx).ext ctx.ext)

/-- The world of the transcript scenarios: the transcript, the preserved
hash as the list of messages it covers, and the handshake messages that wait
to be received (type and body). -/
structure TranscriptWorld where
  recorded : List (List UInt8)
  preserved : List (List UInt8)
  inbox : List (Nat × List UInt8)
deriving DecidableEq, Repr

/-- The view of the transcript in a `TranscriptWorld`. -/
def transcriptView : TranscriptView TranscriptWorld := ⟨fun s => s.recorded, fun s => s.preserved⟩

/-- Modelled from the spec: the environment of the transcript scenarios.
`tls1_transcript_record` adds the message to the transcript and
`tls1_transcript_hash_value` takes the preserved hash over the transcript as
it is. A builder writes the one-byte body `0xAA`, the data of a message is
its type followed by its body, a message is received from the inbox
(would-block when it is empty), a parser reads the whole body, and there
are no message hooks. -/
def transcriptHsEnv : HsEnv TranscriptWorld ScenarioMsg where
  send := fun _ ctx => (1, { ctx with hs_msg := ctx.hs_msg.map (fun x => ⟨x.msg_type, [0xAA]⟩) })
  sent := fun _ ctx => (1, ctx)
  recv := fun _ ctx cbs => (1, ctx, ⟨[], cbs.initial_len⟩)
  tls13_handshake_msg_new := fun _ => some ⟨0, []⟩
  tls13_handshake_msg_start := fun m t => (1, m.map (fun x => ⟨t, x.body⟩))
  tls13_handshake_msg_finish := fun m => (1, m)
  tls13_handshake_msg_send := fun m s => (1, m, s)
  tls13_handshake_msg_recv := fun m s =>
    match s.inbox with
    | [] => (TLS13_IO_WANT_POLLIN, m, s)
    | (t, b) :: rest => (1, some ⟨t, b⟩, ⟨s.recorded, s.preserved, rest⟩)
  tls13_handshake_msg_data := fun m => (m.map (fun x => UInt8.ofNat x.msg_type :: x.body)).getD []
  tls13_handshake_msg_type := fun m => (m.map (fun x => x.msg_type)).getD 0
  tls13_handshake_msg_content := fun m => m.map (fun x => CBS_init x.body)
  tls1_transcript_record := fun s d => (1, ⟨s.recorded ++ [d], s.preserved, s.inbox⟩)
  tls1_transcript_hash_value := fun s => (1, ⟨s.recorded, s.recorded, s.inbox⟩)
  tls13_send_alert := fun s _ => (TLS13_IO_ALERT, s)
  tls13_record_layer_handshake_completed := fun s => s
  tls13_set_errorx := fun s => s
  handshake_message_sent_cb := none
  handshake_message_recv_cb := none
  version := fun _ => TLS1_3_VERSION

/-- A context of the transcript scenarios: role `mode`, state (`hs_type`,
`index`), no pending alert, no message buffer, the messages `recorded` in
the transcript, a preserved hash over `preserved` and the messages `inbox`
waiting. -/
def transcriptCtx (mode hs_type index : Nat) (recorded preserved : List (List UInt8))
    (inbox : List (Nat × List UInt8)) : tls13_ctx TranscriptWorld ScenarioMsg :=
  ⟨⟨hs_type, index⟩, 0, 0, mode, none, ⟨recorded, preserved, inbox⟩⟩

/-! ## Cursors: how the readers advance -/

/-- The cursor `c1` is the cursor `c` advanced by `k` bytes. -/
def CBS.advanced (c c1 : CBS) (k : Nat) : Prop :=
  k ≤ c.data.length ∧ c1.data = c.data.drop k ∧ c1.initial_len = c.initial_len

theorem CBS.advanced_refl (c : CBS) : CBS.advanced c c 0 := by
  simp [CBS.advanced]

theorem CBS.advanced_trans {c c1 c2 : CBS} {j k : Nat} (h1 : CBS.advanced c c1 j)
    (h2 : CBS.advanced c1 c2 k) : CBS.advanced c c2 (j + k) := by
  obtain ⟨a1, a2, a3⟩ := h1
  obtain ⟨b1, b2, b3⟩ := h2
  refine ⟨?_, ?_, ?_⟩
  · rw [a2, List.length_drop] at b1
    omega
  · rw [b2, a2, List.drop_drop, Nat.add_comm]
  · rw [b3, a3]

theorem CBS.advanced_length {c c1 : CBS} {k : Nat} (h : CBS.advanced c c1 k) :
    c1.data.length + k = c.data.length := by
  obtain ⟨a1, a2, _⟩ := h
  rw [a2, List.length_drop]
  omega

theorem CBS.advanced_offset {c c1 : CBS} {k : Nat} (h : CBS.advanced c c1 k)
    (hc : c.initial_len = c.data.length) : CBS_offset c1 = k := by
  have hl := CBS.advanced_length h
  obtain ⟨_, _, a3⟩ := h
  unfold CBS_offset
  omega

theorem CBS_skip_advanced {c c1 : CBS} {n : Nat} (h : CBS_skip c n = some c1) :
    CBS.advanced c c1 n := by
  unfold CBS_skip at h
  split at h
  · cases h
    refine ⟨by assumption, rfl, rfl⟩
  · cases h

theorem CBS_skip_of_le (c : CBS) (n : Nat) (h : n ≤ c.data.length) :
    CBS_skip c n = some ⟨c.data.drop n, c.initial_len⟩ := by
  simp [CBS_skip, h]

theorem CBS_get_bytes_advanced {c x c1 : CBS} {n : Nat} (h : CBS_get_bytes c n = some (x, c1)) :
    CBS.advanced c c1 n ∧ x = CBS_init (c.data.take n) := by
  unfold CBS_get_bytes at h
  split at h
  · cases h
    exact ⟨⟨by assumption, rfl, rfl⟩, rfl⟩
  · cases h

theorem CBS_get_bytes_of_le (c : CBS) (n : Nat) (h : n ≤ c.data.length) :
    CBS_get_bytes c n = some (CBS_init (c.data.take n), ⟨c.data.drop n, c.initial_len⟩) := by
  simp [CBS_get_bytes, h]

theorem asn1_check_eoc_advanced {c c1 : CBS} (h : asn1_check_eoc c = some c1) :
    CBS.advanced c c1 2 ∧ c.data.take 2 = [0, 0] := by
  unfold asn1_check_eoc at h
  cases hp : CBS_peek_u16 c with
  | none => simp [hp] at h
  | some e =>
    simp only [hp] at h
    split at h
    · cases h
    · rename_i he
      refine ⟨CBS_skip_advanced h, ?_⟩
      unfold CBS_peek_u16 at hp
      split at hp
      · rename_i b0 b1 rest hd
        cases hp
        have h0 : b0.toNat = 0 := by
          simp only [ne_eq, Decidable.not_not] at he
          omega
        have h1 : b1.toNat = 0 := by
          simp only [ne_eq, Decidable.not_not] at he
          omega
        have e0 : b0 = 0 := UInt8.eq_of_val_eq (Fin.ext h0)
        have e1 : b1 = 0 := UInt8.eq_of_val_eq (Fin.ext h1)
        rw [hd, e0, e1]
        rfl
      · cases hp

theorem get_tag_long_length : ∀ (l : List UInt8) (acc t : Nat) (rest : List UInt8),
    get_tag_long l acc = some (t, rest) →
    ∃ k, 1 ≤ k ∧ k ≤ l.length ∧ rest = l.drop k
  | [], _, _, _, h => by simp [get_tag_long] at h
  | b :: l, acc, t, rest, h => by
    unfold get_tag_long at h
    split at h
    · cases h
    · split at h
      · obtain ⟨k, hk1, hk2, hk3⟩ := get_tag_long_length l _ t rest h
        exact ⟨k + 1, by omega, by simp; omega, by simpa using hk3⟩
      · cases h
        exact ⟨1, by omega, by simp, by simp⟩

theorem asn1_get_identifier_cbs_advanced {c : CBS} {id : IdentOut}
    (h : asn1_get_identifier_cbs c = some id) : ∃ k, 1 ≤ k ∧ CBS.advanced c id.cbs k := by
  unfold asn1_get_identifier_cbs at h
  split at h
  · cases h
  · rename_i b rest hd
    split at h
    · split at h
      · cases h
      · rename_i t rest1 ht
        cases h
        obtain ⟨k, hk1, hk2, hk3⟩ := get_tag_long_length _ _ _ _ ht
        refine ⟨k + 1, by omega, ?_, ?_, rfl⟩
        · rw [hd]; simp; omega
        · rw [hd]; simpa using hk3
    · cases h
      refine ⟨1, by omega, ?_, ?_, rfl⟩
      · rw [hd]; simp
      · rw [hd]; simp

theorem get_length_long_length : ∀ (n : Nat) (l : List UInt8) (acc v : Nat) (rest : List UInt8),
    get_length_long n l acc = some (v, rest) → n ≤ l.length ∧ rest = l.drop n
  | 0, l, acc, v, rest, h => by
    simp [get_length_long] at h
    simp [h.2]
  | n + 1, [], _, _, _, h => by simp [get_length_long] at h
  | n + 1, b :: l, acc, v, rest, h => by
    unfold get_length_long at h
    split at h
    · cases h
    · obtain ⟨h1, h2⟩ := get_length_long_length n l _ v rest h
      exact ⟨by simp; omega, by simpa using h2⟩

theorem asn1_get_length_cbs_advanced {c : CBS} {l : LengthOut}
    (h : asn1_get_length_cbs c = some l) : ∃ k, 1 ≤ k ∧ CBS.advanced c l.cbs k := by
  unfold asn1_get_length_cbs at h
  split at h
  · cases h
  · rename_i b rest hd
    have one : CBS.advanced c ⟨rest, c.initial_len⟩ 1 := by
      refine ⟨?_, ?_, rfl⟩
      · rw [hd]; simp
      · rw [hd]; simp
    split at h
    · cases h; exact ⟨1, by omega, one⟩
    · split at h
      · cases h; exact ⟨1, by omega, one⟩
      · split at h
        · cases h
        · split at h
          · cases h
          · rename_i v rest1 hv
            cases h
            obtain ⟨h1, h2⟩ := get_length_long_length _ _ _ _ _ hv
            refine ⟨(b.toNat &&& 0x7f) + 1, by omega, ?_, ?_, rfl⟩
            · rw [hd]; simp; omega
            · rw [hd]; simpa using h2

theorem asn1_check_tag_ret (c : CBS) (etag ecls : Int) (opt : Bool) :
    (asn1_check_tag c etag ecls opt).ret = 1 ∨ (asn1_check_tag c etag ecls opt).ret = 0 ∨
      (asn1_check_tag c etag ecls opt).ret = -1 := by
  unfold asn1_check_tag
  repeat' split
  all_goals simp

theorem asn1_check_tag_absent {c : CBS} {etag ecls : Int} {opt : Bool}
    (h : (asn1_check_tag c etag ecls opt).ret = -1) :
    opt = true ∧ 0 ≤ etag ∧ (asn1_check_tag c etag ecls opt).errs = [] := by
  generalize ht : asn1_check_tag c etag ecls opt = t at h ⊢
  unfold asn1_check_tag at ht
  repeat' split at ht
  all_goals subst ht
  all_goals simp_all

theorem asn1_check_tag_ok {c : CBS} {etag ecls : Int} {opt : Bool}
    (h : (asn1_check_tag c etag ecls opt).ret = 1) :
    (∃ k, 2 ≤ k ∧ CBS.advanced c (asn1_check_tag c etag ecls opt).cbs k) ∧
    ((asn1_check_tag c etag ecls opt).indefinite = false →
      (asn1_check_tag c etag ecls opt).len ≤ (asn1_check_tag c etag ecls opt).cbs.data.length) ∧
    ((asn1_check_tag c etag ecls opt).indefinite = true →
      (asn1_check_tag c etag ecls opt).constructed = true ∧
      (asn1_check_tag c etag ecls opt).len = (asn1_check_tag c etag ecls opt).cbs.data.length) ∧
    (asn1_check_tag c etag ecls opt).errs = [] := by
  generalize ht : asn1_check_tag c etag ecls opt = t at h ⊢
  unfold asn1_check_tag at ht
  split at ht
  · subst ht; simp at h
  · rename_i id hid
    split at ht
    · split at ht <;> subst ht <;> simp at h
    · split at ht
      · subst ht; simp at h
      · rename_i l hl
        split at ht
        · subst ht; simp at h
        · split at ht
          · subst ht; simp at h
          · split at ht
            · subst ht; simp at h
            · rename_i h1 h2 h3
              subst ht
              obtain ⟨k1, hk1, a1⟩ := asn1_get_identifier_cbs_advanced hid
              obtain ⟨k2, hk2, a2⟩ := asn1_get_length_cbs_advanced hl
              refine ⟨⟨k1 + k2, by omega, CBS.advanced_trans a1 a2⟩, ?_, ?_, rfl⟩
              · intro hi
                simp only at hi
                simp only [hi] at h2 ⊢
                simp [CBS_len] at h2
                simpa using h2
              · intro hi
                simp only at hi
                simp only [hi] at h1 ⊢
                simp at h1
                simp [h1, CBS_len]

theorem asn1_check_tag_not_absent (c : CBS) (etag ecls : Int) :
    (asn1_check_tag c etag ecls false).ret ≠ -1 := by
  intro h
  have := (asn1_check_tag_absent h).1
  cases this

theorem asn1_check_tag_no_expectation (c : CBS) (etag ecls : Int) (opt : Bool) (h : etag < 0) :
    (asn1_check_tag c etag ecls opt).ret ≠ -1 := by
  intro h1
  have := (asn1_check_tag_absent h1).2.1
  omega

theorem asn1_check_tag_ok_of_ne_zero {c : CBS} {etag ecls : Int}
    (h : (asn1_check_tag c etag ecls false).ret ≠ 0) :
    (asn1_check_tag c etag ecls false).ret = 1 := by
  rcases asn1_check_tag_ret c etag ecls false with h1 | h1 | h1
  · exact h1
  · exact absurd h1 h
  · exact absurd h1 (asn1_check_tag_not_absent c etag ecls)

/-! ## Termination of the traversal loops -/

theorem asn1_find_end_loop_total : ∀ (fuel : Nat) (cbs : CBS) (eoc_count : Nat),
    cbs.data.length < fuel →
    ∃ r, asn1_find_end_loop fuel cbs eoc_count = some r ∧ (r.ret = 1 ∨ r.ret = 0) ∧
      (r.ret = 1 → ∃ k, CBS.advanced cbs r.cbs k)
  | 0, _, _, h => by omega
  | fuel + 1, cbs, eoc_count, h => by
    unfold asn1_find_end_loop
    split
    · split
      · rename_i cbs1 he
        have a := (asn1_check_eoc_advanced he).1
        split
        · exact ⟨_, rfl, Or.inl rfl, fun _ => ⟨2, a⟩⟩
        · have hl := CBS.advanced_length a
          obtain ⟨r, hr, h1, h2⟩ := asn1_find_end_loop_total fuel cbs1
            ((eoc_count + SIZE_MAX) % (SIZE_MAX + 1)) (by omega)
          refine ⟨r, hr, h1, fun h3 => ?_⟩
          obtain ⟨k, hk⟩ := h2 h3
          exact ⟨2 + k, CBS.advanced_trans a hk⟩
      · split
        · exact ⟨_, rfl, Or.inr rfl, fun h3 => by simp at h3⟩
        · rename_i hne
          have hok := asn1_check_tag_ok_of_ne_zero hne
          obtain ⟨⟨k0, hk0, a⟩, hdef, _, _⟩ := asn1_check_tag_ok hok
          have hl := CBS.advanced_length a
          split
          · obtain ⟨r, hr, h1, h2⟩ := asn1_find_end_loop_total fuel
              (asn1_check_tag cbs (-1) 0 false).cbs ((eoc_count + 1) % (SIZE_MAX + 1)) (by omega)
            refine ⟨r, hr, h1, fun h3 => ?_⟩
            obtain ⟨k, hk⟩ := h2 h3
            exact ⟨k0 + k, CBS.advanced_trans a hk⟩
          · split
            · exact ⟨_, rfl, Or.inr rfl, fun h3 => by simp at h3⟩
            · rename_i cbs2 hs
              have a2 := CBS_skip_advanced hs
              have hl2 := CBS.advanced_length a2
              obtain ⟨r, hr, h1, h2⟩ := asn1_find_end_loop_total fuel cbs2 eoc_count (by omega)
              refine ⟨r, hr, h1, fun h3 => ?_⟩
              obtain ⟨k, hk⟩ := h2 h3
              exact ⟨k0 + _ + k, CBS.advanced_trans (CBS.advanced_trans a a2) hk⟩
    · split
      · exact ⟨_, rfl, Or.inr rfl, fun h3 => by simp at h3⟩
      · exact ⟨_, rfl, Or.inl rfl, fun _ => ⟨0, CBS.advanced_refl cbs⟩⟩

theorem asn1_find_end_total (cbs : CBS) (length : Nat) (indefinite : Bool) :
    ∃ r, asn1_find_end cbs length indefinite = some r ∧ (r.ret = 1 ∨ r.ret = 0) ∧
      (r.ret = 1 → ∃ k, CBS.advanced cbs r.cbs k) := by
  unfold asn1_find_end
  split
  · split
    · exact ⟨_, rfl, Or.inr rfl, fun h3 => by simp at h3⟩
    · rename_i cbs1 hs
      exact ⟨_, rfl, Or.inl rfl, fun _ => ⟨_, CBS_skip_advanced hs⟩⟩
  · exact asn1_find_end_loop_total _ _ _ (by simp [CBS_len])

theorem asn1_collect_fuel_total : ∀ (fuel : Nat),
    (∀ (cbb : List UInt8) (cbs : CBS) (indefinite : Bool) (etag ecls depth : Int),
      cbs.data.length + 2 ≤ fuel →
      ∃ r, asn1_collect_fuel fuel cbb cbs indefinite etag ecls depth = some r ∧
        (r.ret = 1 ∨ r.ret = 0) ∧ (r.ret = 1 → ∃ k, CBS.advanced cbs r.cbs k)) ∧
    (∀ (cbb : List UInt8) (cbs : CBS) (need_eoc : Bool) (etag ecls depth : Int),
      cbs.data.length + 1 ≤ fuel →
      ∃ r, asn1_collect_loop fuel cbb cbs need_eoc etag ecls depth = some r ∧
        (r.ret = 1 ∨ r.ret = 0) ∧ (r.ret = 1 → ∃ k, CBS.advanced cbs r.cbs k))
  | 0 => ⟨fun _ _ _ _ _ _ h => by omega, fun _ _ _ _ _ _ h => by omega⟩
  | fuel + 1 => by
    obtain ⟨ih1, ih2⟩ := asn1_collect_fuel_total fuel
    constructor
    · intro cbb cbs indefinite etag ecls depth h
      unfold asn1_collect_fuel
      split
      · exact ⟨_, rfl, Or.inr rfl, fun h3 => by simp at h3⟩
      · exact ih2 cbb cbs indefinite etag ecls depth (by omega)
    · intro cbb cbs need_eoc etag ecls depth h
      unfold asn1_collect_loop
      split
      · split
        · rename_i cbs1 he
          split
          · exact ⟨_, rfl, Or.inr rfl, fun h3 => by simp at h3⟩
          · exact ⟨_, rfl, Or.inl rfl, fun _ => ⟨2, (asn1_check_eoc_advanced he).1⟩⟩
        · split
          · exact ⟨_, rfl, Or.inr rfl, fun h3 => by simp at h3⟩
          · rename_i hne
            have hok := asn1_check_tag_ok_of_ne_zero hne
            obtain ⟨⟨k0, hk0, a⟩, hdef, _, _⟩ := asn1_check_tag_ok hok
            have hl := CBS.advanced_length a
            split
            · obtain ⟨r, hr, h1, h2⟩ := ih1 cbb (asn1_check_tag cbs etag ecls false).cbs
                (asn1_check_tag cbs etag ecls false).indefinite etag ecls (depth + 1) (by omega)
              rw [hr]
              simp only
              split
              · rename_i h0
                exact ⟨_, rfl, Or.inr h0, fun h3 => by omega⟩
              · rename_i h0
                have hr1 : r.ret = 1 := by omega
                obtain ⟨k1, a1⟩ := h2 hr1
                have hl1 := CBS.advanced_length a1
                obtain ⟨r2, hr2, h21, h22⟩ := ih2 r.cbb r.cbs need_eoc etag ecls depth (by omega)
                refine ⟨r2, hr2, h21, fun h3 => ?_⟩
                obtain ⟨k2, a2⟩ := h22 h3
                exact ⟨k0 + k1 + k2, CBS.advanced_trans (CBS.advanced_trans a a1) a2⟩
            · split
              · exact ⟨_, rfl, Or.inr rfl, fun h3 => by simp at h3⟩
              · rename_i content cbs2 hg
                have a1 := (CBS_get_bytes_advanced hg).1
                have hl1 := CBS.advanced_length a1
                obtain ⟨r2, hr2, h21, h22⟩ := ih2 (cbb ++ content.data) cbs2 need_eoc etag ecls
                  depth (by omega)
                refine ⟨r2, hr2, h21, fun h3 => ?_⟩
                obtain ⟨k2, a2⟩ := h22 h3
                exact ⟨k0 + _ + k2, CBS.advanced_trans (CBS.advanced_trans a a1) a2⟩
      · split
        · exact ⟨_, rfl, Or.inr rfl, fun h3 => by simp at h3⟩
        · exact ⟨_, rfl, Or.inl rfl, fun _ => ⟨0, CBS.advanced_refl cbs⟩⟩

theorem asn1_collect_total (cbb : List UInt8) (cbs : CBS) (indefinite : Bool)
    (etag ecls depth : Int) :
    ∃ r, asn1_collect cbb cbs indefinite etag ecls depth = some r ∧
      (r.ret = 1 ∨ r.ret = 0) ∧ (r.ret = 1 → ∃ k, CBS.advanced cbs r.cbs k) :=
  (asn1_collect_fuel_total _).1 cbb cbs indefinite etag ecls depth (by simp [CBS_len])

/-! ## Results of the decoders are well formed -/

/-- A decode result is well formed for the cursor `cbs` it started from and
the `optional` argument it was given: the return value is 1, 0 or -1; on
success the cursor has advanced by at least two bytes; absence is reported
only in optional mode, with the cursor where it was and no error pushed. -/
def Out.wf (cbs : CBS) (opt : Bool) (r : Out) : Prop :=
  (r.ret = 1 ∨ r.ret = 0 ∨ r.ret = -1) ∧
  (r.ret = 1 → ∃ k, 2 ≤ k ∧ CBS.advanced cbs r.cbs k) ∧
  (r.ret = -1 → opt = true ∧ r.cbs = cbs ∧ r.errs = [])

/-- The decoder call finished with a well-formed result. -/
def DecOk (cbs : CBS) (opt : Bool) (o : Option Out) : Prop :=
  ∃ r, o = some r ∧ Out.wf cbs opt r

theorem DecOk.fail {cbs : CBS} {opt : Bool} (v : ASN1_VALUE) (errs : List ASN1_R) :
    DecOk cbs opt (some ⟨0, v, cbs, errs⟩) :=
  ⟨_, rfl, Or.inr (Or.inl rfl), fun h => by simp at h, fun h => by simp at h⟩

theorem DecOk.fail_at {cbs : CBS} {opt : Bool} (v : ASN1_VALUE) (c : CBS) (errs : List ASN1_R) :
    DecOk cbs opt (some ⟨0, v, c, errs⟩) :=
  ⟨_, rfl, Or.inr (Or.inl rfl), fun h => by simp at h, fun h => by simp at h⟩

theorem skip_offset_of_advanced {cbs x : CBS} {k : Nat}
    (h : CBS.advanced (CBS_init cbs.data) x k) :
    ∃ c1, CBS_skip cbs (CBS_offset x) = some c1 ∧ CBS.advanced cbs c1 k := by
  have ho : CBS_offset x = k := CBS.advanced_offset h rfl
  have hk : k ≤ cbs.data.length := h.1
  rw [ho, CBS_skip_of_le cbs k hk]
  exact ⟨_, rfl, hk, rfl, rfl⟩

theorem primitive_content_finish_ok (env : Env) (pval : ASN1_VALUE) (cbs x content : CBS)
    (utype : Int) (it : ASN1_ITEM) (opt : Bool) {k : Nat} (hk : 2 ≤ k)
    (h : CBS.advanced (CBS_init cbs.data) x k) :
    Out.wf cbs opt (primitive_content_finish env pval cbs x content utype it) := by
  obtain ⟨c1, hc1, a1⟩ := skip_offset_of_advanced h
  unfold primitive_content_finish
  split
  · exact ⟨Or.inr (Or.inl rfl), fun h => by simp at h, fun h => by simp at h⟩
  · rw [hc1]
    exact ⟨Or.inl rfl, fun _ => ⟨k, hk, a1⟩, fun h => by simp at h⟩

theorem asn1_d2i_ex_primitive_content_ok (env : Env) (pval : ASN1_VALUE) (cbs x : CBS)
    (utype : Int) (constructed indefinite : Bool) (length : Nat) (it : ASN1_ITEM) (opt : Bool)
    {k : Nat} (hk : 2 ≤ k) (h : CBS.advanced (CBS_init cbs.data) x k) :
    DecOk cbs opt
      (asn1_d2i_ex_primitive_content env pval cbs x utype constructed indefinite length it) := by
  unfold asn1_d2i_ex_primitive_content
  split
  · exact DecOk.fail _ _
  · split
    · obtain ⟨f, hf, hf1, hf2⟩ := asn1_find_end_total x length indefinite
      rw [hf]
      simp only
      split
      · exact DecOk.fail _ _
      · rename_i h0
        have h1 : f.ret = 1 := by omega
        obtain ⟨k1, a1⟩ := hf2 h1
        split
        · exact DecOk.fail _ _
        · exact ⟨_, rfl, primitive_content_finish_ok env pval cbs f.cbs _ utype it opt
            (by omega : 2 ≤ k + k1) (CBS.advanced_trans h a1)⟩
    · split
      · obtain ⟨c, hc, hc1, hc2⟩ := asn1_collect_total [] x indefinite (-1) V_ASN1_UNIVERSAL 0
        rw [hc]
        simp only
        split
        · exact DecOk.fail _ _
        · rename_i h0
          have h1 : c.ret = 1 := by omega
          obtain ⟨k1, a1⟩ := hc2 h1
          exact ⟨_, rfl, primitive_content_finish_ok env pval cbs c.cbs _ utype it opt
            (by omega : 2 ≤ k + k1) (CBS.advanced_trans h a1)⟩
      · split
        · exact DecOk.fail _ _
        · rename_i content x1 hg
          have a1 := (CBS_get_bytes_advanced hg).1
          exact ⟨_, rfl, primitive_content_finish_ok env pval cbs x1 _ utype it opt
            (by omega : 2 ≤ k + length) (CBS.advanced_trans h a1)⟩

theorem asn1_d2i_ex_any_ok (env : Env) (pval : ASN1_VALUE) (cbs : CBS) (it : ASN1_ITEM)
    (tag cls : Int) (opt : Bool) :
    DecOk cbs opt (asn1_d2i_ex_any env pval cbs it tag cls opt) := by
  unfold asn1_d2i_ex_any
  split
  · exact DecOk.fail _ _
  · split
    · exact DecOk.fail _ _
    · split
      · exact DecOk.fail _ _
      · split
        · exact DecOk.fail _ _
        · rename_i h1
          have h1 : (asn1_check_tag (CBS_init cbs.data) (-1) 0 false).ret = 1 := by
            simpa using h1
          obtain ⟨⟨k, hk, a⟩, _⟩ := asn1_check_tag_ok h1
          exact asn1_d2i_ex_primitive_content_ok env pval cbs _ _ _ _ _ it opt hk a

theorem asn1_d2i_ex_mstring_ok (env : Env) (pval : ASN1_VALUE) (cbs : CBS) (it : ASN1_ITEM)
    (tag cls : Int) (opt : Bool) :
    DecOk cbs opt (asn1_d2i_ex_mstring env pval cbs it tag cls opt) := by
  unfold asn1_d2i_ex_mstring
  split
  · exact DecOk.fail _ _
  · split
    · exact DecOk.fail _ _
    · rename_i h1
      have h1 : (asn1_check_tag (CBS_init cbs.data) (-1) 0 true).ret = 1 := by
        simpa using h1
      obtain ⟨⟨k, hk, a⟩, _⟩ := asn1_check_tag_ok h1
      split
      · split
        · rename_i ho
          exact ⟨_, rfl, Or.inr (Or.inr rfl), fun h => by simp at h, fun _ => ⟨ho, rfl, rfl⟩⟩
        · exact DecOk.fail _ _
      · split
        · split
          · rename_i ho
            exact ⟨_, rfl, Or.inr (Or.inr rfl), fun h => by simp at h, fun _ => ⟨ho, rfl, rfl⟩⟩
          · exact DecOk.fail _ _
        · exact asn1_d2i_ex_primitive_content_ok env pval cbs _ _ _ _ _ it opt hk a

theorem asn1_d2i_ex_primitive_ok (env : Env) (pval : ASN1_VALUE) (cbs : CBS) (it : ASN1_ITEM)
    (tag cls : Int) (opt : Bool) :
    DecOk cbs opt (asn1_d2i_ex_primitive env pval cbs it tag cls opt) := by
  unfold asn1_d2i_ex_primitive
  generalize (if tag = -1 then it.utype else tag) = et
  generalize (if tag = -1 then V_ASN1_UNIVERSAL else cls) = ec
  split
  · exact DecOk.fail _ _
  · split
    · exact asn1_d2i_ex_any_ok env pval cbs it tag cls opt
    · split
      · rename_i ha
        exact ⟨_, rfl, Or.inr (Or.inr rfl), fun h => by simp at h,
          fun _ => ⟨(asn1_check_tag_absent ha).1, rfl, rfl⟩⟩
      · split
        · exact DecOk.fail _ _
        · rename_i h1
          have h1 := of_not_not h1
          obtain ⟨⟨k, hk, a⟩, _⟩ := asn1_check_tag_ok h1
          exact asn1_d2i_ex_primitive_content_ok env pval cbs _ _ _ _ _ it opt hk a

/-- No item of the descriptor table is an EXTERN item. -/
def NoExtern (env : Env) : Prop := ∀ k, (env.item k).itype ≠ ASN1_ITYPE_EXTERN

/-- At depth `depth` the item decoder `d2i` finishes with a well-formed
result on every item that is not an EXTERN item. -/
def ItemDec.GoodAt (d2i : ItemDec) (depth : Int) : Prop :=
  ∀ pval cbs (it : ASN1_ITEM) tag cls opt, it.itype ≠ ASN1_ITYPE_EXTERN →
    DecOk cbs opt (d2i pval cbs it tag cls opt depth)

/-- At depth `depth` the template decoder `tdec` finishes with a well-formed
result. -/
def TemplateDec.GoodAt (tdec : TemplateDec) (depth : Int) : Prop :=
  ∀ pval cbs tt opt, DecOk cbs opt (tdec pval cbs tt opt depth)

theorem stack_of_loop_total {d2i : ItemDec} {depth : Int} (hd : ItemDec.GoodAt d2i depth)
    {it : ASN1_ITEM} (hit : it.itype ≠ ASN1_ITYPE_EXTERN) :
    ∀ (n : Nat) (avals : List ASN1_VALUE) (content : CBS) (eoc_needed : Bool)
      (errs : List ASN1_R), content.data.length < n →
      ∃ l, stack_of_loop d2i it depth n avals content eoc_needed errs = some l ∧
        (l.ret = 1 ∨ l.ret = 0) ∧ (l.ret = 1 → ∃ k, CBS.advanced content l.cbs k)
  | 0, _, _, _, _, h => by omega
  | n + 1, avals, content, eoc_needed, errs, h => by
    unfold stack_of_loop
    split
    · split
      · rename_i c1 he
        split
        · exact ⟨_, rfl, Or.inr rfl, fun h3 => by simp at h3⟩
        · exact ⟨_, rfl, Or.inl rfl, fun _ => ⟨2, (asn1_check_eoc_advanced he).1⟩⟩
      · obtain ⟨r, hr, hr1, hr2, hr3⟩ := hd (some ASN1_VALUE.null) content it (-1) 0 false hit
        rw [hr]
        simp only
        split
        · exact ⟨_, rfl, Or.inr rfl, fun h3 => by simp at h3⟩
        · rename_i h0
          have h1 : r.ret = 1 := by
            rcases hr1 with h1 | h1 | h1
            · exact h1
            · exact absurd h1 h0
            · have := (hr3 h1).1
              cases this
          obtain ⟨k, hk, a⟩ := hr2 h1
          have hl := CBS.advanced_length a
          obtain ⟨l, hl1, hl2, hl3⟩ := stack_of_loop_total hd hit n (avals ++ [r.pval]) r.cbs
            eoc_needed (errs ++ r.errs) (by omega)
          refine ⟨l, hl1, hl2, fun h3 => ?_⟩
          obtain ⟨k1, a1⟩ := hl3 h3
          exact ⟨k + k1, CBS.advanced_trans a a1⟩
    · exact ⟨_, rfl, Or.inl rfl, fun _ => ⟨0, CBS.advanced_refl content⟩⟩

theorem skip_offset_of_content {x content c1 : CBS} {k : Nat}
    (hc : content = CBS_init x.data) (a : CBS.advanced content c1 k) :
    ∃ x1, CBS_skip x (CBS_offset c1) = some x1 ∧ CBS.advanced x x1 k := by
  subst hc
  exact skip_offset_of_advanced a

theorem stack_of_body_ok {d2i : ItemDec} {depth : Int} (hd : ItemDec.GoodAt d2i depth)
    {env : Env} (he : NoExtern env) (cbs x content : CBS) (tt : ASN1_TEMPLATE)
    (indefinite opt : Bool) {k0 : Nat} (hk0 : 2 ≤ k0)
    (a0 : CBS.advanced (CBS_init cbs.data) x k0)
    (hc : indefinite = true → content = CBS_init x.data) :
    DecOk cbs opt (stack_of_body d2i env cbs x content tt indefinite depth) := by
  unfold stack_of_body
  obtain ⟨l, hl1, hl2, hl3⟩ := stack_of_loop_total hd (he tt.item) (CBS_len content + 1) []
    content indefinite [] (by simp [CBS_len])
  rw [hl1]
  simp only
  split
  · exact DecOk.fail _ _
  · rename_i h0
    have h1 : l.ret = 1 := by omega
    obtain ⟨k, a⟩ := hl3 h1
    split
    · exact DecOk.fail _ _
    · cases indefinite with
      | true =>
        obtain ⟨x1, hx1, ax1⟩ := skip_offset_of_content (hc rfl) a
        simp only [if_true, hx1]
        obtain ⟨c1, hc1, ac1⟩ := skip_offset_of_advanced (CBS.advanced_trans a0 ax1)
        rw [hc1]
        exact ⟨_, rfl, Or.inl rfl, fun _ => ⟨k0 + k, by omega, ac1⟩, fun h => by simp at h⟩
      | false =>
        obtain ⟨c1, hc1, ac1⟩ := skip_offset_of_advanced a0
        simp [hc1]
        exact ⟨_, rfl, Or.inl rfl, fun _ => ⟨k0, hk0, ac1⟩, fun h => by simp at h⟩

theorem asn1_template_stack_of_d2i_ok {d2i : ItemDec} {depth : Int}
    (hd : ItemDec.GoodAt d2i depth) {env : Env} (he : NoExtern env) (pval : Option ASN1_VALUE)
    (cbs : CBS) (tt : ASN1_TEMPLATE) (opt : Bool) :
    DecOk cbs opt (asn1_template_stack_of_d2i d2i env pval cbs tt opt depth) := by
  unfold asn1_template_stack_of_d2i
  split
  · exact DecOk.fail _ _
  · split
    · rename_i ha
      exact ⟨_, rfl, Or.inr (Or.inr rfl), fun h => by simp at h,
        fun _ => ⟨(asn1_check_tag_absent ha).1, rfl, rfl⟩⟩
    · split
      · exact DecOk.fail _ _
      · rename_i h1
        have h1 := of_not_not h1
        obtain ⟨⟨k, hk, a⟩, hdef, _, _⟩ := asn1_check_tag_ok h1
        split
        · exact stack_of_body_ok hd he cbs _ _ tt true opt hk a (fun _ => rfl)
        · split
          · exact DecOk.fail _ _
          · rename_i content x hg
            have a1 := (CBS_get_bytes_advanced hg).1
            exact stack_of_body_ok hd he cbs x content tt false opt (by omega : 2 ≤ k + _)
              (CBS.advanced_trans a a1) (fun h => by cases h)

theorem asn1_template_noexp_d2i_ok {d2i : ItemDec} {depth : Int}
    (hd : ItemDec.GoodAt d2i depth) {env : Env} (he : NoExtern env) (pval : Option ASN1_VALUE)
    (cbs : CBS) (tt : ASN1_TEMPLATE) (opt : Bool) :
    DecOk cbs opt (asn1_template_noexp_d2i d2i env pval cbs tt opt depth) := by
  unfold asn1_template_noexp_d2i
  split
  · exact DecOk.fail _ _
  · rename_i v
    split
    · exact asn1_template_stack_of_d2i_ok hd he (some v) cbs tt opt
    · obtain ⟨r, hr, hr1, hr2, hr3⟩ := hd (some v) cbs (env.item tt.item)
        (if tt.flags &&& ASN1_TFLG_IMPTAG ≠ 0 then tt.tag else -1)
        (if tt.flags &&& ASN1_TFLG_IMPTAG ≠ 0
          then ((tt.flags &&& ASN1_TFLG_TAG_CLASS : Nat) : Int) else V_ASN1_UNIVERSAL)
        opt (he tt.item)
      rw [hr]
      simp only
      split
      · rename_i ha
        exact ⟨_, rfl, Or.inr (Or.inr rfl), fun h => by simp at h, fun _ => hr3 ha⟩
      · split
        · exact DecOk.fail_at _ _ _
        · rename_i h1
          have h1 := of_not_not h1
          exact ⟨_, rfl, Or.inl rfl, fun _ => hr2 h1, fun h => by simp at h⟩

theorem template_explicit_body_ok {d2i : ItemDec} {depth : Int}
    (hd : ItemDec.GoodAt d2i depth) {env : Env} (he : NoExtern env) (v : ASN1_VALUE)
    (cbs x content : CBS) (tt : ASN1_TEMPLATE) (indefinite opt : Bool) {k0 : Nat}
    (hk0 : 2 ≤ k0) (a0 : CBS.advanced (CBS_init cbs.data) x k0)
    (hc : indefinite = true → content = CBS_init x.data) :
    DecOk cbs opt (template_explicit_body d2i env v cbs x content tt indefinite depth) := by
  unfold template_explicit_body
  obtain ⟨r, hr, hr1, hr2, hr3⟩ := asn1_template_noexp_d2i_ok hd he (some v) content tt false
  rw [hr]
  simp only
  split
  · exact DecOk.fail _ _
  · rename_i h1
    have h1 := of_not_not h1
    obtain ⟨k, hk, a⟩ := hr2 h1
    split
    · rename_i hi
      split
      · exact DecOk.fail _ _
      · rename_i c1 hce
        have a1 := (asn1_check_eoc_advanced hce).1
        obtain ⟨x1, hx1, ax1⟩ := skip_offset_of_content (hc hi) (CBS.advanced_trans a a1)
        rw [hx1]
        simp only
        obtain ⟨c2, hc2, ac2⟩ := skip_offset_of_advanced (CBS.advanced_trans a0 ax1)
        rw [hc2]
        exact ⟨_, rfl, Or.inl rfl, fun _ => ⟨_, by omega, ac2⟩, fun h => by simp at h⟩
    · split
      · exact DecOk.fail _ _
      · obtain ⟨c2, hc2, ac2⟩ := skip_offset_of_advanced a0
        rw [hc2]
        exact ⟨_, rfl, Or.inl rfl, fun _ => ⟨_, hk0, ac2⟩, fun h => by simp at h⟩

theorem asn1_template_ex_d2i_ok {d2i : ItemDec} {depth : Int}
    (hd : ItemDec.GoodAt d2i depth) {env : Env} (he : NoExtern env) :
    TemplateDec.GoodAt (asn1_template_ex_d2i d2i env) depth := by
  intro pval cbs tt opt
  unfold asn1_template_ex_d2i
  split
  · exact DecOk.fail _ _
  · rename_i v
    split
    · exact asn1_template_noexp_d2i_ok hd he (some v) cbs tt opt
    · split
      · rename_i ha
        exact ⟨_, rfl, Or.inr (Or.inr rfl), fun h => by simp at h,
          fun _ => ⟨(asn1_check_tag_absent ha).1, rfl, rfl⟩⟩
      · split
        · exact DecOk.fail _ _
        · rename_i h1
          have h1 := of_not_not h1
          obtain ⟨⟨k, hk, a⟩, hdef, _, _⟩ := asn1_check_tag_ok h1
          split
          · exact DecOk.fail _ _
          · split
            · exact template_explicit_body_ok hd he v cbs _ _ tt true opt hk a (fun _ => rfl)
            · split
              · exact DecOk.fail _ _
              · rename_i content x hg
                have a1 := (CBS_get_bytes_advanced hg).1
                exact template_explicit_body_ok hd he v cbs x content tt false opt
                  (by omega : 2 ≤ k + _) (CBS.advanced_trans a a1) (fun h => by cases h)

theorem choice_fields_total {tdec : TemplateDec} {depth : Int}
    (ht : TemplateDec.GoodAt tdec depth) :
    ∀ (tts : List ASN1_TEMPLATE) (i : Nat) (achoice : ASN1_VALUE) (cbs : CBS)
      (errs : List ASN1_R),
      ∃ l, choice_fields tdec depth tts i achoice cbs errs = some l ∧
        (l.ret = 1 ∨ l.ret = 0 ∨ l.ret = -1) ∧
        (l.ret = 1 → ∃ k, 2 ≤ k ∧ CBS.advanced cbs l.cbs k) ∧
        (l.ret = -1 → l.cbs = cbs ∧ l.errs = errs)
  | [], i, achoice, cbs, errs => by
    unfold choice_fields
    exact ⟨_, rfl, Or.inr (Or.inr rfl), fun h => by simp at h, fun _ => ⟨rfl, rfl⟩⟩
  | tt :: rest, i, achoice, cbs, errs => by
    unfold choice_fields
    obtain ⟨r, hr, hr1, hr2, hr3⟩ := ht (some (asn1_get_field achoice tt)) cbs tt true
    rw [hr]
    simp only
    split
    · rename_i ha
      obtain ⟨_, hc, he⟩ := hr3 ha
      obtain ⟨l, hl, hl1, hl2, hl3⟩ := choice_fields_total ht rest (i + 1)
        (asn1_set_field achoice tt r.pval) r.cbs (errs ++ r.errs)
      refine ⟨l, hl, hl1, ?_, ?_⟩
      · intro h1
        rw [← hc]
        exact hl2 h1
      · intro h1
        obtain ⟨h2, h3⟩ := hl3 h1
        rw [h2, h3, hc, he]
        simp
    · split
      · exact ⟨_, rfl, Or.inr (Or.inl rfl), fun h => by simp at h, fun h => by simp at h⟩
      · rename_i h1
        have h1 := of_not_not h1
        exact ⟨_, rfl, Or.inl rfl, fun _ => hr2 h1, fun h => by simp at h⟩

theorem asn1_item_ex_d2i_choice_ok {tdec : TemplateDec} {depth : Int}
    (ht : TemplateDec.GoodAt tdec depth) (pval : ASN1_VALUE) (cbs : CBS) (it : ASN1_ITEM)
    (tag cls : Int) (opt : Bool) :
    DecOk cbs opt (asn1_item_ex_d2i_choice tdec pval cbs it tag cls opt depth) := by
  unfold asn1_item_ex_d2i_choice
  split
  · exact DecOk.fail _ _
  · split
    · exact DecOk.fail _ _
    · split
      · exact DecOk.fail _ _
      · rename_i achoice0 _
        split
        · exact DecOk.fail _ _
        · rename_i achoice1 _
          obtain ⟨l, hl, hl1, hl2, hl3⟩ := choice_fields_total ht it.templates 0 achoice1 cbs []
          rw [hl]
          simp only
          split
          · exact DecOk.fail_at _ _ _
          · split
            · rename_i ha
              split
              · rename_i ho
                exact ⟨_, rfl, Or.inr (Or.inr rfl), fun h => by simp at h,
                  fun _ => ⟨ho, (hl3 ha).1, (hl3 ha).2⟩⟩
              · exact DecOk.fail_at _ _ _
            · rename_i h0 hm
              have h1 : l.ret = 1 := by
                rcases hl1 with h | h | h
                · exact h
                · exact absurd h h0
                · exact absurd h hm
              split
              · exact DecOk.fail_at _ _ _
              · exact ⟨_, rfl, Or.inl rfl, fun _ => hl2 h1, fun h => by simp at h⟩

theorem sequence_fields_total {tdec : TemplateDec} {depth : Int}
    (ht : TemplateDec.GoodAt tdec depth) (env : Env) (it : ASN1_ITEM) (indefinite : Bool) :
    ∀ (tts : List ASN1_TEMPLATE) (i : Nat) (aseq : ASN1_VALUE) (content : CBS)
      (eoc_needed : Bool) (errs : List ASN1_R),
      ∃ l, sequence_fields env tdec it depth indefinite tts i aseq content eoc_needed errs
          = some l ∧
        (l.ret = 1 ∨ l.ret = 0) ∧ (l.ret = 1 → ∃ k, CBS.advanced content l.cbs k)
  | [], i, aseq, content, eoc_needed, errs => by
    unfold sequence_fields
    exact ⟨_, rfl, Or.inl rfl, fun _ => ⟨0, CBS.advanced_refl content⟩⟩
  | tt :: rest, i, aseq, content, eoc_needed, errs => by
    unfold sequence_fields
    split
    · rename_i c1 he
      split
      · exact ⟨_, rfl, Or.inr rfl, fun h => by simp at h⟩
      · exact ⟨_, rfl, Or.inl rfl, fun _ => ⟨2, (asn1_check_eoc_advanced he).1⟩⟩
    · split
      · exact ⟨_, rfl, Or.inl rfl, fun _ => ⟨0, CBS.advanced_refl content⟩⟩
      · split
        · exact ⟨_, rfl, Or.inr rfl, fun h => by simp at h⟩
        · rename_i seqtt _
          obtain ⟨r, hr, hr1, hr2, hr3⟩ := ht (some (asn1_get_field aseq seqtt)) content seqtt
            (optional_field it i seqtt)
          rw [hr]
          simp only
          split
          · rename_i ha
            obtain ⟨_, hc, _⟩ := hr3 ha
            obtain ⟨l, hl, hl1, hl2⟩ := sequence_fields_total ht env it indefinite rest (i + 1)
              (asn1_set_field aseq seqtt ASN1_VALUE.null) r.cbs eoc_needed (errs ++ r.errs)
            refine ⟨l, hl, hl1, fun h1 => ?_⟩
            rw [← hc]
            exact hl2 h1
          · split
            · exact ⟨_, rfl, Or.inr rfl, fun h => by simp at h⟩
            · rename_i h1
              have h1 := of_not_not h1
              obtain ⟨k, _, a⟩ := hr2 h1
              obtain ⟨l, hl, hl1, hl2⟩ := sequence_fields_total ht env it indefinite rest (i + 1)
                (asn1_set_field aseq seqtt r.pval) r.cbs eoc_needed (errs ++ r.errs)
              refine ⟨l, hl, hl1, fun h2 => ?_⟩
              obtain ⟨k1, a1⟩ := hl2 h2
              exact ⟨k + k1, CBS.advanced_trans a a1⟩

theorem sequence_publish_ok (env : Env) (cbs x : CBS) (it : ASN1_ITEM) (l : SeqLoopOut)
    (opt : Bool) {k0 : Nat} (hk0 : 2 ≤ k0) (a0 : CBS.advanced (CBS_init cbs.data) x k0) :
    Out.wf cbs opt (sequence_publish env cbs x it l) := by
  unfold sequence_publish
  have ho : CBS_offset x = k0 := CBS.advanced_offset a0 rfl
  have hk : k0 ≤ cbs.data.length := a0.1
  split
  · exact ⟨Or.inr (Or.inl rfl), fun h => by simp at h, fun h => by simp at h⟩
  · rw [ho, CBS_get_bytes_of_le cbs k0 hk]
    simp only
    split
    · exact ⟨Or.inr (Or.inl rfl), fun h => by simp at h, fun h => by simp at h⟩
    · split
      · exact ⟨Or.inr (Or.inl rfl), fun h => by simp at h, fun h => by simp at h⟩
      · exact ⟨Or.inl rfl, fun _ => ⟨k0, hk0, hk, rfl, rfl⟩, fun h => by simp at h⟩

theorem sequence_finish_ok (env : Env) (cbs x content : CBS) (it : ASN1_ITEM)
    (indefinite opt : Bool) (l : SeqLoopOut) {k0 k : Nat} (hk0 : 2 ≤ k0)
    (a0 : CBS.advanced (CBS_init cbs.data) x k0)
    (hc : indefinite = true → content = CBS_init x.data)
    (a : CBS.advanced content l.cbs k) :
    Out.wf cbs opt (sequence_finish env cbs x it indefinite l) := by
  unfold sequence_finish
  split
  · rename_i hi
    obtain ⟨x1, hx1, ax1⟩ := skip_offset_of_content (hc hi) a
    rw [hx1]
    exact sequence_publish_ok env cbs x1 it l opt (by omega : 2 ≤ k0 + k)
      (CBS.advanced_trans a0 ax1)
  · split
    · exact ⟨Or.inr (Or.inl rfl), fun h => by simp at h, fun h => by simp at h⟩
    · exact sequence_publish_ok env cbs x it l opt hk0 a0

theorem sequence_body_ok {tdec : TemplateDec} {depth : Int}
    (ht : TemplateDec.GoodAt tdec depth) (env : Env) (cbs x content : CBS) (it : ASN1_ITEM)
    (indefinite opt : Bool) {k0 : Nat} (hk0 : 2 ≤ k0)
    (a0 : CBS.advanced (CBS_init cbs.data) x k0)
    (hc : indefinite = true → content = CBS_init x.data) :
    DecOk cbs opt (sequence_body env tdec cbs x content it indefinite depth) := by
  unfold sequence_body
  split
  · exact DecOk.fail _ _
  · split
    · exact DecOk.fail _ _
    · rename_i aseq1 _
      obtain ⟨l, hl, hl1, hl2⟩ := sequence_fields_total ht env it indefinite it.templates 0
        aseq1 content indefinite []
      rw [hl]
      simp only
      split
      · exact DecOk.fail _ _
      · rename_i h0
        have h1 : l.ret = 1 := by omega
        obtain ⟨k, a⟩ := hl2 h1
        split
        · split
          · exact DecOk.fail _ _
          · rename_i c1 hce
            have a1 := (asn1_check_eoc_advanced hce).1
            exact ⟨_, rfl, sequence_finish_ok env cbs x content it indefinite opt _ hk0 a0 hc
              (CBS.advanced_trans a a1)⟩
        · exact ⟨_, rfl, sequence_finish_ok env cbs x content it indefinite opt l hk0 a0 hc a⟩

theorem asn1_item_ex_d2i_sequence_ok {tdec : TemplateDec} {depth : Int}
    (ht : TemplateDec.GoodAt tdec depth) (env : Env) (pval : ASN1_VALUE) (cbs : CBS)
    (it : ASN1_ITEM) (tag cls : Int) (opt : Bool) :
    DecOk cbs opt (asn1_item_ex_d2i_sequence env tdec pval cbs it tag cls opt depth) := by
  unfold asn1_item_ex_d2i_sequence
  generalize (if tag = -1 then V_ASN1_SEQUENCE else tag) = et
  generalize (if tag = -1 then V_ASN1_UNIVERSAL else cls) = ec
  split
  · exact DecOk.fail _ _
  · split
    · rename_i ha
      exact ⟨_, rfl, Or.inr (Or.inr rfl), fun h => by simp at h,
        fun _ => ⟨(asn1_check_tag_absent ha).1, rfl, rfl⟩⟩
    · split
      · exact DecOk.fail _ _
      · rename_i h1
        have h1 := of_not_not h1
        obtain ⟨⟨k, hk, a⟩, hdef, _, _⟩ := asn1_check_tag_ok h1
        split
        · exact DecOk.fail _ _
        · split
          · exact sequence_body_ok ht env cbs _ _ it true opt hk a (fun _ => rfl)
          · split
            · exact DecOk.fail _ _
            · rename_i content x hg
              have a1 := (CBS_get_bytes_advanced hg).1
              exact sequence_body_ok ht env cbs x content it false opt (by omega : 2 ≤ k + _)
                (CBS.advanced_trans a a1) (fun h => by cases h)

theorem asn1_item_ex_d2i_step {env : Env} (he : NoExtern env) (fuel : Nat) (depth : Int)
    (ih : depth + 1 ≤ 30 → ItemDec.GoodAt (asn1_item_ex_d2i env fuel) (depth + 1)) :
    ItemDec.GoodAt (asn1_item_ex_d2i env (fuel + 1)) depth := by
  intro pval cbs it tag cls opt hit
  unfold asn1_item_ex_d2i
  split
  · exact DecOk.fail _ _
  · rename_i v
    split
    · exact DecOk.fail _ _
    · rename_i hdepth
      have hd : depth + 1 ≤ 30 := by
        simp only [ASN1_MAX_CONSTRUCTED_NEST] at hdepth
        omega
      have ht := asn1_template_ex_d2i_ok (ih hd) he
      split
      · split
        · split
          · exact DecOk.fail _ _
          · exact ht _ _ _ _
        · exact asn1_d2i_ex_primitive_ok env v cbs it tag cls opt
      · split
        · exact asn1_d2i_ex_mstring_ok env v cbs it tag cls opt
        · split
          · exact asn1_item_ex_d2i_choice_ok ht v cbs it tag cls opt
          · split
            · exact asn1_item_ex_d2i_sequence_ok ht env v cbs it tag cls opt
            · exact DecOk.fail _ _

/-- With `fuel` nested calls allowed, `asn1_item_ex_d2i` finishes with a
well-formed result at every depth `d` with `31 ≤ fuel + d`. -/
theorem asn1_item_ex_d2i_total {env : Env} (he : NoExtern env) :
    ∀ (fuel : Nat) (depth : Int), 31 ≤ (fuel : Int) + depth → 1 ≤ fuel →
      ItemDec.GoodAt (asn1_item_ex_d2i env fuel) depth
  | 0, _, _, h => by omega
  | fuel + 1, depth, h, _ => by
    apply asn1_item_ex_d2i_step he
    intro hd
    have hf : 1 ≤ fuel := by omega
    exact asn1_item_ex_d2i_total he fuel (depth + 1) (by push_cast at h; omega) hf

/-! ## The CHOICE loop -/

theorem choice_fields_nil (tdec : TemplateDec) (depth : Int) (i : Nat) (a : ASN1_VALUE)
    (c : CBS) (e : List ASN1_R) :
    choice_fields tdec depth [] i a c e = some ⟨-1, a, c, e⟩ := by
  rw [choice_fields]

theorem choice_fields_cons (tdec : TemplateDec) (depth : Int) (tt : ASN1_TEMPLATE)
    (rest : List ASN1_TEMPLATE) (i : Nat) (a : ASN1_VALUE) (c : CBS) (e : List ASN1_R) :
    choice_fields tdec depth (tt :: rest) i a c e =
      match tdec (some (asn1_get_field a tt)) c tt true depth with
      | none => none
      | some r =>
        if r.ret = -1 then
          choice_fields tdec depth rest (i + 1) (asn1_set_field a tt r.pval) r.cbs (e ++ r.errs)
        else if r.ret ≠ 1 then
          some ⟨0, asn1_set_field a tt r.pval, r.cbs, e ++ r.errs ++ [ASN1_R.NESTED_ASN1_ERROR]⟩
        else
          some ⟨1, asn1_set_choice_selector (asn1_set_field a tt r.pval) i, r.cbs,
            e ++ r.errs⟩ := by
  rw [choice_fields]

theorem choice_fields_append {tdec : TemplateDec} {depth : Int} :
    ∀ (pre suf : List ASN1_TEMPLATE) (i : Nat) (a : ASN1_VALUE) (c : CBS) (e : List ASN1_R)
      (A : ASN1_VALUE) (c1 : CBS) (e1 : List ASN1_R),
      choice_fields tdec depth pre i a c e = some ⟨-1, A, c1, e1⟩ →
      choice_fields tdec depth (pre ++ suf) i a c e
        = choice_fields tdec depth suf (i + pre.length) A c1 e1
  | [], suf, i, a, c, e, A, c1, e1, h => by
    rw [choice_fields_nil] at h
    cases h
    simp
  | tt :: pre, suf, i, a, c, e, A, c1, e1, h => by
    rw [List.cons_append, choice_fields_cons]
    rw [choice_fields_cons] at h
    cases hr : tdec (some (asn1_get_field a tt)) c tt true depth with
    | none => simp [hr] at h
    | some r =>
      simp only [hr] at h ⊢
      split at h
      · rename_i ha
        simp only [ha, if_true]
        rw [choice_fields_append pre suf (i + 1) _ _ _ A c1 e1 h]
        have hi : i + 1 + pre.length = i + (tt :: pre).length := by
          simp only [List.length_cons]
          omega
        rw [hi]
      · split at h
        · cases h
        · cases h

/-- The CHOICE loop is decided by the first field whose decode is not
absent: either the loop fell off the end, or the fields split into those
before that field, on which the loop falls off the end, the field itself,
whose decode in optional mode is not absent and fixes the result, and the
fields after it, which the result does not depend on. -/
theorem choice_fields_first_present {tdec : TemplateDec} {depth : Int} :
    ∀ (tts : List ASN1_TEMPLATE) (i : Nat) (a : ASN1_VALUE) (c : CBS) (e : List ASN1_R)
      (l : Out), choice_fields tdec depth tts i a c e = some l →
      l.ret = -1 ∨
      ∃ pre tt rest A c1 e1 r, tts = pre ++ tt :: rest ∧
        choice_fields tdec depth pre i a c e = some ⟨-1, A, c1, e1⟩ ∧
        tdec (some (asn1_get_field A tt)) c1 tt true depth = some r ∧ r.ret ≠ -1 ∧
        l = (if r.ret = 1 then
              ⟨1, asn1_set_choice_selector (asn1_set_field A tt r.pval) (i + pre.length),
                r.cbs, e1 ++ r.errs⟩
            else ⟨0, asn1_set_field A tt r.pval, r.cbs,
              e1 ++ r.errs ++ [ASN1_R.NESTED_ASN1_ERROR]⟩)
  | [], i, a, c, e, l, h => by
    rw [choice_fields_nil] at h
    cases h
    exact Or.inl rfl
  | tt :: tts, i, a, c, e, l, h => by
    rw [choice_fields_cons] at h
    cases hr : tdec (some (asn1_get_field a tt)) c tt true depth with
    | none => simp [hr] at h
    | some r =>
      simp only [hr] at h
      split at h
      · rename_i ha
        rcases choice_fields_first_present tts (i + 1) _ _ _ l h with h1 | h1
        · exact Or.inl h1
        · obtain ⟨pre, t1, rest, A, c1, e1, r1, h2, h3, h4, h5, h6⟩ := h1
          refine Or.inr ⟨tt :: pre, t1, rest, A, c1, e1, r1, by simp [h2], ?_, h4, h5, ?_⟩
          · rw [choice_fields_cons]
            simp only [hr, ha, if_true]
            exact h3
          · rw [h6]
            simp only [List.length_cons, Nat.cast_add, Nat.cast_one]
            have : ((i + 1 : Nat) : Int) + (pre.length : Int)
                = (i : Int) + ((pre.length : Int) + 1) := by push_cast; ring
            simp only [Nat.cast_add, Nat.cast_one] at this ⊢
            rw [this]
      · rename_i ha
        refine Or.inr ⟨[], tt, tts, a, c, e, r, rfl, choice_fields_nil _ _ _ _ _ _, hr, ha, ?_⟩
        split at h
        · rename_i h1
          cases h
          simp [h1]
        · rename_i h1
          have h1 := of_not_not h1
          cases h
          simp [h1]

/-- The selector of a CHOICE structure. -/
def ASN1_VALUE.selector : ASN1_VALUE → Option Int
  | ASN1_VALUE.aggregate s _ _ => some s
  | _ => none

theorem choice_fields_all_absent {tdec : TemplateDec} {depth : Int} :
    ∀ (tts : List ASN1_TEMPLATE) (i : Nat) (a : ASN1_VALUE) (c : CBS) (e : List ASN1_R)
      (l : Out), choice_fields tdec depth tts i a c e = some l → l.ret = -1 →
      ∀ pre tt rest, tts = pre ++ tt :: rest →
        ∃ A c1 e1 r, choice_fields tdec depth pre i a c e = some ⟨-1, A, c1, e1⟩ ∧
          tdec (some (asn1_get_field A tt)) c1 tt true depth = some r ∧ r.ret = -1
  | [], _, _, _, _, _, _, _, pre, tt, rest, h => by simp at h
  | t0 :: tts, i, a, c, e, l, h, hl, pre, tt, rest, hs => by
    rw [choice_fields_cons] at h
    cases hr : tdec (some (asn1_get_field a t0)) c t0 true depth with
    | none => simp [hr] at h
    | some r =>
      simp only [hr] at h
      split at h
      · rename_i ha
        cases pre with
        | nil =>
          simp only [List.nil_append, List.cons.injEq] at hs
          obtain ⟨h1, _⟩ := hs
          subst h1
          exact ⟨a, c, e, r, choice_fields_nil _ _ _ _ _ _, hr, ha⟩
        | cons p0 pre =>
          simp only [List.cons_append, List.cons.injEq] at hs
          obtain ⟨h1, h2⟩ := hs
          subst h1
          obtain ⟨A, c1, e1, r1, h3, h4, h5⟩ :=
            choice_fields_all_absent tts (i + 1) _ _ _ l h hl pre tt rest h2
          refine ⟨A, c1, e1, r1, ?_, h4, h5⟩
          rw [choice_fields_cons]
          simp only [hr, ha, if_true]
          exact h3
      · split at h
        · cases h
          simp at hl
        · cases h
          simp at hl

theorem asn1_set_field_aggregate (s : Int) (fs : List ASN1_VALUE) (enc : Option (List UInt8))
    (tt : ASN1_TEMPLATE) (x : ASN1_VALUE) :
    asn1_set_field (ASN1_VALUE.aggregate s fs enc) tt x
      = ASN1_VALUE.aggregate s (fs.set tt.offset x) enc := rfl

theorem choice_fields_aggregate {tdec : TemplateDec} {depth : Int} :
    ∀ (tts : List ASN1_TEMPLATE) (i : Nat) (s : Int) (fs : List ASN1_VALUE)
      (enc : Option (List UInt8)) (c : CBS) (e : List ASN1_R) (l : Out),
      choice_fields tdec depth tts i (ASN1_VALUE.aggregate s fs enc) c e = some l →
      ∃ s1 fs1, l.pval = ASN1_VALUE.aggregate s1 fs1 enc ∧
        (l.ret = -1 → s1 = s) ∧ fs1.length = fs.length
  | [], i, s, fs, enc, c, e, l, h => by
    rw [choice_fields_nil] at h
    cases h
    exact ⟨s, fs, rfl, fun _ => rfl, rfl⟩
  | tt :: tts, i, s, fs, enc, c, e, l, h => by
    rw [choice_fields_cons] at h
    cases hr : tdec (some (asn1_get_field (ASN1_VALUE.aggregate s fs enc) tt)) c tt true depth with
    | none => simp [hr] at h
    | some r =>
      simp only [hr] at h
      split at h
      · rw [asn1_set_field_aggregate] at h
        obtain ⟨s1, fs1, h1, h2, h3⟩ := choice_fields_aggregate tts (i + 1) s _ enc _ _ l h
        exact ⟨s1, fs1, h1, h2, by simpa using h3⟩
      · split at h
        · cases h
          exact ⟨s, _, rfl, fun h => by simp at h, by simp⟩
        · cases h
          exact ⟨_, _, rfl, fun h => by simp at h, by simp⟩

/-! ## The SET OF / SEQUENCE OF loop -/

/-- The element encodings found one after the other from the cursor `c` on:
`ElemChain d2i it depth c rs c1` says that `rs` are the results of decoding
one element after the other, each from where the one before ended, none at
an end-of-contents marker, and that `c1` is the cursor after the last. -/
def ElemChain (d2i : ItemDec) (it : ASN1_ITEM) (depth : Int) : CBS → List Out → CBS → Prop
  | c, [], c1 => c1 = c
  | c, r :: rs, c1 =>
    0 < CBS_len c ∧ asn1_check_eoc c = none ∧
    d2i (some ASN1_VALUE.null) c it (-1) 0 false depth = some r ∧ r.ret ≠ 0 ∧
    ElemChain d2i it depth r.cbs rs c1

theorem stack_of_loop_chain {d2i : ItemDec} {it : ASN1_ITEM} {depth : Int} :
    ∀ (n : Nat) (avals : List ASN1_VALUE) (content : CBS) (eoc_needed : Bool)
      (errs : List ASN1_R) (l : StackLoopOut),
      stack_of_loop d2i it depth n avals content eoc_needed errs = some l → l.ret = 1 →
      ∃ rs c1, ElemChain d2i it depth content rs c1 ∧
        l.avals = avals ++ rs.map (fun r => r.pval) ∧
        ((CBS_len c1 = 0 ∧ l.cbs = c1 ∧ l.eoc_needed = eoc_needed) ∨
         (asn1_check_eoc c1 = some l.cbs ∧ eoc_needed = true ∧ l.eoc_needed = false))
  | 0, _, _, _, _, _, h, _ => by simp [stack_of_loop] at h
  | n + 1, avals, content, eoc_needed, errs, l, h, hl => by
    rw [stack_of_loop] at h
    split at h
    · split at h
      · rename_i c1 he
        split at h
        · cases h
          simp at hl
        · rename_i hn
          cases h
          refine ⟨[], content, rfl, by simp, Or.inr ⟨he, ?_, rfl⟩⟩
          simpa using hn
      · rename_i he
        cases hr : d2i (some ASN1_VALUE.null) content it (-1) 0 false depth with
        | none => simp [hr] at h
        | some r =>
          simp only [hr] at h
          split at h
          · cases h
            simp at hl
          · rename_i h0
            obtain ⟨rs, c1, h1, h2, h3⟩ := stack_of_loop_chain n _ _ _ _ l h hl
            refine ⟨r :: rs, c1, ⟨by assumption, he, hr, h0, h1⟩, ?_, h3⟩
            simp [h2]
    · rename_i hz
      cases h
      refine ⟨[], content, rfl, by simp, Or.inl ⟨by omega, rfl, rfl⟩⟩

theorem stack_of_loop_ret {d2i : ItemDec} {it : ASN1_ITEM} {depth : Int} :
    ∀ (n : Nat) (avals : List ASN1_VALUE) (content : CBS) (eoc_needed : Bool)
      (errs : List ASN1_R) (l : StackLoopOut),
      stack_of_loop d2i it depth n avals content eoc_needed errs = some l →
      l.ret = 1 ∨ l.ret = 0
  | 0, _, _, _, _, _, h => by simp [stack_of_loop] at h
  | n + 1, avals, content, eoc_needed, errs, l, h => by
    rw [stack_of_loop] at h
    split at h
    · split at h
      · split at h <;> cases h <;> simp
      · cases hr : d2i (some ASN1_VALUE.null) content it (-1) 0 false depth with
        | none => simp [hr] at h
        | some r =>
          simp only [hr] at h
          split at h
          · cases h; simp
          · exact stack_of_loop_ret n _ _ _ _ l h
    · cases h; simp

theorem stack_of_body_chain {d2i : ItemDec} {env : Env} {cbs x content : CBS}
    {tt : ASN1_TEMPLATE} {indefinite : Bool} {depth : Int} {r : Out}
    (h : stack_of_body d2i env cbs x content tt indefinite depth = some r) (hr : r.ret = 1) :
    ∃ rs c1, ElemChain d2i (env.item tt.item) depth content rs c1 ∧
      r.pval = ASN1_VALUE.stack (rs.map (fun r => r.pval)) ∧
      (if indefinite then ∃ c2, asn1_check_eoc c1 = some c2 else CBS_len c1 = 0) := by
  unfold stack_of_body at h
  cases hl : stack_of_loop d2i (env.item tt.item) depth (CBS_len content + 1) [] content
      indefinite [] with
  | none => simp [hl] at h
  | some l =>
    simp only [hl] at h
    split at h
    · cases h
      simp at hr
    · rename_i h0
      split at h
      · cases h
        simp at hr
      · rename_i hn
        have hl1 : l.ret = 1 := by
          rcases stack_of_loop_ret _ _ _ _ _ l hl with h1 | h1
          · exact h1
          · exact absurd h1 h0
        obtain ⟨rs, c1, h1, h2, h3⟩ := stack_of_loop_chain _ _ _ _ _ l hl hl1
        split at h
        · cases h
          simp at hr
        · split at h
          · cases h
            simp at hr
          · cases h
            refine ⟨rs, c1, h1, by simp [h2], ?_⟩
            cases indefinite with
            | true =>
              simp only [if_true]
              rcases h3 with ⟨_, _, h4⟩ | ⟨h4, _, _⟩
              · rw [h4] at hn
                simp at hn
              · exact ⟨_, h4⟩
            | false =>
              simp only [Bool.false_eq_true, if_false]
              rcases h3 with ⟨h4, _, _⟩ | ⟨_, h4, _⟩
              · exact h4
              · cases h4

/-! ## Tag mismatch in optional mode -/

theorem asn1_check_tag_mismatch {c : CBS} {id : IdentOut}
    (hid : asn1_get_identifier_cbs c = some id) {etag ecls : Int} (h0 : 0 ≤ etag)
    (hm : etag ≠ (id.tag_number : Int) ∨ ecls ≠ ((id.tag_class <<< 6 : Nat) : Int)) :
    asn1_check_tag c etag ecls true = ⟨-1, id.cbs, 0, 0, 0, false, false, []⟩ := by
  unfold asn1_check_tag
  simp only [hid]
  have : etag ≥ 0 ∧
      (etag ≠ (id.tag_number : Int) ∨ ecls ≠ ((id.tag_class <<< 6 : Nat) : Int)) := ⟨h0, hm⟩
  simp only [this, and_self, if_true]

/-! ## The fields a SEQUENCE did not read -/

/-- No template of the list carries an ADB flag. -/
def NoAdb (tts : List ASN1_TEMPLATE) : Prop :=
  ∀ t ∈ tts, t.flags &&& ASN1_TFLG_ADB_MASK = 0

theorem asn1_do_adb_of_no_flag (env : Env) (v : ASN1_VALUE) (tt : ASN1_TEMPLATE)
    (h : tt.flags &&& ASN1_TFLG_ADB_MASK = 0) : asn1_do_adb env v tt = some tt := by
  simp [asn1_do_adb, h]

theorem asn1_get_field_set_null (a : ASN1_VALUE) (t t1 : ASN1_TEMPLATE)
    (h : asn1_get_field a t = ASN1_VALUE.null) :
    asn1_get_field (asn1_set_field a t1 ASN1_VALUE.null) t = ASN1_VALUE.null := by
  cases a with
  | aggregate s fs e =>
    simp only [asn1_set_field, asn1_get_field] at h ⊢
    simp only [List.getD_eq_getElem?_getD] at h ⊢
    rw [List.getElem?_set]
    split
    · split <;> rfl
    · exact h
  | _ => rfl

theorem asn1_get_field_set_self_null (a : ASN1_VALUE) (t : ASN1_TEMPLATE) :
    asn1_get_field (asn1_set_field a t ASN1_VALUE.null) t = ASN1_VALUE.null := by
  cases a with
  | aggregate s fs e =>
    simp only [asn1_set_field, asn1_get_field]
    simp only [List.getD_eq_getElem?_getD]
    rw [List.getElem?_set]
    simp only [if_true]
    split <;> rfl
  | _ => rfl

theorem sequence_missing_keeps_null (env : Env) :
    ∀ (tts : List ASN1_TEMPLATE) (a : ASN1_VALUE) (t : ASN1_TEMPLATE),
      asn1_get_field a t = ASN1_VALUE.null →
      asn1_get_field (sequence_missing env tts a).aseq t = ASN1_VALUE.null
  | [], a, t, h => by simpa [sequence_missing] using h
  | t0 :: tts, a, t, h => by
    rw [sequence_missing]
    split
    · exact h
    · split
      · exact h
      · exact sequence_missing_keeps_null env tts _ t (asn1_get_field_set_null a t _ h)

theorem sequence_missing_all_optional (env : Env) :
    ∀ (tts : List ASN1_TEMPLATE) (a : ASN1_VALUE), NoAdb tts →
      (∀ t ∈ tts, t.flags &&& ASN1_TFLG_OPTIONAL ≠ 0) →
      (sequence_missing env tts a).ret = 1 ∧ (sequence_missing env tts a).errs = [] ∧
      ∀ t ∈ tts, asn1_get_field (sequence_missing env tts a).aseq t = ASN1_VALUE.null
  | [], a, _, _ => by simp [sequence_missing]
  | t0 :: tts, a, hadb, hopt => by
    rw [sequence_missing, asn1_do_adb_of_no_flag env a t0 (hadb t0 (by simp))]
    have h0 : ¬ (t0.flags &&& ASN1_TFLG_OPTIONAL = 0) := hopt t0 (by simp)
    simp only [h0, if_false]
    obtain ⟨h1, h2, h3⟩ := sequence_missing_all_optional env tts
      (asn1_set_field a t0 ASN1_VALUE.null) (fun t ht => hadb t (by simp [ht]))
      (fun t ht => hopt t (by simp [ht]))
    refine ⟨h1, h2, ?_⟩
    intro t ht
    rcases List.mem_cons.mp ht with ht | ht
    · subst ht
      exact sequence_missing_keeps_null env tts _ t (asn1_get_field_set_self_null a t)
    · exact h3 t ht

theorem sequence_missing_not_optional (env : Env) :
    ∀ (tts : List ASN1_TEMPLATE) (a : ASN1_VALUE), NoAdb tts →
      (∃ t ∈ tts, t.flags &&& ASN1_TFLG_OPTIONAL = 0) →
      (sequence_missing env tts a).ret = 0 ∧
      (sequence_missing env tts a).errs = [ASN1_R.FIELD_MISSING]
  | [], a, _, h => by simp at h
  | t0 :: tts, a, hadb, h => by
    rw [sequence_missing, asn1_do_adb_of_no_flag env a t0 (hadb t0 (by simp))]
    simp only
    split
    · exact ⟨rfl, rfl⟩
    · rename_i h0
      obtain ⟨t, ht, hto⟩ := h
      rcases List.mem_cons.mp ht with ht | ht
      · subst ht
        exact absurd hto h0
      · exact sequence_missing_not_optional env tts _ (fun t ht => hadb t (by simp [ht]))
          ⟨t, ht, hto⟩

theorem sequence_missing_ret (env : Env) :
    ∀ (tts : List ASN1_TEMPLATE) (a : ASN1_VALUE),
      (sequence_missing env tts a).ret = 1 ∨ (sequence_missing env tts a).ret = 0
  | [], a => by simp [sequence_missing]
  | t0 :: tts, a => by
    rw [sequence_missing]
    split
    · exact Or.inr rfl
    · split
      · exact Or.inr rfl
      · exact sequence_missing_ret env tts _

theorem sequence_fields_ret {env : Env} {tdec : TemplateDec} {it : ASN1_ITEM} {depth : Int}
    {indefinite : Bool} :
    ∀ (tts : List ASN1_TEMPLATE) (i : Nat) (aseq : ASN1_VALUE) (content : CBS)
      (eoc_needed : Bool) (errs : List ASN1_R) (l : SeqLoopOut),
      sequence_fields env tdec it depth indefinite tts i aseq content eoc_needed errs = some l →
      l.ret = 1 ∨ l.ret = 0
  | [], i, aseq, content, eoc_needed, errs, l, h => by
    rw [sequence_fields] at h
    cases h; simp
  | tt :: rest, i, aseq, content, eoc_needed, errs, l, h => by
    rw [sequence_fields] at h
    split at h
    · split at h <;> cases h <;> simp
    · split at h
      · cases h; simp
      · split at h
        · cases h; simp
        · rename_i seqtt _
          cases hr : tdec (some (asn1_get_field aseq seqtt)) content seqtt
              (optional_field it i seqtt) depth with
          | none => simp [hr] at h
          | some r =>
            simp only [hr] at h
            split at h
            · exact sequence_fields_ret rest _ _ _ _ _ l h
            · split at h
              · cases h; simp
              · exact sequence_fields_ret rest _ _ _ _ _ l h

theorem asn1_get_field_enc_save {a a1 : ASN1_VALUE} {span : List UInt8}
    (h : asn1_enc_save a span = some a1) (t : ASN1_TEMPLATE) :
    asn1_get_field a1 t = asn1_get_field a t := by
  cases a <;> simp only [asn1_enc_save, Option.some.injEq] at h <;> subst h <;> rfl

theorem sequence_publish_success {env : Env} {cbs x : CBS} {it : ASN1_ITEM} {l : SeqLoopOut}
    (h : (sequence_publish env cbs x it l).ret = 1) :
    (sequence_missing env (it.templates.drop l.i) l.aseq).ret = 1 ∧
    (it.asn1_cb = none → ∀ t,
      asn1_get_field (sequence_publish env cbs x it l).pval t
        = asn1_get_field (sequence_missing env (it.templates.drop l.i) l.aseq).aseq t) := by
  unfold sequence_publish at h ⊢
  split at h
  · simp at h
  · rename_i h0
    have h1 : (sequence_missing env (it.templates.drop l.i) l.aseq).ret = 1 := by
      rcases sequence_missing_ret env (it.templates.drop l.i) l.aseq with h1 | h1
      · exact h1
      · exact absurd h1 h0
    refine ⟨h1, ?_⟩
    intro hcb t
    simp only [h0, if_false] at h ⊢
    cases hg : CBS_get_bytes cbs (CBS_offset x) with
    | none => simp [hg] at h
    | some p =>
      obtain ⟨cbs_object, cbs1⟩ := p
      simp only [hg] at h ⊢
      cases hs : asn1_enc_save (sequence_missing env (it.templates.drop l.i) l.aseq).aseq
          cbs_object.data with
      | none => simp [hs] at h
      | some aseq1 =>
        have hrun : run_asn1_cb it ASN1_OP_D2I_POST aseq1 = some aseq1 := by
          simp [run_asn1_cb, hcb]
        simp only [hrun]
        exact asn1_get_field_enc_save hs t

/-- What a successful `asn1_item_ex_d2i_sequence` went through: the field
loop ended without error in a state `l`, and the result is the publication
of a state with the same field index and structure. -/
theorem asn1_item_ex_d2i_sequence_success {env : Env} {tdec : TemplateDec} {pval : ASN1_VALUE}
    {cbs : CBS} {it : ASN1_ITEM} {tag cls : Int} {opt : Bool} {depth : Int} {r : Out}
    (h : asn1_item_ex_d2i_sequence env tdec pval cbs it tag cls opt depth = some r)
    (hr : r.ret = 1) :
    ∃ aseq1 content indefinite x l l2,
      sequence_fields env tdec it depth indefinite it.templates 0 aseq1 content indefinite []
        = some l ∧ l.ret = 1 ∧ l2.i = l.i ∧ l2.aseq = l.aseq ∧ l2.errs = l.errs ∧
      r = sequence_publish env cbs x it l2 := by
  have body : ∀ (x content : CBS) (indefinite : Bool),
      sequence_body env tdec cbs x content it indefinite depth = some r →
      ∃ aseq1 content indefinite x l l2,
        sequence_fields env tdec it depth indefinite it.templates 0 aseq1 content indefinite []
          = some l ∧ l.ret = 1 ∧ l2.i = l.i ∧ l2.aseq = l.aseq ∧ l2.errs = l.errs ∧
        r = sequence_publish env cbs x it l2 := by
    intro x content indefinite hb
    unfold sequence_body at hb
    split at hb
    · cases hb; simp at hr
    · split at hb
      · cases hb; simp at hr
      · rename_i aseq1 _
        cases hl : sequence_fields env tdec it depth indefinite it.templates 0 aseq1 content
            indefinite [] with
        | none => simp [hl] at hb
        | some l =>
          simp only [hl] at hb
          have fin : ∀ (l2 : SeqLoopOut), l2.i = l.i → l2.aseq = l.aseq → l2.errs = l.errs →
              l.ret = 1 → some (sequence_finish env cbs x it indefinite l2) = some r →
              ∃ aseq1 content indefinite x l l2,
                sequence_fields env tdec it depth indefinite it.templates 0 aseq1 content
                  indefinite [] = some l ∧ l.ret = 1 ∧ l2.i = l.i ∧ l2.aseq = l.aseq ∧
                l2.errs = l.errs ∧ r = sequence_publish env cbs x it l2 := by
            intro l2 e1 e2 e3 hl1 hf
            simp only [Option.some.injEq] at hf
            unfold sequence_finish at hf
            split at hf
            · split at hf
              · subst hf; simp at hr
              · rename_i x1 _
                exact ⟨aseq1, content, indefinite, x1, l, l2, hl, hl1, e1, e2, e3, hf.symm⟩
            · split at hf
              · subst hf; simp at hr
              · exact ⟨aseq1, content, indefinite, x, l, l2, hl, hl1, e1, e2, e3, hf.symm⟩
          split at hb
          · cases hb; simp at hr
          · rename_i h0
            have hl1 : l.ret = 1 := by
              obtain ⟨l', hl', h1, _⟩ :
                  ∃ l', some l = some l' ∧ (l'.ret = 1 ∨ l'.ret = 0) ∧ True :=
                ⟨l, rfl, sequence_fields_ret _ _ _ _ _ _ l hl, trivial⟩
              cases hl'
              rcases h1 with h1 | h1
              · exact h1
              · exact absurd h1 h0
            by_cases he : l.eoc_needed = true
            · simp only [he, if_true] at hb
              cases hc : asn1_check_eoc l.cbs with
              | none =>
                simp only [hc] at hb
                cases hb; simp at hr
              | some c1 =>
                simp only [hc] at hb
                exact fin ⟨l.ret, l.i, l.aseq, c1, true, l.errs⟩ rfl rfl rfl hl1 hb
            · simp only [he, if_false] at hb
              exact fin l rfl rfl rfl hl1 hb
  unfold asn1_item_ex_d2i_sequence at h
  generalize (if tag = -1 then V_ASN1_SEQUENCE else tag) = et at h
  generalize (if tag = -1 then V_ASN1_UNIVERSAL else cls) = ec at h
  split at h
  · cases h; simp at hr
  · split at h
    · cases h; simp at hr
    · split at h
      · cases h; simp at hr
      · split at h
        · cases h; simp at hr
        · split at h
          · exact body _ _ _ h
          · split at h
            · cases h; simp at hr
            · exact body _ _ _ h

/-! ## Return values that cannot be absent -/

theorem primitive_content_finish_ret (env : Env) (pval : ASN1_VALUE) (cbs x content : CBS)
    (utype : Int) (it : ASN1_ITEM) :
    (primitive_content_finish env pval cbs x content utype it).ret = 1 ∨
    (primitive_content_finish env pval cbs x content utype it).ret = 0 := by
  unfold primitive_content_finish
  split
  · exact Or.inr rfl
  · split
    · exact Or.inr rfl
    · exact Or.inl rfl

theorem asn1_d2i_ex_primitive_content_ret {env : Env} {pval : ASN1_VALUE} {cbs x : CBS}
    {utype : Int} {constructed indefinite : Bool} {length : Nat} {it : ASN1_ITEM} {r : Out}
    (h : asn1_d2i_ex_primitive_content env pval cbs x utype constructed indefinite length it
      = some r) : r.ret = 1 ∨ r.ret = 0 := by
  unfold asn1_d2i_ex_primitive_content at h
  repeat' split at h
  all_goals first
    | (cases h; done)
    | (cases h; exact Or.inr rfl)
    | (cases h; exact primitive_content_finish_ret _ _ _ _ _ _ _)

theorem sequence_publish_ret (env : Env) (cbs x : CBS) (it : ASN1_ITEM) (l : SeqLoopOut) :
    (sequence_publish env cbs x it l).ret = 1 ∨ (sequence_publish env cbs x it l).ret = 0 := by
  unfold sequence_publish
  repeat' split
  all_goals first
    | exact Or.inr rfl
    | exact Or.inl rfl

theorem sequence_finish_ret (env : Env) (cbs x : CBS) (it : ASN1_ITEM) (indefinite : Bool)
    (l : SeqLoopOut) :
    (sequence_finish env cbs x it indefinite l).ret = 1 ∨
    (sequence_finish env cbs x it indefinite l).ret = 0 := by
  unfold sequence_finish
  repeat' split
  all_goals first
    | exact Or.inr rfl
    | exact sequence_publish_ret _ _ _ _ _

theorem sequence_body_ret {env : Env} {tdec : TemplateDec} {cbs x content : CBS}
    {it : ASN1_ITEM} {indefinite : Bool} {depth : Int} {r : Out}
    (h : sequence_body env tdec cbs x content it indefinite depth = some r) :
    r.ret = 1 ∨ r.ret = 0 := by
  unfold sequence_body at h
  repeat' split at h
  all_goals first
    | (cases h; done)
    | (cases h; exact Or.inr rfl)
    | (cases h; exact sequence_finish_ret _ _ _ _ _ _)

theorem stack_of_body_ret {d2i : ItemDec} {env : Env} {cbs x content : CBS}
    {tt : ASN1_TEMPLATE} {indefinite : Bool} {depth : Int} {r : Out}
    (h : stack_of_body d2i env cbs x content tt indefinite depth = some r) :
    r.ret = 1 ∨ r.ret = 0 := by
  unfold stack_of_body at h
  repeat' split at h
  all_goals first
    | (cases h; done)
    | (cases h; exact Or.inr rfl)
    | (cases h; exact Or.inl rfl)

theorem template_explicit_body_ret {d2i : ItemDec} {env : Env} {v : ASN1_VALUE}
    {cbs x content : CBS} {tt : ASN1_TEMPLATE} {indefinite : Bool} {depth : Int} {r : Out}
    (h : template_explicit_body d2i env v cbs x content tt indefinite depth = some r) :
    r.ret = 1 ∨ r.ret = 0 := by
  unfold template_explicit_body at h
  repeat' split at h
  all_goals first
    | (cases h; done)
    | (cases h; exact Or.inr rfl)
    | (cases h; exact Or.inl rfl)

/-! ## Absent in optional mode is an error in mandatory mode -/

theorem asn1_check_tag_flip {c : CBS} {etag ecls : Int}
    (h : (asn1_check_tag c etag ecls true).ret = -1) :
    (asn1_check_tag c etag ecls false).ret = 0 ∧
    (asn1_check_tag c etag ecls false).errs = [ASN1_R.WRONG_TAG] := by
  unfold asn1_check_tag at h ⊢
  cases hid : asn1_get_identifier_cbs c with
  | none => simp [hid] at h
  | some id =>
    simp only [hid] at h ⊢
    by_cases hm : etag ≥ 0 ∧
        (etag ≠ (id.tag_number : Int) ∨ ecls ≠ ((id.tag_class <<< 6 : Nat) : Int))
    · simp [hm]
    · simp only [hm, if_false] at h
      repeat' split at h
      all_goals simp at h

theorem asn1_d2i_ex_any_not_absent {env : Env} {pval : ASN1_VALUE} {cbs : CBS}
    {it : ASN1_ITEM} {tag cls : Int} {opt : Bool} {r : Out}
    (h : asn1_d2i_ex_any env pval cbs it tag cls opt = some r) : r.ret ≠ -1 := by
  unfold asn1_d2i_ex_any at h
  repeat' split at h
  all_goals first
    | (cases h; simp)
    | (rcases asn1_d2i_ex_primitive_content_ret h with h1 | h1 <;> omega)

theorem asn1_d2i_ex_primitive_flip {env : Env} {pval : ASN1_VALUE} {cbs : CBS}
    {it : ASN1_ITEM} {tag cls : Int} {r : Out}
    (h : asn1_d2i_ex_primitive env pval cbs it tag cls true = some r) (hr : r.ret = -1) :
    ∃ r1, asn1_d2i_ex_primitive env pval cbs it tag cls false = some r1 ∧ r1.ret = 0 := by
  unfold asn1_d2i_ex_primitive at h ⊢
  generalize (if tag = -1 then it.utype else tag) = et at h ⊢
  generalize (if tag = -1 then V_ASN1_UNIVERSAL else cls) = ec at h ⊢
  split at h
  · cases h; simp at hr
  · rename_i h1
    split at h
    · exact absurd hr (asn1_d2i_ex_any_not_absent h)
    · rename_i h2
      simp only [h1, h2, if_false]
      split at h
      · rename_i ha
        obtain ⟨hf, _⟩ := asn1_check_tag_flip ha
        simp [hf]
      · split at h
        · cases h; simp at hr
        · rcases asn1_d2i_ex_primitive_content_ret h with h3 | h3 <;> omega

theorem asn1_d2i_ex_mstring_flip {env : Env} {pval : ASN1_VALUE} {cbs : CBS}
    {it : ASN1_ITEM} {tag cls : Int} {r : Out}
    (h : asn1_d2i_ex_mstring env pval cbs it tag cls true = some r) (hr : r.ret = -1) :
    ∃ r1, asn1_d2i_ex_mstring env pval cbs it tag cls false = some r1 ∧ r1.ret = 0 := by
  unfold asn1_d2i_ex_mstring at h ⊢
  split at h
  · cases h; simp at hr
  · rename_i h1
    simp only [h1, if_false]
    split at h
    · cases h; simp at hr
    · rename_i h2
      simp only [h2, if_false]
      split at h
      · rename_i h3
        simp [h3]
      · rename_i h3
        simp only [h3, if_false]
        split at h
        · rename_i h4
          simp [h4]
        · rcases asn1_d2i_ex_primitive_content_ret h with h5 | h5 <;> omega

theorem asn1_item_ex_d2i_choice_flip {tdec : TemplateDec} {pval : ASN1_VALUE} {cbs : CBS}
    {it : ASN1_ITEM} {tag cls : Int} {depth : Int} {r : Out}
    (h : asn1_item_ex_d2i_choice tdec pval cbs it tag cls true depth = some r)
    (hr : r.ret = -1) :
    ∃ r1, asn1_item_ex_d2i_choice tdec pval cbs it tag cls false depth = some r1 ∧
      r1.ret = 0 := by
  unfold asn1_item_ex_d2i_choice at h ⊢
  split at h
  · cases h; simp at hr
  · rename_i h1
    simp only [h1, if_false]
    split at h
    · cases h; simp at hr
    · rename_i h2
      simp only [h2, if_false]
      cases hn : ASN1_item_ex_new it with
      | none => simp [hn] at h; cases h; simp at hr
      | some a0 =>
        simp only [hn] at h ⊢
        cases hp : run_asn1_cb it ASN1_OP_D2I_PRE a0 with
        | none => simp [hp] at h; cases h; simp at hr
        | some a1 =>
          simp only [hp] at h ⊢
          cases hl : choice_fields tdec depth it.templates 0 a1 cbs [] with
          | none => simp [hl] at h
          | some l =>
            simp only [hl] at h ⊢
            split at h
            · cases h; simp at hr
            · rename_i h3
              simp only [h3, if_false]
              split at h
              · rename_i h4
                simp [h4]
              · split at h <;> cases h <;> simp at hr

theorem asn1_item_ex_d2i_sequence_flip {env : Env} {tdec : TemplateDec} {pval : ASN1_VALUE}
    {cbs : CBS} {it : ASN1_ITEM} {tag cls : Int} {depth : Int} {r : Out}
    (h : asn1_item_ex_d2i_sequence env tdec pval cbs it tag cls true depth = some r)
    (hr : r.ret = -1) :
    ∃ r1, asn1_item_ex_d2i_sequence env tdec pval cbs it tag cls false depth = some r1 ∧
      r1.ret = 0 := by
  unfold asn1_item_ex_d2i_sequence at h ⊢
  generalize (if tag = -1 then V_ASN1_SEQUENCE else tag) = et at h ⊢
  generalize (if tag = -1 then V_ASN1_UNIVERSAL else cls) = ec at h ⊢
  split at h
  · cases h; simp at hr
  · rename_i h1
    simp only [h1, if_false]
    split at h
    · rename_i ha
      obtain ⟨hf, _⟩ := asn1_check_tag_flip ha
      simp [hf]
    · split at h
      · cases h; simp at hr
      · split at h
        · cases h; simp at hr
        · split at h
          · rcases sequence_body_ret h with h3 | h3 <;> omega
          · split at h
            · cases h; simp at hr
            · rcases sequence_body_ret h with h3 | h3 <;> omega

theorem asn1_template_stack_of_d2i_flip {d2i : ItemDec} {env : Env} {pval : Option ASN1_VALUE}
    {cbs : CBS} {tt : ASN1_TEMPLATE} {depth : Int} {r : Out}
    (h : asn1_template_stack_of_d2i d2i env pval cbs tt true depth = some r)
    (hr : r.ret = -1) :
    ∃ r1, asn1_template_stack_of_d2i d2i env pval cbs tt false depth = some r1 ∧
      r1.ret = 0 := by
  unfold asn1_template_stack_of_d2i at h ⊢
  cases pval with
  | none => simp at h; cases h; simp at hr
  | some v =>
    simp only at h ⊢
    split at h
    · rename_i ha
      obtain ⟨hf, _⟩ := asn1_check_tag_flip ha
      simp [hf]
    · split at h
      · cases h; simp at hr
      · split at h
        · rcases stack_of_body_ret h with h3 | h3 <;> omega
        · split at h
          · cases h; simp at hr
          · rcases stack_of_body_ret h with h3 | h3 <;> omega

/-- At depth `depth`, whatever the item decoder `d2i` reports absent in
optional mode it reports as an error in mandatory mode. -/
def ItemDec.FlipAt (d2i : ItemDec) (depth : Int) : Prop :=
  ∀ pval cbs (it : ASN1_ITEM) tag cls r, it.itype ≠ ASN1_ITYPE_EXTERN →
    d2i pval cbs it tag cls true depth = some r → r.ret = -1 →
    ∃ r1, d2i pval cbs it tag cls false depth = some r1 ∧ r1.ret = 0

theorem asn1_template_noexp_d2i_flip {d2i : ItemDec} {depth : Int}
    (hd : ItemDec.FlipAt d2i depth) {env : Env} (he : NoExtern env)
    {pval : Option ASN1_VALUE} {cbs : CBS} {tt : ASN1_TEMPLATE} {r : Out}
    (h : asn1_template_noexp_d2i d2i env pval cbs tt true depth = some r) (hr : r.ret = -1) :
    ∃ r1, asn1_template_noexp_d2i d2i env pval cbs tt false depth = some r1 ∧ r1.ret = 0 := by
  unfold asn1_template_noexp_d2i at h ⊢
  cases pval with
  | none => simp at h; cases h; simp at hr
  | some v =>
    simp only at h ⊢
    split at h
    · rename_i hs
      rw [if_pos hs]
      exact asn1_template_stack_of_d2i_flip h hr
    · rename_i hs
      rw [if_neg hs]
      generalize (if tt.flags &&& ASN1_TFLG_IMPTAG ≠ 0 then tt.tag else -1) = et at h ⊢
      generalize (if tt.flags &&& ASN1_TFLG_IMPTAG ≠ 0
          then ((tt.flags &&& ASN1_TFLG_TAG_CLASS : Nat) : Int) else V_ASN1_UNIVERSAL) = ec
        at h ⊢
      cases hr0 : d2i (some v) cbs (env.item tt.item) et ec true depth with
      | none => simp [hr0] at h
      | some r0 =>
        simp only [hr0] at h
        split at h
        · rename_i ha
          obtain ⟨r1, h1, h2⟩ := hd (some v) cbs (env.item tt.item) et ec r0 (he tt.item) hr0 ha
          simp [h1, h2]
        · split at h <;> cases h <;> simp at hr

theorem asn1_template_ex_d2i_flip {d2i : ItemDec} {depth : Int}
    (hd : ItemDec.FlipAt d2i depth) {env : Env} (he : NoExtern env)
    {pval : Option ASN1_VALUE} {cbs : CBS} {tt : ASN1_TEMPLATE} {r : Out}
    (h : asn1_template_ex_d2i d2i env pval cbs tt true depth = some r) (hr : r.ret = -1) :
    ∃ r1, asn1_template_ex_d2i d2i env pval cbs tt false depth = some r1 ∧ r1.ret = 0 := by
  unfold asn1_template_ex_d2i at h ⊢
  cases pval with
  | none => simp at h; cases h; simp at hr
  | some v =>
    simp only at h ⊢
    split at h
    · rename_i hs
      rw [if_pos hs]
      exact asn1_template_noexp_d2i_flip hd he h hr
    · rename_i hs
      rw [if_neg hs]
      split at h
      · rename_i ha
        obtain ⟨hf, _⟩ := asn1_check_tag_flip ha
        simp [hf]
      · split at h
        · cases h; simp at hr
        · split at h
          · cases h; simp at hr
          · split at h
            · rcases template_explicit_body_ret h with h3 | h3 <;> omega
            · split at h
              · cases h; simp at hr
              · rcases template_explicit_body_ret h with h3 | h3 <;> omega

theorem asn1_item_ex_d2i_flip (env : Env) (fuel : Nat) (depth : Int) :
    ItemDec.FlipAt (asn1_item_ex_d2i env fuel) depth := by
  intro pval cbs it tag cls r hit h hr
  cases fuel with
  | zero => simp [asn1_item_ex_d2i] at h
  | succ fuel =>
    rw [asn1_item_ex_d2i] at h ⊢
    cases pval with
    | none => simp at h; cases h; simp at hr
    | some v =>
      simp only at h ⊢
      by_cases hg : depth + 1 > ASN1_MAX_CONSTRUCTED_NEST
      · simp only [hg, if_true] at h
        cases h; simp at hr
      · simp only [hg, if_false] at h ⊢
        by_cases h1 : it.itype = ASN1_ITYPE_PRIMITIVE
        · simp only [h1, if_true] at h ⊢
          cases ht : it.templates with
          | nil =>
            simp only [ht] at h ⊢
            exact asn1_d2i_ex_primitive_flip h hr
          | cons tt rest =>
            simp only [ht, or_true, if_true] at h
            cases h; simp at hr
        · simp only [h1, if_false] at h ⊢
          by_cases h2 : it.itype = ASN1_ITYPE_MSTRING
          · simp only [h2, if_true] at h ⊢
            exact asn1_d2i_ex_mstring_flip h hr
          · simp only [h2, if_false, hit] at h ⊢
            by_cases h3 : it.itype = ASN1_ITYPE_CHOICE
            · simp only [h3, if_true] at h ⊢
              exact asn1_item_ex_d2i_choice_flip h hr
            · simp only [h3, if_false] at h ⊢
              by_cases h4 : it.itype = ASN1_ITYPE_NDEF_SEQUENCE ∨ it.itype = ASN1_ITYPE_SEQUENCE
              · simp only [h4, if_true] at h ⊢
                exact asn1_item_ex_d2i_sequence_flip h hr
              · simp only [h4, if_false] at h
                cases h; simp at hr

/-! ## The field loop of a SEQUENCE -/

theorem sequence_fields_nil (env : Env) (tdec : TemplateDec) (it : ASN1_ITEM) (depth : Int)
    (indefinite : Bool) (i : Nat) (aseq : ASN1_VALUE) (content : CBS) (eoc_needed : Bool)
    (errs : List ASN1_R) :
    sequence_fields env tdec it depth indefinite [] i aseq content eoc_needed errs
      = some ⟨1, i, aseq, content, eoc_needed, errs⟩ := by
  rw [sequence_fields]

theorem sequence_fields_step (env : Env) (tdec : TemplateDec) (it : ASN1_ITEM) (depth : Int)
    (indefinite : Bool) (tt : ASN1_TEMPLATE) (rest : List ASN1_TEMPLATE) (i : Nat)
    (aseq : ASN1_VALUE) (content : CBS) (eoc_needed : Bool) (errs : List ASN1_R)
    (h1 : asn1_check_eoc content = none) (h2 : CBS_len content ≠ 0)
    (h3 : tt.flags &&& ASN1_TFLG_ADB_MASK = 0) :
    sequence_fields env tdec it depth indefinite (tt :: rest) i aseq content eoc_needed errs =
      match tdec (some (asn1_get_field aseq tt)) content tt (optional_field it i tt) depth with
      | none => none
      | some r =>
        if r.ret = -1 then
          sequence_fields env tdec it depth indefinite rest (i + 1)
            (asn1_set_field aseq tt ASN1_VALUE.null) r.cbs eoc_needed (errs ++ r.errs)
        else if r.ret ≠ 1 then
          some ⟨0, i, asn1_set_field aseq tt r.pval, r.cbs, eoc_needed, errs ++ r.errs⟩
        else
          sequence_fields env tdec it depth indefinite rest (i + 1)
            (asn1_set_field aseq tt r.pval) r.cbs eoc_needed (errs ++ r.errs) := by
  rw [sequence_fields]
  simp only [h1, h2, if_false, asn1_do_adb_of_no_flag env aseq tt h3]

theorem sequence_fields_index {env : Env} {tdec : TemplateDec} {it : ASN1_ITEM} {depth : Int}
    {indefinite : Bool} :
    ∀ (tts : List ASN1_TEMPLATE) (i : Nat) (aseq : ASN1_VALUE) (content : CBS)
      (eoc_needed : Bool) (errs : List ASN1_R) (l : SeqLoopOut),
      sequence_fields env tdec it depth indefinite tts i aseq content eoc_needed errs = some l →
      i ≤ l.i ∧ l.i ≤ i + tts.length
  | [], i, aseq, content, eoc_needed, errs, l, h => by
    rw [sequence_fields] at h
    cases h; simp
  | tt :: rest, i, aseq, content, eoc_needed, errs, l, h => by
    rw [sequence_fields] at h
    simp only [List.length_cons]
    split at h
    · split at h <;> cases h <;> simp
    · split at h
      · cases h; simp
      · split at h
        · cases h; simp
        · rename_i seqtt _
          cases hr : tdec (some (asn1_get_field aseq seqtt)) content seqtt
              (optional_field it i seqtt) depth with
          | none => simp [hr] at h
          | some r =>
            simp only [hr] at h
            split at h
            · have := sequence_fields_index rest _ _ _ _ _ l h
              omega
            · split at h
              · cases h; simp
              · have := sequence_fields_index rest _ _ _ _ _ l h
                omega

/-- When the field loop run over the fields `pre` alone has read them all,
the loop over `pre` followed by more fields continues from the state
reached. -/
theorem sequence_fields_append {env : Env} {tdec : TemplateDec} {it : ASN1_ITEM}
    {depth : Int} {indefinite : Bool} :
    ∀ (pre suf : List ASN1_TEMPLATE) (i : Nat) (aseq : ASN1_VALUE) (content : CBS)
      (eoc_needed : Bool) (errs : List ASN1_R) (A : ASN1_VALUE) (c1 : CBS) (eoc1 : Bool)
      (e1 : List ASN1_R),
      sequence_fields env tdec it depth indefinite pre i aseq content eoc_needed errs
        = some ⟨1, i + pre.length, A, c1, eoc1, e1⟩ →
      sequence_fields env tdec it depth indefinite (pre ++ suf) i aseq content eoc_needed errs
        = sequence_fields env tdec it depth indefinite suf (i + pre.length) A c1 eoc1 e1
  | [], suf, i, aseq, content, eoc_needed, errs, A, c1, eoc1, e1, h => by
    rw [sequence_fields_nil] at h
    cases h
    simp
  | tt :: pre, suf, i, aseq, content, eoc_needed, errs, A, c1, eoc1, e1, h => by
    have hlen : i + (tt :: pre).length = i + 1 + pre.length := by
      simp only [List.length_cons]; omega
    rw [List.cons_append]
    rw [sequence_fields] at h
    rw [sequence_fields]
    split at h
    · split at h
      · cases h
      · simp only [Option.some.injEq, SeqLoopOut.mk.injEq] at h
        have := h.2.1
        simp only [List.length_cons] at this
        omega
    · rename_i hc
      split at h
      · simp only [Option.some.injEq, SeqLoopOut.mk.injEq] at h
        have := h.2.1
        simp only [List.length_cons] at this
        omega
      · rename_i hz
        split at h
        · cases h
        · rename_i seqtt hadb
          simp only [hc, hz, if_false, hadb]
          cases hr : tdec (some (asn1_get_field aseq seqtt)) content seqtt
              (optional_field it i seqtt) depth with
          | none => simp [hr] at h
          | some r =>
            simp only [hr] at h ⊢
            split at h
            · rename_i ha
              simp only [ha, if_true]
              rw [hlen] at h ⊢
              exact sequence_fields_append pre suf (i + 1) _ _ _ _ A c1 eoc1 e1 h
            · rename_i ha
              simp only [ha, if_false]
              split at h
              · cases h
              · rename_i h1
                simp only [h1, if_false]
                rw [hlen] at h ⊢
                exact sequence_fields_append pre suf (i + 1) _ _ _ _ A c1 eoc1 e1 h

theorem scenario_table_without_extern_items : NoExtern scenarioEnv := by
  intro k
  show (scenarioItems k).itype ≠ ASN1_ITYPE_EXTERN
  unfold scenarioItems
  split <;> decide

/-! ## The value slot on failure -/

/-- The functions an item brings along leave the slot they are given as it
was, or null, when they do not succeed: the `prim_c2i` of a primitive
function table when it returns 0, the decode function of an EXTERN item
when it does not return 1. -/
def ItemKeepsSlot (it : ASN1_ITEM) : Prop :=
  (∀ f, it.funcs = ASN1_FUNCS.prim (some f) → ∀ v c u, (f v c u).ret = 0 →
    (f v c u).pval = v ∨ (f v c u).pval = ASN1_VALUE.null) ∧
  (∀ f, it.funcs = ASN1_FUNCS.ext f → ∀ v c t cl o, (f v c t cl o).ret ≠ 1 →
    (f v c t cl o).pval = v ∨ (f v c t cl o).pval = ASN1_VALUE.null)

/-- Every item of the descriptor table satisfies `ItemKeepsSlot`. -/
def CallbacksKeepSlot (env : Env) : Prop := ∀ k, ItemKeepsSlot (env.item k)

/-- A result that is not a success holds the slot as it was on entry, or
null. -/
def SlotKept (v : ASN1_VALUE) (r : Out) : Prop :=
  r.ret ≠ 1 → r.pval = v ∨ r.pval = ASN1_VALUE.null

theorem asn1_ex_c2i_primitive_slot (env : Env) (pval : ASN1_VALUE) (content : CBS)
    (utype : Int) (it : ASN1_ITEM)
    (h : (asn1_ex_c2i_primitive env pval content utype it).ret = 0) :
    (asn1_ex_c2i_primitive env pval content utype it).pval = pval ∨
    (asn1_ex_c2i_primitive env pval content utype it).pval = ASN1_VALUE.null := by
  generalize hx : asn1_ex_c2i_primitive env pval content utype it = x at h ⊢
  unfold asn1_ex_c2i_primitive at hx
  repeat' split at hx
  all_goals subst hx
  all_goals first
    | exact Or.inl rfl
    | exact Or.inr rfl
    | (simp at h)

theorem asn1_ex_c2i_any_slot (env : Env) (pval : ASN1_VALUE) (content : CBS)
    (utype : Int) (it : ASN1_ITEM)
    (h : (asn1_ex_c2i_any env pval content utype it).ret = 0) :
    (asn1_ex_c2i_any env pval content utype it).pval = pval ∨
    (asn1_ex_c2i_any env pval content utype it).pval = ASN1_VALUE.null := by
  generalize hx : asn1_ex_c2i_any env pval content utype it = x at h ⊢
  unfold asn1_ex_c2i_any at hx
  repeat' split at hx
  all_goals subst hx
  all_goals first
    | exact Or.inl rfl
    | exact Or.inr rfl
    | (simp at h)

theorem asn1_ex_c2i_slot (env : Env) (pval : ASN1_VALUE) (content : CBS)
    (utype : Int) (it : ASN1_ITEM) (hit : ItemKeepsSlot it)
    (h : (asn1_ex_c2i env pval content utype it).ret = 0) :
    (asn1_ex_c2i env pval content utype it).pval = pval ∨
    (asn1_ex_c2i env pval content utype it).pval = ASN1_VALUE.null := by
  unfold asn1_ex_c2i at h ⊢
  split
  · exact Or.inl rfl
  · rename_i hlen
    simp only [hlen, if_false] at h
    cases hf : it.funcs with
    | null =>
      simp only [hf] at h ⊢
      split
      · rename_i ha
        simp only [ha, if_true] at h
        exact asn1_ex_c2i_any_slot env pval content utype it h
      · rename_i ha
        simp only [ha, if_false] at h
        exact asn1_ex_c2i_primitive_slot env pval content utype it h
    | prim f =>
      cases f with
      | none => exact Or.inl rfl
      | some f =>
        simp only [hf] at h ⊢
        exact hit.1 f hf _ _ _ h
    | aux cb => exact Or.inl rfl
    | ext f => exact Or.inl rfl

theorem primitive_content_finish_slot (env : Env) (pval : ASN1_VALUE) (cbs x content : CBS)
    (utype : Int) (it : ASN1_ITEM) (hit : ItemKeepsSlot it) {k : Nat}
    (h : CBS.advanced (CBS_init cbs.data) x k) :
    SlotKept pval (primitive_content_finish env pval cbs x content utype it) := by
  obtain ⟨c1, hc1, a1⟩ := skip_offset_of_advanced h
  unfold primitive_content_finish
  split
  · rename_i h0
    intro _
    exact asn1_ex_c2i_slot env pval content utype it hit h0
  · rw [hc1]
    intro h1
    simp at h1

theorem asn1_d2i_ex_primitive_content_slot (env : Env) (pval : ASN1_VALUE) (cbs x : CBS)
    (utype : Int) (constructed indefinite : Bool) (length : Nat) (it : ASN1_ITEM)
    (hit : ItemKeepsSlot it) {k : Nat} (h : CBS.advanced (CBS_init cbs.data) x k) {r : Out}
    (hr : asn1_d2i_ex_primitive_content env pval cbs x utype constructed indefinite length it
      = some r) : SlotKept pval r := by
  unfold asn1_d2i_ex_primitive_content at hr
  split at hr
  · cases hr; exact fun _ => Or.inl rfl
  · split at hr
    · obtain ⟨f, hf, hf1, hf2⟩ := asn1_find_end_total x length indefinite
      rw [hf] at hr
      simp only at hr
      split at hr
      · cases hr; exact fun _ => Or.inl rfl
      · rename_i h0
        have h1 : f.ret = 1 := by omega
        obtain ⟨k1, a1⟩ := hf2 h1
        split at hr
        · cases hr; exact fun _ => Or.inl rfl
        · cases hr
          exact primitive_content_finish_slot env pval cbs f.cbs _ utype it hit
            (CBS.advanced_trans h a1)
    · split at hr
      · obtain ⟨c, hc, hc1, hc2⟩ := asn1_collect_total [] x indefinite (-1) V_ASN1_UNIVERSAL 0
        rw [hc] at hr
        simp only at hr
        split at hr
        · cases hr; exact fun _ => Or.inl rfl
        · rename_i h0
          have h1 : c.ret = 1 := by omega
          obtain ⟨k1, a1⟩ := hc2 h1
          cases hr
          exact primitive_content_finish_slot env pval cbs c.cbs _ utype it hit
            (CBS.advanced_trans h a1)
      · split at hr
        · cases hr; exact fun _ => Or.inl rfl
        · rename_i content x1 hg
          have a1 := (CBS_get_bytes_advanced hg).1
          cases hr
          exact primitive_content_finish_slot env pval cbs x1 _ utype it hit
            (CBS.advanced_trans h a1)

theorem asn1_d2i_ex_any_slot (env : Env) (pval : ASN1_VALUE) (cbs : CBS) (it : ASN1_ITEM)
    (tag cls : Int) (opt : Bool) (hit : ItemKeepsSlot it) {r : Out}
    (hr : asn1_d2i_ex_any env pval cbs it tag cls opt = some r) : SlotKept pval r := by
  unfold asn1_d2i_ex_any at hr
  split at hr
  · cases hr; exact fun _ => Or.inl rfl
  · split at hr
    · cases hr; exact fun _ => Or.inl rfl
    · split at hr
      · cases hr; exact fun _ => Or.inl rfl
      · split at hr
        · cases hr; exact fun _ => Or.inl rfl
        · rename_i h1
          have h1 : (asn1_check_tag (CBS_init cbs.data) (-1) 0 false).ret = 1 := by
            simpa using h1
          obtain ⟨⟨k, hk, a⟩, _⟩ := asn1_check_tag_ok h1
          exact asn1_d2i_ex_primitive_content_slot env pval cbs _ _ _ _ _ it hit a hr

theorem asn1_d2i_ex_mstring_slot (env : Env) (pval : ASN1_VALUE) (cbs : CBS) (it : ASN1_ITEM)
    (tag cls : Int) (opt : Bool) (hit : ItemKeepsSlot it) {r : Out}
    (hr : asn1_d2i_ex_mstring env pval cbs it tag cls opt = some r) : SlotKept pval r := by
  unfold asn1_d2i_ex_mstring at hr
  split at hr
  · cases hr; exact fun _ => Or.inl rfl
  · split at hr
    · cases hr; exact fun _ => Or.inl rfl
    · rename_i h1
      have h1 : (asn1_check_tag (CBS_init cbs.data) (-1) 0 true).ret = 1 := by
        simpa using h1
      obtain ⟨⟨k, hk, a⟩, _⟩ := asn1_check_tag_ok h1
      split at hr
      · split at hr <;> cases hr <;> exact fun _ => Or.inl rfl
      · split at hr
        · split at hr <;> cases hr <;> exact fun _ => Or.inl rfl
        · exact asn1_d2i_ex_primitive_content_slot env pval cbs _ _ _ _ _ it hit a hr

theorem asn1_d2i_ex_primitive_slot (env : Env) (pval : ASN1_VALUE) (cbs : CBS)
    (it : ASN1_ITEM) (tag cls : Int) (opt : Bool) (hit : ItemKeepsSlot it) {r : Out}
    (hr : asn1_d2i_ex_primitive env pval cbs it tag cls opt = some r) : SlotKept pval r := by
  unfold asn1_d2i_ex_primitive at hr
  generalize (if tag = -1 then it.utype else tag) = et at hr
  generalize (if tag = -1 then V_ASN1_UNIVERSAL else cls) = ec at hr
  split at hr
  · cases hr; exact fun _ => Or.inl rfl
  · split at hr
    · exact asn1_d2i_ex_any_slot env pval cbs it tag cls opt hit hr
    · split at hr
      · cases hr; exact fun _ => Or.inl rfl
      · split at hr
        · cases hr; exact fun _ => Or.inl rfl
        · rename_i h1
          have h1 := of_not_not h1
          obtain ⟨⟨k, hk, a⟩, _⟩ := asn1_check_tag_ok h1
          exact asn1_d2i_ex_primitive_content_slot env pval cbs _ _ _ _ _ it hit a hr

theorem asn1_item_ex_d2i_choice_slot {tdec : TemplateDec} {pval : ASN1_VALUE} {cbs : CBS}
    {it : ASN1_ITEM} {tag cls : Int} {opt : Bool} {depth : Int} {r : Out}
    (hr : asn1_item_ex_d2i_choice tdec pval cbs it tag cls opt depth = some r) :
    SlotKept pval r := by
  unfold asn1_item_ex_d2i_choice at hr
  repeat' split at hr
  all_goals first
    | (cases hr; done)
    | (cases hr; exact fun _ => Or.inl rfl)
    | (cases hr; exact fun _ => Or.inr rfl)
    | (cases hr; exact fun h => absurd rfl h)

theorem sequence_publish_slot (env : Env) (cbs x : CBS) (it : ASN1_ITEM) (l : SeqLoopOut)
    (v : ASN1_VALUE) : SlotKept v (sequence_publish env cbs x it l) := by
  unfold sequence_publish
  repeat' split
  all_goals first
    | exact fun _ => Or.inr rfl
    | exact fun h => absurd rfl h

theorem sequence_finish_slot (env : Env) (cbs x : CBS) (it : ASN1_ITEM) (indefinite : Bool)
    (l : SeqLoopOut) (v : ASN1_VALUE) :
    SlotKept v (sequence_finish env cbs x it indefinite l) := by
  unfold sequence_finish
  repeat' split
  all_goals first
    | exact fun _ => Or.inr rfl
    | exact sequence_publish_slot _ _ _ _ _ _

theorem sequence_body_slot {env : Env} {tdec : TemplateDec} {cbs x content : CBS}
    {it : ASN1_ITEM} {indefinite : Bool} {depth : Int} {r : Out} (v : ASN1_VALUE)
    (hr : sequence_body env tdec cbs x content it indefinite depth = some r) :
    SlotKept v r := by
  unfold sequence_body at hr
  repeat' split at hr
  all_goals first
    | (cases hr; done)
    | (cases hr; exact fun _ => Or.inr rfl)
    | (cases hr; exact sequence_finish_slot _ _ _ _ _ _ _)

theorem asn1_item_ex_d2i_sequence_slot {env : Env} {tdec : TemplateDec} {pval : ASN1_VALUE}
    {cbs : CBS} {it : ASN1_ITEM} {tag cls : Int} {opt : Bool} {depth : Int} {r : Out}
    (hr : asn1_item_ex_d2i_sequence env tdec pval cbs it tag cls opt depth = some r) :
    SlotKept pval r := by
  unfold asn1_item_ex_d2i_sequence at hr
  generalize (if tag = -1 then V_ASN1_SEQUENCE else tag) = et at hr
  generalize (if tag = -1 then V_ASN1_UNIVERSAL else cls) = ec at hr
  repeat' split at hr
  all_goals first
    | (cases hr; done)
    | (cases hr; exact fun _ => Or.inl rfl)
    | (cases hr; exact fun _ => Or.inr rfl)
    | exact sequence_body_slot pval hr

theorem stack_of_body_slot {d2i : ItemDec} {env : Env} {cbs x content : CBS}
    {tt : ASN1_TEMPLATE} {indefinite : Bool} {depth : Int} {r : Out} (v : ASN1_VALUE)
    (hr : stack_of_body d2i env cbs x content tt indefinite depth = some r) :
    SlotKept v r := by
  unfold stack_of_body at hr
  repeat' split at hr
  all_goals first
    | (cases hr; done)
    | (cases hr; exact fun _ => Or.inr rfl)
    | (cases hr; exact fun h => absurd rfl h)

theorem asn1_template_stack_of_d2i_slot {d2i : ItemDec} {env : Env} {v : ASN1_VALUE}
    {cbs : CBS} {tt : ASN1_TEMPLATE} {opt : Bool} {depth : Int} {r : Out}
    (hr : asn1_template_stack_of_d2i d2i env (some v) cbs tt opt depth = some r) :
    SlotKept v r := by
  unfold asn1_template_stack_of_d2i at hr
  simp only at hr
  repeat' split at hr
  all_goals first
    | (cases hr; done)
    | (cases hr; exact fun _ => Or.inr rfl)
    | exact stack_of_body_slot v hr

/-- The item decoder `d2i` keeps the slot of every item that satisfies
`ItemKeepsSlot`. -/
def ItemDec.KeepsSlot (d2i : ItemDec) : Prop :=
  ∀ v cbs (it : ASN1_ITEM) tag cls opt depth r, ItemKeepsSlot it →
    d2i (some v) cbs it tag cls opt depth = some r → SlotKept v r

theorem asn1_template_noexp_d2i_slot {d2i : ItemDec} (hd : ItemDec.KeepsSlot d2i) {env : Env}
    (he : CallbacksKeepSlot env) {v : ASN1_VALUE} {cbs : CBS} {tt : ASN1_TEMPLATE}
    {opt : Bool} {depth : Int} {r : Out}
    (hr : asn1_template_noexp_d2i d2i env (some v) cbs tt opt depth = some r) :
    SlotKept v r := by
  unfold asn1_template_noexp_d2i at hr
  simp only at hr
  split at hr
  · exact asn1_template_stack_of_d2i_slot hr
  · generalize (if tt.flags &&& ASN1_TFLG_IMPTAG ≠ 0 then tt.tag else -1) = et at hr
    generalize (if tt.flags &&& ASN1_TFLG_IMPTAG ≠ 0
        then ((tt.flags &&& ASN1_TFLG_TAG_CLASS : Nat) : Int) else V_ASN1_UNIVERSAL) = ec at hr
    cases hr0 : d2i (some v) cbs (env.item tt.item) et ec opt depth with
    | none => simp [hr0] at hr
    | some r0 =>
      simp only [hr0] at hr
      have hk := hd v cbs (env.item tt.item) et ec opt depth r0 (he tt.item) hr0
      split at hr
      · rename_i ha
        cases hr
        intro _
        exact hk (by omega)
      · split at hr
        · cases hr; exact fun _ => Or.inr rfl
        · cases hr; exact fun h => absurd rfl h

theorem template_explicit_body_slot {d2i : ItemDec} (hd : ItemDec.KeepsSlot d2i) {env : Env}
    (he : CallbacksKeepSlot env) {v : ASN1_VALUE} {cbs x content : CBS} {tt : ASN1_TEMPLATE}
    {indefinite : Bool} {depth : Int} {r : Out}
    (hr : template_explicit_body d2i env v cbs x content tt indefinite depth = some r) :
    SlotKept v r := by
  unfold template_explicit_body at hr
  cases hr0 : asn1_template_noexp_d2i d2i env (some v) content tt false depth with
  | none => simp [hr0] at hr
  | some r0 =>
    simp only [hr0] at hr
    have hk := asn1_template_noexp_d2i_slot hd he hr0
    split at hr
    · rename_i h1
      cases hr
      intro _
      exact hk h1
    · repeat' split at hr
      all_goals first
        | (cases hr; exact fun _ => Or.inr rfl)
        | (cases hr; exact fun h => absurd rfl h)

theorem asn1_template_ex_d2i_slot {d2i : ItemDec} (hd : ItemDec.KeepsSlot d2i) {env : Env}
    (he : CallbacksKeepSlot env) {v : ASN1_VALUE} {cbs : CBS} {tt : ASN1_TEMPLATE}
    {opt : Bool} {depth : Int} {r : Out}
    (hr : asn1_template_ex_d2i d2i env (some v) cbs tt opt depth = some r) :
    SlotKept v r := by
  unfold asn1_template_ex_d2i at hr
  simp only at hr
  split at hr
  · exact asn1_template_noexp_d2i_slot hd he hr
  · repeat' split at hr
    all_goals first
      | (cases hr; done)
      | (cases hr; exact fun _ => Or.inl rfl)
      | (cases hr; exact fun _ => Or.inr rfl)
      | exact template_explicit_body_slot hd he hr

theorem extern_item_d2i_slot (v : ASN1_VALUE) (cbs : CBS) (it : ASN1_ITEM) (tag cls : Int)
    (opt : Bool) (hit : ItemKeepsSlot it) :
    SlotKept v (extern_item_d2i v cbs it tag cls opt) := by
  unfold extern_item_d2i
  split
  · exact fun _ => Or.inl rfl
  · cases hf : it.funcs with
    | ext f =>
      simp only
      split
      · repeat' split
        all_goals first
          | exact fun _ => Or.inr rfl
          | exact fun h => absurd rfl h
      · rename_i h1
        intro _
        exact hit.2 f hf _ _ _ _ _ h1
    | null => exact fun _ => Or.inl rfl
    | prim f => exact fun _ => Or.inl rfl
    | aux f => exact fun _ => Or.inl rfl

theorem asn1_item_ex_d2i_slot {env : Env} (he : CallbacksKeepSlot env) :
    ∀ (fuel : Nat), ItemDec.KeepsSlot (asn1_item_ex_d2i env fuel)
  | 0 => by
    intro v cbs it tag cls opt depth r _ hr
    simp [asn1_item_ex_d2i] at hr
  | fuel + 1 => by
    intro v cbs it tag cls opt depth r hit hr
    have ih := asn1_item_ex_d2i_slot he fuel
    rw [asn1_item_ex_d2i] at hr
    simp only at hr
    split at hr
    · cases hr; exact fun _ => Or.inr rfl
    · split at hr
      · split at hr
        · split at hr
          · cases hr; exact fun _ => Or.inr rfl
          · exact asn1_template_ex_d2i_slot ih he hr
        · exact asn1_d2i_ex_primitive_slot env v cbs it tag cls opt hit hr
      · split at hr
        · exact asn1_d2i_ex_mstring_slot env v cbs it tag cls opt hit hr
        · split at hr
          · cases hr
            exact extern_item_d2i_slot v cbs it tag cls opt hit
          · split at hr
            · exact asn1_item_ex_d2i_choice_slot hr
            · split at hr
              · exact asn1_item_ex_d2i_sequence_slot hr
              · cases hr; exact fun _ => Or.inl rfl

theorem scenario_callbacks_keep_slot : CallbacksKeepSlot scenarioEnv := by
  intro k
  have hf : (scenarioItems k).funcs = ASN1_FUNCS.null := by
    unfold scenarioItems
    split <;> rfl
  constructor
  · intro f h
    rw [show scenarioEnv.item k = scenarioItems k from rfl, hf] at h
    cases h
  · intro f h
    rw [show scenarioEnv.item k = scenarioItems k from rfl, hf] at h
    cases h

/-! ## Decoding does not depend on the position of the cursor in its view -/

/-- The cursor `c` seen from a view of initial length `n`. -/
def CBS.reloc (c : CBS) (n : Nat) : CBS := ⟨c.data, n⟩

/-- A decode result with its cursor seen from a view of initial length `n`. -/
def Out.reloc (r : Out) (n : Nat) : Out := ⟨r.ret, r.pval, r.cbs.reloc n, r.errs⟩

theorem CBS.reloc_data (c : CBS) (n : Nat) : (c.reloc n).data = c.data := rfl

theorem CBS.reloc_reloc (c : CBS) (n m : Nat) : (c.reloc n).reloc m = c.reloc m := rfl

theorem CBS.reloc_self (c : CBS) : c.reloc c.initial_len = c := rfl

theorem CBS.eq_reloc_of_data_eq {c c1 : CBS} (h : c1.data = c.data) :
    c1 = c.reloc c1.initial_len := by
  cases c1
  simp only [CBS.reloc] at h ⊢
  rw [← h]

theorem CBS_len_reloc (c : CBS) (n : Nat) : CBS_len (c.reloc n) = CBS_len c := rfl

theorem CBS_skip_reloc (c : CBS) (n k : Nat) :
    CBS_skip (c.reloc n) k = (CBS_skip c k).map (fun c1 => c1.reloc n) := by
  unfold CBS_skip
  simp only [CBS.reloc_data]
  split <;> rfl

theorem CBS_get_bytes_reloc (c : CBS) (n k : Nat) :
    CBS_get_bytes (c.reloc n) k = (CBS_get_bytes c k).map (fun p => (p.1, p.2.reloc n)) := by
  unfold CBS_get_bytes
  simp only [CBS.reloc_data]
  split <;> rfl

theorem asn1_check_eoc_reloc (c : CBS) (n : Nat) :
    asn1_check_eoc (c.reloc n) = (asn1_check_eoc c).map (fun c1 => c1.reloc n) := by
  unfold asn1_check_eoc
  have hp : CBS_peek_u16 (c.reloc n) = CBS_peek_u16 c := rfl
  rw [hp, CBS_skip_reloc]
  cases CBS_peek_u16 c with
  | none => rfl
  | some e =>
    simp only
    split <;> rfl

theorem primitive_content_finish_reloc (env : Env) (pval : ASN1_VALUE) (cbs x content : CBS)
    (utype : Int) (it : ASN1_ITEM) (n : Nat) :
    primitive_content_finish env pval (cbs.reloc n) x content utype it
      = (primitive_content_finish env pval cbs x content utype it).reloc n := by
  unfold primitive_content_finish
  rw [CBS_skip_reloc]
  split
  · rfl
  · cases CBS_skip cbs (CBS_offset x) <;> rfl

theorem asn1_d2i_ex_primitive_content_reloc (env : Env) (pval : ASN1_VALUE) (cbs x : CBS)
    (utype : Int) (constructed indefinite : Bool) (length : Nat) (it : ASN1_ITEM) (n : Nat) :
    asn1_d2i_ex_primitive_content env pval (cbs.reloc n) x utype constructed indefinite length it
      = (asn1_d2i_ex_primitive_content env pval cbs x utype constructed indefinite length it).map
          (fun r => r.reloc n) := by
  unfold asn1_d2i_ex_primitive_content
  simp only [CBS_get_bytes_reloc, primitive_content_finish_reloc]
  repeat' split
  all_goals first
    | rfl
    | simp_all

theorem asn1_d2i_ex_any_reloc (env : Env) (pval : ASN1_VALUE) (cbs : CBS) (it : ASN1_ITEM)
    (tag cls : Int) (opt : Bool) (n : Nat) :
    asn1_d2i_ex_any env pval (cbs.reloc n) it tag cls opt
      = (asn1_d2i_ex_any env pval cbs it tag cls opt).map (fun r => r.reloc n) := by
  unfold asn1_d2i_ex_any
  simp only [CBS.reloc_data, asn1_d2i_ex_primitive_content_reloc]
  repeat' split
  all_goals rfl

theorem asn1_d2i_ex_mstring_reloc (env : Env) (pval : ASN1_VALUE) (cbs : CBS) (it : ASN1_ITEM)
    (tag cls : Int) (opt : Bool) (n : Nat) :
    asn1_d2i_ex_mstring env pval (cbs.reloc n) it tag cls opt
      = (asn1_d2i_ex_mstring env pval cbs it tag cls opt).map (fun r => r.reloc n) := by
  unfold asn1_d2i_ex_mstring
  simp only [CBS.reloc_data, asn1_d2i_ex_primitive_content_reloc]
  repeat' split
  all_goals rfl

theorem asn1_d2i_ex_primitive_reloc (env : Env) (pval : ASN1_VALUE) (cbs : CBS)
    (it : ASN1_ITEM) (tag cls : Int) (opt : Bool) (n : Nat) :
    asn1_d2i_ex_primitive env pval (cbs.reloc n) it tag cls opt
      = (asn1_d2i_ex_primitive env pval cbs it tag cls opt).map (fun r => r.reloc n) := by
  unfold asn1_d2i_ex_primitive
  simp only [CBS.reloc_data, asn1_d2i_ex_primitive_content_reloc, asn1_d2i_ex_any_reloc]
  generalize (if tag = -1 then it.utype else tag) = et
  generalize (if tag = -1 then V_ASN1_UNIVERSAL else cls) = ec
  repeat' split
  all_goals rfl

theorem sequence_publish_reloc (env : Env) (cbs x : CBS) (it : ASN1_ITEM) (l : SeqLoopOut)
    (n : Nat) :
    sequence_publish env (cbs.reloc n) x it l = (sequence_publish env cbs x it l).reloc n := by
  unfold sequence_publish
  rw [CBS_get_bytes_reloc]
  split
  · rfl
  · cases CBS_get_bytes cbs (CBS_offset x) with
    | none => rfl
    | some p =>
      simp only [Option.map_some']
      repeat' split
      all_goals rfl

theorem sequence_finish_reloc (env : Env) (cbs x : CBS) (it : ASN1_ITEM) (indefinite : Bool)
    (l : SeqLoopOut) (n : Nat) :
    sequence_finish env (cbs.reloc n) x it indefinite l
      = (sequence_finish env cbs x it indefinite l).reloc n := by
  unfold sequence_finish
  simp only [sequence_publish_reloc]
  repeat' split
  all_goals rfl

theorem sequence_body_reloc (env : Env) (tdec : TemplateDec) (cbs x content : CBS)
    (it : ASN1_ITEM) (indefinite : Bool) (depth : Int) (n : Nat) :
    sequence_body env tdec (cbs.reloc n) x content it indefinite depth
      = (sequence_body env tdec cbs x content it indefinite depth).map (fun r => r.reloc n) := by
  unfold sequence_body
  simp only [sequence_finish_reloc]
  repeat' split
  all_goals rfl

theorem asn1_item_ex_d2i_sequence_reloc (env : Env) (tdec : TemplateDec) (pval : ASN1_VALUE)
    (cbs : CBS) (it : ASN1_ITEM) (tag cls : Int) (opt : Bool) (depth : Int) (n : Nat) :
    asn1_item_ex_d2i_sequence env tdec pval (cbs.reloc n) it tag cls opt depth
      = (asn1_item_ex_d2i_sequence env tdec pval cbs it tag cls opt depth).map
          (fun r => r.reloc n) := by
  unfold asn1_item_ex_d2i_sequence
  simp only [CBS.reloc_data, sequence_body_reloc]
  generalize (if tag = -1 then V_ASN1_SEQUENCE else tag) = et
  generalize (if tag = -1 then V_ASN1_UNIVERSAL else cls) = ec
  repeat' split
  all_goals rfl

theorem stack_of_body_reloc (d2i : ItemDec) (env : Env) (cbs x content : CBS)
    (tt : ASN1_TEMPLATE) (indefinite : Bool) (depth : Int) (n : Nat) :
    stack_of_body d2i env (cbs.reloc n) x content tt indefinite depth
      = (stack_of_body d2i env cbs x content tt indefinite depth).map (fun r => r.reloc n) := by
  unfold stack_of_body
  simp only [CBS_skip_reloc]
  repeat' split
  all_goals first
    | rfl
    | simp_all [Out.reloc]

theorem asn1_template_stack_of_d2i_reloc (d2i : ItemDec) (env : Env)
    (pval : Option ASN1_VALUE) (cbs : CBS) (tt : ASN1_TEMPLATE) (opt : Bool) (depth : Int)
    (n : Nat) :
    asn1_template_stack_of_d2i d2i env pval (cbs.reloc n) tt opt depth
      = (asn1_template_stack_of_d2i d2i env pval cbs tt opt depth).map (fun r => r.reloc n) := by
  unfold asn1_template_stack_of_d2i
  simp only [CBS.reloc_data, stack_of_body_reloc]
  repeat' split
  all_goals rfl

/-- The template decoder `tdec` does not depend on the position of the
cursor in its view. -/
def TemplateDec.PosIndep (tdec : TemplateDec) : Prop :=
  ∀ p (c : CBS) tt o d n, tdec p (c.reloc n) tt o d = (tdec p c tt o d).map (fun r => r.reloc n)

/-- The item decoder `d2i` does not depend on the position of the cursor in
its view. -/
def ItemDec.PosIndep (d2i : ItemDec) : Prop :=
  ∀ p (c : CBS) (it : ASN1_ITEM) tag cls o d n,
    d2i p (c.reloc n) it tag cls o d = (d2i p c it tag cls o d).map (fun r => r.reloc n)

theorem choice_fields_reloc {tdec : TemplateDec} (ht : TemplateDec.PosIndep tdec) (depth : Int)
    (n : Nat) :
    ∀ (tts : List ASN1_TEMPLATE) (i : Nat) (a : ASN1_VALUE) (c : CBS) (e : List ASN1_R),
      choice_fields tdec depth tts i a (c.reloc n) e
        = (choice_fields tdec depth tts i a c e).map (fun r => r.reloc n)
  | [], i, a, c, e => by
    simp only [choice_fields_nil]
    rfl
  | tt :: tts, i, a, c, e => by
    simp only [choice_fields_cons, ht _ c]
    cases tdec (some (asn1_get_field a tt)) c tt true depth with
    | none => rfl
    | some r =>
      simp only [Option.map_some']
      have h1 : (r.reloc n).ret = r.ret := rfl
      have h2 : (r.reloc n).pval = r.pval := rfl
      have h3 : (r.reloc n).errs = r.errs := rfl
      have h4 : (r.reloc n).cbs = r.cbs.reloc n := rfl
      simp only [h1, h2, h3, h4]
      split
      · exact choice_fields_reloc ht depth n tts _ _ _ _
      · split <;> rfl

theorem asn1_item_ex_d2i_choice_reloc {tdec : TemplateDec} (ht : TemplateDec.PosIndep tdec)
    (pval : ASN1_VALUE) (cbs : CBS) (it : ASN1_ITEM) (tag cls : Int) (opt : Bool)
    (depth : Int) (n : Nat) :
    asn1_item_ex_d2i_choice tdec pval (cbs.reloc n) it tag cls opt depth
      = (asn1_item_ex_d2i_choice tdec pval cbs it tag cls opt depth).map
          (fun r => r.reloc n) := by
  unfold asn1_item_ex_d2i_choice
  simp only [choice_fields_reloc ht]
  split
  · rfl
  · split
    · rfl
    · split
      · rfl
      · split
        · rfl
        · rename_i a1 _
          cases choice_fields tdec depth it.templates 0 a1 cbs [] with
          | none => rfl
          | some l =>
            simp only [Option.map_some']
            have h1 : (l.reloc n).ret = l.ret := rfl
            have h2 : (l.reloc n).pval = l.pval := rfl
            have h3 : (l.reloc n).errs = l.errs := rfl
            have h4 : (l.reloc n).cbs = l.cbs.reloc n := rfl
            simp only [h1, h2, h3, h4]
            repeat' split
            all_goals rfl

theorem asn1_template_noexp_d2i_reloc {d2i : ItemDec} (hd : ItemDec.PosIndep d2i) (env : Env)
    (pval : Option ASN1_VALUE) (cbs : CBS) (tt : ASN1_TEMPLATE) (opt : Bool) (depth : Int)
    (n : Nat) :
    asn1_template_noexp_d2i d2i env pval (cbs.reloc n) tt opt depth
      = (asn1_template_noexp_d2i d2i env pval cbs tt opt depth).map (fun r => r.reloc n) := by
  cases pval with
  | none => rfl
  | some v =>
    unfold asn1_template_noexp_d2i
    simp only [asn1_template_stack_of_d2i_reloc, hd _ cbs]
    by_cases hs : tt.flags &&& ASN1_TFLG_SK_MASK ≠ 0
    · rw [if_pos hs, if_pos hs]
    · rw [if_neg hs, if_neg hs]
      generalize (if tt.flags &&& ASN1_TFLG_IMPTAG ≠ 0 then tt.tag else -1) = et
      generalize (if tt.flags &&& ASN1_TFLG_IMPTAG ≠ 0
          then ((tt.flags &&& ASN1_TFLG_TAG_CLASS : Nat) : Int) else V_ASN1_UNIVERSAL) = ec
      cases d2i (some v) cbs (env.item tt.item) et ec opt depth with
      | none => rfl
      | some r =>
        simp only [Option.map_some']
        have h1 : (r.reloc n).ret = r.ret := rfl
        have h2 : (r.reloc n).pval = r.pval := rfl
        have h3 : (r.reloc n).errs = r.errs := rfl
        have h4 : (r.reloc n).cbs = r.cbs.reloc n := rfl
        simp only [h1, h2, h3, h4]
        repeat' split
        all_goals rfl

theorem template_explicit_body_reloc (d2i : ItemDec) (env : Env) (v : ASN1_VALUE)
    (cbs x content : CBS) (tt : ASN1_TEMPLATE) (indefinite : Bool) (depth : Int) (n : Nat) :
    template_explicit_body d2i env v (cbs.reloc n) x content tt indefinite depth
      = (template_explicit_body d2i env v cbs x content tt indefinite depth).map
          (fun r => r.reloc n) := by
  unfold template_explicit_body
  simp only [CBS_skip_reloc]
  repeat' split
  all_goals first
    | rfl
    | simp_all [Out.reloc]

theorem asn1_template_ex_d2i_reloc {d2i : ItemDec} (hd : ItemDec.PosIndep d2i) (env : Env) :
    TemplateDec.PosIndep (asn1_template_ex_d2i d2i env) := by
  intro pval cbs tt opt depth n
  unfold asn1_template_ex_d2i
  simp only [CBS.reloc_data, asn1_template_noexp_d2i_reloc hd, template_explicit_body_reloc]
  repeat' split
  all_goals rfl

theorem extern_item_d2i_reloc (v : ASN1_VALUE) (cbs : CBS) (it : ASN1_ITEM) (tag cls : Int)
    (opt : Bool) (n : Nat) :
    extern_item_d2i v (cbs.reloc n) it tag cls opt = (extern_item_d2i v cbs it tag cls opt).reloc n := by
  unfold extern_item_d2i
  simp only [CBS.reloc_data, CBS_len_reloc, CBS_skip_reloc]
  repeat' split
  all_goals first
    | rfl
    | simp_all [Out.reloc]

theorem asn1_item_ex_d2i_reloc (env : Env) :
    ∀ (fuel : Nat), ItemDec.PosIndep (asn1_item_ex_d2i env fuel)
  | 0 => by
    intro p c it tag cls o d n
    simp [asn1_item_ex_d2i]
  | fuel + 1 => by
    intro p c it tag cls o d n
    have ih := asn1_item_ex_d2i_reloc env fuel
    have ht := asn1_template_ex_d2i_reloc ih env
    rw [asn1_item_ex_d2i]
    simp only [ht _ c, asn1_d2i_ex_primitive_reloc, asn1_d2i_ex_mstring_reloc,
      extern_item_d2i_reloc, asn1_item_ex_d2i_choice_reloc ht,
      asn1_item_ex_d2i_sequence_reloc]
    repeat' split
    all_goals rfl

/-! ## Two structures that differ in one field slot -/

/-- The structures `a` and `a1` differ at most in the field slot of the
template `o`: they become equal once that slot is overwritten. -/
def SameBut (o : ASN1_TEMPLATE) (a a1 : ASN1_VALUE) : Prop :=
  ∀ x, asn1_set_field a o x = asn1_set_field a1 o x

theorem SameBut.refl (o : ASN1_TEMPLATE) (a : ASN1_VALUE) : SameBut o a a := fun _ => rfl

theorem asn1_set_field_set (a : ASN1_VALUE) (o : ASN1_TEMPLATE) (x y : ASN1_VALUE) :
    asn1_set_field (asn1_set_field a o x) o y = asn1_set_field a o y := by
  cases a <;> simp [asn1_set_field]

theorem asn1_set_field_comm (a : ASN1_VALUE) (t o : ASN1_TEMPLATE) (h : t.offset ≠ o.offset)
    (x y : ASN1_VALUE) :
    asn1_set_field (asn1_set_field a t x) o y = asn1_set_field (asn1_set_field a o y) t x := by
  cases a with
  | aggregate s fs e =>
    simp only [asn1_set_field]
    rw [List.set_comm x y fs h]
  | _ => rfl

theorem asn1_get_field_set_other (a : ASN1_VALUE) (t o : ASN1_TEMPLATE)
    (h : t.offset ≠ o.offset) (x : ASN1_VALUE) :
    asn1_get_field (asn1_set_field a o x) t = asn1_get_field a t := by
  cases a with
  | aggregate s fs e =>
    simp only [asn1_set_field, asn1_get_field, List.getD_eq_getElem?_getD]
    rw [List.getElem?_set_ne (Ne.symm h)]
  | _ => rfl

theorem SameBut.set_left (o : ASN1_TEMPLATE) (a : ASN1_VALUE) (x : ASN1_VALUE) :
    SameBut o (asn1_set_field a o x) a := fun y => asn1_set_field_set a o x y

theorem SameBut.set_both (o : ASN1_TEMPLATE) (a : ASN1_VALUE) (x y : ASN1_VALUE) :
    SameBut o (asn1_set_field a o x) (asn1_set_field a o y) := fun z => by
  rw [asn1_set_field_set, asn1_set_field_set]

theorem SameBut.set_other {o : ASN1_TEMPLATE} {a a1 : ASN1_VALUE} (h : SameBut o a a1)
    (t : ASN1_TEMPLATE) (ht : t.offset ≠ o.offset) (z : ASN1_VALUE) :
    SameBut o (asn1_set_field a t z) (asn1_set_field a1 t z) := fun x => by
  rw [asn1_set_field_comm a t o ht, asn1_set_field_comm a1 t o ht, h x]

theorem SameBut.get {o : ASN1_TEMPLATE} {a a1 : ASN1_VALUE} (h : SameBut o a a1)
    (t : ASN1_TEMPLATE) (ht : t.offset ≠ o.offset) :
    asn1_get_field a t = asn1_get_field a1 t := by
  rw [← asn1_get_field_set_other a t o ht ASN1_VALUE.null,
    ← asn1_get_field_set_other a1 t o ht ASN1_VALUE.null, h]

theorem SameBut.trans {o : ASN1_TEMPLATE} {a a1 a2 : ASN1_VALUE} (h : SameBut o a a1)
    (h1 : SameBut o a1 a2) : SameBut o a a2 := fun x => (h x).trans (h1 x)

theorem SameBut.enc_save {o : ASN1_TEMPLATE} {a a1 b b1 : ASN1_VALUE} {s s1 : List UInt8}
    (h : SameBut o a a1) (hb : asn1_enc_save a s = some b) (hb1 : asn1_enc_save a1 s1 = some b1)
    (t : ASN1_TEMPLATE) (ht : t.offset ≠ o.offset) :
    asn1_get_field b t = asn1_get_field b1 t := by
  rw [asn1_get_field_enc_save hb, asn1_get_field_enc_save hb1]
  exact h.get t ht

theorem sequence_missing_sim (env : Env) (o : ASN1_TEMPLATE) :
    ∀ (tts : List ASN1_TEMPLATE) (a a1 : ASN1_VALUE), NoAdb tts →
      (∀ t ∈ tts, t.offset ≠ o.offset) → SameBut o a a1 →
      (sequence_missing env tts a1).ret = (sequence_missing env tts a).ret ∧
      SameBut o (sequence_missing env tts a).aseq (sequence_missing env tts a1).aseq
  | [], a, a1, _, _, h => by
    rw [sequence_missing, sequence_missing]
    exact ⟨rfl, h⟩
  | t0 :: tts, a, a1, hadb, hoff, h => by
    rw [sequence_missing, sequence_missing, asn1_do_adb_of_no_flag env a t0 (hadb t0 (by simp)),
      asn1_do_adb_of_no_flag env a1 t0 (hadb t0 (by simp))]
    simp only
    split
    · exact ⟨rfl, h⟩
    · exact sequence_missing_sim env o tts _ _ (fun t ht => hadb t (by simp [ht]))
        (fun t ht => hoff t (by simp [ht])) (h.set_other t0 (hoff t0 (by simp)) _)

/-- The field loop run from two structures that differ at most in the slot
of `o`, over the same bytes and over fields that do not use that slot,
takes the same course. -/
theorem sequence_fields_sim {tdec : TemplateDec} (ht : TemplateDec.PosIndep tdec) (env : Env)
    (it : ASN1_ITEM) (depth : Int) (indefinite : Bool) (o : ASN1_TEMPLATE) :
    ∀ (rest : List ASN1_TEMPLATE) (i : Nat) (a a1 : ASN1_VALUE) (c c1 : CBS) (eoc : Bool)
      (e e1 : List ASN1_R) (l : SeqLoopOut), NoAdb rest →
      (∀ t ∈ rest, t.offset ≠ o.offset) → SameBut o a a1 → c1.data = c.data →
      sequence_fields env tdec it depth indefinite rest i a c eoc e = some l →
      ∃ l1, sequence_fields env tdec it depth indefinite rest i a1 c1 eoc e1 = some l1 ∧
        l1.ret = l.ret ∧ l1.i = l.i ∧ SameBut o l.aseq l1.aseq ∧ l1.cbs.data = l.cbs.data ∧
        l1.eoc_needed = l.eoc_needed ∧ asn1_get_field l1.aseq o = asn1_get_field a1 o
  | [], i, a, a1, c, c1, eoc, e, e1, l, _, _, h, hc, hl => by
    rw [sequence_fields_nil] at hl
    cases hl
    exact ⟨_, sequence_fields_nil _ _ _ _ _ _ _ _ _ _, rfl, rfl, h, hc, rfl, rfl⟩
  | tt :: rest, i, a, a1, c, c1, eoc, e, e1, l, hadb, hoff, h, hc, hl => by
    have hadb0 := hadb tt (by simp)
    have hoff0 := hoff tt (by simp)
    have hadb1 : NoAdb rest := fun t ht => hadb t (by simp [ht])
    have hoff1 : ∀ t ∈ rest, t.offset ≠ o.offset := fun t ht => hoff t (by simp [ht])
    rw [CBS.eq_reloc_of_data_eq hc]
    generalize c1.initial_len = n
    rw [sequence_fields] at hl ⊢
    have hg : asn1_get_field a1 tt = asn1_get_field a tt := (h.get tt hoff0).symm
    simp only [asn1_check_eoc_reloc, CBS_len_reloc, asn1_do_adb_of_no_flag env _ tt hadb0,
      hg, ht _ c] at hl ⊢
    cases hce : asn1_check_eoc c with
    | some c2 =>
      simp only [hce, Option.map_some'] at hl ⊢
      split at hl
      · cases hl
        rename_i hi
        simp only [hi, if_true]
        exact ⟨_, rfl, rfl, rfl, h, rfl, rfl, rfl⟩
      · cases hl
        rename_i hi
        simp only [hi, if_false]
        exact ⟨_, rfl, rfl, rfl, h, rfl, rfl, rfl⟩
    | none =>
      simp only [hce, Option.map_none'] at hl ⊢
      split at hl
      · cases hl
        rename_i hz
        simp only [hz, if_true]
        exact ⟨_, rfl, rfl, rfl, h, rfl, rfl, rfl⟩
      · rename_i hz
        simp only [hz, if_false]
        cases hr : tdec (some (asn1_get_field a tt)) c tt (optional_field it i tt) depth with
        | none => simp [hr] at hl
        | some r =>
          simp only [hr, Option.map_some'] at hl ⊢
          have h1 : (r.reloc n).ret = r.ret := rfl
          have h2 : (r.reloc n).pval = r.pval := rfl
          have h3 : (r.reloc n).errs = r.errs := rfl
          simp only [h1, h2, h3]
          split at hl
          · rename_i ha
            simp only [ha, if_true]
            obtain ⟨l1, hl1, q1, q2, q3, q4, q5, q6⟩ := sequence_fields_sim ht env it depth
              indefinite o rest (i + 1) _ _ r.cbs (r.reloc n).cbs eoc _ (e1 ++ r.errs) l hadb1
              hoff1 (h.set_other tt hoff0 ASN1_VALUE.null) rfl hl
            refine ⟨l1, hl1, q1, q2, q3, q4, q5, ?_⟩
            rw [q6, asn1_get_field_set_other a1 o tt hoff0.symm]
          · rename_i ha
            simp only [ha, if_false]
            split at hl
            · cases hl
              rename_i hb
              rw [if_pos hb]
              refine ⟨_, rfl, rfl, rfl, h.set_other tt hoff0 _, rfl, rfl, ?_⟩
              exact asn1_get_field_set_other a1 o tt hoff0.symm _
            · rename_i hb
              rw [if_neg hb]
              obtain ⟨l1, hl1, q1, q2, q3, q4, q5, q6⟩ := sequence_fields_sim ht env it depth
                indefinite o rest (i + 1) _ _ r.cbs (r.reloc n).cbs eoc _ (e1 ++ r.errs) l hadb1
                hoff1 (h.set_other tt hoff0 r.pval) rfl hl
              refine ⟨l1, hl1, q1, q2, q3, q4, q5, ?_⟩
              rw [q6, asn1_get_field_set_other a1 o tt hoff0.symm]

/-! ## What makes `asn1_item_ex_d2i_sequence` succeed -/

/-- The state `l2` is the one the code after the field loop of
`asn1_item_ex_d2i_sequence` works with when the loop ended in the state `l`:
the closing marker, if one was still needed, has been read. -/
def SeqClosed (l l2 : SeqLoopOut) : Prop :=
  (l.eoc_needed = true ∧ ∃ c1, asn1_check_eoc l.cbs = some c1 ∧
      l2 = ⟨l.ret, l.i, l.aseq, c1, l.eoc_needed, l.errs⟩) ∨
  (l.eoc_needed = false ∧ l2 = l)

theorem run_asn1_cb_none {it : ASN1_ITEM} (hcb : it.asn1_cb = none) (op : Int)
    (v : ASN1_VALUE) : run_asn1_cb it op v = some v := by
  simp [run_asn1_cb, hcb]

theorem sequence_body_success {env : Env} {tdec : TemplateDec} {cbs x content : CBS}
    {it : ASN1_ITEM} {indefinite : Bool} {depth : Int} {r : Out} {aseq0 : ASN1_VALUE}
    (hcb : it.asn1_cb = none) (hnew : ASN1_item_ex_new it = some aseq0)
    (h : sequence_body env tdec cbs x content it indefinite depth = some r) (hr : r.ret = 1) :
    ∃ l l2, sequence_fields env tdec it depth indefinite it.templates 0 aseq0 content
        indefinite [] = some l ∧ l.ret = 1 ∧ SeqClosed l l2 ∧
      r = sequence_finish env cbs x it indefinite l2 := by
  unfold sequence_body at h
  simp only [hnew, run_asn1_cb_none hcb] at h
  cases hl : sequence_fields env tdec it depth indefinite it.templates 0 aseq0 content
      indefinite [] with
  | none => simp [hl] at h
  | some l =>
    simp only [hl] at h
    have hret := sequence_fields_ret _ _ _ _ _ _ l hl
    by_cases h0 : l.ret = 0
    · rw [if_pos h0] at h
      cases h
      simp at hr
    · have h1 : l.ret = 1 := by
        rcases hret with h1 | h1
        · exact h1
        · exact absurd h1 h0
      rw [if_neg h0] at h
      by_cases he : l.eoc_needed = true
      · rw [if_pos he] at h
        cases hc : asn1_check_eoc l.cbs with
        | none =>
          simp only [hc] at h
          cases h
          simp at hr
        | some c1 =>
          simp only [hc, Option.some.injEq] at h
          exact ⟨l, _, rfl, h1, Or.inl ⟨he, c1, hc, rfl⟩, h.symm⟩
      · rw [if_neg he] at h
        simp only [Option.some.injEq] at h
        exact ⟨l, l, rfl, h1, Or.inr ⟨by simpa using he, rfl⟩, h.symm⟩

theorem sequence_body_of_fields {env : Env} {tdec : TemplateDec} {cbs x content : CBS}
    {it : ASN1_ITEM} {indefinite : Bool} {depth : Int} {aseq0 : ASN1_VALUE}
    {l l2 : SeqLoopOut} (hcb : it.asn1_cb = none) (hnew : ASN1_item_ex_new it = some aseq0)
    (hl : sequence_fields env tdec it depth indefinite it.templates 0 aseq0 content
        indefinite [] = some l) (hl1 : l.ret = 1) (hcl : SeqClosed l l2) :
    sequence_body env tdec cbs x content it indefinite depth
      = some (sequence_finish env cbs x it indefinite l2) := by
  unfold sequence_body
  simp only [hnew, run_asn1_cb_none hcb, hl]
  rw [if_neg (by rw [hl1]; decide)]
  rcases hcl with ⟨he, c1, hc, rfl⟩ | ⟨he, rfl⟩
  · rw [if_pos he]
    simp only [hc]
  · rw [if_neg (by simp [he])]

theorem sequence_finish_success {env : Env} {cbs x : CBS} {it : ASN1_ITEM}
    {indefinite : Bool} {l2 : SeqLoopOut} (hcb : it.asn1_cb = none)
    (h : (sequence_finish env cbs x it indefinite l2).ret = 1) :
    (indefinite = false → CBS_len l2.cbs = 0) ∧
    (sequence_missing env (it.templates.drop l2.i) l2.aseq).ret = 1 ∧
    ∀ t, asn1_get_field (sequence_finish env cbs x it indefinite l2).pval t
      = asn1_get_field (sequence_missing env (it.templates.drop l2.i) l2.aseq).aseq t := by
  unfold sequence_finish at h ⊢
  cases indefinite with
  | true =>
    simp only [if_true] at h ⊢
    cases hs : CBS_skip x (CBS_offset l2.cbs) with
    | none => simp [hs] at h
    | some x1 =>
      simp only [hs] at h ⊢
      obtain ⟨p, q⟩ := sequence_publish_success h
      exact ⟨fun hi => Bool.noConfusion hi, p, q hcb⟩
  | false =>
    simp only [Bool.false_eq_true, if_false] at h ⊢
    by_cases hz : CBS_len l2.cbs ≠ 0
    · rw [if_pos hz] at h
      simp at h
    · rw [if_neg hz] at h ⊢
      obtain ⟨p, q⟩ := sequence_publish_success h
      exact ⟨fun _ => of_not_not hz, p, q hcb⟩

theorem sequence_publish_of_missing {env : Env} {cbs x : CBS} {it : ASN1_ITEM}
    {l : SeqLoopOut} {k0 : Nat} (hcb : it.asn1_cb = none)
    (a0 : CBS.advanced (CBS_init cbs.data) x k0)
    (hm : (sequence_missing env (it.templates.drop l.i) l.aseq).ret = 1) :
    (sequence_publish env cbs x it l).ret = 1 := by
  unfold sequence_publish
  have ho : CBS_offset x = k0 := CBS.advanced_offset a0 rfl
  have hk : k0 ≤ cbs.data.length := a0.1
  rw [if_neg (by rw [hm]; decide), ho, CBS_get_bytes_of_le cbs k0 hk]
  simp only [run_asn1_cb_none hcb]
  cases (sequence_missing env (it.templates.drop l.i) l.aseq).aseq <;> rfl

theorem sequence_finish_of_missing {env : Env} {cbs x content : CBS} {it : ASN1_ITEM}
    {indefinite : Bool} {l2 : SeqLoopOut} {k0 k : Nat} (hcb : it.asn1_cb = none)
    (a0 : CBS.advanced (CBS_init cbs.data) x k0)
    (hc : indefinite = true → content = CBS_init x.data)
    (a : CBS.advanced content l2.cbs k)
    (hlen : indefinite = false → CBS_len l2.cbs = 0)
    (hm : (sequence_missing env (it.templates.drop l2.i) l2.aseq).ret = 1) :
    (sequence_finish env cbs x it indefinite l2).ret = 1 := by
  unfold sequence_finish
  cases indefinite with
  | true =>
    simp only [if_true]
    obtain ⟨x1, hx1, ax1⟩ := skip_offset_of_content (hc rfl) a
    rw [hx1]
    exact sequence_publish_of_missing hcb (CBS.advanced_trans a0 ax1) hm
  | false =>
    simp only [Bool.false_eq_true, if_false]
    rw [if_neg (by rw [hlen rfl]; simp)]
    exact sequence_publish_of_missing hcb a0 hm

/-- Once the header of the SEQUENCE has been accepted, the function
`asn1_item_ex_d2i_sequence` is `sequence_body` run on the content. -/
theorem asn1_item_ex_d2i_sequence_body {env : Env} {tdec : TemplateDec} {pval : ASN1_VALUE}
    {cbs : CBS} {it : ASN1_ITEM} {tag cls : Int} {opt : Bool} {depth : Int}
    {x : CBS} {len : Nat} {tn tc : Int} {indef : Bool} {eh : List ASN1_R}
    (hit : it.itype = ASN1_ITYPE_SEQUENCE ∨ it.itype = ASN1_ITYPE_NDEF_SEQUENCE)
    (hh : asn1_check_tag (CBS_init cbs.data) (if tag = -1 then V_ASN1_SEQUENCE else tag)
        (if tag = -1 then V_ASN1_UNIVERSAL else cls) opt = ⟨1, x, len, tn, tc, indef, true, eh⟩) :
    ∃ xs k0, 2 ≤ k0 ∧ CBS.advanced (CBS_init cbs.data) xs k0 ∧
      (indef = true →
        (if indef then CBS_init x.data else CBS_init (x.data.take len)) = CBS_init xs.data) ∧
      asn1_item_ex_d2i_sequence env tdec pval cbs it tag cls opt depth
        = sequence_body env tdec cbs xs
            (if indef then CBS_init x.data else CBS_init (x.data.take len)) it indef depth := by
  unfold asn1_item_ex_d2i_sequence
  generalize (if tag = -1 then V_ASN1_SEQUENCE else tag) = et at hh ⊢
  generalize (if tag = -1 then V_ASN1_UNIVERSAL else cls) = ec at hh ⊢
  have h1 : (asn1_check_tag (CBS_init cbs.data) et ec opt).ret = 1 := by rw [hh]
  obtain ⟨⟨k, hk, a⟩, hdef, _, _⟩ := asn1_check_tag_ok h1
  rw [hh] at a hdef
  simp only at a hdef
  have hit1 : ¬ (it.itype ≠ ASN1_ITYPE_NDEF_SEQUENCE ∧ it.itype ≠ ASN1_ITYPE_SEQUENCE) := by
    rcases hit with h | h <;> simp [h]
  have e1 : ¬ ((1 : Int) = -1) := by decide
  have e2 : ¬ ((1 : Int) ≠ 1) := by decide
  simp only [if_neg hit1, hh, if_neg e1, if_neg e2, not_true_eq_false, if_false]
  cases indef with
  | true =>
    simp only [if_true]
    exact ⟨x, k, hk, a, fun _ => rfl, rfl⟩
  | false =>
    simp only [Bool.false_eq_true, if_false]
    rw [CBS_get_bytes_of_le x len (hdef rfl)]
    refine ⟨⟨x.data.drop len, x.initial_len⟩, k + len, by omega, ?_, ?_, rfl⟩
    · exact CBS.advanced_trans a
        (CBS_get_bytes_advanced (CBS_get_bytes_of_le x len (hdef rfl))).1
    · intro h
      cases h

theorem asn1_item_ex_d2i_sequence_itype {env : Env} {tdec : TemplateDec} {pval : ASN1_VALUE}
    {cbs : CBS} {it : ASN1_ITEM} {tag cls : Int} {opt : Bool} {depth : Int} {r : Out}
    (h : asn1_item_ex_d2i_sequence env tdec pval cbs it tag cls opt depth = some r)
    (hr : r.ret = 1) :
    it.itype = ASN1_ITYPE_SEQUENCE ∨ it.itype = ASN1_ITYPE_NDEF_SEQUENCE := by
  unfold asn1_item_ex_d2i_sequence at h
  by_cases hi : it.itype ≠ ASN1_ITYPE_NDEF_SEQUENCE ∧ it.itype ≠ ASN1_ITYPE_SEQUENCE
  · rw [if_pos hi] at h
    cases h
    simp at hr
  · by_cases h1 : it.itype = ASN1_ITYPE_SEQUENCE
    · exact Or.inl h1
    · by_cases h2 : it.itype = ASN1_ITYPE_NDEF_SEQUENCE
      · exact Or.inr h2
      · exact absurd ⟨h2, h1⟩ hi

/-- The field loop stops at once where the content has ended. -/
theorem sequence_fields_at_end (env : Env) (tdec : TemplateDec) (it : ASN1_ITEM) (depth : Int)
    (indefinite : Bool) (tts : List ASN1_TEMPLATE) (i : Nat) (a : ASN1_VALUE) (c : CBS)
    (eoc : Bool) (e : List ASN1_R) (h1 : asn1_check_eoc c = none) (h2 : CBS_len c = 0) :
    sequence_fields env tdec it depth indefinite tts i a c eoc e = some ⟨1, i, a, c, eoc, e⟩ := by
  cases tts with
  | nil => rw [sequence_fields]
  | cons tt rest =>
    rw [sequence_fields]
    simp only [h1, h2, if_true]

theorem sequence_fields_at_eoc (env : Env) (tdec : TemplateDec) (it : ASN1_ITEM) (depth : Int)
    (indefinite : Bool) (tt : ASN1_TEMPLATE) (rest : List ASN1_TEMPLATE) (i : Nat)
    (a : ASN1_VALUE) (c c1 : CBS) (eoc : Bool) (e : List ASN1_R)
    (h1 : asn1_check_eoc c = some c1) :
    sequence_fields env tdec it depth indefinite (tt :: rest) i a c eoc e
      = if ¬ indefinite then some ⟨0, i, a, c1, eoc, e ++ [ASN1_R.UNEXPECTED_EOC]⟩
        else some ⟨1, i, a, c1, false, e⟩ := by
  rw [sequence_fields]
  simp only [h1]
theorem SeqClosed.same {l l2 : SeqLoopOut} (h : SeqClosed l l2) :
    l2.ret = l.ret ∧ l2.i = l.i ∧ l2.aseq = l.aseq := by
  rcases h with ⟨_, c1, _, rfl⟩ | ⟨_, rfl⟩
  · exact ⟨rfl, rfl, rfl⟩
  · exact ⟨rfl, rfl, rfl⟩

theorem SeqClosed.cbs_advanced {l l2 : SeqLoopOut} (h : SeqClosed l l2) {c : CBS} {k : Nat}
    (a : CBS.advanced c l.cbs k) : ∃ k1, CBS.advanced c l2.cbs k1 := by
  rcases h with ⟨_, c1, hc, rfl⟩ | ⟨_, rfl⟩
  · exact ⟨k + 2, CBS.advanced_trans a (asn1_check_eoc_advanced hc).1⟩
  · exact ⟨k, a⟩

theorem asn1_check_eoc_of_data_eq {c c1 : CBS} (h : c1.data = c.data) :
    asn1_check_eoc c1 = (asn1_check_eoc c).map (fun x => x.reloc c1.initial_len) := by
  have e := CBS.eq_reloc_of_data_eq h
  generalize c1.initial_len = n at e ⊢
  rw [e, asn1_check_eoc_reloc]

theorem CBS_len_of_data_eq {c c1 : CBS} (h : c1.data = c.data) : CBS_len c1 = CBS_len c := by
  unfold CBS_len
  rw [h]

theorem SeqClosed.sim {l l2 l1 : SeqLoopOut} (h : SeqClosed l l2)
    (he : l1.eoc_needed = l.eoc_needed) (hd : l1.cbs.data = l.cbs.data) :
    ∃ l21, SeqClosed l1 l21 ∧ l21.cbs.data = l2.cbs.data := by
  rcases h with ⟨h1, c1, hc, rfl⟩ | ⟨h1, rfl⟩
  · refine ⟨⟨l1.ret, l1.i, l1.aseq, c1.reloc l1.cbs.initial_len, l1.eoc_needed, l1.errs⟩,
      Or.inl ⟨he.trans h1, _, ?_, rfl⟩, rfl⟩
    rw [asn1_check_eoc_of_data_eq hd, hc]
    rfl
  · exact ⟨l1, Or.inr ⟨he.trans h1, rfl⟩, hd⟩

theorem sequence_missing_optional_step (env : Env) (tt : ASN1_TEMPLATE)
    (rest : List ASN1_TEMPLATE) (a : ASN1_VALUE) (hadb : tt.flags &&& ASN1_TFLG_ADB_MASK = 0)
    (hopt : tt.flags &&& ASN1_TFLG_OPTIONAL ≠ 0) :
    sequence_missing env (tt :: rest) a
      = sequence_missing env rest (asn1_set_field a tt ASN1_VALUE.null) := by
  rw [sequence_missing, asn1_do_adb_of_no_flag env a tt hadb]
  simp only
  rw [if_neg hopt]

theorem mem_of_mem_drop_append_cons {pre rest : List ASN1_TEMPLATE} {tt t : ASN1_TEMPLATE}
    {j : Nat} (hj : pre.length + 1 ≤ j) (h : t ∈ (pre ++ tt :: rest).drop j) : t ∈ rest := by
  have e : (pre ++ tt :: rest).drop j = rest.drop (j - (pre.length + 1)) := by
    have e1 : pre ++ tt :: rest = (pre ++ [tt]) ++ rest := by simp
    rw [e1, List.drop_append_eq_append_drop]
    have e2 : (pre ++ [tt]).length = pre.length + 1 := by simp
    rw [e2, List.drop_eq_nil_of_le (by rw [e2]; exact hj)]
    rfl
  rw [e] at h
  exact List.mem_of_mem_drop h

/-- Two runs of the code after the field loop, on states that hold the same
bytes and structures that differ at most in the slot of `o`. -/
theorem sequence_finish_sim {env : Env} {cbs x cbs1 x1 content1 : CBS} {it : ASN1_ITEM}
    {indef : Bool} {l2 l21 : SeqLoopOut} {k0 k : Nat} {o : ASN1_TEMPLATE}
    (hcb : it.asn1_cb = none)
    (h : (sequence_finish env cbs x it indef l2).ret = 1)
    (a0 : CBS.advanced (CBS_init cbs1.data) x1 k0)
    (hc1 : indef = true → content1 = CBS_init x1.data)
    (a : CBS.advanced content1 l21.cbs k) (hd : l21.cbs.data = l2.cbs.data)
    (hm : (sequence_missing env (it.templates.drop l21.i) l21.aseq).ret = 1)
    (hs : SameBut o (sequence_missing env (it.templates.drop l2.i) l2.aseq).aseq
      (sequence_missing env (it.templates.drop l21.i) l21.aseq).aseq)
    (hn : asn1_get_field (sequence_missing env (it.templates.drop l21.i) l21.aseq).aseq o
      = ASN1_VALUE.null) :
    (sequence_finish env cbs1 x1 it indef l21).ret = 1 ∧
    asn1_get_field (sequence_finish env cbs1 x1 it indef l21).pval o = ASN1_VALUE.null ∧
    ∀ t : ASN1_TEMPLATE, t.offset ≠ o.offset →
      asn1_get_field (sequence_finish env cbs1 x1 it indef l21).pval t
        = asn1_get_field (sequence_finish env cbs x it indef l2).pval t := by
  obtain ⟨hlen, _, hf⟩ := sequence_finish_success hcb h
  have h1 : (sequence_finish env cbs1 x1 it indef l21).ret = 1 :=
    sequence_finish_of_missing hcb a0 hc1 a
      (fun hi => by rw [CBS_len_of_data_eq hd]; exact hlen hi) hm
  obtain ⟨_, _, hf1⟩ := sequence_finish_success hcb h1
  refine ⟨h1, ?_, ?_⟩
  · rw [hf1, hn]
  · intro t ht
    rw [hf1, hf, hs.get t ht]
theorem asn1_check_eoc_len {c c1 : CBS} (h : asn1_check_eoc c = some c1) : CBS_len c ≠ 0 := by
  have a := (asn1_check_eoc_advanced h).1
  have := a.1
  unfold CBS_len
  omega

theorem drop_length_append_cons (pre rest : List ASN1_TEMPLATE) (tt : ASN1_TEMPLATE) :
    (pre ++ tt :: rest).drop pre.length = tt :: rest ∧
    (pre ++ tt :: rest).drop (pre.length + 1) = rest := by
  constructor
  · simp
  · have e1 : pre ++ tt :: rest = (pre ++ [tt]) ++ rest := by simp
    have e2 : (pre ++ [tt]).length = pre.length + 1 := by simp
    rw [e1, ← e2, List.drop_left]

/-- The second loop of `asn1_item_ex_d2i_sequence` started at an OPTIONAL
field `tt` that was not read, against the same loop started behind `tt`
after `tt` was read. -/
theorem sequence_missing_after_removed (env : Env) {it : ASN1_ITEM}
    {pre rest : List ASN1_TEMPLATE} {tt : ASN1_TEMPLATE}
    (hit : it.templates = pre ++ tt :: rest)
    (hopt : tt.flags &&& ASN1_TFLG_OPTIONAL ≠ 0) (hadb : NoAdb it.templates)
    (hoff : ∀ t ∈ rest, t.offset ≠ tt.offset) (A v : ASN1_VALUE) :
    (sequence_missing env (it.templates.drop pre.length) A).ret
      = (sequence_missing env (it.templates.drop (pre.length + 1))
          (asn1_set_field A tt v)).ret ∧
    SameBut tt
      (sequence_missing env (it.templates.drop (pre.length + 1)) (asn1_set_field A tt v)).aseq
      (sequence_missing env (it.templates.drop pre.length) A).aseq ∧
    asn1_get_field (sequence_missing env (it.templates.drop pre.length) A).aseq tt
      = ASN1_VALUE.null := by
  have hadb_tt : tt.flags &&& ASN1_TFLG_ADB_MASK = 0 := hadb tt (by rw [hit]; simp)
  have hadb_rest : NoAdb rest := fun t ht => hadb t (by rw [hit]; simp [ht])
  rw [hit, (drop_length_append_cons pre rest tt).1, (drop_length_append_cons pre rest tt).2,
    sequence_missing_optional_step env tt rest A hadb_tt hopt]
  obtain ⟨s1, s2⟩ := sequence_missing_sim env tt rest (asn1_set_field A tt v)
    (asn1_set_field A tt ASN1_VALUE.null) hadb_rest hoff (SameBut.set_both tt A _ _)
  exact ⟨s1, s2, sequence_missing_keeps_null env rest _ tt (asn1_get_field_set_self_null A tt)⟩

/-- The core of the stability of a decode under the removal of an OPTIONAL
field: `sequence_body` run on a content in which the fields before `tt` are
read as in the original, and `tt` is then found absent in front of the bytes
that followed it in the original. -/
theorem sequence_body_without_field {env : Env} {tdec : TemplateDec} {depth : Int}
    (hg : TemplateDec.GoodAt tdec depth) (hp : TemplateDec.PosIndep tdec)
    {it : ASN1_ITEM} {pre rest : List ASN1_TEMPLATE} {tt : ASN1_TEMPLATE}
    (hit : it.templates = pre ++ tt :: rest)
    (hopt : tt.flags &&& ASN1_TFLG_OPTIONAL ≠ 0)
    (hadb : NoAdb it.templates) (hcb : it.asn1_cb = none)
    (hoff : ∀ t ∈ rest, t.offset ≠ tt.offset)
    {aseq0 : ASN1_VALUE} (hnew : ASN1_item_ex_new it = some aseq0) {indef : Bool}
    {cbs x content : CBS} {r : Out}
    (hr : sequence_body env tdec cbs x content it indef depth = some r) (hr1 : r.ret = 1)
    {A : ASN1_VALUE} {c : CBS} {e : List ASN1_R}
    (hpre : sequence_fields env tdec it depth indef pre 0 aseq0 content indef []
      = some ⟨1, pre.length, A, c, indef, e⟩)
    (hce : asn1_check_eoc c = none) (hcl : CBS_len c ≠ 0) {rk : Out}
    (hk : tdec (some (asn1_get_field A tt)) c tt (optional_field it pre.length tt) depth
      = some rk)
    (hk1 : rk.ret = 1)
    {cbs1 x1 content1 : CBS} {k0 : Nat}
    (a0 : CBS.advanced (CBS_init cbs1.data) x1 k0)
    (hc1 : indef = true → content1 = CBS_init x1.data)
    {cm : CBS} {e1 : List ASN1_R}
    (hpre1 : sequence_fields env tdec it depth indef pre 0 aseq0 content1 indef []
      = some ⟨1, pre.length, A, cm, indef, e1⟩)
    (hcm : cm.data = rk.cbs.data)
    (habs : asn1_check_eoc cm = none → CBS_len cm ≠ 0 →
      ∃ ra, tdec (some (asn1_get_field A tt)) cm tt (optional_field it pre.length tt) depth
        = some ra ∧ ra.ret = -1) :
    ∃ r1, sequence_body env tdec cbs1 x1 content1 it indef depth = some r1 ∧ r1.ret = 1 ∧
      asn1_get_field r1.pval tt = ASN1_VALUE.null ∧
      ∀ t : ASN1_TEMPLATE, t.offset ≠ tt.offset →
        asn1_get_field r1.pval t = asn1_get_field r.pval t := by
  obtain ⟨l, l2, hl, hl1, hcl2, rfl⟩ := sequence_body_success hcb hnew hr hr1
  obtain ⟨hlen, hm, _⟩ := sequence_finish_success hcb hr1
  have hadb_tt : tt.flags &&& ASN1_TFLG_ADB_MASK = 0 := hadb tt (by rw [hit]; simp)
  have hadb_rest : NoAdb rest := fun t ht => hadb t (by rw [hit]; simp [ht])
  have hpre0 : sequence_fields env tdec it depth indef pre 0 aseq0 content indef []
      = some ⟨1, 0 + pre.length, A, c, indef, e⟩ := by
    rw [Nat.zero_add]
    exact hpre
  have hpre10 : sequence_fields env tdec it depth indef pre 0 aseq0 content1 indef []
      = some ⟨1, 0 + pre.length, A, cm, indef, e1⟩ := by
    rw [Nat.zero_add]
    exact hpre1
  -- the original run behind the field
  have horig : sequence_fields env tdec it depth indef rest (pre.length + 1)
      (asn1_set_field A tt rk.pval) rk.cbs indef (e ++ rk.errs) = some l := by
    have h1 := sequence_fields_append pre (tt :: rest) 0 aseq0 content indef [] A c indef e hpre0
    rw [← hit, hl, Nat.zero_add,
      sequence_fields_step env tdec it depth indef tt rest pre.length A c indef e hce hcl
        hadb_tt, hk] at h1
    simp only at h1
    rw [if_neg (by rw [hk1]; decide), if_neg (by rw [hk1]; decide)] at h1
    exact h1.symm
  -- the run on the shortened content from the field on
  have hmod : sequence_fields env tdec it depth indef it.templates 0 aseq0 content1 indef []
      = sequence_fields env tdec it depth indef (tt :: rest) pre.length A cm indef e1 := by
    have h1 := sequence_fields_append pre (tt :: rest) 0 aseq0 content1 indef [] A cm indef e1
      hpre10
    rw [← hit, Nat.zero_add] at h1
    exact h1
  obtain ⟨lt, hlt, _, hadv⟩ := sequence_fields_total hg env it indef it.templates 0 aseq0
    content1 indef []
  obtain ⟨e2r, e2i, e2a⟩ := hcl2.same
  have hmiss := sequence_missing_after_removed env hit hopt hadb hoff A rk.pval
  have key : ∃ l1 l21,
      sequence_fields env tdec it depth indef (tt :: rest) pre.length A cm indef e1 = some l1 ∧
      l1.ret = 1 ∧ SeqClosed l1 l21 ∧ l21.cbs.data = l2.cbs.data ∧
      (sequence_missing env (it.templates.drop l21.i) l21.aseq).ret = 1 ∧
      SameBut tt (sequence_missing env (it.templates.drop l2.i) l2.aseq).aseq
        (sequence_missing env (it.templates.drop l21.i) l21.aseq).aseq ∧
      asn1_get_field (sequence_missing env (it.templates.drop l21.i) l21.aseq).aseq tt
        = ASN1_VALUE.null := by
    have hrel := asn1_check_eoc_of_data_eq hcm
    cases he : asn1_check_eoc cm with
    | none =>
      have hce_rk : asn1_check_eoc rk.cbs = none := by
        rw [he] at hrel
        cases h : asn1_check_eoc rk.cbs with
        | none => rfl
        | some _ => rw [h] at hrel; cases hrel
      by_cases hz : CBS_len cm = 0
      · -- the content ends where the field stood
        have hz_rk : CBS_len rk.cbs = 0 := by
          rw [← CBS_len_of_data_eq hcm]
          exact hz
        rw [sequence_fields_at_end env tdec it depth indef rest _ _ _ _ _ hce_rk hz_rk] at horig
        cases horig
        rcases hcl2 with ⟨_, c1, hc, _⟩ | ⟨h1, rfl⟩
        · rw [hce_rk] at hc
          cases hc
        · refine ⟨⟨1, pre.length, A, cm, indef, e1⟩, ⟨1, pre.length, A, cm, indef, e1⟩,
            sequence_fields_at_end env tdec it depth indef _ _ _ _ _ _ he hz, rfl,
            Or.inr ⟨h1, rfl⟩, hcm, ?_, hmiss.2.1, hmiss.2.2⟩
          exact hmiss.1.trans hm
      · -- the decoder of the field reports it absent
        obtain ⟨ra, hra, hra1⟩ := habs he hz
        obtain ⟨ra1, hra2, _, _, hw3⟩ := hg (some (asn1_get_field A tt)) cm tt
          (optional_field it pre.length tt)
        rw [hra] at hra2
        cases hra2
        obtain ⟨_, hcur, _⟩ := hw3 hra1
        have hstep : sequence_fields env tdec it depth indef (tt :: rest) pre.length A cm
            indef e1 = sequence_fields env tdec it depth indef rest (pre.length + 1)
              (asn1_set_field A tt ASN1_VALUE.null) ra.cbs indef (e1 ++ ra.errs) := by
          rw [sequence_fields_step env tdec it depth indef tt rest pre.length A cm indef e1 he
            hz hadb_tt, hra]
          simp only
          rw [if_pos hra1]
        obtain ⟨l1, hl1s, q1, q2, q3, q4, q5, q6⟩ := sequence_fields_sim hp env it depth
          indef tt rest (pre.length + 1) (asn1_set_field A tt rk.pval)
          (asn1_set_field A tt ASN1_VALUE.null) rk.cbs ra.cbs indef (e ++ rk.errs)
          (e1 ++ ra.errs) l hadb_rest hoff (SameBut.set_both tt A _ _)
          (by rw [hcur]; exact hcm) horig
        obtain ⟨l21, hcl1, hd⟩ := hcl2.sim q5 q4
        obtain ⟨_, f2, f3⟩ := hcl1.same
        have hidx := (sequence_fields_index rest _ _ _ _ _ l horig).1
        have hsim := sequence_missing_sim env tt (it.templates.drop l.i) l.aseq l1.aseq
          (fun t ht => hadb t (List.mem_of_mem_drop ht))
          (fun t ht => hoff t (mem_of_mem_drop_append_cons hidx (hit ▸ ht))) q3
        refine ⟨l1, l21, hstep.trans hl1s, q1.trans hl1, hcl1, hd, ?_, ?_, ?_⟩
        · rw [f2, f3, q2, hsim.1, ← e2i, ← e2a]
          exact hm
        · rw [f2, f3, q2, e2i, e2a]
          exact hsim.2
        · rw [f2, f3]
          apply sequence_missing_keeps_null
          rw [q6]
          exact asn1_get_field_set_self_null A tt
    | some cc =>
      rw [he] at hrel
      cases hrk : asn1_check_eoc rk.cbs with
      | none => rw [hrk] at hrel; cases hrel
      | some c0 =>
        rw [hrk] at hrel
        simp only [Option.map_some', Option.some.injEq] at hrel
        have hcc : cc.data = c0.data := by rw [hrel]; rfl
        have hnz := asn1_check_eoc_len hrk
        cases indef with
        | false =>
          exfalso
          cases rest with
          | nil =>
            rw [sequence_fields_nil] at horig
            cases horig
            rcases hcl2 with ⟨h1, _⟩ | ⟨_, rfl⟩
            · cases h1
            · exact hnz (hlen rfl)
          | cons t0 rest1 =>
            rw [sequence_fields_at_eoc env tdec it depth false t0 rest1 _ _ _ _ _ _ hrk] at horig
            simp only [Bool.false_eq_true, not_false_eq_true, if_true] at horig
            cases horig
            simp at hl1
        | true =>
          have hmodl : sequence_fields env tdec it depth true (tt :: rest) pre.length A cm
              true e1 = some ⟨1, pre.length, A, cc, false, e1⟩ := by
            rw [sequence_fields_at_eoc env tdec it depth true tt rest _ _ _ _ _ _ he]
            simp
          have hl2 : l2.i = pre.length + 1 ∧ l2.aseq = asn1_set_field A tt rk.pval ∧
              l2.cbs.data = c0.data := by
            cases rest with
            | nil =>
              rw [sequence_fields_nil] at horig
              cases horig
              rcases hcl2 with ⟨_, c1, hc, rfl⟩ | ⟨h1, _⟩
              · rw [hrk] at hc
                cases hc
                exact ⟨rfl, rfl, rfl⟩
              · cases h1
            | cons t0 rest1 =>
              rw [sequence_fields_at_eoc env tdec it depth true t0 rest1 _ _ _ _ _ _ hrk]
                at horig
              simp only [not_true_eq_false, if_false] at horig
              cases horig
              rcases hcl2 with ⟨h1, _⟩ | ⟨_, rfl⟩
              · cases h1
              · exact ⟨rfl, rfl, rfl⟩
          obtain ⟨g1, g2, g3⟩ := hl2
          rw [g1, g2] at hm ⊢
          exact ⟨_, _, hmodl, rfl, Or.inr ⟨rfl, rfl⟩, hcc.trans g3.symm, hmiss.1.trans hm,
            hmiss.2.1, hmiss.2.2⟩
  obtain ⟨l1, l21, hl1s, hret1, hcl1, hd, hm1, hs, hn⟩ := key
  rw [← hmod, hlt] at hl1s
  cases hl1s
  obtain ⟨k, a⟩ := hadv hret1
  obtain ⟨k1, a1⟩ := hcl1.cbs_advanced a
  obtain ⟨q1, q2, q3⟩ := sequence_finish_sim hcb hr1 a0 hc1 a1 hd hm1 hs hn
  exact ⟨_, sequence_body_of_fields hcb hnew hlt hret1 hcl1, q1, q2, q3⟩

/-! ## Headers read without an expectation -/

theorem asn1_check_tag_neg (c : CBS) (etag ecls : Int) (opt : Bool) (h : etag < 0) :
    asn1_check_tag c etag ecls opt = asn1_check_tag c (-1) 0 false := by
  unfold asn1_check_tag
  have h1 : ¬ (etag ≥ 0) := by omega
  have h2 : ¬ ((-1 : Int) ≥ 0) := by decide
  simp only [h1, h2, false_and, if_false]

theorem asn1_collect_fuel_class : ∀ (fuel : Nat) (ecls : Int),
    (∀ (cbb : List UInt8) (cbs : CBS) (indefinite : Bool) (depth : Int),
      asn1_collect_fuel fuel cbb cbs indefinite (-1) ecls depth
        = asn1_collect_fuel fuel cbb cbs indefinite (-1) 0 depth) ∧
    (∀ (cbb : List UInt8) (cbs : CBS) (need_eoc : Bool) (depth : Int),
      asn1_collect_loop fuel cbb cbs need_eoc (-1) ecls depth
        = asn1_collect_loop fuel cbb cbs need_eoc (-1) 0 depth)
  | 0, ecls => by
    constructor
    · intro cbb cbs indefinite depth
      rw [asn1_collect_fuel, asn1_collect_fuel]
    · intro cbb cbs need_eoc depth
      rw [asn1_collect_loop, asn1_collect_loop]
  | fuel + 1, ecls => by
    obtain ⟨ih1, ih2⟩ := asn1_collect_fuel_class fuel ecls
    constructor
    · intro cbb cbs indefinite depth
      rw [asn1_collect_fuel, asn1_collect_fuel, ih2]
    · intro cbb cbs need_eoc depth
      rw [asn1_collect_loop, asn1_collect_loop]
      simp only [asn1_check_tag_neg cbs (-1) ecls false (by decide), ih1, ih2]

/-! ## The value built by the primitive decoders -/

theorem primitive_content_finish_value {env : Env} {pval : ASN1_VALUE} {cbs x content : CBS}
    {utype : Int} {it : ASN1_ITEM}
    (h : (primitive_content_finish env pval cbs x content utype it).ret = 1) :
    (asn1_ex_c2i env pval content utype it).ret ≠ 0 ∧
    (primitive_content_finish env pval cbs x content utype it).pval
      = (asn1_ex_c2i env pval content utype it).pval ∧
    CBS_skip cbs (CBS_offset x)
      = some (primitive_content_finish env pval cbs x content utype it).cbs := by
  unfold primitive_content_finish at h ⊢
  by_cases h0 : (asn1_ex_c2i env pval content utype it).ret = 0
  · rw [if_pos h0] at h
    simp at h
  · rw [if_neg h0] at h ⊢
    cases hs : CBS_skip cbs (CBS_offset x) with
    | none =>
      rw [hs] at h
      simp at h
    | some c1 => exact ⟨h0, rfl, rfl⟩

/-- A successful `asn1_d2i_ex_primitive_content` stores what `asn1_ex_c2i`
builds, for the type `utype`, from some content. -/
theorem asn1_d2i_ex_primitive_content_value {env : Env} {pval : ASN1_VALUE} {cbs x : CBS}
    {utype : Int} {constructed indefinite : Bool} {length : Nat} {it : ASN1_ITEM} {r : Out}
    (h : asn1_d2i_ex_primitive_content env pval cbs x utype constructed indefinite length it
      = some r)
    (hr : r.ret = 1) :
    ∃ content, (asn1_ex_c2i env pval content utype it).ret ≠ 0 ∧
      r.pval = (asn1_ex_c2i env pval content utype it).pval := by
  have fin : ∀ (x1 content : CBS),
      some (primitive_content_finish env pval cbs x1 content utype it) = some r →
      ∃ content, (asn1_ex_c2i env pval content utype it).ret ≠ 0 ∧
        r.pval = (asn1_ex_c2i env pval content utype it).pval := by
    intro x1 content hf
    simp only [Option.some.injEq] at hf
    subst hf
    obtain ⟨q1, q2, _⟩ := primitive_content_finish_value hr
    exact ⟨content, q1, q2⟩
  unfold asn1_d2i_ex_primitive_content at h
  split at h
  · cases h
    simp at hr
  · split at h
    · split at h
      · cases h
      · split at h
        · cases h
          simp at hr
        · split at h
          · cases h
            simp at hr
          · exact fin _ _ h
    · split at h
      · split at h
        · cases h
        · split at h
          · cases h
            simp at hr
          · exact fin _ _ h
      · split at h
        · cases h
          simp at hr
        · exact fin _ _ h

/-! ## The header, the closing marker and the saved encoding of a SEQUENCE -/

theorem sequence_fields_eoc_needed {env : Env} {tdec : TemplateDec} {it : ASN1_ITEM}
    {depth : Int} {indefinite : Bool} :
    ∀ (tts : List ASN1_TEMPLATE) (i : Nat) (aseq : ASN1_VALUE) (content : CBS)
      (eoc_needed : Bool) (errs : List ASN1_R) (l : SeqLoopOut),
      sequence_fields env tdec it depth indefinite tts i aseq content eoc_needed errs = some l →
      l.eoc_needed = true → eoc_needed = true
  | [], i, aseq, content, eoc_needed, errs, l, h => by
    rw [sequence_fields] at h
    cases h
    exact id
  | tt :: rest, i, aseq, content, eoc_needed, errs, l, h => by
    rw [sequence_fields] at h
    split at h
    · split at h
      · cases h
        exact id
      · cases h
        intro hf
        cases hf
    · split at h
      · cases h
        exact id
      · split at h
        · cases h
          exact id
        · rename_i seqtt _
          cases hr : tdec (some (asn1_get_field aseq seqtt)) content seqtt
              (optional_field it i seqtt) depth with
          | none => simp [hr] at h
          | some r =>
            simp only [hr] at h
            split at h
            · exact sequence_fields_eoc_needed rest _ _ _ _ _ l h
            · split at h
              · cases h
                exact id
              · exact sequence_fields_eoc_needed rest _ _ _ _ _ l h

/-- Behind a header that `asn1_check_tag` accepts as constructed,
`asn1_item_ex_d2i_sequence` is `sequence_body` on the content: all that
follows the header for the indefinite form, the declared number of bytes
for the definite form. -/
theorem asn1_item_ex_d2i_sequence_header {env : Env} {tdec : TemplateDec} {pval : ASN1_VALUE}
    {cbs : CBS} {it : ASN1_ITEM} {tag cls : Int} {opt : Bool} {depth : Int} {H : TagOut}
    (hit : it.itype = ASN1_ITYPE_SEQUENCE ∨ it.itype = ASN1_ITYPE_NDEF_SEQUENCE)
    (hH : asn1_check_tag (CBS_init cbs.data) (if tag = -1 then V_ASN1_SEQUENCE else tag)
        (if tag = -1 then V_ASN1_UNIVERSAL else cls) opt = H)
    (h1 : H.ret = 1) (hc : H.constructed = true) :
    2 ≤ CBS_offset H.cbs ∧ CBS.advanced (CBS_init cbs.data) H.cbs (CBS_offset H.cbs) ∧
    (H.indefinite = true →
      asn1_item_ex_d2i_sequence env tdec pval cbs it tag cls opt depth
        = sequence_body env tdec cbs H.cbs (CBS_init H.cbs.data) it true depth) ∧
    (H.indefinite = false →
      H.len ≤ H.cbs.data.length ∧
      CBS.advanced (CBS_init cbs.data) ⟨H.cbs.data.drop H.len, H.cbs.initial_len⟩
        (CBS_offset H.cbs + H.len) ∧
      asn1_item_ex_d2i_sequence env tdec pval cbs it tag cls opt depth
        = sequence_body env tdec cbs ⟨H.cbs.data.drop H.len, H.cbs.initial_len⟩
            (CBS_init (H.cbs.data.take H.len)) it false depth) := by
  unfold asn1_item_ex_d2i_sequence
  generalize (if tag = -1 then V_ASN1_SEQUENCE else tag) = et at hH ⊢
  generalize (if tag = -1 then V_ASN1_UNIVERSAL else cls) = ec at hH ⊢
  have h1a : (asn1_check_tag (CBS_init cbs.data) et ec opt).ret = 1 := by rw [hH]; exact h1
  obtain ⟨⟨k, hk, a⟩, hdef, _, _⟩ := asn1_check_tag_ok h1a
  rw [hH] at a hdef ⊢
  have ho : CBS_offset H.cbs = k := CBS.advanced_offset a rfl
  have hit1 : ¬ (it.itype ≠ ASN1_ITYPE_NDEF_SEQUENCE ∧ it.itype ≠ ASN1_ITYPE_SEQUENCE) := by
    rcases hit with h | h <;> simp [h]
  rw [ho]
  refine ⟨hk, a, ?_, ?_⟩
  · intro hi
    rw [if_neg hit1, if_neg (by rw [h1]; decide), if_neg (by rw [h1]; decide),
      if_neg (by rw [hc]; simp), if_pos hi]
  · intro hi
    have hle := hdef hi
    refine ⟨hle, ?_, ?_⟩
    · exact CBS.advanced_trans a
        (CBS_get_bytes_advanced (CBS_get_bytes_of_le H.cbs H.len hle)).1
    · rw [if_neg hit1, if_neg (by rw [h1]; decide), if_neg (by rw [h1]; decide),
        if_neg (by rw [hc]; simp), if_neg (by rw [hi]; simp),
        CBS_get_bytes_of_le H.cbs H.len hle]

theorem sequence_body_success_cb {env : Env} {tdec : TemplateDec} {cbs x content : CBS}
    {it : ASN1_ITEM} {indefinite : Bool} {depth : Int} {r : Out}
    (h : sequence_body env tdec cbs x content it indefinite depth = some r) (hr : r.ret = 1) :
    ∃ aseq0 aseq1 l l2, ASN1_item_ex_new it = some aseq0 ∧
      run_asn1_cb it ASN1_OP_D2I_PRE aseq0 = some aseq1 ∧
      sequence_fields env tdec it depth indefinite it.templates 0 aseq1 content
        indefinite [] = some l ∧ l.ret = 1 ∧ SeqClosed l l2 ∧
      r = sequence_finish env cbs x it indefinite l2 := by
  unfold sequence_body at h
  cases hnew : ASN1_item_ex_new it with
  | none =>
    simp only [hnew] at h
    cases h
    simp at hr
  | some aseq0 =>
    simp only [hnew] at h
    cases hpre : run_asn1_cb it ASN1_OP_D2I_PRE aseq0 with
    | none =>
      simp only [hpre] at h
      cases h
      simp at hr
    | some aseq1 =>
      simp only [hpre] at h
      cases hl : sequence_fields env tdec it depth indefinite it.templates 0 aseq1 content
          indefinite [] with
      | none => simp [hl] at h
      | some l =>
        simp only [hl] at h
        have hret := sequence_fields_ret _ _ _ _ _ _ l hl
        by_cases h0 : l.ret = 0
        · rw [if_pos h0] at h
          cases h
          simp at hr
        · have h1 : l.ret = 1 := by
            rcases hret with h1 | h1
            · exact h1
            · exact absurd h1 h0
          rw [if_neg h0] at h
          by_cases he : l.eoc_needed = true
          · rw [if_pos he] at h
            cases hc : asn1_check_eoc l.cbs with
            | none =>
              simp only [hc] at h
              cases h
              simp at hr
            | some c1 =>
              simp only [hc, Option.some.injEq] at h
              exact ⟨aseq0, aseq1, l, _, rfl, hpre, hl, h1, Or.inl ⟨he, c1, hc, rfl⟩, h.symm⟩
          · rw [if_neg he] at h
            simp only [Option.some.injEq] at h
            exact ⟨aseq0, aseq1, l, l, rfl, hpre, hl, h1, Or.inr ⟨by simpa using he, rfl⟩,
              h.symm⟩

theorem sequence_body_loop_error {env : Env} {tdec : TemplateDec} {cbs x content : CBS}
    {it : ASN1_ITEM} {indefinite : Bool} {depth : Int} {aseq0 aseq1 : ASN1_VALUE}
    {l : SeqLoopOut} (hnew : ASN1_item_ex_new it = some aseq0)
    (hpre : run_asn1_cb it ASN1_OP_D2I_PRE aseq0 = some aseq1)
    (hl : sequence_fields env tdec it depth indefinite it.templates 0 aseq1 content
        indefinite [] = some l) (h0 : l.ret = 0) :
    sequence_body env tdec cbs x content it indefinite depth
      = some ⟨0, ASN1_VALUE.null, cbs, l.errs⟩ := by
  unfold sequence_body
  simp only [hnew, hpre, hl]
  rw [if_pos h0]

theorem sequence_body_missing_eoc {env : Env} {tdec : TemplateDec} {cbs x content : CBS}
    {it : ASN1_ITEM} {indefinite : Bool} {depth : Int} {aseq0 aseq1 : ASN1_VALUE}
    {l : SeqLoopOut} (hnew : ASN1_item_ex_new it = some aseq0)
    (hpre : run_asn1_cb it ASN1_OP_D2I_PRE aseq0 = some aseq1)
    (hl : sequence_fields env tdec it depth indefinite it.templates 0 aseq1 content
        indefinite [] = some l) (hl1 : l.ret = 1) (he : l.eoc_needed = true)
    (hc : asn1_check_eoc l.cbs = none) :
    sequence_body env tdec cbs x content it indefinite depth
      = some ⟨0, ASN1_VALUE.null, cbs, l.errs ++ [ASN1_R.MISSING_EOC]⟩ := by
  unfold sequence_body
  simp only [hnew, hpre, hl]
  rw [if_neg (by rw [hl1]; decide), if_pos he]
  simp only [hc]

theorem sequence_body_closed {env : Env} {tdec : TemplateDec} {cbs x content : CBS}
    {it : ASN1_ITEM} {indefinite : Bool} {depth : Int} {aseq0 aseq1 : ASN1_VALUE}
    {l l2 : SeqLoopOut} (hnew : ASN1_item_ex_new it = some aseq0)
    (hpre : run_asn1_cb it ASN1_OP_D2I_PRE aseq0 = some aseq1)
    (hl : sequence_fields env tdec it depth indefinite it.templates 0 aseq1 content
        indefinite [] = some l) (hl1 : l.ret = 1) (hcl : SeqClosed l l2) :
    sequence_body env tdec cbs x content it indefinite depth
      = some (sequence_finish env cbs x it indefinite l2) := by
  unfold sequence_body
  simp only [hnew, hpre, hl]
  rw [if_neg (by rw [hl1]; decide)]
  rcases hcl with ⟨he, c1, hc, rfl⟩ | ⟨he, rfl⟩
  · rw [if_pos he]
    simp only [hc]
  · rw [if_neg (by simp [he])]

theorem sequence_finish_len {env : Env} {cbs x : CBS} {it : ASN1_ITEM} {l2 : SeqLoopOut}
    (h : (sequence_finish env cbs x it false l2).ret = 1) : CBS_len l2.cbs = 0 := by
  unfold sequence_finish at h
  simp only [Bool.false_eq_true, if_false] at h
  by_cases hz : CBS_len l2.cbs ≠ 0
  · rw [if_pos hz] at h
    simp at h
  · exact of_not_not hz

theorem sequence_finish_mismatch (env : Env) (cbs x : CBS) (it : ASN1_ITEM) (l2 : SeqLoopOut)
    (hz : CBS_len l2.cbs ≠ 0) :
    sequence_finish env cbs x it false l2
      = ⟨0, ASN1_VALUE.null, cbs, l2.errs ++ [ASN1_R.SEQUENCE_LENGTH_MISMATCH]⟩ := by
  unfold sequence_finish
  simp only [Bool.false_eq_true, if_false]
  rw [if_pos hz]

/-- What a successful `sequence_publish` saved and where it left the
caller's cursor, when `cbs_seq` stands `n` bytes behind the start of the
object. -/
theorem sequence_publish_span {env : Env} {cbs x : CBS} {it : ASN1_ITEM} {l : SeqLoopOut}
    {n : Nat} (a0 : CBS.advanced (CBS_init cbs.data) x n)
    (h : (sequence_publish env cbs x it l).ret = 1) :
    ∃ aseq1, asn1_enc_save (sequence_missing env (it.templates.drop l.i) l.aseq).aseq
        (cbs.data.take n) = some aseq1 ∧
      run_asn1_cb it ASN1_OP_D2I_POST aseq1 = some (sequence_publish env cbs x it l).pval ∧
      (sequence_publish env cbs x it l).cbs = ⟨cbs.data.drop n, cbs.initial_len⟩ := by
  have ho : CBS_offset x = n := CBS.advanced_offset a0 rfl
  have hk : n ≤ cbs.data.length := a0.1
  unfold sequence_publish at h ⊢
  by_cases h0 : (sequence_missing env (it.templates.drop l.i) l.aseq).ret = 0
  · rw [if_pos h0] at h
    simp at h
  · rw [if_neg h0, ho, CBS_get_bytes_of_le cbs n hk] at h ⊢
    simp only at h ⊢
    have hd : (CBS_init (List.take n cbs.data)).data = List.take n cbs.data := rfl
    rw [hd] at h ⊢
    cases hs : asn1_enc_save (sequence_missing env (it.templates.drop l.i) l.aseq).aseq
        (List.take n cbs.data) with
    | none =>
      rw [hs] at h
      simp at h
    | some aseq1 =>
      rw [hs] at h
      simp only at h ⊢
      cases hp : run_asn1_cb it ASN1_OP_D2I_POST aseq1 with
      | none =>
        rw [hp] at h
        simp at h
      | some aseq2 => exact ⟨aseq1, rfl, hp, rfl⟩

theorem sequence_finish_span {env : Env} {cbs x : CBS} {it : ASN1_ITEM}
    {indefinite : Bool} {l2 : SeqLoopOut} {k0 : Nat}
    (a0 : CBS.advanced (CBS_init cbs.data) x k0)
    (h : (sequence_finish env cbs x it indefinite l2).ret = 1) :
    ∃ aseq1, asn1_enc_save (sequence_missing env (it.templates.drop l2.i) l2.aseq).aseq
        (cbs.data.take (if indefinite then k0 + CBS_offset l2.cbs else k0)) = some aseq1 ∧
      run_asn1_cb it ASN1_OP_D2I_POST aseq1
        = some (sequence_finish env cbs x it indefinite l2).pval ∧
      (sequence_finish env cbs x it indefinite l2).cbs
        = ⟨cbs.data.drop (if indefinite then k0 + CBS_offset l2.cbs else k0),
            cbs.initial_len⟩ ∧
      (if indefinite then k0 + CBS_offset l2.cbs else k0) ≤ cbs.data.length := by
  unfold sequence_finish at h ⊢
  cases indefinite with
  | true =>
    simp only [if_true] at h ⊢
    cases hs : CBS_skip x (CBS_offset l2.cbs) with
    | none =>
      simp [hs] at h
    | some x1 =>
      simp only [hs] at h ⊢
      have a1 := CBS.advanced_trans a0 (CBS_skip_advanced hs)
      obtain ⟨q, q1, q2, q3⟩ := sequence_publish_span a1 h
      exact ⟨q, q1, q2, q3, a1.1⟩
  | false =>
    simp only [Bool.false_eq_true, if_false] at h ⊢
    by_cases hz : CBS_len l2.cbs ≠ 0
    · rw [if_pos hz] at h
      simp at h
    · rw [if_neg hz] at h ⊢
      obtain ⟨q, q1, q2, q3⟩ := sequence_publish_span a0 h
      exact ⟨q, q1, q2, q3, a0.1⟩

/-- When the field loop of an indefinite-length SEQUENCE has ended without
error and no longer needs a closing marker, its cursor stands right behind a
marker found where some field would have started. -/
theorem sequence_fields_marker {tdec : TemplateDec} {depth : Int}
    (ht : TemplateDec.GoodAt tdec depth) (env : Env) (it : ASN1_ITEM) (indefinite : Bool) :
    ∀ (tts : List ASN1_TEMPLATE) (i : Nat) (aseq : ASN1_VALUE) (content : CBS)
      (errs : List ASN1_R) (l : SeqLoopOut),
      sequence_fields env tdec it depth indefinite tts i aseq content true errs = some l →
      l.ret = 1 → l.eoc_needed = false →
      ∃ c0 k, CBS.advanced content c0 k ∧ asn1_check_eoc c0 = some l.cbs
  | [], i, aseq, content, errs, l, h, _, he => by
    rw [sequence_fields] at h
    cases h
    cases he
  | tt :: rest, i, aseq, content, errs, l, h, hl, he => by
    rw [sequence_fields] at h
    split at h
    · rename_i c1 hce
      split at h
      · cases h
        simp at hl
      · cases h
        exact ⟨content, 0, CBS.advanced_refl content, hce⟩
    · split at h
      · cases h
        cases he
      · split at h
        · cases h
          simp at hl
        · rename_i seqtt _
          obtain ⟨r, hr, hr1, hr2, hr3⟩ := ht (some (asn1_get_field aseq seqtt)) content seqtt
            (optional_field it i seqtt)
          rw [hr] at h
          simp only at h
          split at h
          · rename_i ha
            obtain ⟨_, hcur, _⟩ := hr3 ha
            rw [hcur] at h
            exact sequence_fields_marker ht env it indefinite rest _ _ _ _ l h hl he
          · split at h
            · cases h
              simp at hl
            · rename_i hb
              obtain ⟨k, _, a⟩ := hr2 (of_not_not hb)
              obtain ⟨c0, k1, a1, hc0⟩ := sequence_fields_marker ht env it indefinite rest _ _ _
                _ l h hl he
              exact ⟨c0, k + k1, CBS.advanced_trans a a1, hc0⟩

/-- The state with which an indefinite-length SEQUENCE is finished stands
right behind the closing marker, which was found where the fields ended. -/
theorem sequence_closed_marker {tdec : TemplateDec} {depth : Int}
    (ht : TemplateDec.GoodAt tdec depth) {env : Env} {it : ASN1_ITEM} {indefinite : Bool}
    {aseq : ASN1_VALUE} {content : CBS} {l l2 : SeqLoopOut}
    (h : sequence_fields env tdec it depth indefinite it.templates 0 aseq content true []
      = some l)
    (hl : l.ret = 1) (hcl : SeqClosed l l2) :
    ∃ c0 k, CBS.advanced content c0 k ∧ asn1_check_eoc c0 = some l2.cbs ∧
      CBS.advanced content l2.cbs (k + 2) := by
  rcases hcl with ⟨_, c1, hc, rfl⟩ | ⟨he, heq⟩
  · obtain ⟨lt, hlt, _, hadv⟩ := sequence_fields_total ht env it indefinite it.templates 0 aseq
      content true []
    rw [h] at hlt
    cases hlt
    obtain ⟨k, a⟩ := hadv hl
    exact ⟨l.cbs, k, a, hc, CBS.advanced_trans a (asn1_check_eoc_advanced hc).1⟩
  · rw [heq]
    obtain ⟨c0, k, a, hc⟩ := sequence_fields_marker ht env it indefinite _ _ _ _ _ l h hl he
    exact ⟨c0, k, a, hc, CBS.advanced_trans a (asn1_check_eoc_advanced hc).1⟩

/-- A successful `asn1_item_ex_d2i_sequence` has accepted the header as a
constructed one, for a SEQUENCE item. -/
theorem asn1_item_ex_d2i_sequence_accepts {env : Env} {tdec : TemplateDec} {pval : ASN1_VALUE}
    {cbs : CBS} {it : ASN1_ITEM} {tag cls : Int} {opt : Bool} {depth : Int} {r : Out}
    (h : asn1_item_ex_d2i_sequence env tdec pval cbs it tag cls opt depth = some r)
    (hr : r.ret = 1) :
    (it.itype = ASN1_ITYPE_SEQUENCE ∨ it.itype = ASN1_ITYPE_NDEF_SEQUENCE) ∧
    (asn1_check_tag (CBS_init cbs.data) (if tag = -1 then V_ASN1_SEQUENCE else tag)
      (if tag = -1 then V_ASN1_UNIVERSAL else cls) opt).ret = 1 ∧
    (asn1_check_tag (CBS_init cbs.data) (if tag = -1 then V_ASN1_SEQUENCE else tag)
      (if tag = -1 then V_ASN1_UNIVERSAL else cls) opt).constructed = true := by
  refine ⟨asn1_item_ex_d2i_sequence_itype h hr, ?_⟩
  unfold asn1_item_ex_d2i_sequence at h
  generalize (if tag = -1 then V_ASN1_SEQUENCE else tag) = et at h ⊢
  generalize (if tag = -1 then V_ASN1_UNIVERSAL else cls) = ec at h ⊢
  split at h
  · cases h
    simp at hr
  · split at h
    · cases h
      simp at hr
    · split at h
      · cases h
        simp at hr
      · rename_i h1
        split at h
        · cases h
          simp at hr
        · rename_i hc
          exact ⟨of_not_not h1, by simpa using hc⟩

/-! ## The EXPLICIT wrapper -/

/-- Behind a header that `asn1_check_tag` accepts as constructed, the
EXPLICIT case of `asn1_template_ex_d2i` is `template_explicit_body` on the
content. -/
theorem asn1_template_ex_d2i_header {d2i : ItemDec} {env : Env} {v : ASN1_VALUE} {cbs : CBS}
    {tt : ASN1_TEMPLATE} {opt : Bool} {depth : Int} {H : TagOut}
    (hf : tt.flags &&& ASN1_TFLG_EXPTAG ≠ 0)
    (hH : asn1_check_tag (CBS_init cbs.data) tt.tag
        ((tt.flags &&& ASN1_TFLG_TAG_CLASS : Nat) : Int) opt = H)
    (h1 : H.ret = 1) (hc : H.constructed = true) :
    2 ≤ CBS_offset H.cbs ∧ CBS.advanced (CBS_init cbs.data) H.cbs (CBS_offset H.cbs) ∧
    (H.indefinite = true →
      asn1_template_ex_d2i d2i env (some v) cbs tt opt depth
        = template_explicit_body d2i env v cbs H.cbs (CBS_init H.cbs.data) tt true depth) ∧
    (H.indefinite = false →
      H.len ≤ H.cbs.data.length ∧
      CBS.advanced (CBS_init cbs.data) ⟨H.cbs.data.drop H.len, H.cbs.initial_len⟩
        (CBS_offset H.cbs + H.len) ∧
      asn1_template_ex_d2i d2i env (some v) cbs tt opt depth
        = template_explicit_body d2i env v cbs ⟨H.cbs.data.drop H.len, H.cbs.initial_len⟩
            (CBS_init (H.cbs.data.take H.len)) tt false depth) := by
  unfold asn1_template_ex_d2i
  simp only
  have h1a : (asn1_check_tag (CBS_init cbs.data) tt.tag
      ((tt.flags &&& ASN1_TFLG_TAG_CLASS : Nat) : Int) opt).ret = 1 := by rw [hH]; exact h1
  obtain ⟨⟨k, hk, a⟩, hdef, _, _⟩ := asn1_check_tag_ok h1a
  rw [hH] at a hdef ⊢
  have ho : CBS_offset H.cbs = k := CBS.advanced_offset a rfl
  rw [ho]
  refine ⟨hk, a, ?_, ?_⟩
  · intro hi
    rw [if_neg hf, if_neg (by rw [h1]; decide), if_neg (by rw [h1]; decide),
      if_neg (by rw [hc]; simp), if_pos hi]
  · intro hi
    have hle := hdef hi
    refine ⟨hle, ?_, ?_⟩
    · exact CBS.advanced_trans a
        (CBS_get_bytes_advanced (CBS_get_bytes_of_le H.cbs H.len hle)).1
    · rw [if_neg hf, if_neg (by rw [h1]; decide), if_neg (by rw [h1]; decide),
        if_neg (by rw [hc]; simp), if_neg (by rw [hi]; simp),
        CBS_get_bytes_of_le H.cbs H.len hle]

theorem asn1_template_ex_d2i_accepts {d2i : ItemDec} {env : Env} {v : ASN1_VALUE} {cbs : CBS}
    {tt : ASN1_TEMPLATE} {opt : Bool} {depth : Int} {r : Out}
    (hf : tt.flags &&& ASN1_TFLG_EXPTAG ≠ 0)
    (h : asn1_template_ex_d2i d2i env (some v) cbs tt opt depth = some r) (hr : r.ret = 1) :
    (asn1_check_tag (CBS_init cbs.data) tt.tag
      ((tt.flags &&& ASN1_TFLG_TAG_CLASS : Nat) : Int) opt).ret = 1 ∧
    (asn1_check_tag (CBS_init cbs.data) tt.tag
      ((tt.flags &&& ASN1_TFLG_TAG_CLASS : Nat) : Int) opt).constructed = true := by
  unfold asn1_template_ex_d2i at h
  simp only at h
  rw [if_neg hf] at h
  split at h
  · cases h
    simp at hr
  · split at h
    · cases h
      simp at hr
    · rename_i h1
      split at h
      · cases h
        simp at hr
      · rename_i hc
        exact ⟨of_not_not h1, by simpa using hc⟩

/-- What a successful `template_explicit_body` went through. -/
theorem template_explicit_body_success {d2i : ItemDec} {env : Env} {v : ASN1_VALUE}
    {cbs x content : CBS} {tt : ASN1_TEMPLATE} {indefinite : Bool} {depth : Int} {r : Out}
    (h : template_explicit_body d2i env v cbs x content tt indefinite depth = some r)
    (hr : r.ret = 1) :
    ∃ ri, asn1_template_noexp_d2i d2i env (some v) content tt false depth = some ri ∧
      ri.ret = 1 ∧ r.pval = ri.pval ∧ r.errs = ri.errs ∧
      (if indefinite then
        ∃ c1 x1, asn1_check_eoc ri.cbs = some c1 ∧ CBS_skip x (CBS_offset c1) = some x1 ∧
          CBS_skip cbs (CBS_offset x1) = some r.cbs
       else CBS_len ri.cbs = 0 ∧ CBS_skip cbs (CBS_offset x) = some r.cbs) := by
  unfold template_explicit_body at h
  cases hn : asn1_template_noexp_d2i d2i env (some v) content tt false depth with
  | none => simp [hn] at h
  | some ri =>
    simp only [hn] at h
    by_cases h1 : ri.ret ≠ 1
    · rw [if_pos h1] at h
      cases h
      simp at hr
    · rw [if_neg h1] at h
      refine ⟨ri, rfl, of_not_not h1, ?_⟩
      cases indefinite with
      | true =>
        simp only [if_true] at h ⊢
        cases hc : asn1_check_eoc ri.cbs with
        | none =>
          simp only [hc] at h
          cases h
          simp at hr
        | some c1 =>
          simp only [hc] at h
          cases hs : CBS_skip x (CBS_offset c1) with
          | none =>
            simp only [hs] at h
            cases h
            simp at hr
          | some x1 =>
            simp only [hs] at h
            cases hs1 : CBS_skip cbs (CBS_offset x1) with
            | none =>
              simp only [hs1] at h
              cases h
              simp at hr
            | some c2 =>
              simp only [hs1] at h
              cases h
              exact ⟨rfl, rfl, c1, x1, rfl, hs, hs1⟩
      | false =>
        simp only [Bool.false_eq_true, if_false] at h ⊢
        by_cases hz : CBS_len ri.cbs ≠ 0
        · rw [if_pos hz] at h
          cases h
          simp at hr
        · rw [if_neg hz] at h
          cases hs1 : CBS_skip cbs (CBS_offset x) with
          | none =>
            simp only [hs1] at h
            cases h
            simp at hr
          | some c2 =>
            simp only [hs1] at h
            cases h
            exact ⟨rfl, rfl, of_not_not hz, rfl⟩

theorem template_explicit_body_mismatch {d2i : ItemDec} {env : Env} {v : ASN1_VALUE}
    {cbs x content : CBS} {tt : ASN1_TEMPLATE} {depth : Int} {ri : Out}
    (hn : asn1_template_noexp_d2i d2i env (some v) content tt false depth = some ri)
    (h1 : ri.ret = 1) (hz : CBS_len ri.cbs ≠ 0) :
    template_explicit_body d2i env v cbs x content tt false depth
      = some ⟨0, ASN1_VALUE.null, cbs, ri.errs ++ [ASN1_R.SEQUENCE_LENGTH_MISMATCH]⟩ := by
  unfold template_explicit_body
  simp only [hn]
  rw [if_neg (by rw [h1]; decide)]
  simp only [Bool.false_eq_true, if_false]
  rw [if_pos hz]

theorem template_explicit_body_missing_eoc {d2i : ItemDec} {env : Env} {v : ASN1_VALUE}
    {cbs x content : CBS} {tt : ASN1_TEMPLATE} {depth : Int} {ri : Out}
    (hn : asn1_template_noexp_d2i d2i env (some v) content tt false depth = some ri)
    (h1 : ri.ret = 1) (hc : asn1_check_eoc ri.cbs = none) :
    template_explicit_body d2i env v cbs x content tt true depth
      = some ⟨0, ASN1_VALUE.null, cbs, ri.errs ++ [ASN1_R.MISSING_EOC]⟩ := by
  unfold template_explicit_body
  simp only [hn]
  rw [if_neg (by rw [h1]; decide)]
  simp only [if_true, hc]

/-! ## The element loop followed along the elements -/

theorem ElemChain.chain_advanced {d2i : ItemDec} {depth : Int} (hd : ItemDec.GoodAt d2i depth)
    {it : ASN1_ITEM} (hit : it.itype ≠ ASN1_ITYPE_EXTERN) :
    ∀ (rs : List Out) (c c1 : CBS), ElemChain d2i it depth c rs c1 →
      ∃ k, CBS.advanced c c1 k
  | [], c, c1, h => by
    cases h
    exact ⟨0, CBS.advanced_refl _⟩
  | r :: rs, c, c1, h => by
    obtain ⟨_, _, hr, h0, hrest⟩ := h
    obtain ⟨r1, hr1, hw1, hw2, hw3⟩ := hd (some ASN1_VALUE.null) c it (-1) 0 false hit
    rw [hr] at hr1
    cases hr1
    have h1 : r.ret = 1 := by
      rcases hw1 with h1 | h1 | h1
      · exact h1
      · exact absurd h1 h0
      · have := (hw3 h1).1
        cases this
    obtain ⟨k, _, a⟩ := hw2 h1
    obtain ⟨k1, a1⟩ := ElemChain.chain_advanced hd hit rs r.cbs c1 hrest
    exact ⟨k + k1, CBS.advanced_trans a a1⟩

/-- With enough iterations allowed, the element loop run from the start of
a chain of elements is the loop run from its end, with the values of the
elements appended. -/
theorem stack_of_loop_follow {d2i : ItemDec} {depth : Int} (hd : ItemDec.GoodAt d2i depth)
    {it : ASN1_ITEM} (hit : it.itype ≠ ASN1_ITYPE_EXTERN) :
    ∀ (rs : List Out) (n : Nat) (avals : List ASN1_VALUE) (content : CBS) (eoc_needed : Bool)
      (errs : List ASN1_R) (c1 : CBS), content.data.length < n →
      ElemChain d2i it depth content rs c1 →
      ∃ n1 errs1, c1.data.length < n1 ∧
        stack_of_loop d2i it depth n avals content eoc_needed errs
          = stack_of_loop d2i it depth n1 (avals ++ rs.map (fun r => r.pval)) c1 eoc_needed
              errs1
  | [], n, avals, content, eoc_needed, errs, c1, hn, h => by
    cases h
    exact ⟨n, errs, hn, by simp⟩
  | r :: rs, n, avals, content, eoc_needed, errs, c1, hn, h => by
    obtain ⟨hpos, hce, hr, h0, hrest⟩ := h
    obtain ⟨r1, hr1, hw1, hw2, hw3⟩ := hd (some ASN1_VALUE.null) content it (-1) 0 false hit
    rw [hr] at hr1
    cases hr1
    have h1 : r.ret = 1 := by
      rcases hw1 with h1 | h1 | h1
      · exact h1
      · exact absurd h1 h0
      · have := (hw3 h1).1
        cases this
    obtain ⟨k, hk, a⟩ := hw2 h1
    have hl := CBS.advanced_length a
    cases n with
    | zero => omega
    | succ n =>
      obtain ⟨n1, errs1, hn1, heq⟩ := stack_of_loop_follow hd hit rs n (avals ++ [r.pval]) r.cbs
        eoc_needed (errs ++ r.errs) c1 (by omega) hrest
      refine ⟨n1, errs1, hn1, ?_⟩
      rw [stack_of_loop]
      simp only [hce, hr]
      rw [if_pos hpos, if_neg h0, heq]
      simp

theorem stack_of_loop_at_eoc (d2i : ItemDec) (it : ASN1_ITEM) (depth : Int) (n : Nat)
    (avals : List ASN1_VALUE) (content c1 : CBS) (eoc_needed : Bool) (errs : List ASN1_R)
    (hn : content.data.length < n) (h : asn1_check_eoc content = some c1) :
    stack_of_loop d2i it depth n avals content eoc_needed errs
      = if ¬ eoc_needed then some ⟨0, avals, c1, eoc_needed, errs ++ [ASN1_R.UNEXPECTED_EOC]⟩
        else some ⟨1, avals, c1, false, errs⟩ := by
  have hpos : CBS_len content > 0 := Nat.pos_of_ne_zero (asn1_check_eoc_len h)
  cases n with
  | zero => omega
  | succ n =>
    rw [stack_of_loop]
    simp only [h]
    rw [if_pos hpos]

theorem stack_of_loop_at_end (d2i : ItemDec) (it : ASN1_ITEM) (depth : Int) (n : Nat)
    (avals : List ASN1_VALUE) (content : CBS) (eoc_needed : Bool) (errs : List ASN1_R)
    (hn : content.data.length < n) (h : CBS_len content = 0) :
    stack_of_loop d2i it depth n avals content eoc_needed errs
      = some ⟨1, avals, content, eoc_needed, errs⟩ := by
  cases n with
  | zero => omega
  | succ n =>
    rw [stack_of_loop]
    rw [if_neg (by omega)]

/-- Behind a header that `asn1_check_tag` accepts,
`asn1_template_stack_of_d2i` is `stack_of_body` on the content. -/
theorem asn1_template_stack_of_d2i_header {d2i : ItemDec} {env : Env} {v : ASN1_VALUE}
    {cbs : CBS} {tt : ASN1_TEMPLATE} {opt : Bool} {depth : Int} {H : TagOut}
    (hH : asn1_check_tag (CBS_init cbs.data) (stack_of_tag_number tt) (stack_of_tag_class tt)
        opt = H)
    (h1 : H.ret = 1) :
    2 ≤ CBS_offset H.cbs ∧ CBS.advanced (CBS_init cbs.data) H.cbs (CBS_offset H.cbs) ∧
    (H.indefinite = true →
      asn1_template_stack_of_d2i d2i env (some v) cbs tt opt depth
        = stack_of_body d2i env cbs H.cbs (CBS_init H.cbs.data) tt true depth) ∧
    (H.indefinite = false →
      H.len ≤ H.cbs.data.length ∧
      CBS.advanced (CBS_init cbs.data) ⟨H.cbs.data.drop H.len, H.cbs.initial_len⟩
        (CBS_offset H.cbs + H.len) ∧
      asn1_template_stack_of_d2i d2i env (some v) cbs tt opt depth
        = stack_of_body d2i env cbs ⟨H.cbs.data.drop H.len, H.cbs.initial_len⟩
            (CBS_init (H.cbs.data.take H.len)) tt false depth) := by
  unfold asn1_template_stack_of_d2i
  simp only
  have h1a : (asn1_check_tag (CBS_init cbs.data) (stack_of_tag_number tt)
      (stack_of_tag_class tt) opt).ret = 1 := by rw [hH]; exact h1
  obtain ⟨⟨k, hk, a⟩, hdef, _, _⟩ := asn1_check_tag_ok h1a
  rw [hH] at a hdef ⊢
  have ho : CBS_offset H.cbs = k := CBS.advanced_offset a rfl
  rw [ho]
  refine ⟨hk, a, ?_, ?_⟩
  · intro hi
    rw [if_neg (by rw [h1]; decide), if_neg (by rw [h1]; decide), if_pos hi]
  · intro hi
    have hle := hdef hi
    refine ⟨hle, ?_, ?_⟩
    · exact CBS.advanced_trans a
        (CBS_get_bytes_advanced (CBS_get_bytes_of_le H.cbs H.len hle)).1
    · rw [if_neg (by rw [h1]; decide), if_neg (by rw [h1]; decide), if_neg (by rw [hi]; simp),
        CBS_get_bytes_of_le H.cbs H.len hle]

theorem asn1_template_stack_of_d2i_accepts {d2i : ItemDec} {env : Env} {v : ASN1_VALUE}
    {cbs : CBS} {tt : ASN1_TEMPLATE} {opt : Bool} {depth : Int} {r : Out}
    (h : asn1_template_stack_of_d2i d2i env (some v) cbs tt opt depth = some r)
    (hr : r.ret = 1) :
    (asn1_check_tag (CBS_init cbs.data) (stack_of_tag_number tt) (stack_of_tag_class tt)
      opt).ret = 1 := by
  unfold asn1_template_stack_of_d2i at h
  simp only at h
  split at h
  · cases h
    simp at hr
  · split at h
    · cases h
      simp at hr
    · rename_i h1
      exact of_not_not h1

theorem stack_of_body_unexpected_eoc {d2i : ItemDec} {depth : Int}
    (hd : ItemDec.GoodAt d2i depth) {env : Env} {tt : ASN1_TEMPLATE}
    (hit : (env.item tt.item).itype ≠ ASN1_ITYPE_EXTERN) (cbs x : CBS) {content c1 c2 : CBS}
    {rs : List Out} (hc : ElemChain d2i (env.item tt.item) depth content rs c1)
    (he : asn1_check_eoc c1 = some c2) :
    ∃ errs, stack_of_body d2i env cbs x content tt false depth
      = some ⟨0, ASN1_VALUE.null, cbs, errs ++ [ASN1_R.UNEXPECTED_EOC]⟩ := by
  obtain ⟨n1, errs1, hn1, heq⟩ := stack_of_loop_follow hd hit rs (CBS_len content + 1) []
    content false [] c1 (by unfold CBS_len; omega) hc
  refine ⟨errs1, ?_⟩
  unfold stack_of_body
  rw [heq, stack_of_loop_at_eoc d2i _ depth n1 _ c1 c2 false errs1 hn1 he]
  simp

theorem stack_of_body_missing_eoc {d2i : ItemDec} {depth : Int}
    (hd : ItemDec.GoodAt d2i depth) {env : Env} {tt : ASN1_TEMPLATE}
    (hit : (env.item tt.item).itype ≠ ASN1_ITYPE_EXTERN) (cbs x : CBS) {content c1 : CBS}
    {rs : List Out} (hc : ElemChain d2i (env.item tt.item) depth content rs c1)
    (hz : CBS_len c1 = 0) :
    ∃ errs, stack_of_body d2i env cbs x content tt true depth
      = some ⟨0, ASN1_VALUE.null, cbs, errs ++ [ASN1_R.MISSING_EOC]⟩ := by
  obtain ⟨n1, errs1, hn1, heq⟩ := stack_of_loop_follow hd hit rs (CBS_len content + 1) []
    content true [] c1 (by unfold CBS_len; omega) hc
  refine ⟨errs1, ?_⟩
  unfold stack_of_body
  rw [heq, stack_of_loop_at_end d2i _ depth n1 _ c1 true errs1 hn1 hz]
  simp

/-- A successful `stack_of_body` on indefinite-length content: the elements
were decoded one after the other over `k` bytes, a closing marker stood
behind them, and the caller's cursor stands right behind that marker. -/
theorem stack_of_body_marker {d2i : ItemDec} {depth : Int} (hd : ItemDec.GoodAt d2i depth)
    {env : Env} {tt : ASN1_TEMPLATE}
    (hit : (env.item tt.item).itype ≠ ASN1_ITYPE_EXTERN) {cbs x : CBS} {k0 : Nat} {r : Out}
    (a0 : CBS.advanced (CBS_init cbs.data) x k0)
    (h : stack_of_body d2i env cbs x (CBS_init x.data) tt true depth = some r)
    (hr : r.ret = 1) :
    ∃ rs c1 c2 k, ElemChain d2i (env.item tt.item) depth (CBS_init x.data) rs c1 ∧
      CBS.advanced (CBS_init x.data) c1 k ∧ asn1_check_eoc c1 = some c2 ∧
      r.pval = ASN1_VALUE.stack (rs.map (fun e => e.pval)) ∧
      r.cbs = ⟨cbs.data.drop (k0 + k + 2), cbs.initial_len⟩ ∧
      k0 + k + 2 ≤ cbs.data.length := by
  unfold stack_of_body at h
  cases hl : stack_of_loop d2i (env.item tt.item) depth (CBS_len (CBS_init x.data) + 1) []
      (CBS_init x.data) true [] with
  | none => simp [hl] at h
  | some l =>
    simp only [hl] at h
    by_cases h0 : l.ret = 0
    · rw [if_pos h0] at h
      cases h
      simp at hr
    · rw [if_neg h0] at h
      by_cases hn : l.eoc_needed = true
      · rw [if_pos hn] at h
        cases h
        simp at hr
      · rw [if_neg hn] at h
        simp only [if_true] at h
        have hl1 : l.ret = 1 := by
          rcases stack_of_loop_ret _ _ _ _ _ l hl with h1 | h1
          · exact h1
          · exact absurd h1 h0
        obtain ⟨rs, c1, hch, hv, hend⟩ := stack_of_loop_chain _ _ _ _ _ l hl hl1
        obtain ⟨k, a⟩ := ElemChain.chain_advanced hd hit rs _ c1 hch
        have hce : asn1_check_eoc c1 = some l.cbs := by
          rcases hend with ⟨_, _, h4⟩ | ⟨h4, _, _⟩
          · rw [h4] at hn
            simp at hn
          · exact h4
        have a2 := CBS.advanced_trans a (asn1_check_eoc_advanced hce).1
        have ho : CBS_offset l.cbs = k + 2 := CBS.advanced_offset a2 rfl
        have hk : k + 2 ≤ x.data.length := a2.1
        rw [ho, CBS_skip_of_le x (k + 2) hk] at h
        simp only at h
        have a3 : CBS.advanced (CBS_init cbs.data) ⟨x.data.drop (k + 2), x.initial_len⟩
            (k0 + (k + 2)) := CBS.advanced_trans a0 ⟨hk, rfl, rfl⟩
        have ho3 : CBS_offset (⟨x.data.drop (k + 2), x.initial_len⟩ : CBS) = k0 + (k + 2) :=
          CBS.advanced_offset a3 rfl
        have hk3 : k0 + (k + 2) ≤ cbs.data.length := a3.1
        rw [ho3, CBS_skip_of_le cbs _ hk3] at h
        simp only [Option.some.injEq] at h
        subst h
        refine ⟨rs, c1, l.cbs, k, hch, a, hce, by simp [hv], ?_, by omega⟩
        simp only [Nat.add_assoc]

/-! ## The end of an indefinite-length object -/

/-- A series of complete encoded objects: `ObjectSeries c c1` says that from
the cursor `c` to the cursor `c1` complete objects stand one after the
other, each a header that `asn1_check_tag` reads, followed for a definite
length by that many content bytes and for an indefinite length by a series of
complete objects and an end-of-contents marker. No object of the series
starts with the two bytes of a marker. -/
inductive ObjectSeries : CBS → CBS → Prop where
  | done (c : CBS) : ObjectSeries c c
  | definite (c c1 c2 : CBS) :
      asn1_check_eoc c = none →
      (asn1_check_tag c (-1) 0 false).ret = 1 →
      (asn1_check_tag c (-1) 0 false).indefinite = false →
      CBS_skip (asn1_check_tag c (-1) 0 false).cbs (asn1_check_tag c (-1) 0 false).len
        = some c1 →
      ObjectSeries c1 c2 → ObjectSeries c c2
  | indefinite (c c1 c2 c3 : CBS) :
      asn1_check_eoc c = none →
      (asn1_check_tag c (-1) 0 false).ret = 1 →
      (asn1_check_tag c (-1) 0 false).indefinite = true →
      ObjectSeries (asn1_check_tag c (-1) 0 false).cbs c1 →
      asn1_check_eoc c1 = some c2 →
      ObjectSeries c2 c3 → ObjectSeries c c3

theorem ObjectSeries.series_advanced {c c1 : CBS} (h : ObjectSeries c c1) :
    ∃ k, CBS.advanced c c1 k := by
  induction h with
  | done c => exact ⟨0, CBS.advanced_refl c⟩
  | definite c c1 c2 _ h1 _ hs _ ih =>
    obtain ⟨⟨k0, _, a⟩, _⟩ := asn1_check_tag_ok h1
    obtain ⟨k, a2⟩ := ih
    exact ⟨_, CBS.advanced_trans (CBS.advanced_trans a (CBS_skip_advanced hs)) a2⟩
  | indefinite c c1 c2 c3 _ h1 _ _ he _ ih1 ih2 =>
    obtain ⟨⟨k0, _, a⟩, _⟩ := asn1_check_tag_ok h1
    obtain ⟨k1, a1⟩ := ih1
    obtain ⟨k2, a2⟩ := ih2
    exact ⟨_, CBS.advanced_trans (CBS.advanced_trans (CBS.advanced_trans a a1)
      (asn1_check_eoc_advanced he).1) a2⟩

/-- The loop of `asn1_find_end` at a marker: the counter goes down by one,
and the loop ends when it reaches zero. -/
theorem asn1_find_end_loop_at_eoc (fuel : Nat) (c c2 : CBS) (n : Nat)
    (he : asn1_check_eoc c = some c2) (hn : 1 ≤ n) (hb : n ≤ SIZE_MAX) :
    asn1_find_end_loop (fuel + 1) c n
      = if n = 1 then some ⟨1, c2, []⟩ else asn1_find_end_loop fuel c2 (n - 1) := by
  have hpos : CBS_len c > 0 := Nat.pos_of_ne_zero (asn1_check_eoc_len he)
  have hm : (n + SIZE_MAX) % (SIZE_MAX + 1) = n - 1 := by
    unfold SIZE_MAX at hb ⊢
    omega
  rw [asn1_find_end_loop]
  simp only [he]
  rw [if_pos hpos, hm]
  by_cases h1 : n = 1
  · rw [if_pos (by omega), if_pos h1]
  · rw [if_neg (by omega), if_neg h1]

/-- The loop of `asn1_find_end` run from the start of a series of complete
objects is the loop run from its end, with the same counter. -/
theorem asn1_find_end_loop_series {c c1 : CBS} (h : ObjectSeries c c1) :
    ∀ (fuel n : Nat), c.data.length < fuel → 1 ≤ n → n + c.data.length ≤ SIZE_MAX →
      ∃ fuel1, c1.data.length < fuel1 ∧
        asn1_find_end_loop fuel c n = asn1_find_end_loop fuel1 c1 n := by
  induction h with
  | done c =>
    intro fuel n hf _ _
    exact ⟨fuel, hf, rfl⟩
  | definite c c1 c2 hce h1 hi hs _ ih =>
    intro fuel n hf hn hb
    obtain ⟨⟨k0, hk0, a⟩, _⟩ := asn1_check_tag_ok h1
    have hl := CBS.advanced_length a
    have hl2 := CBS.advanced_length (CBS_skip_advanced hs)
    cases fuel with
    | zero => omega
    | succ fuel =>
      obtain ⟨fuel1, hf1, heq⟩ := ih fuel n (by omega) hn (by omega)
      refine ⟨fuel1, hf1, ?_⟩
      rw [asn1_find_end_loop]
      simp only [hce, hs]
      rw [if_pos (by unfold CBS_len; omega), if_neg (by rw [h1]; decide),
        if_neg (by rw [hi]; simp), heq]
  | indefinite c c1 c2 c3 hce h1 hi _ he _ ih1 ih2 =>
    intro fuel n hf hn hb
    obtain ⟨⟨k0, hk0, a⟩, _⟩ := asn1_check_tag_ok h1
    have hl := CBS.advanced_length a
    have hl2 := CBS.advanced_length (asn1_check_eoc_advanced he).1
    cases fuel with
    | zero => omega
    | succ fuel =>
      obtain ⟨fuel1, hf1, heq1⟩ := ih1 fuel (n + 1) (by omega) (by omega) (by omega)
      cases fuel1 with
      | zero => omega
      | succ fuel1 =>
        obtain ⟨fuel2, hf2, heq2⟩ := ih2 fuel1 n (by omega) hn (by
          have := (ObjectSeries.series_advanced (by assumption : ObjectSeries
            (asn1_check_tag c (-1) 0 false).cbs c1))
          obtain ⟨k1, a1⟩ := this
          have := CBS.advanced_length a1
          omega)
        refine ⟨fuel2, hf2, ?_⟩
        have hm : (n + 1) % (SIZE_MAX + 1) = n + 1 := by
          unfold SIZE_MAX at hb ⊢
          omega
        have hb1 : n + 1 ≤ SIZE_MAX := by omega
        rw [asn1_find_end_loop]
        simp only [hce]
        rw [if_pos (by unfold CBS_len; omega), if_neg (by rw [h1]; decide),
          if_pos hi, hm, heq1, asn1_find_end_loop_at_eoc fuel1 c1 c2 (n + 1) he (by omega) hb1,
          if_neg (by omega), Nat.add_sub_cancel, heq2]

/-- For an indefinite-length object whose content is a series of complete
objects followed by an end-of-contents marker, `asn1_find_end` ends right
behind that marker. -/
theorem asn1_find_end_series {x c1 c2 : CBS} (length : Nat) (h : ObjectSeries x c1)
    (he : asn1_check_eoc c1 = some c2) (hb : x.data.length < SIZE_MAX) :
    asn1_find_end x length true = some ⟨1, c2, []⟩ := by
  unfold asn1_find_end
  rw [if_neg (by simp)]
  obtain ⟨fuel1, hf1, heq⟩ := asn1_find_end_loop_series h (CBS_len x + 1) 1
    (by unfold CBS_len; omega) (by omega) (by omega)
  rw [heq]
  cases fuel1 with
  | zero => omega
  | succ fuel1 =>
    rw [asn1_find_end_loop_at_eoc fuel1 c1 c2 1 he (by omega) (by unfold SIZE_MAX; omega),
      if_pos rfl]
/-- With `n` indefinite-length objects open at the cursor `c`, the marker
that closes the outermost of them ends right before `c1`: `n` times a series
of complete objects followed by a marker. -/
def Closes : Nat → CBS → CBS → Prop
  | 0, _, _ => False
  | n + 1, c, c3 => ∃ c1 c2, ObjectSeries c c1 ∧ asn1_check_eoc c1 = some c2 ∧
      (if n = 0 then c3 = c2 else Closes n c2 c3)

theorem Closes.succ {n : Nat} {c c3 : CBS} (h : Closes (n + 1) c c3) :
    ∃ c1 c2, ObjectSeries c c1 ∧ asn1_check_eoc c1 = some c2 ∧
      (if n = 0 then c3 = c2 else Closes n c2 c3) := by
  unfold Closes at h
  exact h

theorem Closes.intro {n : Nat} {c c1 c2 c3 : CBS} (hs : ObjectSeries c c1)
    (he : asn1_check_eoc c1 = some c2) (h : if n = 0 then c3 = c2 else Closes n c2 c3) :
    Closes (n + 1) c c3 := by
  unfold Closes
  exact ⟨c1, c2, hs, he, h⟩

/-- When the loop of `asn1_find_end` succeeds, what it walked over is, for
each open object, a series of complete objects followed by a marker. -/
theorem asn1_find_end_loop_closes : ∀ (fuel : Nat) (c : CBS) (n : Nat) (r : FindOut),
    1 ≤ n → n + c.data.length ≤ SIZE_MAX →
    asn1_find_end_loop fuel c n = some r → r.ret = 1 → Closes n c r.cbs
  | 0, _, _, _, _, _, h, _ => by simp [asn1_find_end_loop] at h
  | fuel + 1, c, n, r, hn, hb, h, hr => by
    obtain ⟨m, rfl⟩ : ∃ m, n = m + 1 := ⟨n - 1, by omega⟩
    rw [asn1_find_end_loop] at h
    by_cases hpos : CBS_len c > 0
    · rw [if_pos hpos] at h
      cases hce : asn1_check_eoc c with
      | some c2 =>
        simp only [hce] at h
        have hm : (m + 1 + SIZE_MAX) % (SIZE_MAX + 1) = m := by
          unfold SIZE_MAX at hb ⊢
          omega
        rw [hm] at h
        have hl2 := CBS.advanced_length (asn1_check_eoc_advanced hce).1
        by_cases h0 : m = 0
        · rw [if_pos h0] at h
          cases h
          exact Closes.intro (ObjectSeries.done c) hce (by rw [if_pos h0])
        · rw [if_neg h0] at h
          have ih := asn1_find_end_loop_closes fuel c2 m r (by omega) (by omega) h hr
          exact Closes.intro (ObjectSeries.done c) hce (by rw [if_neg h0]; exact ih)
      | none =>
        simp only [hce] at h
        by_cases hz : (asn1_check_tag c (-1) 0 false).ret = 0
        · rw [if_pos hz] at h
          cases h
          simp at hr
        · rw [if_neg hz] at h
          have h1 := asn1_check_tag_ok_of_ne_zero hz
          obtain ⟨⟨k0, hk0, a⟩, _⟩ := asn1_check_tag_ok h1
          have hl := CBS.advanced_length a
          by_cases hi : (asn1_check_tag c (-1) 0 false).indefinite = true
          · rw [if_pos hi] at h
            have hm : (m + 1 + 1) % (SIZE_MAX + 1) = m + 1 + 1 := by
              unfold SIZE_MAX at hb ⊢
              omega
            rw [hm] at h
            have ih := asn1_find_end_loop_closes fuel _ (m + 1 + 1) r (by omega) (by omega) h hr
            obtain ⟨c1, c2, hs1, he1, hrest⟩ := ih.succ
            rw [if_neg (by omega)] at hrest
            obtain ⟨c3, c4, hs2, he2, hrest2⟩ := hrest.succ
            exact Closes.intro (ObjectSeries.indefinite c c1 c2 c3 hce h1 hi hs1 he1 hs2) he2
              hrest2
          · rw [if_neg hi] at h
            cases hs : CBS_skip (asn1_check_tag c (-1) 0 false).cbs
                (asn1_check_tag c (-1) 0 false).len with
            | none =>
              simp only [hs] at h
              cases h
              simp at hr
            | some c1 =>
              simp only [hs] at h
              have hl1 := CBS.advanced_length (CBS_skip_advanced hs)
              have ih := asn1_find_end_loop_closes fuel c1 (m + 1) r (by omega) (by omega) h hr
              obtain ⟨c3, c4, hs2, he2, hrest2⟩ := ih.succ
              exact Closes.intro (ObjectSeries.definite c c1 c3 hce h1 (by simpa using hi) hs
                hs2) he2 hrest2
    · rw [if_neg hpos, if_pos (by omega)] at h
      cases h
      simp at hr

/-- When `asn1_find_end` succeeds on an indefinite-length object, the
content is a series of complete objects followed by an end-of-contents
marker, and the cursor stands right behind that marker. -/
theorem asn1_find_end_closes {x : CBS} {length : Nat} {r : FindOut}
    (h : asn1_find_end x length true = some r) (hr : r.ret = 1)
    (hb : x.data.length < SIZE_MAX) :
    ∃ c1, ObjectSeries x c1 ∧ asn1_check_eoc c1 = some r.cbs := by
  unfold asn1_find_end at h
  rw [if_neg (by simp)] at h
  have hc := asn1_find_end_loop_closes _ x 1 r (by omega) (by omega) h hr
  obtain ⟨c1, c2, hs, he, hrest⟩ := hc.succ
  rw [if_pos rfl] at hrest
  rw [hrest]
  exact ⟨c1, hs, he⟩

/-! ## Objects kept in encoded form -/

theorem asn1_ex_c2i_primitive_verbatim (env : Env) (pval : ASN1_VALUE) (content : CBS)
    (utype : Int) (it : ASN1_ITEM) (hf : it.funcs = ASN1_FUNCS.null)
    (hu : utype = V_ASN1_SEQUENCE ∨ utype = V_ASN1_SET ∨ utype = V_ASN1_OTHER)
    (hl : CBS_len content ≤ INT_MAX) :
    asn1_ex_c2i_primitive env pval content utype it
      = ⟨1, ASN1_VALUE.string utype content.data, []⟩ := by
  have hfn : it.funcs_null = true := by
    unfold ASN1_ITEM.funcs_null
    rw [hf]
  unfold asn1_ex_c2i_primitive
  rw [if_neg (by rw [hfn]; simp), if_neg (by omega)]
  rcases hu with h | h | h <;> subst h <;> rfl

theorem asn1_ex_c2i_any_value {env : Env} {pval : ASN1_VALUE} {content : CBS} {utype : Int}
    {it : ASN1_ITEM} (hf : it.funcs = ASN1_FUNCS.null) (hu : it.utype = V_ASN1_ANY)
    (h : (asn1_ex_c2i env pval content utype it).ret ≠ 0) :
    CBS_len content ≤ INT_MAX ∧
    (asn1_ex_c2i_primitive env ASN1_VALUE.null content utype it).ret ≠ 0 ∧
    (asn1_ex_c2i env pval content utype it).pval
      = ASN1_VALUE.any utype
          (if utype = V_ASN1_NULL then ASN1_VALUE.null
            else (asn1_ex_c2i_primitive env ASN1_VALUE.null content utype it).pval) := by
  have hfn : it.funcs_null = true := by
    unfold ASN1_ITEM.funcs_null
    rw [hf]
  unfold asn1_ex_c2i at h ⊢
  by_cases hl : CBS_len content > INT_MAX
  · rw [if_pos hl] at h
    simp at h
  · rw [if_neg hl] at h ⊢
    rw [hf] at h ⊢
    simp only at h ⊢
    rw [if_pos hu] at h ⊢
    unfold asn1_ex_c2i_any at h ⊢
    rw [if_neg (by rw [hfn]; simp [hu])] at h ⊢
    by_cases h0 : (asn1_ex_c2i_primitive env ASN1_VALUE.null content utype it).ret = 0
    · rw [if_pos h0] at h
      simp at h
    · rw [if_neg h0]
      refine ⟨by omega, h0, ?_⟩
      by_cases hn : utype = V_ASN1_NULL
      · rw [if_pos hn, if_pos hn]
      · rw [if_neg hn, if_neg hn]

/-- A successful `asn1_d2i_ex_primitive_content` for the type SEQUENCE, SET
or OTHER: the value is built from the first `k0 + k` bytes at the caller's
cursor, where `k0` bytes are the header and `k` the bytes `asn1_find_end`
walked over, and the caller's cursor advances by as much. -/
theorem asn1_d2i_ex_primitive_content_verbatim {env : Env} {pval : ASN1_VALUE} {cbs x : CBS}
    {utype : Int} {constructed indefinite : Bool} {length : Nat} {it : ASN1_ITEM} {r : Out}
    {k0 : Nat}
    (hu : utype = V_ASN1_SEQUENCE ∨ utype = V_ASN1_SET ∨ utype = V_ASN1_OTHER)
    (a0 : CBS.advanced (CBS_init cbs.data) x k0)
    (h : asn1_d2i_ex_primitive_content env pval cbs x utype constructed indefinite length it
      = some r)
    (hr : r.ret = 1) :
    ∃ f k, asn1_find_end x length indefinite = some f ∧ f.ret = 1 ∧ CBS.advanced x f.cbs k ∧
      k0 + k ≤ cbs.data.length ∧
      (asn1_ex_c2i env pval (CBS_init (cbs.data.take (k0 + k))) utype it).ret ≠ 0 ∧
      r.pval = (asn1_ex_c2i env pval (CBS_init (cbs.data.take (k0 + k))) utype it).pval ∧
      r.cbs = ⟨cbs.data.drop (k0 + k), cbs.initial_len⟩ := by
  unfold asn1_d2i_ex_primitive_content at h
  by_cases hc : (utype = V_ASN1_SEQUENCE ∨ utype = V_ASN1_SET) ∧ ¬ constructed
  · rw [if_pos hc] at h
    cases h
    simp at hr
  · rw [if_neg hc, if_pos hu] at h
    obtain ⟨f, hf, hf1, hf2⟩ := asn1_find_end_total x length indefinite
    rw [hf] at h
    simp only at h
    by_cases h0 : f.ret = 0
    · rw [if_pos h0] at h
      cases h
      simp at hr
    · rw [if_neg h0] at h
      have h1 : f.ret = 1 := by
        rcases hf1 with h1 | h1
        · exact h1
        · exact absurd h1 h0
      obtain ⟨k, a⟩ := hf2 h1
      have a1 := CBS.advanced_trans a0 a
      have ho : CBS_offset f.cbs = k0 + k := CBS.advanced_offset a1 rfl
      have hk : k0 + k ≤ cbs.data.length := a1.1
      rw [ho, CBS_get_bytes_of_le cbs _ hk] at h
      simp only [Option.some.injEq] at h
      subst h
      obtain ⟨q1, q2, q3⟩ := primitive_content_finish_value hr
      rw [ho, CBS_skip_of_le cbs _ hk] at q3
      exact ⟨f, k, hf, h1, a, hk, q1, q2, (Option.some.inj q3).symm⟩

theorem asn1_find_end_definite {x : CBS} {length : Nat} {f : FindOut}
    (h : asn1_find_end x length false = some f) (hr : f.ret = 1) :
    CBS.advanced x f.cbs length := by
  unfold asn1_find_end at h
  rw [if_pos (by simp)] at h
  cases hs : CBS_skip x length with
  | none =>
    rw [hs] at h
    cases h
    simp at hr
  | some c1 =>
    rw [hs] at h
    cases h
    exact CBS_skip_advanced hs

theorem CBS.advanced_unique {c c1 : CBS} {j k : Nat} (h1 : CBS.advanced c c1 j)
    (h2 : CBS.advanced c c1 k) : j = k := by
  have := CBS.advanced_length h1
  have := CBS.advanced_length h2
  omega

/-- A definite-length object of the type SEQUENCE, SET or OTHER whose header
took `k0` bytes: `asn1_ex_c2i` receives the first `k0 + length` bytes at the
caller's cursor, and on success the cursor advances by as much. -/
theorem asn1_d2i_ex_primitive_content_definite {env : Env} {pval : ASN1_VALUE} {cbs x : CBS}
    {utype : Int} {constructed : Bool} {length : Nat} {it : ASN1_ITEM} {k0 : Nat}
    (hu : utype = V_ASN1_SEQUENCE ∨ utype = V_ASN1_SET ∨ utype = V_ASN1_OTHER)
    (hc : ¬ ((utype = V_ASN1_SEQUENCE ∨ utype = V_ASN1_SET) ∧ ¬ constructed))
    (a0 : CBS.advanced (CBS_init cbs.data) x k0) (hl : length ≤ x.data.length) :
    asn1_d2i_ex_primitive_content env pval cbs x utype constructed false length it
      = some
        (if (asn1_ex_c2i env pval (CBS_init (cbs.data.take (k0 + length))) utype it).ret = 0 then
          ⟨0, (asn1_ex_c2i env pval (CBS_init (cbs.data.take (k0 + length))) utype it).pval, cbs,
            (asn1_ex_c2i env pval (CBS_init (cbs.data.take (k0 + length))) utype it).errs⟩
        else
          ⟨1, (asn1_ex_c2i env pval (CBS_init (cbs.data.take (k0 + length))) utype it).pval,
            ⟨cbs.data.drop (k0 + length), cbs.initial_len⟩,
            (asn1_ex_c2i env pval (CBS_init (cbs.data.take (k0 + length))) utype it).errs⟩) := by
  have hs : CBS_skip x length = some ⟨x.data.drop length, x.initial_len⟩ :=
    CBS_skip_of_le x length hl
  have a1 := CBS.advanced_trans a0 (CBS_skip_advanced hs)
  have ho : CBS_offset (⟨x.data.drop length, x.initial_len⟩ : CBS) = k0 + length :=
    CBS.advanced_offset a1 rfl
  have hk : k0 + length ≤ cbs.data.length := a1.1
  unfold asn1_d2i_ex_primitive_content
  rw [if_neg hc, if_pos hu]
  unfold asn1_find_end
  rw [if_pos (by simp), hs]
  simp only
  rw [if_neg (by decide), ho, CBS_get_bytes_of_le cbs _ hk]
  simp only
  unfold primitive_content_finish
  rw [ho, CBS_skip_of_le cbs _ hk]

/-- A successfully decoded object of the type SEQUENCE, SET or OTHER whose
header took `k0` bytes: the value is built from the first `n` bytes at the
caller's cursor and the cursor advances by `n`, where `n` is `k0 + length`
for a definite length, and for an indefinite length runs through the
end-of-contents marker that follows a series of complete objects. -/
theorem asn1_d2i_ex_primitive_content_span {env : Env} {pval : ASN1_VALUE} {cbs x : CBS}
    {utype : Int} {constructed indefinite : Bool} {length : Nat} {it : ASN1_ITEM} {r : Out}
    {k0 : Nat}
    (hu : utype = V_ASN1_SEQUENCE ∨ utype = V_ASN1_SET ∨ utype = V_ASN1_OTHER)
    (a0 : CBS.advanced (CBS_init cbs.data) x k0)
    (h : asn1_d2i_ex_primitive_content env pval cbs x utype constructed indefinite length it
      = some r)
    (hr : r.ret = 1) :
    ∃ n, n ≤ cbs.data.length ∧
      (asn1_ex_c2i env pval (CBS_init (cbs.data.take n)) utype it).ret ≠ 0 ∧
      r.pval = (asn1_ex_c2i env pval (CBS_init (cbs.data.take n)) utype it).pval ∧
      r.cbs = ⟨cbs.data.drop n, cbs.initial_len⟩ ∧
      (indefinite = false → n = k0 + length) ∧
      (indefinite = true → x.data.length < SIZE_MAX →
        ∃ c1 c2 k, ObjectSeries x c1 ∧ CBS.advanced x c1 k ∧ asn1_check_eoc c1 = some c2 ∧
          n = k0 + k + 2) := by
  obtain ⟨f, k, hf, h1, a, hk, q1, q2, q3⟩ := asn1_d2i_ex_primitive_content_verbatim hu a0 h hr
  refine ⟨k0 + k, hk, q1, q2, q3, ?_, ?_⟩
  · intro hi
    subst hi
    rw [CBS.advanced_unique a (asn1_find_end_definite hf h1)]
  · intro hi hb
    subst hi
    obtain ⟨c1, hs, he⟩ := asn1_find_end_closes hf h1 hb
    obtain ⟨j, aj⟩ := ObjectSeries.series_advanced hs
    have a2 := CBS.advanced_trans aj (asn1_check_eoc_advanced he).1
    refine ⟨c1, f.cbs, j, hs, aj, he, ?_⟩
    rw [CBS.advanced_unique a a2]
    omega

/-- A primitive-encoded object of any other type, decoded successfully: the
value is built from the `length` content bytes behind the header. -/
theorem asn1_d2i_ex_primitive_content_plain {env : Env} {pval : ASN1_VALUE} {cbs x : CBS}
    {utype : Int} {indefinite : Bool} {length : Nat} {it : ASN1_ITEM} {r : Out}
    (hu : ¬ (utype = V_ASN1_SEQUENCE ∨ utype = V_ASN1_SET ∨ utype = V_ASN1_OTHER))
    (h : asn1_d2i_ex_primitive_content env pval cbs x utype false indefinite length it
      = some r)
    (hr : r.ret = 1) :
    length ≤ x.data.length ∧
    (asn1_ex_c2i env pval (CBS_init (x.data.take length)) utype it).ret ≠ 0 ∧
    r.pval = (asn1_ex_c2i env pval (CBS_init (x.data.take length)) utype it).pval := by
  unfold asn1_d2i_ex_primitive_content at h
  have hc : ¬ ((utype = V_ASN1_SEQUENCE ∨ utype = V_ASN1_SET) ∧ ¬ (false : Bool)) := by
    rintro ⟨h1 | h1, _⟩
    · exact hu (Or.inl h1)
    · exact hu (Or.inr (Or.inl h1))
  rw [if_neg hc, if_neg hu, if_neg (by decide)] at h
  by_cases hl : length ≤ x.data.length
  · rw [CBS_get_bytes_of_le x _ hl] at h
    simp only [Option.some.injEq] at h
    subst h
    obtain ⟨q1, q2, _⟩ := primitive_content_finish_value hr
    exact ⟨hl, q1, q2⟩
  · have : CBS_get_bytes x length = none := by simp [CBS_get_bytes, hl]
    rw [this] at h
    cases h
    simp at hr

/-! ## The tables of the handshake driver -/

/-- A row of `handshakes` is one of the nine rows with a designator, or it
is empty. -/
theorem handshakes_cases (k : Nat) :
    k = INITIAL ∨ k = NEGOTIATED ∨ k = NEGOTIATED ||| WITHOUT_HRR ∨
    k = NEGOTIATED ||| WITHOUT_CR ∨ k = NEGOTIATED ||| WITHOUT_HRR ||| WITHOUT_CR ∨
    k = NEGOTIATED ||| WITH_PSK ∨ k = NEGOTIATED ||| WITHOUT_HRR ||| WITH_PSK ∨
    k = NEGOTIATED ||| WITH_CCV ∨ k = NEGOTIATED ||| WITHOUT_HRR ||| WITH_CCV ∨
    handshakes k = [] := by
  by_cases h1 : k = INITIAL
  · exact Or.inl h1
  by_cases h2 : k = NEGOTIATED
  · exact Or.inr (Or.inl h2)
  by_cases h3 : k = NEGOTIATED ||| WITHOUT_HRR
  · exact Or.inr (Or.inr (Or.inl h3))
  by_cases h4 : k = NEGOTIATED ||| WITHOUT_CR
  · exact Or.inr (Or.inr (Or.inr (Or.inl h4)))
  by_cases h5 : k = NEGOTIATED ||| WITHOUT_HRR ||| WITHOUT_CR
  · exact Or.inr (Or.inr (Or.inr (Or.inr (Or.inl h5))))
  by_cases h6 : k = NEGOTIATED ||| WITH_PSK
  · exact Or.inr (Or.inr (Or.inr (Or.inr (Or.inr (Or.inl h6)))))
  by_cases h7 : k = NEGOTIATED ||| WITHOUT_HRR ||| WITH_PSK
  · exact Or.inr (Or.inr (Or.inr (Or.inr (Or.inr (Or.inr (Or.inl h7))))))
  by_cases h8 : k = NEGOTIATED ||| WITH_CCV
  · exact Or.inr (Or.inr (Or.inr (Or.inr (Or.inr (Or.inr (Or.inr (Or.inl h8)))))))
  by_cases h9 : k = NEGOTIATED ||| WITHOUT_HRR ||| WITH_CCV
  · exact Or.inr (Or.inr (Or.inr (Or.inr (Or.inr (Or.inr (Or.inr (Or.inr (Or.inl h9))))))))
  · refine Or.inr (Or.inr (Or.inr (Or.inr (Or.inr (Or.inr (Or.inr (Or.inr (Or.inr ?_))))))))
    unfold handshakes
    rw [if_neg h1, if_neg h2, if_neg h3, if_neg h4, if_neg h5, if_neg h6, if_neg h7, if_neg h8,
      if_neg h9]

/-! ## One iteration of the handshake loop -/

theorem tls13_handshake_active_action_of_state {σ μ : Type} {ctx : tls13_ctx σ μ}
    {mt : tls13_message_type} (h : tls13_handshake_active_state ctx = mt)
    (hv : mt ≠ tls13_message_type.INVALID) :
    tls13_handshake_active_action ctx = some (state_machine mt) := by
  unfold tls13_handshake_active_action
  rw [h, if_neg hv]

theorem tls13_handshake_active_state_stage {σ μ : Type} (c1 c2 : tls13_ctx σ μ)
    (h : c1.handshake_stage = c2.handshake_stage) :
    tls13_handshake_active_state c1 = tls13_handshake_active_state c2 := by
  unfold tls13_handshake_active_state
  rw [h]

/-- An iteration in a state with a non-terminal action and no pending alert,
whose action returns a value above 0 while the index stays inside the table:
the loop goes on behind the action with the index advanced. -/
theorem tls13_handshake_perform_iteration_next {σ μ : Type} (env : HsEnv σ μ)
    {ctx : tls13_ctx σ μ} {mt : tls13_message_type} {r : HsResult σ μ}
    (hs : tls13_handshake_active_state ctx = mt) (hv : mt ≠ tls13_message_type.INVALID)
    (hc : (state_machine mt).handshake_complete = 0) (ha : ctx.alert = 0)
    (hd : tls13_handshake_dispatch env ctx (state_machine mt) = some r) (hr : r.ret > 0)
    (hn : r.ctx.handshake_stage.message_number + 1 < TLS13_NUM_MESSAGE_TYPES) :
    tls13_handshake_perform_iteration env ctx
      = some (HsStep.next (tls13_handshake_advance_state_machine r.ctx).2) := by
  unfold tls13_handshake_perform_iteration
  rw [tls13_handshake_active_action_of_state hs hv]
  simp only
  rw [if_neg (by simp [hc]), if_neg (by simp [ha]), hd]
  simp only
  rw [if_neg (by omega), if_neg]
  unfold tls13_handshake_advance_state_machine
  simp only
  rw [if_neg (by omega)]
  decide

/-- An iteration in a state whose action is terminal. -/
theorem tls13_handshake_perform_iteration_complete {σ μ : Type} (env : HsEnv σ μ)
    {ctx : tls13_ctx σ μ} {mt : tls13_message_type}
    (hs : tls13_handshake_active_state ctx = mt) (hv : mt ≠ tls13_message_type.INVALID)
    (hc : (state_machine mt).handshake_complete ≠ 0) :
    tls13_handshake_perform_iteration env ctx
      = some (HsStep.done ⟨TLS13_IO_SUCCESS,
          { ctx with handshake_completed := 1,
                     ext := env.tls13_record_layer_handshake_completed ctx.ext }⟩) := by
  unfold tls13_handshake_perform_iteration
  rw [tls13_handshake_active_action_of_state hs hv]
  simp only
  rw [if_pos hc]

theorem tls13_handshake_perform_done {σ μ : Type} (env : HsEnv σ μ) (fuel : Nat)
    {ctx : tls13_ctx σ μ} {r : HsResult σ μ}
    (h : tls13_handshake_perform_iteration env ctx = some (HsStep.done r)) :
    tls13_handshake_perform env (fuel + 1) ctx = some r := by
  rw [tls13_handshake_perform, h]

theorem tls13_handshake_perform_next {σ μ : Type} (env : HsEnv σ μ) (fuel : Nat)
    {ctx c : tls13_ctx σ μ}
    (h : tls13_handshake_perform_iteration env ctx = some (HsStep.next c)) :
    tls13_handshake_perform env (fuel + 1) ctx = tls13_handshake_perform env fuel c := by
  rw [tls13_handshake_perform, h]

/-- The loop follows a list of actions that are dispatched in order: when
the row of the variant holds the non-terminal actions `mts` from the index of
`ctx` on and each of them succeeds as `dispatch_in_order` says, the loop
reaches the context behind the last of them with the index advanced by their
number. -/
theorem tls13_handshake_perform_follows {σ μ : Type} (env : HsEnv σ μ) :
    ∀ (mts : List tls13_message_type) (t n : Nat) (ctx ctx1 : tls13_ctx σ μ) (fuel : Nat),
      ctx.handshake_stage = ⟨t, n⟩ → ctx.alert = 0 →
      (∀ (i : Nat) (h : i < mts.length) (c : tls13_ctx σ μ),
        c.handshake_stage = ⟨t, n + i⟩ → tls13_handshake_active_state c = mts.get ⟨i, h⟩) →
      (∀ mt ∈ mts, mt ≠ tls13_message_type.INVALID ∧
        (state_machine mt).handshake_complete = 0) →
      n + mts.length < TLS13_NUM_MESSAGE_TYPES →
      dispatch_in_order env mts ctx = some ctx1 →
      ctx1.handshake_stage = ⟨t, n + mts.length⟩ ∧ ctx1.alert = 0 ∧
      tls13_handshake_perform env (fuel + mts.length) ctx
        = tls13_handshake_perform env fuel ctx1
  | [], t, n, ctx, ctx1, fuel, hst, ha, _, _, _, hd => by
    rw [dispatch_in_order] at hd
    cases hd
    exact ⟨hst, ha, rfl⟩
  | mt :: rest, t, n, ctx, ctx1, fuel, hst, ha, hrow, hmem, hlen, hd => by
    rw [dispatch_in_order] at hd
    cases hdis : tls13_handshake_dispatch env ctx (state_machine mt) with
    | none => simp [hdis] at hd
    | some r =>
      simp only [hdis] at hd
      by_cases hok : r.ret > 0 ∧ r.ctx.handshake_stage = ctx.handshake_stage ∧ r.ctx.alert = 0
      · rw [if_pos hok] at hd
        obtain ⟨hr, hkeep, hal⟩ := hok
        have hlen1 : n + (rest.length + 1) < TLS13_NUM_MESSAGE_TYPES := by
          simpa using hlen
        have hs0 : tls13_handshake_active_state ctx = mt := by
          have := hrow 0 (by simp) ctx (by simpa using hst)
          simpa using this
        have hm := hmem mt (List.mem_cons_self _ _)
        have hnum : r.ctx.handshake_stage.message_number + 1 < TLS13_NUM_MESSAGE_TYPES := by
          rw [hkeep, hst]
          simp only
          omega
        have hit := tls13_handshake_perform_iteration_next env hs0 hm.1 hm.2 ha hdis hr hnum
        have hst1 : (tls13_handshake_advance_state_machine r.ctx).2.handshake_stage
            = ⟨t, n + 1⟩ := by
          unfold tls13_handshake_advance_state_machine
          simp only
          rw [hkeep, hst]
        have hal1 : (tls13_handshake_advance_state_machine r.ctx).2.alert = 0 := by
          unfold tls13_handshake_advance_state_machine
          exact hal
        have ih := tls13_handshake_perform_follows env rest t (n + 1)
          (tls13_handshake_advance_state_machine r.ctx).2 ctx1 fuel hst1 hal1
          (fun i h c hc => by
            have := hrow (i + 1) (by simpa using h) c (by rw [hc]; congr 1; omega)
            simpa using this)
          (fun m hm1 => hmem m (List.mem_cons_of_mem _ hm1))
          (by omega) hd
        obtain ⟨i1, i2, i3⟩ := ih
        refine ⟨?_, i2, ?_⟩
        · rw [i1]
          congr 1
          simp only [List.length_cons]
          omega
        · have e : fuel + (mt :: rest).length = (fuel + rest.length) + 1 := by
            simp only [List.length_cons]
            omega
          rw [e, tls13_handshake_perform_next env _ hit, i3]
      · rw [if_neg hok] at hd
        cases hd

/-! ## The handshake state across one action -/

theorem tls13_handshake_msg_record_stage {σ μ : Type} (env : HsEnv σ μ) (ctx : tls13_ctx σ μ) :
    (tls13_handshake_msg_record env ctx).2.handshake_stage = ctx.handshake_stage := rfl

theorem tls13_handshake_send_action_build_stage {σ μ : Type} {env : HsEnv σ μ}
    (hk : env.KeepsStage) (ctx : tls13_ctx σ μ) (action : tls13_handshake_action) :
    (∀ r, tls13_handshake_send_action_build env ctx action = some (HsStep.done r) →
      r.ctx.handshake_stage = ctx.handshake_stage) ∧
    (∀ c, tls13_handshake_send_action_build env ctx action = some (HsStep.next c) →
      c.handshake_stage = ctx.handshake_stage) := by
  obtain ⟨k1, _, _, _, _⟩ := hk
  unfold tls13_handshake_send_action_build
  by_cases h0 : ctx.hs_msg.isSome = true
  · rw [if_pos h0]
    constructor
    · intro r h
      cases h
    · intro c h
      cases h
      rfl
  · rw [if_neg h0]
    cases hn : env.tls13_handshake_msg_new ctx.ext with
    | none =>
      constructor
      · intro r h
        cases h
        rfl
      · intro c h
        cases h
    | some m =>
      simp only
      by_cases h1 : (env.tls13_handshake_msg_start (some m) action.handshake_type).1 = 0
      · rw [if_pos h1]
        constructor
        · intro r h
          cases h
          rfl
        · intro c h
          cases h
      · rw [if_neg h1]
        cases hs : action.send with
        | none =>
          constructor
          · intro r h
            cases h
          · intro c h
            cases h
        | some fn =>
          simp only
          have hb := k1 fn { ctx with
            hs_msg := (env.tls13_handshake_msg_start (some m) action.handshake_type).2 }
          split
          · constructor
            · intro r h
              cases h
              exact hb
            · intro c h
              cases h
          · split
            · constructor
              · intro r h
                cases h
                exact hb
              · intro c h
                cases h
            · split
              · constructor
                · intro r h
                  cases h
                  exact hb
                · intro c h
                  cases h
              · constructor
                · intro r h
                  cases h
                · intro c h
                  cases h
                  exact hb

theorem tls13_handshake_send_action_transmit_stage {σ μ : Type} {env : HsEnv σ μ}
    (hk : env.KeepsStage) (c : tls13_ctx σ μ) (action : tls13_handshake_action) :
    (tls13_handshake_send_action_transmit env c action).ctx.handshake_stage
      = c.handshake_stage := by
  obtain ⟨_, k2, _, k4, _⟩ := hk
  unfold tls13_handshake_send_action_transmit
  cases hcb : env.handshake_message_sent_cb <;> cases hst : action.sent <;>
    by_cases hp : action.send_preserve_transcript_hash ≠ 0 <;>
    simp only [hp, if_true, if_false] <;>
    repeat' split
  all_goals first
    | simp only [k2, k4 _ hcb, tls13_handshake_msg_record]
    | simp only [k2, tls13_handshake_msg_record]

theorem tls13_handshake_send_action_stage {σ μ : Type} {env : HsEnv σ μ}
    (hk : env.KeepsStage) {ctx : tls13_ctx σ μ} {action : tls13_handshake_action}
    {r : HsResult σ μ} (h : tls13_handshake_send_action env ctx action = some r) :
    r.ctx.handshake_stage = ctx.handshake_stage := by
  obtain ⟨b1, b2⟩ := tls13_handshake_send_action_build_stage hk ctx action
  unfold tls13_handshake_send_action at h
  cases hb : tls13_handshake_send_action_build env ctx action with
  | none => simp [hb] at h
  | some s =>
    cases s with
    | done r1 =>
      simp only [hb] at h
      cases h
      exact b1 _ hb
    | next c =>
      simp only [hb] at h
      cases h
      rw [tls13_handshake_send_action_transmit_stage hk, b2 _ hb]

theorem tls13_handshake_recv_action_read_stage {σ μ : Type} {env : HsEnv σ μ}
    (hk : env.KeepsStage) (ctx : tls13_ctx σ μ) (action : tls13_handshake_action) :
    (∀ r, tls13_handshake_recv_action_read env ctx action = HsStep.done r →
      r.ctx.handshake_stage = ctx.handshake_stage) ∧
    (∀ c, tls13_handshake_recv_action_read env ctx action = HsStep.next c →
      c.handshake_stage = ctx.handshake_stage) := by
  obtain ⟨_, _, _, _, k5⟩ := hk
  unfold tls13_handshake_recv_action_read
  cases hcb : env.handshake_message_recv_cb <;>
    by_cases hp : action.recv_preserve_transcript_hash ≠ 0 <;>
    simp only [hp, if_true, if_false] <;>
    repeat' split
  all_goals constructor
  all_goals intro x hx
  all_goals cases hx
  all_goals first
    | rfl
    | simp only [k5 _ hcb, tls13_handshake_msg_record]

theorem tls13_handshake_recv_action_parse_trailing {σ μ : Type} (env : HsEnv σ μ)
    (c : tls13_ctx σ μ) (action : tls13_handshake_action) (cbs : CBS) (fn : tls13_fn)
    (hf : action.recv = some fn) (h1 : (env.recv fn c cbs).1 ≠ 0)
    (h2 : CBS_len (env.recv fn c cbs).2.2 ≠ 0) :
    tls13_handshake_recv_action_parse env c action cbs
      = some ⟨if env.version (env.tls13_send_alert
                (env.tls13_set_errorx (env.recv fn c cbs).2.1.ext) SSL_AD_DECODE_ERROR).2
              < TLS1_3_VERSION then TLS13_IO_USE_LEGACY
            else (env.tls13_send_alert
                (env.tls13_set_errorx (env.recv fn c cbs).2.1.ext) SSL_AD_DECODE_ERROR).1,
          { (env.recv fn c cbs).2.1 with
            alert := SSL_AD_DECODE_ERROR, hs_msg := none,
            ext := (env.tls13_send_alert
                (env.tls13_set_errorx (env.recv fn c cbs).2.1.ext) SSL_AD_DECODE_ERROR).2 }⟩ := by
  have ht : (env.recv fn c cbs).1 ≠ 0 ∧ CBS_len (env.recv fn c cbs).2.2 ≠ 0 := ⟨h1, h2⟩
  have hd : SSL_AD_DECODE_ERROR ≠ 0 := by decide
  unfold tls13_handshake_recv_action_parse
  simp only [hf, if_pos ht, if_pos hd]
  split <;> rfl

theorem tls13_handshake_recv_action_parse_alert {σ μ : Type} (env : HsEnv σ μ)
    (c : tls13_ctx σ μ) (action : tls13_handshake_action) (cbs : CBS) (fn : tls13_fn)
    (hf : action.recv = some fn)
    (ht : ¬ ((env.recv fn c cbs).1 ≠ 0 ∧ CBS_len (env.recv fn c cbs).2.2 ≠ 0))
    (ha : (env.recv fn c cbs).2.1.alert ≠ 0) :
    tls13_handshake_recv_action_parse env c action cbs
      = some ⟨if env.version (env.tls13_send_alert (env.recv fn c cbs).2.1.ext
                (env.recv fn c cbs).2.1.alert).2 < TLS1_3_VERSION then TLS13_IO_USE_LEGACY
            else (env.tls13_send_alert (env.recv fn c cbs).2.1.ext
                (env.recv fn c cbs).2.1.alert).1,
          { (env.recv fn c cbs).2.1 with
            hs_msg := none,
            ext := (env.tls13_send_alert (env.recv fn c cbs).2.1.ext
                (env.recv fn c cbs).2.1.alert).2 }⟩ := by
  unfold tls13_handshake_recv_action_parse
  simp only [hf, if_neg ht, if_pos ha]
  split <;> rfl

theorem tls13_handshake_recv_action_parse_plain {σ μ : Type} (env : HsEnv σ μ)
    (c : tls13_ctx σ μ) (action : tls13_handshake_action) (cbs : CBS) (fn : tls13_fn)
    (hf : action.recv = some fn)
    (ht : ¬ ((env.recv fn c cbs).1 ≠ 0 ∧ CBS_len (env.recv fn c cbs).2.2 ≠ 0))
    (ha : (env.recv fn c cbs).2.1.alert = 0) :
    tls13_handshake_recv_action_parse env c action cbs
      = some ⟨if env.version (env.recv fn c cbs).2.1.ext < TLS1_3_VERSION then
              TLS13_IO_USE_LEGACY
            else if (env.recv fn c cbs).1 ≠ 0 ∧ CBS_len (env.recv fn c cbs).2.2 = 0 then
              TLS13_IO_SUCCESS
            else TLS13_IO_FAILURE,
          { (env.recv fn c cbs).2.1 with hs_msg := none }⟩ := by
  have ha1 : ¬ ((env.recv fn c cbs).2.1.alert ≠ 0) := by simp [ha]
  unfold tls13_handshake_recv_action_parse
  simp only [hf, if_neg ht, if_neg ha1]
  split <;> rfl

theorem tls13_handshake_recv_action_parse_stage {σ μ : Type} {env : HsEnv σ μ}
    (hk : env.KeepsStage) {c : tls13_ctx σ μ} {action : tls13_handshake_action} {cbs : CBS}
    {r : HsResult σ μ} (h : tls13_handshake_recv_action_parse env c action cbs = some r) :
    r.ctx.handshake_stage = c.handshake_stage := by
  obtain ⟨_, _, k3, _, _⟩ := hk
  cases hf : action.recv with
  | none =>
    unfold tls13_handshake_recv_action_parse at h
    simp [hf] at h
  | some fn =>
    have e := k3 fn c cbs
    by_cases ht : (env.recv fn c cbs).1 ≠ 0 ∧ CBS_len (env.recv fn c cbs).2.2 ≠ 0
    · rw [tls13_handshake_recv_action_parse_trailing env c action cbs fn hf ht.1 ht.2] at h
      cases h
      exact e
    · by_cases ha : (env.recv fn c cbs).2.1.alert ≠ 0
      · rw [tls13_handshake_recv_action_parse_alert env c action cbs fn hf ht ha] at h
        cases h
        exact e
      · rw [tls13_handshake_recv_action_parse_plain env c action cbs fn hf ht
          (not_not.mp ha)] at h
        cases h
        exact e

theorem tls13_handshake_recv_action_stage {σ μ : Type} {env : HsEnv σ μ}
    (hk : env.KeepsStage) {ctx : tls13_ctx σ μ} {action : tls13_handshake_action}
    {r : HsResult σ μ} (h : tls13_handshake_recv_action env ctx action = some r) :
    r.ctx.handshake_stage = ctx.handshake_stage := by
  obtain ⟨b1, b2⟩ := tls13_handshake_recv_action_read_stage hk ctx action
  unfold tls13_handshake_recv_action at h
  cases hb : tls13_handshake_recv_action_read env ctx action with
  | done r1 =>
    simp only [hb] at h
    cases h
    exact b1 _ hb
  | next c =>
    simp only [hb] at h
    have hc := b2 _ hb
    split at h
    · cases h
      exact hc
    · split at h
      · cases h
        exact hc
      · rw [tls13_handshake_recv_action_parse_stage hk h, hc]

/-- When the functions that are handed the context keep the handshake state,
so does the send path and so does the receive path. -/
theorem tls13_handshake_dispatch_stage {σ μ : Type} {env : HsEnv σ μ}
    (hk : env.KeepsStage) {ctx : tls13_ctx σ μ} {action : tls13_handshake_action}
    {r : HsResult σ μ} (h : tls13_handshake_dispatch env ctx action = some r) :
    r.ctx.handshake_stage = ctx.handshake_stage := by
  unfold tls13_handshake_dispatch at h
  split at h
  · exact tls13_handshake_send_action_stage hk h
  · exact tls13_handshake_recv_action_stage hk h

/-! ## What the receive path returns -/

theorem tls13_handshake_recv_action_read_ret {σ μ : Type} (env : HsEnv σ μ)
    (ctx : tls13_ctx σ μ) (action : tls13_handshake_action) (r : HsResult σ μ)
    (h : tls13_handshake_recv_action_read env ctx action = HsStep.done r) : r.ret ≤ 0 := by
  unfold tls13_handshake_recv_action_read at h
  cases hcb : env.handshake_message_recv_cb <;>
    by_cases hp : action.recv_preserve_transcript_hash ≠ 0 <;>
    simp only [hcb, hp, if_true, if_false] at h <;>
    repeat' split at h
  all_goals cases h
  all_goals first
    | assumption
    | exact (by decide : TLS13_IO_FAILURE ≤ 0)

/-- The receive path behind a message that was read: a type other than the
expected one, CERTIFICATE for CERTIFICATE_REQUEST apart, is answered with an
UNEXPECTED_MESSAGE alert. -/
theorem tls13_handshake_recv_action_mismatch {σ μ : Type} (env : HsEnv σ μ)
    {ctx c : tls13_ctx σ μ} {action : tls13_handshake_action}
    (hr : tls13_handshake_recv_action_read env ctx action = HsStep.next c)
    (h1 : env.tls13_handshake_msg_type c.hs_msg ≠ action.handshake_type)
    (h2 : env.tls13_handshake_msg_type c.hs_msg ≠ TLS13_MT_CERTIFICATE ∨
      action.handshake_type ≠ TLS13_MT_CERTIFICATE_REQUEST) :
    tls13_handshake_recv_action env ctx action
      = some ⟨(env.tls13_send_alert c.ext SSL_AD_UNEXPECTED_MESSAGE).1,
          { c with ext := (env.tls13_send_alert c.ext SSL_AD_UNEXPECTED_MESSAGE).2 }⟩ := by
  unfold tls13_handshake_recv_action
  rw [hr]
  simp only
  rw [if_pos ⟨h1, h2⟩]

/-- The receive path behind a message of an accepted type whose content is
available: the rest is `tls13_handshake_recv_action_parse`. -/
theorem tls13_handshake_recv_action_accepted {σ μ : Type} (env : HsEnv σ μ)
    {ctx c : tls13_ctx σ μ} {action : tls13_handshake_action} {cbs : CBS}
    (hr : tls13_handshake_recv_action_read env ctx action = HsStep.next c)
    (ht : env.tls13_handshake_msg_type c.hs_msg = action.handshake_type ∨
      (env.tls13_handshake_msg_type c.hs_msg = TLS13_MT_CERTIFICATE ∧
        action.handshake_type = TLS13_MT_CERTIFICATE_REQUEST))
    (hc : env.tls13_handshake_msg_content c.hs_msg = some cbs) :
    tls13_handshake_recv_action env ctx action
      = tls13_handshake_recv_action_parse env c action cbs := by
  unfold tls13_handshake_recv_action
  rw [hr]
  simp only
  rw [if_neg, hc]
  rintro ⟨a1, a2⟩
  rcases ht with ht | ⟨t1, t2⟩
  · exact a1 ht
  · rcases a2 with a2 | a2
    · exact a2 t1
    · exact a2 t2

/-- When `tls13_handshake_recv_action_parse` has a result and the protocol
version it leaves is below TLS 1.3, the return value is USE_LEGACY. -/
theorem tls13_handshake_recv_action_parse_legacy {σ μ : Type} (env : HsEnv σ μ)
    {c : tls13_ctx σ μ} {action : tls13_handshake_action} {cbs : CBS} {r : HsResult σ μ}
    (h : tls13_handshake_recv_action_parse env c action cbs = some r)
    (hv : env.version r.ctx.ext < TLS1_3_VERSION) : r.ret = TLS13_IO_USE_LEGACY := by
  cases hf : action.recv with
  | none =>
    unfold tls13_handshake_recv_action_parse at h
    simp [hf] at h
  | some fn =>
    by_cases ht : (env.recv fn c cbs).1 ≠ 0 ∧ CBS_len (env.recv fn c cbs).2.2 ≠ 0
    · rw [tls13_handshake_recv_action_parse_trailing env c action cbs fn hf ht.1 ht.2] at h
      cases h
      simp only at hv ⊢
      rw [if_pos hv]
    · by_cases ha : (env.recv fn c cbs).2.1.alert ≠ 0
      · rw [tls13_handshake_recv_action_parse_alert env c action cbs fn hf ht ha] at h
        cases h
        simp only at hv ⊢
        rw [if_pos hv]
      · rw [tls13_handshake_recv_action_parse_plain env c action cbs fn hf ht
          (not_not.mp ha)] at h
        cases h
        simp only at hv ⊢
        rw [if_pos hv]

/-- The parse part returns SUCCESS only behind a parser that succeeded and
left nothing unread, as long as sending an alert never reports SUCCESS. -/
theorem tls13_handshake_recv_action_parse_success {σ μ : Type} (env : HsEnv σ μ)
    (hal : ∀ s a, (env.tls13_send_alert s a).1 ≠ TLS13_IO_SUCCESS)
    {c : tls13_ctx σ μ} {action : tls13_handshake_action} {cbs : CBS} {r : HsResult σ μ}
    (h : tls13_handshake_recv_action_parse env c action cbs = some r)
    (hs : r.ret = TLS13_IO_SUCCESS) :
    ∃ fn, action.recv = some fn ∧ (env.recv fn c cbs).1 ≠ 0 ∧
      CBS_len (env.recv fn c cbs).2.2 = 0 := by
  have hl : TLS13_IO_USE_LEGACY ≠ TLS13_IO_SUCCESS := by decide
  have hfl : TLS13_IO_FAILURE ≠ TLS13_IO_SUCCESS := by decide
  cases hf : action.recv with
  | none =>
    unfold tls13_handshake_recv_action_parse at h
    simp [hf] at h
  | some fn =>
    refine ⟨fn, rfl, ?_⟩
    by_cases ht : (env.recv fn c cbs).1 ≠ 0 ∧ CBS_len (env.recv fn c cbs).2.2 ≠ 0
    · rw [tls13_handshake_recv_action_parse_trailing env c action cbs fn hf ht.1 ht.2] at h
      cases h
      simp only at hs
      split at hs
      · exact absurd hs hl
      · exact absurd hs (hal _ _)
    · by_cases ha : (env.recv fn c cbs).2.1.alert ≠ 0
      · rw [tls13_handshake_recv_action_parse_alert env c action cbs fn hf ht ha] at h
        cases h
        simp only at hs
        split at hs
        · exact absurd hs hl
        · exact absurd hs (hal _ _)
      · rw [tls13_handshake_recv_action_parse_plain env c action cbs fn hf ht
          (not_not.mp ha)] at h
        cases h
        simp only at hs
        split at hs
        · exact absurd hs hl
        · split at hs
          · assumption
          · exact absurd hs hfl

/-! ## Empty input -/

theorem asn1_check_tag_empty (n : Nat) (etag ecls : Int) (opt : Bool) :
    asn1_check_tag ⟨[], n⟩ etag ecls opt
      = ⟨0, ⟨[], n⟩, 0, 0, 0, false, false, [ASN1_R.BAD_OBJECT_HEADER]⟩ := by
  simp [asn1_check_tag, asn1_get_identifier_cbs]

theorem CBS_init_of_empty {cbs : CBS} (h : cbs.data = []) : CBS_init cbs.data = ⟨[], 0⟩ := by
  rw [h]
  rfl

/-- Every CHOICE item of the descriptor table has at least one alternative. -/
def ChoicesInhabited (env : Env) : Prop :=
  ∀ k, (env.item k).itype = ASN1_ITYPE_CHOICE → (env.item k).templates ≠ []

/-- On a cursor with no bytes the item decoder `d2i` never reports absent,
for an item that is not an EXTERN item nor a CHOICE without alternatives. -/
def ItemDec.NotAbsentOnEmpty (d2i : ItemDec) : Prop :=
  ∀ pval (cbs : CBS) (it : ASN1_ITEM) tag cls opt depth r,
    it.itype ≠ ASN1_ITYPE_EXTERN → (it.itype = ASN1_ITYPE_CHOICE → it.templates ≠ []) →
    cbs.data = [] → d2i pval cbs it tag cls opt depth = some r → r.ret ≠ -1

/-- On a cursor with no bytes the template decoder `tdec` never reports
absent. -/
def TemplateDec.NotAbsentOnEmpty (tdec : TemplateDec) : Prop :=
  ∀ pval (cbs : CBS) tt opt depth r,
    cbs.data = [] → tdec pval cbs tt opt depth = some r → r.ret ≠ -1

theorem asn1_d2i_ex_primitive_empty {env : Env} {pval : ASN1_VALUE} {cbs : CBS}
    {it : ASN1_ITEM} {tag cls : Int} {opt : Bool} {r : Out} (hc : cbs.data = [])
    (h : asn1_d2i_ex_primitive env pval cbs it tag cls opt = some r) : r.ret ≠ -1 := by
  unfold asn1_d2i_ex_primitive at h
  rw [CBS_init_of_empty hc] at h
  simp only [asn1_check_tag_empty] at h
  split at h
  · cases h; simp
  · split at h
    · exact asn1_d2i_ex_any_not_absent h
    · simp at h
      cases h; simp

theorem asn1_d2i_ex_mstring_empty {env : Env} {pval : ASN1_VALUE} {cbs : CBS}
    {it : ASN1_ITEM} {tag cls : Int} {opt : Bool} {r : Out} (hc : cbs.data = [])
    (h : asn1_d2i_ex_mstring env pval cbs it tag cls opt = some r) : r.ret ≠ -1 := by
  unfold asn1_d2i_ex_mstring at h
  rw [CBS_init_of_empty hc] at h
  simp only [asn1_check_tag_empty] at h
  split at h
  · cases h; simp
  · simp at h
    cases h; simp

theorem asn1_template_stack_of_d2i_empty {d2i : ItemDec} {env : Env}
    {pval : Option ASN1_VALUE} {cbs : CBS} {tt : ASN1_TEMPLATE} {opt : Bool} {depth : Int}
    {r : Out} (hc : cbs.data = [])
    (h : asn1_template_stack_of_d2i d2i env pval cbs tt opt depth = some r) : r.ret ≠ -1 := by
  unfold asn1_template_stack_of_d2i at h
  rw [CBS_init_of_empty hc] at h
  simp only [asn1_check_tag_empty] at h
  split at h
  · cases h; simp
  · simp at h
    cases h; simp

theorem asn1_item_ex_d2i_sequence_empty {env : Env} {tdec : TemplateDec} {pval : ASN1_VALUE}
    {cbs : CBS} {it : ASN1_ITEM} {tag cls : Int} {opt : Bool} {depth : Int} {r : Out}
    (hc : cbs.data = [])
    (h : asn1_item_ex_d2i_sequence env tdec pval cbs it tag cls opt depth = some r) :
    r.ret ≠ -1 := by
  unfold asn1_item_ex_d2i_sequence at h
  rw [CBS_init_of_empty hc] at h
  simp only [asn1_check_tag_empty] at h
  split at h
  · cases h; simp
  · simp at h
    cases h; simp

theorem asn1_template_noexp_d2i_empty {d2i : ItemDec} (hd : ItemDec.NotAbsentOnEmpty d2i)
    {env : Env} (he : NoExtern env) (hch : ChoicesInhabited env)
    {pval : Option ASN1_VALUE} {cbs : CBS} {tt : ASN1_TEMPLATE} {opt : Bool} {depth : Int}
    {r : Out} (hc : cbs.data = [])
    (h : asn1_template_noexp_d2i d2i env pval cbs tt opt depth = some r) : r.ret ≠ -1 := by
  unfold asn1_template_noexp_d2i at h
  split at h
  · cases h; simp
  · split at h
    · exact asn1_template_stack_of_d2i_empty hc h
    · split at h
      · cases h
      · rename_i r1 hr1
        have := hd _ _ _ _ _ _ _ _ (he tt.item) (hch tt.item) hc hr1
        split at h
        · contradiction
        · split at h
          · cases h; simp
          · cases h; simp

theorem asn1_template_ex_d2i_empty {d2i : ItemDec} (hd : ItemDec.NotAbsentOnEmpty d2i)
    {env : Env} (he : NoExtern env) (hch : ChoicesInhabited env) :
    TemplateDec.NotAbsentOnEmpty (asn1_template_ex_d2i d2i env) := by
  intro pval cbs tt opt depth r hc h
  unfold asn1_template_ex_d2i at h
  rw [CBS_init_of_empty hc] at h
  simp only [asn1_check_tag_empty] at h
  split at h
  · cases h; simp
  · split at h
    · exact asn1_template_noexp_d2i_empty hd he hch hc h
    · simp at h
      cases h; simp

theorem asn1_item_ex_d2i_choice_empty {tdec : TemplateDec}
    (ht : TemplateDec.NotAbsentOnEmpty tdec) {pval : ASN1_VALUE} {cbs : CBS} {it : ASN1_ITEM}
    {tag cls : Int} {opt : Bool} {depth : Int} {r : Out} (hne : it.templates ≠ [])
    (hc : cbs.data = [])
    (h : asn1_item_ex_d2i_choice tdec pval cbs it tag cls opt depth = some r) :
    r.ret ≠ -1 := by
  unfold asn1_item_ex_d2i_choice at h
  split at h
  · cases h; simp
  · split at h
    · cases h; simp
    · split at h
      · cases h; simp
      · split at h
        · cases h; simp
        · rename_i achoice1 _
          cases hts : it.templates with
          | nil => exact absurd hts hne
          | cons tt rest =>
            rw [hts, choice_fields_cons] at h
            cases htd : tdec (some (asn1_get_field achoice1 tt)) cbs tt true depth with
            | none => simp [htd] at h
            | some r1 =>
              have hr1 := ht _ _ _ _ _ _ hc htd
              simp only [htd, if_neg hr1] at h
              by_cases h1 : r1.ret ≠ 1
              · simp only [if_pos h1] at h
                simp at h
                cases h; simp
              · simp only [if_neg h1] at h
                simp at h
                split at h
                · cases h; simp
                · cases h; simp

theorem asn1_item_ex_d2i_empty {env : Env} (he : NoExtern env) (hch : ChoicesInhabited env) :
    ∀ fuel : Nat, ItemDec.NotAbsentOnEmpty (asn1_item_ex_d2i env fuel)
  | 0 => by
    intro pval cbs it tag cls opt depth r _ _ _ h
    simp [asn1_item_ex_d2i] at h
  | fuel + 1 => by
    have ih := asn1_item_ex_d2i_empty he hch fuel
    have iht := asn1_template_ex_d2i_empty ih he hch
    intro pval cbs it tag cls opt depth r hx hne hc h
    rw [asn1_item_ex_d2i] at h
    simp only at h
    split at h
    · cases h; simp
    · split at h
      · cases h; simp
      · split at h
        · split at h
          · split at h
            · cases h; simp
            · exact iht _ _ _ _ _ _ hc h
          · exact asn1_d2i_ex_primitive_empty hc h
        · split at h
          · exact asn1_d2i_ex_mstring_empty hc h
          · split at h
            · rename_i hcc
              exact asn1_item_ex_d2i_choice_empty iht (hne hcc) hc h
            · split at h
              · exact asn1_item_ex_d2i_sequence_empty hc h
              · cases h; simp

theorem Out.wf_of_empty {cbs : CBS} {opt : Bool} {r : Out} (hc : cbs.data = [])
    (h : Out.wf cbs opt r) (hn : r.ret ≠ -1) : r.ret = 0 := by
  obtain ⟨h1, h2, _⟩ := h
  rcases h1 with h1 | h1 | h1
  · obtain ⟨k, hk, a, _⟩ := h2 h1
    rw [hc] at a
    simp at a
    omega
  · exact h1
  · exact absurd h1 hn

theorem asn1_item_ex_d2i_on_empty {env : Env} (he : NoExtern env) (hch : ChoicesInhabited env)
    (fuel : Nat) (depth : Int) (hf : 31 ≤ (fuel : Int) + depth) (h1 : 1 ≤ fuel)
    (pval : Option ASN1_VALUE) (cbs : CBS) (it : ASN1_ITEM) (tag cls : Int) (opt : Bool)
    (hx : it.itype ≠ ASN1_ITYPE_EXTERN)
    (hne : it.itype = ASN1_ITYPE_CHOICE → it.templates ≠ []) (hc : cbs.data = []) :
    ∃ r, asn1_item_ex_d2i env fuel pval cbs it tag cls opt depth = some r ∧ r.ret = 0 := by
  obtain ⟨r, hr, hwf⟩ := asn1_item_ex_d2i_total he fuel depth hf h1 pval cbs it tag cls opt hx
  exact ⟨r, hr, Out.wf_of_empty hc hwf
    (asn1_item_ex_d2i_empty he hch fuel _ _ _ _ _ _ _ _ hx hne hc hr)⟩

theorem asn1_template_ex_d2i_on_empty {env : Env} (he : NoExtern env)
    (hch : ChoicesInhabited env) (fuel : Nat) (depth : Int)
    (hf : 31 ≤ (fuel : Int) + depth) (h1 : 1 ≤ fuel) (pval : Option ASN1_VALUE) (cbs : CBS)
    (tt : ASN1_TEMPLATE) (opt : Bool) (hc : cbs.data = []) :
    ∃ r, asn1_template_ex_d2i (asn1_item_ex_d2i env fuel) env pval cbs tt opt depth = some r ∧
      r.ret = 0 := by
  obtain ⟨r, hr, hwf⟩ :=
    asn1_template_ex_d2i_ok (asn1_item_ex_d2i_total he fuel depth hf h1) he pval cbs tt opt
  exact ⟨r, hr, Out.wf_of_empty hc hwf
    (asn1_template_ex_d2i_empty (asn1_item_ex_d2i_empty he hch fuel) he hch _ _ _ _ _ _ hc hr)⟩

/-! ## The constructed bit of the identifier octet -/

set_option maxRecDepth 100000 in
theorem identifier_octet_without_constructed_bit :
    ∀ m : Nat, m < 256 →
      (m &&& 0xDF) &&& 0x1f = m &&& 0x1f ∧
      ((m &&& 0xDF) >>> 6) &&& 0x3 = (m >>> 6) &&& 0x3 ∧
      ((m &&& 0xDF) >>> 5) &&& 0x1 = 0 := by
  decide

/-- The identifier read after the constructed bit of the first octet has
been cleared is the identifier read before, marked primitive. -/
theorem asn1_get_identifier_cbs_clear (b b1 : UInt8) (rest : List UInt8) (n : Nat)
    (hb : b1.toNat = b.toNat &&& 0xDF) :
    asn1_get_identifier_cbs ⟨b1 :: rest, n⟩
      = (asn1_get_identifier_cbs ⟨b :: rest, n⟩).map
          (fun id => ⟨id.tag_class, false, id.tag_number, id.cbs⟩) := by
  have hlt : b.toNat < 256 := b.toNat_lt
  obtain ⟨h1, h2, h3⟩ := identifier_octet_without_constructed_bit b.toNat hlt
  unfold asn1_get_identifier_cbs
  simp only [hb, h1, h2, h3]
  split
  · cases get_tag_long rest 0 with
    | none => rfl
    | some p => simp
  · simp

/-- The encoding `data` does not start with a header of indefinite
length. -/
def DefiniteHeader (data : List UInt8) : Prop :=
  ∀ id l, asn1_get_identifier_cbs (CBS_init data) = some id →
    asn1_get_length_cbs id.cbs = some l → l.indefinite = false

/-- On a header of definite length `asn1_check_tag` reports the same with
the constructed bit cleared, but for the flag itself. -/
theorem asn1_check_tag_clear (b b1 : UInt8) (rest : List UInt8) (etag ecls : Int) (opt : Bool)
    (hb : b1.toNat = b.toNat &&& 0xDF) (hdef : DefiniteHeader (b :: rest)) :
    (asn1_check_tag (CBS_init (b1 :: rest)) etag ecls opt).ret
      = (asn1_check_tag (CBS_init (b :: rest)) etag ecls opt).ret ∧
    (asn1_check_tag (CBS_init (b1 :: rest)) etag ecls opt).len
      = (asn1_check_tag (CBS_init (b :: rest)) etag ecls opt).len ∧
    (asn1_check_tag (CBS_init (b1 :: rest)) etag ecls opt).tag
      = (asn1_check_tag (CBS_init (b :: rest)) etag ecls opt).tag ∧
    (asn1_check_tag (CBS_init (b1 :: rest)) etag ecls opt).cls
      = (asn1_check_tag (CBS_init (b :: rest)) etag ecls opt).cls ∧
    (asn1_check_tag (CBS_init (b1 :: rest)) etag ecls opt).indefinite
      = (asn1_check_tag (CBS_init (b :: rest)) etag ecls opt).indefinite ∧
    (asn1_check_tag (CBS_init (b1 :: rest)) etag ecls opt).errs
      = (asn1_check_tag (CBS_init (b :: rest)) etag ecls opt).errs ∧
    (asn1_check_tag (CBS_init (b1 :: rest)) etag ecls opt).constructed = false ∧
    ((asn1_check_tag (CBS_init (b :: rest)) etag ecls opt).ret = 1 →
      (asn1_check_tag (CBS_init (b1 :: rest)) etag ecls opt).cbs
        = (asn1_check_tag (CBS_init (b :: rest)) etag ecls opt).cbs) := by
  have hi : CBS_init (b1 :: rest) = ⟨b1 :: rest, rest.length + 1⟩ := rfl
  have hi0 : CBS_init (b :: rest) = ⟨b :: rest, rest.length + 1⟩ := rfl
  have hid1 := asn1_get_identifier_cbs_clear b b1 rest (rest.length + 1) hb
  unfold DefiniteHeader at hdef
  rw [hi0] at hdef
  rw [hi, hi0]
  unfold asn1_check_tag
  rw [hid1]
  cases hid : asn1_get_identifier_cbs ⟨b :: rest, rest.length + 1⟩ with
  | none => simp
  | some id =>
    simp only [Option.map]
    by_cases hm : etag ≥ 0 ∧
        (etag ≠ (id.tag_number : Int) ∨ ecls ≠ ((id.tag_class <<< 6 : Nat) : Int))
    · simp only [if_pos hm]
      cases opt <;> simp
    · simp only [if_neg hm]
      cases hl : asn1_get_length_cbs id.cbs with
      | none => simp
      | some l =>
        have hd := hdef id l hid hl
        simp only [hd, Bool.false_eq_true, false_and, if_false, not_false_eq_true, true_and]
        split_ifs <;> simp

/-- A result as the caller with cursor `c` sees it when the call was made on
another cursor: a result other than success reports the cursor where the
call found it. -/
def Out.at_cursor (c : CBS) (r : Out) : Out :=
  if r.ret = 1 then r else ⟨r.ret, r.pval, c, r.errs⟩

theorem CBS_skip_first_octet (b b1 : UInt8) (rest : List UInt8) (n k : Nat) (hk : 1 ≤ k) :
    CBS_skip ⟨b1 :: rest, n⟩ k = CBS_skip ⟨b :: rest, n⟩ k := by
  obtain ⟨j, rfl⟩ : ∃ j, k = j + 1 := ⟨k - 1, by omega⟩
  simp [CBS_skip]

theorem stack_of_body_clear (d2i : ItemDec) (env : Env) (b b1 : UInt8) (rest : List UInt8)
    (n : Nat) (x content : CBS) (tt : ASN1_TEMPLATE) (indefinite : Bool) (depth : Int)
    {k0 : Nat} (hk0 : 1 ≤ k0) (a0 : CBS.advanced (CBS_init (b :: rest)) x k0) :
    stack_of_body d2i env ⟨b1 :: rest, n⟩ x content tt indefinite depth
      = (stack_of_body d2i env ⟨b :: rest, n⟩ x content tt indefinite depth).map
          (Out.at_cursor ⟨b1 :: rest, n⟩) := by
  unfold stack_of_body
  cases stack_of_loop d2i (env.item tt.item) depth (CBS_len content + 1) [] content
      indefinite [] with
  | none => rfl
  | some l =>
    simp only
    by_cases h0 : l.ret = 0
    · simp [h0, Out.at_cursor]
    · simp only [if_neg h0]
      by_cases h1 : l.eoc_needed = true
      · simp [h1, Out.at_cursor]
      · simp only [if_neg h1]
        cases hx1 : (if indefinite then CBS_skip x (CBS_offset l.cbs) else some x) with
        | none => simp [Out.at_cursor]
        | some x1 =>
          simp only
          have hoff : 1 ≤ CBS_offset x1 := by
            by_cases hi : indefinite = true
            · rw [if_pos hi] at hx1
              have := CBS.advanced_offset (CBS.advanced_trans a0 (CBS_skip_advanced hx1)) rfl
              omega
            · rw [if_neg hi] at hx1
              cases hx1
              have := CBS.advanced_offset a0 rfl
              omega
          rw [CBS_skip_first_octet b b1 rest n _ hoff]
          cases CBS_skip ⟨b :: rest, n⟩ (CBS_offset x1) with
          | none => simp [Out.at_cursor]
          | some c1 => simp [Out.at_cursor]

/-- `asn1_template_stack_of_d2i` does not look at the constructed bit of a
definite-length header: with the bit cleared the call gives the same
result. -/
theorem asn1_template_stack_of_d2i_clear (d2i : ItemDec) (env : Env)
    (pval : Option ASN1_VALUE) (b b1 : UInt8) (rest : List UInt8) (n : Nat)
    (tt : ASN1_TEMPLATE) (opt : Bool) (depth : Int)
    (hb : b1.toNat = b.toNat &&& 0xDF) (hdef : DefiniteHeader (b :: rest)) :
    asn1_template_stack_of_d2i d2i env pval ⟨b1 :: rest, n⟩ tt opt depth
      = (asn1_template_stack_of_d2i d2i env pval ⟨b :: rest, n⟩ tt opt depth).map
          (Out.at_cursor ⟨b1 :: rest, n⟩) := by
  obtain ⟨e1, e2, _, _, e5, e6, _, e8⟩ := asn1_check_tag_clear b b1 rest
    (stack_of_tag_number tt) (stack_of_tag_class tt) opt hb hdef
  unfold asn1_template_stack_of_d2i
  cases pval with
  | none => simp [Out.at_cursor]
  | some v =>
    simp only [e1, e2, e5, e6]
    by_cases h1 : (asn1_check_tag (CBS_init (b :: rest)) (stack_of_tag_number tt)
        (stack_of_tag_class tt) opt).ret = -1
    · simp [h1, Out.at_cursor]
    · simp only [if_neg h1]
      by_cases h2 : (asn1_check_tag (CBS_init (b :: rest)) (stack_of_tag_number tt)
          (stack_of_tag_class tt) opt).ret ≠ 1
      · simp [h2, Out.at_cursor]
      · simp only [if_neg h2]
        have hr := of_not_not h2
        obtain ⟨⟨k0, hk0, a0⟩, _⟩ := asn1_check_tag_ok hr
        rw [e8 hr]
        split
        · exact stack_of_body_clear d2i env b b1 rest n _ _ tt true depth (by omega) a0
        · split
          · simp [Out.at_cursor]
          · rename_i content x hg
            exact stack_of_body_clear d2i env b b1 rest n x content tt false depth
              (Nat.le_trans (by omega) (Nat.le_add_right k0 _))
              (CBS.advanced_trans a0 (CBS_get_bytes_advanced hg).1)

/-! ## The order of recording and hashing -/

/-- The receive path up to the message hook: the message received is added
to the transcript; when the action preserves the transcript hash, the hash
is taken over the transcript without that message, and otherwise the
preserved hash is left as it was. -/
theorem tls13_handshake_recv_action_read_transcript {σ μ : Type} {env : HsEnv σ μ}
    {tv : TranscriptView σ} (ht : env.Transcript tv) (hk : env.KeepsTranscript tv)
    {ctx c : tls13_ctx σ μ} {action : tls13_handshake_action}
    (h : tls13_handshake_recv_action_read env ctx action = HsStep.next c) :
    ∃ m, (if ctx.hs_msg.isSome then ctx.hs_msg else env.tls13_handshake_msg_new ctx.ext)
        = some m ∧
      tv.recorded c.ext = tv.recorded ctx.ext
        ++ [env.tls13_handshake_msg_data (env.tls13_handshake_msg_recv (some m) ctx.ext).2.1] ∧
      (action.recv_preserve_transcript_hash ≠ 0 → tv.preserved c.ext = tv.recorded ctx.ext) ∧
      (action.recv_preserve_transcript_hash = 0 → tv.preserved c.ext = tv.preserved ctx.ext) := by
  obtain ⟨hrec, hhash⟩ := ht
  obtain ⟨_, _, _, _, kr, _, _, _, kcb⟩ := hk
  unfold tls13_handshake_recv_action_read at h
  cases hm : (if ctx.hs_msg.isSome then ctx.hs_msg
      else env.tls13_handshake_msg_new ctx.ext) with
  | none =>
    simp only [hm] at h
    cases h
  | some m =>
    simp only [hm] at h
    refine ⟨m, rfl, ?_⟩
    obtain ⟨ks1, ks2⟩ := kr (some m) ctx.ext
    generalize env.tls13_handshake_msg_recv (some m) ctx.ext = s at h ks1 ks2 ⊢
    by_cases h1 : s.1 ≤ 0
    · rw [if_pos h1] at h
      cases h
    · rw [if_neg h1] at h
      have key : ∀ (hv : Int × σ), hv.1 ≠ 0 →
          (if hv.1 = 0 then
              HsStep.done ⟨TLS13_IO_FAILURE, { ctx with hs_msg := s.2.1, ext := hv.2 }⟩
            else
              if (tls13_handshake_msg_record env { ctx with hs_msg := s.2.1, ext := hv.2 }).1 = 0
              then HsStep.done ⟨TLS13_IO_FAILURE,
                (tls13_handshake_msg_record env { ctx with hs_msg := s.2.1, ext := hv.2 }).2⟩
              else
                match env.handshake_message_recv_cb with
                | none => HsStep.next
                    (tls13_handshake_msg_record env { ctx with hs_msg := s.2.1, ext := hv.2 }).2
                | some cb => HsStep.next (cb
                    (tls13_handshake_msg_record env
                      { ctx with hs_msg := s.2.1, ext := hv.2 }).2)) = HsStep.next c →
          tv.recorded c.ext = tv.recorded hv.2 ++ [env.tls13_handshake_msg_data s.2.1] ∧
          tv.preserved c.ext = tv.preserved hv.2 := by
        intro hv hv1 hc
        rw [if_neg hv1] at hc
        unfold tls13_handshake_msg_record at hc
        simp only at hc
        by_cases h3 : (env.tls1_transcript_record hv.2 (env.tls13_handshake_msg_data s.2.1)).1 = 0
        · rw [if_pos h3] at hc
          cases hc
        · rw [if_neg h3] at hc
          obtain ⟨r1, r2⟩ := hrec hv.2 (env.tls13_handshake_msg_data s.2.1) h3
          cases hcb : env.handshake_message_recv_cb with
          | none =>
            simp only [hcb] at hc
            cases hc
            exact ⟨r1, r2⟩
          | some cb =>
            simp only [hcb] at hc
            cases hc
            obtain ⟨c1, c2⟩ := kcb cb hcb
              { ctx with hs_msg := s.2.1, ext := (env.tls1_transcript_record hv.2
                  (env.tls13_handshake_msg_data s.2.1)).2 }
            exact ⟨c1.trans r1, c2.trans r2⟩
      by_cases hp : action.recv_preserve_transcript_hash ≠ 0
      · simp only [if_pos hp] at h
        by_cases h2 : (env.tls1_transcript_hash_value s.2.2).1 = 0
        · rw [if_pos h2] at h
          cases h
        · obtain ⟨e1, e2⟩ := hhash s.2.2 h2
          obtain ⟨g1, g2⟩ := key (env.tls1_transcript_hash_value s.2.2) h2 h
          refine ⟨?_, fun _ => ?_, fun h0 => absurd h0 hp⟩
          · rw [g1, e1, ks1]
          · rw [g2, e2, ks1]
      · simp only [if_neg hp] at h
        obtain ⟨g1, g2⟩ := key (1, s.2.2) (by simp) h
        refine ⟨?_, fun h0 => absurd h0 hp, fun _ => ?_⟩
        · rw [g1, ks1]
        · rw [g2, ks2]

theorem tls13_handshake_recv_action_parse_transcript {σ μ : Type} {env : HsEnv σ μ}
    {tv : TranscriptView σ} (hk : env.KeepsTranscript tv) {c : tls13_ctx σ μ}
    {action : tls13_handshake_action} {cbs : CBS} {r : HsResult σ μ}
    (h : tls13_handshake_recv_action_parse env c action cbs = some r) :
    tv.Same r.ctx.ext c.ext := by
  obtain ⟨_, _, k3, _, _, ka, ke, _, _⟩ := hk
  cases hf : action.recv with
  | none =>
    unfold tls13_handshake_recv_action_parse at h
    simp [hf] at h
  | some fn =>
    obtain ⟨e1, e2⟩ := k3 fn c cbs
    by_cases ht : (env.recv fn c cbs).1 ≠ 0 ∧ CBS_len (env.recv fn c cbs).2.2 ≠ 0
    · rw [tls13_handshake_recv_action_parse_trailing env c action cbs fn hf ht.1 ht.2] at h
      cases h
      obtain ⟨a1, a2⟩ := ka (env.tls13_set_errorx (env.recv fn c cbs).2.1.ext)
        SSL_AD_DECODE_ERROR
      obtain ⟨x1, x2⟩ := ke (env.recv fn c cbs).2.1.ext
      exact ⟨a1.trans (x1.trans e1), a2.trans (x2.trans e2)⟩
    · by_cases ha : (env.recv fn c cbs).2.1.alert ≠ 0
      · rw [tls13_handshake_recv_action_parse_alert env c action cbs fn hf ht ha] at h
        cases h
        obtain ⟨a1, a2⟩ := ka (env.recv fn c cbs).2.1.ext (env.recv fn c cbs).2.1.alert
        exact ⟨a1.trans e1, a2.trans e2⟩
      · rw [tls13_handshake_recv_action_parse_plain env c action cbs fn hf ht
          (not_not.mp ha)] at h
        cases h
        exact ⟨e1, e2⟩

/-- The receive path, when it has read a message (it returns a value above
0 only then): the message is added to the transcript; the preserved hash
covers the transcript without it when the action preserves the hash, and is
left as it was otherwise. -/
theorem tls13_handshake_recv_action_transcript {σ μ : Type} {env : HsEnv σ μ}
    {tv : TranscriptView σ} (ht : env.Transcript tv) (hk : env.KeepsTranscript tv)
    {ctx : tls13_ctx σ μ} {action : tls13_handshake_action} {r : HsResult σ μ}
    (h : tls13_handshake_recv_action env ctx action = some r) (hr : 0 < r.ret)
    (hal : ∀ s a, (env.tls13_send_alert s a).1 ≤ 0) :
    ∃ msg, tv.recorded r.ctx.ext = tv.recorded ctx.ext ++ [msg] ∧
      (action.recv_preserve_transcript_hash ≠ 0 →
        tv.preserved r.ctx.ext = tv.recorded ctx.ext) ∧
      (action.recv_preserve_transcript_hash = 0 →
        tv.preserved r.ctx.ext = tv.preserved ctx.ext) := by
  unfold tls13_handshake_recv_action at h
  cases hb : tls13_handshake_recv_action_read env ctx action with
  | done r1 =>
    simp only [hb] at h
    cases h
    have := tls13_handshake_recv_action_read_ret env ctx action _ hb
    omega
  | next c =>
    simp only [hb] at h
    obtain ⟨m, _, g1, g2, g3⟩ := tls13_handshake_recv_action_read_transcript ht hk hb
    have hs : tv.Same r.ctx.ext c.ext := by
      split at h
      · cases h
        have := hal c.ext SSL_AD_UNEXPECTED_MESSAGE
        simp only at hr
        omega
      · split at h
        · cases h
          exact ⟨rfl, rfl⟩
        · exact tls13_handshake_recv_action_parse_transcript hk h
    refine ⟨_, hs.1.trans g1, fun hp => hs.2.trans (g2 hp), fun hp => hs.2.trans (g3 hp)⟩

/-- The send path from the transmission on, when it succeeds: the message
sent is added to the transcript; the preserved hash covers the transcript
with that message when the action preserves the hash, and is left as it was
otherwise. -/
theorem tls13_handshake_send_action_transmit_transcript {σ μ : Type} {env : HsEnv σ μ}
    {tv : TranscriptView σ} (ht : env.Transcript tv) (hk : env.KeepsTranscript tv)
    (c : tls13_ctx σ μ) (action : tls13_handshake_action)
    (hr : 0 < (tls13_handshake_send_action_transmit env c action).ret) :
    tv.recorded (tls13_handshake_send_action_transmit env c action).ctx.ext
      = tv.recorded c.ext
        ++ [env.tls13_handshake_msg_data (env.tls13_handshake_msg_send c.hs_msg c.ext).2.1] ∧
    (action.send_preserve_transcript_hash ≠ 0 →
      tv.preserved (tls13_handshake_send_action_transmit env c action).ctx.ext
        = tv.recorded c.ext
          ++ [env.tls13_handshake_msg_data (env.tls13_handshake_msg_send c.hs_msg c.ext).2.1]) ∧
    (action.send_preserve_transcript_hash = 0 →
      tv.preserved (tls13_handshake_send_action_transmit env c action).ctx.ext
        = tv.preserved c.ext) := by
  obtain ⟨hrec, hhash⟩ := ht
  obtain ⟨_, k2, _, ks, _, _, _, kcb, _⟩ := hk
  obtain ⟨ks1, ks2⟩ := ks c.hs_msg c.ext
  unfold tls13_handshake_send_action_transmit tls13_handshake_msg_record at hr ⊢
  generalize env.tls13_handshake_msg_send c.hs_msg c.ext = s at hr ks1 ks2 ⊢
  simp only at hr ⊢
  by_cases h1 : s.1 ≤ 0
  · rw [if_pos h1] at hr
    simp only at hr
    omega
  · rw [if_neg h1] at hr ⊢
    by_cases h2 : (env.tls1_transcript_record s.2.2 (env.tls13_handshake_msg_data s.2.1)).1 = 0
    · rw [if_pos h2] at hr
      simp [TLS13_IO_FAILURE] at hr
    · rw [if_neg h2] at hr ⊢
      obtain ⟨r1, r2⟩ := hrec s.2.2 (env.tls13_handshake_msg_data s.2.1) h2
      rw [ks1] at r1
      rw [ks2] at r2
      generalize (env.tls1_transcript_record s.2.2 (env.tls13_handshake_msg_data s.2.1)).2
        = s1 at hr r1 r2 ⊢
      generalize hgen : (if action.send_preserve_transcript_hash ≠ 0 then
        env.tls1_transcript_hash_value s1 else (1, s1)) = hv at hr ⊢
      by_cases h3 : hv.1 = 0
      · rw [if_pos h3] at hr
        simp [TLS13_IO_FAILURE] at hr
      · rw [if_neg h3]
        have v1 : tv.recorded hv.2 = tv.recorded c.ext ++ [env.tls13_handshake_msg_data s.2.1] := by
          by_cases hp : action.send_preserve_transcript_hash ≠ 0
          · rw [if_pos hp] at hgen
            subst hgen
            rw [(hhash s1 h3).1, r1]
          · rw [if_neg hp] at hgen
            subst hgen
            exact r1
        have v2 : action.send_preserve_transcript_hash ≠ 0 →
            tv.preserved hv.2 = tv.recorded c.ext ++ [env.tls13_handshake_msg_data s.2.1] := by
          intro hp
          rw [if_pos hp] at hgen
          subst hgen
          rw [(hhash s1 h3).2, r1]
        have v3 : action.send_preserve_transcript_hash = 0 →
            tv.preserved hv.2 = tv.preserved c.ext := by
          intro hp
          rw [if_neg (by simp [hp])] at hgen
          subst hgen
          exact r2
        clear hgen hr
        cases hcb : env.handshake_message_sent_cb with
        | none =>
          cases hst : action.sent with
          | none => exact ⟨v1, v2, v3⟩
          | some fn =>
            simp only
            split
            · exact ⟨(k2 fn _).1.trans v1, fun hp => (k2 fn _).2.trans (v2 hp),
                fun hp => (k2 fn _).2.trans (v3 hp)⟩
            · exact ⟨(k2 fn _).1.trans v1, fun hp => (k2 fn _).2.trans (v2 hp),
                fun hp => (k2 fn _).2.trans (v3 hp)⟩
        | some cb =>
          obtain ⟨c1, c2⟩ := kcb cb hcb { c with hs_msg := s.2.1, ext := hv.2 }
          cases hst : action.sent with
          | none => exact ⟨c1.trans v1, fun hp => c2.trans (v2 hp), fun hp => c2.trans (v3 hp)⟩
          | some fn =>
            simp only
            split
            · exact ⟨(k2 fn _).1.trans (c1.trans v1), fun hp => (k2 fn _).2.trans (c2.trans (v2 hp)),
                fun hp => (k2 fn _).2.trans (c2.trans (v3 hp))⟩
            · exact ⟨(k2 fn _).1.trans (c1.trans v1), fun hp => (k2 fn _).2.trans (c2.trans (v2 hp)),
                fun hp => (k2 fn _).2.trans (c2.trans (v3 hp))⟩

theorem tls13_handshake_send_action_build_transcript {σ μ : Type} {env : HsEnv σ μ}
    {tv : TranscriptView σ} (hk : env.KeepsTranscript tv)
    (hal : ∀ s a, (env.tls13_send_alert s a).1 ≤ 0) (ctx : tls13_ctx σ μ)
    (action : tls13_handshake_action) :
    (∀ r, tls13_handshake_send_action_build env ctx action = some (HsStep.done r) →
      r.ret ≤ 0) ∧
    (∀ c, tls13_handshake_send_action_build env ctx action = some (HsStep.next c) →
      tv.Same c.ext ctx.ext) := by
  obtain ⟨k1, _⟩ := hk
  have hf : TLS13_IO_FAILURE ≤ 0 := by decide
  unfold tls13_handshake_send_action_build
  by_cases h0 : ctx.hs_msg.isSome = true
  · rw [if_pos h0]
    constructor
    · intro r h
      cases h
    · intro c h
      cases h
      exact ⟨rfl, rfl⟩
  · rw [if_neg h0]
    cases hn : env.tls13_handshake_msg_new ctx.ext with
    | none =>
      constructor
      · intro r h
        cases h
        exact hf
      · intro c h
        cases h
    | some m =>
      simp only
      by_cases h1 : (env.tls13_handshake_msg_start (some m) action.handshake_type).1 = 0
      · rw [if_pos h1]
        constructor
        · intro r h
          cases h
          exact hf
        · intro c h
          cases h
      · rw [if_neg h1]
        cases hs : action.send with
        | none =>
          constructor
          · intro r h
            cases h
          · intro c h
            cases h
        | some fn =>
          simp only
          have hb := k1 fn { ctx with
            hs_msg := (env.tls13_handshake_msg_start (some m) action.handshake_type).2 }
          split
          · constructor
            · intro r h
              cases h
              exact hf
            · intro c h
              cases h
          · split
            · constructor
              · intro r h
                cases h
                exact hf
              · intro c h
                cases h
            · split
              · constructor
                · intro r h
                  cases h
                  exact hal _ _
                · intro c h
                  cases h
              · constructor
                · intro r h
                  cases h
                · intro c h
                  cases h
                  exact hb

/-- The send path, when it succeeds: a message is added to the transcript;
the preserved hash covers the transcript with that message when the action
preserves the hash, and is left as it was otherwise. -/
theorem tls13_handshake_send_action_transcript {σ μ : Type} {env : HsEnv σ μ}
    {tv : TranscriptView σ} (ht : env.Transcript tv) (hk : env.KeepsTranscript tv)
    {ctx : tls13_ctx σ μ} {action : tls13_handshake_action} {r : HsResult σ μ}
    (h : tls13_handshake_send_action env ctx action = some r) (hr : 0 < r.ret)
    (hal : ∀ s a, (env.tls13_send_alert s a).1 ≤ 0) :
    ∃ msg, tv.recorded r.ctx.ext = tv.recorded ctx.ext ++ [msg] ∧
      (action.send_preserve_transcript_hash ≠ 0 →
        tv.preserved r.ctx.ext = tv.recorded ctx.ext ++ [msg]) ∧
      (action.send_preserve_transcript_hash = 0 →
        tv.preserved r.ctx.ext = tv.preserved ctx.ext) := by
  obtain ⟨b1, b2⟩ := tls13_handshake_send_action_build_transcript hk hal ctx action
  unfold tls13_handshake_send_action at h
  cases hb : tls13_handshake_send_action_build env ctx action with
  | none => simp [hb] at h
  | some s =>
    cases s with
    | done r1 =>
      simp only [hb] at h
      cases h
      have := b1 _ hb
      omega
    | next c =>
      simp only [hb] at h
      cases h
      obtain ⟨e1, e2⟩ := b2 _ hb
      obtain ⟨g1, g2, g3⟩ := tls13_handshake_send_action_transmit_transcript ht hk c action hr
      rw [e1] at g1 g2
      rw [e2] at g3
      exact ⟨_, g1, g2, g3⟩

/-! ## Constructed strings -/

/-- A series of string fragments as `asn1_collect` reads it at depth `d`:
`FragmentSeries d c bs c1` says that from the cursor `c` to the cursor `c1`
fragments stand one after the other, each with a header that
`asn1_check_tag` reads: a fragment of primitive form followed by its content
bytes, or a fragment of constructed form and indefinite length, no deeper
than `ASN1_MAX_STRING_NEST`, followed by a series of fragments and an
end-of-contents marker. No fragment starts with the two bytes of a marker.
`bs` is the concatenation of the contents of the primitive fragments in
input order. -/
inductive FragmentSeries : Int → CBS → List UInt8 → CBS → Prop where
  | done (d : Int) (c : CBS) : FragmentSeries d c [] c
  | primitive (d : Int) (c content c1 c2 : CBS) (bs : List UInt8) :
      asn1_check_eoc c = none →
      (asn1_check_tag c (-1) V_ASN1_UNIVERSAL false).ret = 1 →
      (asn1_check_tag c (-1) V_ASN1_UNIVERSAL false).constructed = false →
      CBS_get_bytes (asn1_check_tag c (-1) V_ASN1_UNIVERSAL false).cbs
        (asn1_check_tag c (-1) V_ASN1_UNIVERSAL false).len = some (content, c1) →
      FragmentSeries d c1 bs c2 → FragmentSeries d c (content.data ++ bs) c2
  | nested (d : Int) (c c1 c2 c3 : CBS) (bs1 bs2 : List UInt8) :
      asn1_check_eoc c = none →
      (asn1_check_tag c (-1) V_ASN1_UNIVERSAL false).ret = 1 →
      (asn1_check_tag c (-1) V_ASN1_UNIVERSAL false).constructed = true →
      (asn1_check_tag c (-1) V_ASN1_UNIVERSAL false).indefinite = true →
      d + 1 ≤ ASN1_MAX_STRING_NEST →
      FragmentSeries (d + 1) (asn1_check_tag c (-1) V_ASN1_UNIVERSAL false).cbs bs1 c1 →
      asn1_check_eoc c1 = some c2 →
      FragmentSeries d c2 bs2 c3 → FragmentSeries d c (bs1 ++ bs2) c3

theorem FragmentSeries.fragments_advanced {d : Int} {c c1 : CBS} {bs : List UInt8}
    (h : FragmentSeries d c bs c1) : ∃ k, CBS.advanced c c1 k := by
  induction h with
  | done d c => exact ⟨0, CBS.advanced_refl c⟩
  | primitive d c content c1 c2 bs _ h1 _ hg _ ih =>
    obtain ⟨⟨k0, _, a⟩, _⟩ := asn1_check_tag_ok h1
    obtain ⟨k, a2⟩ := ih
    exact ⟨_, CBS.advanced_trans (CBS.advanced_trans a (CBS_get_bytes_advanced hg).1) a2⟩
  | nested d c c1 c2 c3 bs1 bs2 _ h1 _ _ _ _ he _ ih1 ih2 =>
    obtain ⟨⟨k0, _, a⟩, _⟩ := asn1_check_tag_ok h1
    obtain ⟨k1, a1⟩ := ih1
    obtain ⟨k2, a2⟩ := ih2
    exact ⟨_, CBS.advanced_trans (CBS.advanced_trans (CBS.advanced_trans a a1)
      (asn1_check_eoc_advanced he).1) a2⟩

/-- The loop of `asn1_collect` at an end-of-contents marker. -/
theorem asn1_collect_loop_at_eoc (fuel : Nat) (cbb : List UInt8) (c c2 : CBS) (need_eoc : Bool)
    (etag ecls depth : Int) (he : asn1_check_eoc c = some c2) :
    asn1_collect_loop (fuel + 1) cbb c need_eoc etag ecls depth
      = if need_eoc then some ⟨1, cbb, c2, []⟩
        else some ⟨0, cbb, c2, [ASN1_R.UNEXPECTED_EOC]⟩ := by
  have hpos : CBS_len c > 0 := Nat.pos_of_ne_zero (asn1_check_eoc_len he)
  rw [asn1_collect_loop]
  simp only [he]
  rw [if_pos hpos]
  cases need_eoc <;> simp

/-- The loop of `asn1_collect` on a cursor with no bytes. -/
theorem asn1_collect_loop_at_end (fuel : Nat) (cbb : List UInt8) (c : CBS) (need_eoc : Bool)
    (etag ecls depth : Int) (he : CBS_len c = 0) :
    asn1_collect_loop (fuel + 1) cbb c need_eoc etag ecls depth
      = if need_eoc then some ⟨0, cbb, c, [ASN1_R.MISSING_EOC]⟩
        else some ⟨1, cbb, c, []⟩ := by
  rw [asn1_collect_loop]
  rw [if_neg (by omega)]

/-- The loop of `asn1_collect` run from the start of a series of fragments
is the loop run from its end, with the contents of the primitive fragments
added to the sink. -/
theorem asn1_collect_loop_series {d : Int} {c c1 : CBS} {bs : List UInt8}
    (h : FragmentSeries d c bs c1) :
    ∀ (fuel : Nat) (cbb : List UInt8) (need_eoc : Bool), c.data.length < fuel →
      ∃ fuel1, c1.data.length < fuel1 ∧
        asn1_collect_loop fuel cbb c need_eoc (-1) V_ASN1_UNIVERSAL d
          = asn1_collect_loop fuel1 (cbb ++ bs) c1 need_eoc (-1) V_ASN1_UNIVERSAL d := by
  induction h with
  | done d c =>
    intro fuel cbb need_eoc hf
    exact ⟨fuel, hf, by rw [List.append_nil]⟩
  | primitive d c content c1 c2 bs hce h1 hc hg _ ih =>
    intro fuel cbb need_eoc hf
    obtain ⟨⟨k0, hk0, a⟩, _⟩ := asn1_check_tag_ok h1
    have hl := CBS.advanced_length a
    have hl2 := CBS.advanced_length (CBS_get_bytes_advanced hg).1
    cases fuel with
    | zero => omega
    | succ fuel =>
      obtain ⟨fuel1, hf1, heq⟩ := ih fuel (cbb ++ content.data) need_eoc (by omega)
      refine ⟨fuel1, hf1, ?_⟩
      rw [asn1_collect_loop]
      simp only [hce, hg]
      rw [if_pos (by unfold CBS_len; omega), if_neg (by rw [h1]; decide),
        if_neg (by rw [hc]; simp), heq, List.append_assoc]
  | nested d c c1 c2 c3 bs1 bs2 hce h1 hc hi hd hs1 he _ ih1 ih2 =>
    intro fuel cbb need_eoc hf
    obtain ⟨⟨k0, hk0, a⟩, _⟩ := asn1_check_tag_ok h1
    have hl := CBS.advanced_length a
    obtain ⟨k1, a1⟩ := hs1.fragments_advanced
    have hl1 := CBS.advanced_length a1
    have hl2 := CBS.advanced_length (asn1_check_eoc_advanced he).1
    cases fuel with
    | zero => omega
    | succ fuel =>
      cases fuel with
      | zero => omega
      | succ fuel =>
        obtain ⟨fuel1, hf1, heq1⟩ := ih1 fuel cbb true (by omega)
        obtain ⟨fuel2, hf2, heq2⟩ := ih2 (fuel + 1) (cbb ++ bs1) need_eoc (by omega)
        refine ⟨fuel2, hf2, ?_⟩
        cases fuel1 with
        | zero => omega
        | succ fuel1 =>
          rw [asn1_collect_loop_at_eoc fuel1 _ c1 c2 true _ _ _ he, if_pos rfl] at heq1
          rw [asn1_collect_loop]
          simp only [hce]
          rw [if_pos (by unfold CBS_len; omega), if_neg (by rw [h1]; decide), if_pos hc, hi,
            asn1_collect_fuel, if_neg (by omega), heq1]
          simp only
          rw [if_neg (by decide), heq2, List.append_assoc]

/-- The function `asn1_collect` on the content of a constructed string of
indefinite length that is a series of fragments followed by an
end-of-contents marker: the sink holds the contents of the primitive
fragments in input order and the cursor stands right behind the marker. -/
theorem asn1_collect_indefinite {x c1 c2 : CBS} {bs : List UInt8}
    (h : FragmentSeries 0 x bs c1) (he : asn1_check_eoc c1 = some c2) :
    asn1_collect [] x true (-1) V_ASN1_UNIVERSAL 0 = some ⟨1, bs, c2, []⟩ := by
  unfold asn1_collect
  rw [asn1_collect_fuel, if_neg (by decide)]
  obtain ⟨fuel1, hf1, heq⟩ := asn1_collect_loop_series h (CBS_len x + 1) [] true
    (by unfold CBS_len; omega)
  rw [heq]
  cases fuel1 with
  | zero => omega
  | succ fuel1 =>
    rw [asn1_collect_loop_at_eoc fuel1 _ c1 c2 true _ _ _ he, if_pos rfl, List.nil_append]

/-- The function `asn1_collect` on the content of a constructed string of
definite length that is a series of fragments up to the end of the input. -/
theorem asn1_collect_definite {x c1 : CBS} {bs : List UInt8}
    (h : FragmentSeries 0 x bs c1) (he : CBS_len c1 = 0) :
    asn1_collect [] x false (-1) V_ASN1_UNIVERSAL 0 = some ⟨1, bs, c1, []⟩ := by
  unfold asn1_collect
  rw [asn1_collect_fuel, if_neg (by decide)]
  obtain ⟨fuel1, hf1, heq⟩ := asn1_collect_loop_series h (CBS_len x + 1) [] false
    (by unfold CBS_len; omega)
  rw [heq]
  cases fuel1 with
  | zero => omega
  | succ fuel1 =>
    rw [asn1_collect_loop_at_end fuel1 _ c1 false _ _ _ he, if_neg (by simp), List.nil_append]

/-! ## Bytes that follow a complete object -/

/-- The cursor `c` over an input that goes on with the bytes `t`. -/
def CBS.extend (c : CBS) (t : List UInt8) : CBS := ⟨c.data ++ t, c.initial_len + t.length⟩

theorem CBS_init_append (x t : List UInt8) : CBS_init (x ++ t) = (CBS_init x).extend t := by
  simp [CBS_init, CBS.extend]

theorem CBS_offset_extend (c : CBS) (t : List UInt8) : CBS_offset (c.extend t) = CBS_offset c := by
  simp only [CBS_offset, CBS.extend, List.length_append]
  omega

theorem CBS_skip_extend {c c1 : CBS} {n : Nat} (h : CBS_skip c n = some c1) (t : List UInt8) :
    CBS_skip (c.extend t) n = some (c1.extend t) := by
  unfold CBS_skip at h ⊢
  split at h
  · rename_i hn
    cases h
    have : n ≤ (c.extend t).data.length := by
      simp only [CBS.extend, List.length_append]
      omega
    rw [if_pos this]
    simp only [CBS.extend, List.drop_append_of_le_length hn]
  · cases h

theorem CBS_get_bytes_extend {c x c1 : CBS} {n : Nat} (h : CBS_get_bytes c n = some (x, c1))
    (t : List UInt8) : CBS_get_bytes (c.extend t) n = some (x, c1.extend t) := by
  unfold CBS_get_bytes at h ⊢
  split at h
  · rename_i hn
    cases h
    have : n ≤ (c.extend t).data.length := by
      simp only [CBS.extend, List.length_append]
      omega
    rw [if_pos this]
    simp only [CBS.extend, List.drop_append_of_le_length hn, List.take_append_of_le_length hn]
  · cases h

theorem get_tag_long_append : ∀ (l : List UInt8) (acc v : Nat) (rest t : List UInt8),
    get_tag_long l acc = some (v, rest) → get_tag_long (l ++ t) acc = some (v, rest ++ t)
  | [], _, _, _, _, h => by simp [get_tag_long] at h
  | b :: l, acc, v, rest, t, h => by
    rw [List.cons_append, get_tag_long]
    rw [get_tag_long] at h
    split
    · rename_i h1
      rw [if_pos h1] at h
      cases h
    · rename_i h1
      rw [if_neg h1] at h
      split
      · rename_i h2
        rw [if_pos h2] at h
        exact get_tag_long_append l _ v rest t h
      · rename_i h2
        rw [if_neg h2] at h
        cases h
        rfl

theorem asn1_get_identifier_cbs_append {c : CBS} {id : IdentOut}
    (h : asn1_get_identifier_cbs c = some id) (t : List UInt8) :
    asn1_get_identifier_cbs (c.extend t)
      = some ⟨id.tag_class, id.constructed, id.tag_number, id.cbs.extend t⟩ := by
  unfold asn1_get_identifier_cbs at h ⊢
  cases hd : c.data with
  | nil => simp [hd] at h
  | cons b rest =>
    simp only [hd] at h
    simp only [CBS.extend, hd, List.cons_append]
    split
    · rename_i h1
      rw [if_pos h1] at h
      cases hg : get_tag_long rest 0 with
      | none => simp [hg] at h
      | some p =>
        obtain ⟨v, rest1⟩ := p
        simp only [hg] at h
        cases h
        rw [get_tag_long_append rest 0 v rest1 t hg]
    · rename_i h1
      rw [if_neg h1] at h
      cases h
      rfl

theorem get_length_long_append : ∀ (n : Nat) (l : List UInt8) (acc v : Nat)
    (rest t : List UInt8),
    get_length_long n l acc = some (v, rest) → get_length_long n (l ++ t) acc = some (v, rest ++ t)
  | 0, l, acc, v, rest, t, h => by
    rw [get_length_long] at h ⊢
    cases h
    rfl
  | n + 1, [], acc, v, rest, t, h => by simp [get_length_long] at h
  | n + 1, b :: l, acc, v, rest, t, h => by
    rw [List.cons_append, get_length_long]
    rw [get_length_long] at h
    split
    · rename_i h1
      rw [if_pos h1] at h
      cases h
    · rename_i h1
      rw [if_neg h1] at h
      exact get_length_long_append n l _ v rest t h

theorem asn1_get_length_cbs_append {c : CBS} {l : LengthOut}
    (h : asn1_get_length_cbs c = some l) (t : List UInt8) :
    asn1_get_length_cbs (c.extend t) = some ⟨l.indefinite, l.length, l.cbs.extend t⟩ := by
  unfold asn1_get_length_cbs at h ⊢
  cases hd : c.data with
  | nil => simp [hd] at h
  | cons b rest =>
    simp only [hd] at h
    simp only [CBS.extend, hd, List.cons_append]
    split
    · rename_i h1
      rw [if_pos h1] at h
      cases h
      rfl
    · rename_i h1
      rw [if_neg h1] at h
      split
      · rename_i h2
        rw [if_pos h2] at h
        cases h
        rfl
      · rename_i h2
        rw [if_neg h2] at h
        split
        · rename_i h3
          rw [if_pos h3] at h
          cases h
        · rename_i h3
          rw [if_neg h3] at h
          cases hg : get_length_long (b.toNat &&& 0x7f) rest 0 with
          | none => simp [hg] at h
          | some p =>
            obtain ⟨v, rest1⟩ := p
            simp only [hg] at h
            cases h
            rw [get_length_long_append _ rest 0 v rest1 t hg]

/-- The bytes `x` are one complete object of definite length: a header that
the two readers accept, followed by exactly the declared number of content
bytes; `constructed` is the form its identifier octet gives. -/
def CompleteObject (x : List UInt8) (constructed : Bool) : Prop :=
  ∃ id l, asn1_get_identifier_cbs (CBS_init x) = some id ∧
    asn1_get_length_cbs id.cbs = some l ∧ l.indefinite = false ∧
    l.length = CBS_len l.cbs ∧ id.constructed = constructed

/-- On a complete object of definite length `asn1_check_tag` reports the
same whatever bytes follow the object. -/
theorem asn1_check_tag_extend {c : CBS} {id : IdentOut} {l : LengthOut}
    (hid : asn1_get_identifier_cbs c = some id) (hl : asn1_get_length_cbs id.cbs = some l)
    (hdef : l.indefinite = false) (hlen : l.length ≤ CBS_len l.cbs) (etag ecls : Int)
    (opt : Bool) (t : List UInt8) :
    asn1_check_tag (c.extend t) etag ecls opt
      = ⟨(asn1_check_tag c etag ecls opt).ret, (asn1_check_tag c etag ecls opt).cbs.extend t,
          (asn1_check_tag c etag ecls opt).len, (asn1_check_tag c etag ecls opt).tag,
          (asn1_check_tag c etag ecls opt).cls, (asn1_check_tag c etag ecls opt).indefinite,
          (asn1_check_tag c etag ecls opt).constructed,
          (asn1_check_tag c etag ecls opt).errs⟩ := by
  have hlen2 : ¬ (CBS_len (l.cbs.extend t) < l.length) := by
    simp only [CBS_len, CBS.extend, List.length_append] at hlen ⊢
    omega
  have hlen1 : ¬ (CBS_len l.cbs < l.length) := by omega
  unfold asn1_check_tag
  rw [asn1_get_identifier_cbs_append hid t, hid]
  simp only
  by_cases hm : etag ≥ 0 ∧
      (etag ≠ (id.tag_number : Int) ∨ ecls ≠ ((id.tag_class <<< 6 : Nat) : Int))
  · simp only [if_pos hm]
    cases opt <;> rfl
  · simp only [if_neg hm]
    rw [asn1_get_length_cbs_append hl t, hl]
    simp only [hdef, Bool.false_eq_true, false_and, if_false, not_false_eq_true, true_and,
      if_neg hlen1, if_neg hlen2]
    split_ifs <;> rfl

theorem asn1_check_tag_complete {x : List UInt8} {constructed : Bool}
    (h : CompleteObject x constructed) (etag ecls : Int) (opt : Bool) :
    ((asn1_check_tag (CBS_init x) etag ecls opt).ret = 1 →
      (asn1_check_tag (CBS_init x) etag ecls opt).constructed = constructed ∧
      (asn1_check_tag (CBS_init x) etag ecls opt).indefinite = false ∧
      (asn1_check_tag (CBS_init x) etag ecls opt).len
        = (asn1_check_tag (CBS_init x) etag ecls opt).cbs.data.length) ∧
    ∀ t, asn1_check_tag (CBS_init (x ++ t)) etag ecls opt
      = ⟨(asn1_check_tag (CBS_init x) etag ecls opt).ret,
          (asn1_check_tag (CBS_init x) etag ecls opt).cbs.extend t,
          (asn1_check_tag (CBS_init x) etag ecls opt).len,
          (asn1_check_tag (CBS_init x) etag ecls opt).tag,
          (asn1_check_tag (CBS_init x) etag ecls opt).cls,
          (asn1_check_tag (CBS_init x) etag ecls opt).indefinite,
          (asn1_check_tag (CBS_init x) etag ecls opt).constructed,
          (asn1_check_tag (CBS_init x) etag ecls opt).errs⟩ := by
  obtain ⟨id, l, hid, hl, hdef, hlen, hc⟩ := h
  constructor
  · intro hr
    unfold asn1_check_tag at hr ⊢
    simp only [hid, hl] at hr ⊢
    split_ifs at hr ⊢ <;> simp_all [CBS_len]
  · intro t
    rw [CBS_init_append]
    exact asn1_check_tag_extend hid hl hdef (by omega) etag ecls opt t

/-- A result with the bytes `t` behind its cursor. -/
def Out.extend (r : Out) (t : List UInt8) : Out := ⟨r.ret, r.pval, r.cbs.extend t, r.errs⟩

theorem CBS.advanced_extend_skip {cbs xo : CBS} {k : Nat}
    (a : CBS.advanced (CBS_init cbs.data) xo k) (t : List UInt8) :
    ∃ c1, CBS_skip cbs (CBS_offset xo) = some c1 ∧
      CBS_skip (cbs.extend t) (CBS_offset (xo.extend t)) = some (c1.extend t) := by
  obtain ⟨c1, hc1, _⟩ := skip_offset_of_advanced a
  exact ⟨c1, hc1, by rw [CBS_offset_extend]; exact CBS_skip_extend hc1 t⟩

theorem primitive_content_finish_extend (env : Env) (pval : ASN1_VALUE) (cbs xo content : CBS)
    (utype : Int) (it : ASN1_ITEM) (t : List UInt8) {k : Nat}
    (a : CBS.advanced (CBS_init cbs.data) xo k) :
    primitive_content_finish env pval (cbs.extend t) (xo.extend t) content utype it
      = (primitive_content_finish env pval cbs xo content utype it).extend t := by
  obtain ⟨c1, h1, h2⟩ := CBS.advanced_extend_skip a t
  unfold primitive_content_finish
  rw [h1, h2]
  split <;> rfl

theorem asn1_d2i_ex_primitive_content_extend (env : Env) (pval : ASN1_VALUE) (cbs xo : CBS)
    (utype : Int) (constructed : Bool) (length : Nat) (it : ASN1_ITEM) (t : List UInt8)
    {k0 : Nat} (a : CBS.advanced (CBS_init cbs.data) xo k0) (hlen : length ≤ xo.data.length)
    (hform : constructed = false ∨ utype = V_ASN1_SEQUENCE ∨ utype = V_ASN1_SET ∨
      utype = V_ASN1_OTHER) :
    asn1_d2i_ex_primitive_content env pval (cbs.extend t) (xo.extend t) utype constructed false
        length it
      = (asn1_d2i_ex_primitive_content env pval cbs xo utype constructed false length it).map
          (fun r => r.extend t) := by
  have hs := CBS_skip_of_le xo length hlen
  have hg := CBS_get_bytes_of_le xo length hlen
  have a1 : CBS.advanced (CBS_init cbs.data) ⟨xo.data.drop length, xo.initial_len⟩
      (k0 + length) := CBS.advanced_trans a (CBS_skip_advanced hs)
  unfold asn1_d2i_ex_primitive_content
  by_cases h1 : (utype = V_ASN1_SEQUENCE ∨ utype = V_ASN1_SET) ∧ ¬ constructed = true
  · rw [if_pos h1, if_pos h1]
    rfl
  · rw [if_neg h1, if_neg h1]
    by_cases h2 : utype = V_ASN1_SEQUENCE ∨ utype = V_ASN1_SET ∨ utype = V_ASN1_OTHER
    · rw [if_pos h2, if_pos h2]
      unfold asn1_find_end
      rw [if_pos (by simp), if_pos (by simp), hs, CBS_skip_extend hs t]
      simp only
      rw [if_neg (by decide), if_neg (by decide), CBS_offset_extend]
      have ho : CBS_offset (⟨xo.data.drop length, xo.initial_len⟩ : CBS) = k0 + length :=
        CBS.advanced_offset a1 rfl
      have hk : k0 + length ≤ cbs.data.length := a1.1
      rw [ho, CBS_get_bytes_extend (CBS_get_bytes_of_le cbs _ hk) t,
        CBS_get_bytes_of_le cbs _ hk]
      simp only [Option.map]
      rw [primitive_content_finish_extend env pval cbs _ _ utype it t a1]
    · rw [if_neg h2, if_neg h2]
      have hc : constructed = false := by
        rcases hform with h | h | h | h
        · exact h
        · exact absurd (Or.inl h) h2
        · exact absurd (Or.inr (Or.inl h)) h2
        · exact absurd (Or.inr (Or.inr h)) h2
      rw [if_neg (by simp [hc]), if_neg (by simp [hc]), hg, CBS_get_bytes_extend hg t]
      simp only [Option.map]
      rw [primitive_content_finish_extend env pval cbs _ _ utype it t a1]

theorem CBS.extend_data (c : CBS) (t : List UInt8) : (c.extend t).data = c.data ++ t := rfl

theorem asn1_d2i_ex_any_extend (env : Env) (pval : ASN1_VALUE) (cbs : CBS) (it : ASN1_ITEM)
    (tag cls : Int) (opt : Bool) (t : List UInt8) (h : CompleteObject cbs.data false) :
    asn1_d2i_ex_any env pval (cbs.extend t) it tag cls opt
      = (asn1_d2i_ex_any env pval cbs it tag cls opt).map (fun r => r.extend t) := by
  obtain ⟨hT, hE⟩ := asn1_check_tag_complete h (-1) 0 false
  unfold asn1_d2i_ex_any
  simp only [CBS.extend_data]
  rw [hE t]
  simp only
  by_cases h1 : it.utype ≠ V_ASN1_ANY
  · rw [if_pos h1, if_pos h1]
    rfl
  · rw [if_neg h1, if_neg h1]
    by_cases h2 : tag ≥ 0
    · rw [if_pos h2, if_pos h2]
      rfl
    · rw [if_neg h2, if_neg h2]
      by_cases h3 : opt = true
      · rw [if_pos h3, if_pos h3]
        rfl
      · rw [if_neg h3, if_neg h3]
        by_cases h4 : (asn1_check_tag (CBS_init cbs.data) (-1) 0 false).ret ≠ 1
        · rw [if_pos h4, if_pos h4]
          rfl
        · rw [if_neg h4, if_neg h4]
          have hr := of_not_not h4
          obtain ⟨hc, hi, hlen⟩ := hT hr
          obtain ⟨⟨k0, _, a⟩, _⟩ := asn1_check_tag_ok hr
          rw [hc, hi]
          exact asn1_d2i_ex_primitive_content_extend env pval cbs _ _ false _ it t a
            (le_of_eq hlen) (Or.inl rfl)

theorem asn1_d2i_ex_primitive_extend (env : Env) (pval : ASN1_VALUE) (cbs : CBS)
    (it : ASN1_ITEM) (tag cls : Int) (opt : Bool) (t : List UInt8) {constructed : Bool}
    (h : CompleteObject cbs.data constructed)
    (hform : constructed = false ∨
      (it.utype = V_ASN1_SEQUENCE ∨ it.utype = V_ASN1_SET)) :
    asn1_d2i_ex_primitive env pval (cbs.extend t) it tag cls opt
      = (asn1_d2i_ex_primitive env pval cbs it tag cls opt).map (fun r => r.extend t) := by
  unfold asn1_d2i_ex_primitive
  simp only [CBS.extend_data]
  by_cases h1 : it.itype = ASN1_ITYPE_MSTRING
  · rw [if_pos h1, if_pos h1]
    rfl
  · rw [if_neg h1, if_neg h1]
    by_cases h2 : it.utype = V_ASN1_ANY
    · rw [if_pos h2, if_pos h2]
      have hc : constructed = false := by
        rcases hform with hf | hf | hf
        · exact hf
        · rw [h2] at hf
          exact absurd hf (by decide)
        · rw [h2] at hf
          exact absurd hf (by decide)
      subst hc
      exact asn1_d2i_ex_any_extend env pval cbs it tag cls opt t h
    · rw [if_neg h2, if_neg h2]
      generalize (if tag = -1 then it.utype else tag) = et
      generalize (if tag = -1 then V_ASN1_UNIVERSAL else cls) = ec
      obtain ⟨hT, hE⟩ := asn1_check_tag_complete h et ec opt
      rw [hE t]
      simp only
      by_cases h3 : (asn1_check_tag (CBS_init cbs.data) et ec opt).ret = -1
      · rw [if_pos h3, if_pos h3]
        rfl
      · rw [if_neg h3, if_neg h3]
        by_cases h4 : (asn1_check_tag (CBS_init cbs.data) et ec opt).ret ≠ 1
        · rw [if_pos h4, if_pos h4]
          rfl
        · rw [if_neg h4, if_neg h4]
          have hr := of_not_not h4
          obtain ⟨hc, hi, hlen⟩ := hT hr
          obtain ⟨⟨k0, _, a⟩, _⟩ := asn1_check_tag_ok hr
          rw [hi]
          exact asn1_d2i_ex_primitive_content_extend env pval cbs _ _ _ _ it t a
            (le_of_eq hlen) (by
              rw [hc]
              rcases hform with hf | hf | hf
              · exact Or.inl hf
              · exact Or.inr (Or.inl hf)
              · exact Or.inr (Or.inr (Or.inl hf)))

theorem asn1_d2i_ex_mstring_extend (env : Env) (pval : ASN1_VALUE) (cbs : CBS)
    (it : ASN1_ITEM) (tag cls : Int) (opt : Bool) (t : List UInt8)
    (h : CompleteObject cbs.data false) :
    asn1_d2i_ex_mstring env pval (cbs.extend t) it tag cls opt
      = (asn1_d2i_ex_mstring env pval cbs it tag cls opt).map (fun r => r.extend t) := by
  obtain ⟨hT, hE⟩ := asn1_check_tag_complete h (-1) 0 true
  unfold asn1_d2i_ex_mstring
  simp only [CBS.extend_data]
  rw [hE t]
  simp only
  by_cases h1 : tag ≠ -1
  · rw [if_pos h1, if_pos h1]
    rfl
  · rw [if_neg h1, if_neg h1]
    by_cases h2 : (asn1_check_tag (CBS_init cbs.data) (-1) 0 true).ret ≠ 1
    · rw [if_pos h2, if_pos h2]
      rfl
    · rw [if_neg h2, if_neg h2]
      have hr := of_not_not h2
      obtain ⟨hc, hi, hlen⟩ := hT hr
      obtain ⟨⟨k0, _, a⟩, _⟩ := asn1_check_tag_ok hr
      by_cases h3 : (asn1_check_tag (CBS_init cbs.data) (-1) 0 true).cls ≠ V_ASN1_UNIVERSAL
      · rw [if_pos h3, if_pos h3]
        cases opt <;> rfl
      · rw [if_neg h3, if_neg h3]
        by_cases h4 : Int.land (env.ASN1_tag2bit
            (asn1_check_tag (CBS_init cbs.data) (-1) 0 true).tag) it.utype = 0
        · rw [if_pos h4, if_pos h4]
          cases opt <;> rfl
        · rw [if_neg h4, if_neg h4, hc, hi]
          exact asn1_d2i_ex_primitive_content_extend env pval cbs _ _ false _ it t a
            (le_of_eq hlen) (Or.inl rfl)

theorem primitive_content_finish_whole (env : Env) (pval : ASN1_VALUE) (cbs x1 content : CBS)
    (utype : Int) (it : ASN1_ITEM) {k : Nat} (a : CBS.advanced (CBS_init cbs.data) x1 k)
    (hk : k = cbs.data.length)
    (hr : (primitive_content_finish env pval cbs x1 content utype it).ret = 1) :
    (primitive_content_finish env pval cbs x1 content utype it).cbs = ⟨[], cbs.initial_len⟩ := by
  have ho : CBS_offset x1 = k := CBS.advanced_offset a rfl
  unfold primitive_content_finish at hr ⊢
  rw [ho, hk, CBS_skip_of_le cbs _ (Nat.le_refl _)] at hr ⊢
  split
  · rename_i h0
    rw [if_pos h0] at hr
    simp at hr
  · simp

/-- A complete object of definite length that decodes takes the cursor to
the end of the object. -/
theorem asn1_d2i_ex_primitive_content_whole (env : Env) (pval : ASN1_VALUE) (cbs xo : CBS)
    (utype : Int) (constructed : Bool) (length : Nat) (it : ASN1_ITEM) {r : Out}
    {k0 : Nat} (a : CBS.advanced (CBS_init cbs.data) xo k0) (hlen : length = xo.data.length)
    (hform : constructed = false ∨ utype = V_ASN1_SEQUENCE ∨ utype = V_ASN1_SET ∨
      utype = V_ASN1_OTHER)
    (h : asn1_d2i_ex_primitive_content env pval cbs xo utype constructed false length it
      = some r)
    (hr : r.ret = 1) : r.cbs = ⟨[], cbs.initial_len⟩ := by
  have hle : length ≤ xo.data.length := le_of_eq hlen
  have hs := CBS_skip_of_le xo length hle
  have hg := CBS_get_bytes_of_le xo length hle
  have a1 : CBS.advanced (CBS_init cbs.data) ⟨xo.data.drop length, xo.initial_len⟩
      (k0 + length) := CBS.advanced_trans a (CBS_skip_advanced hs)
  have hk : k0 + length = cbs.data.length := by
    have := CBS.advanced_length a
    simp only [CBS_init] at this
    omega
  unfold asn1_d2i_ex_primitive_content at h
  by_cases h1 : (utype = V_ASN1_SEQUENCE ∨ utype = V_ASN1_SET) ∧ ¬ constructed = true
  · rw [if_pos h1] at h
    cases h
    simp at hr
  · rw [if_neg h1] at h
    by_cases h2 : utype = V_ASN1_SEQUENCE ∨ utype = V_ASN1_SET ∨ utype = V_ASN1_OTHER
    · rw [if_pos h2] at h
      unfold asn1_find_end at h
      rw [if_pos (by simp), hs] at h
      simp only at h
      have ho : CBS_offset (⟨xo.data.drop length, xo.initial_len⟩ : CBS) = k0 + length :=
        CBS.advanced_offset a1 rfl
      rw [if_neg (by decide), ho, CBS_get_bytes_of_le cbs _ (le_of_eq hk)] at h
      simp only [Option.some.injEq] at h
      subst h
      exact primitive_content_finish_whole env pval cbs _ _ utype it a1 hk hr
    · rw [if_neg h2] at h
      have hc : constructed = false := by
        rcases hform with h | h | h | h
        · exact h
        · exact absurd (Or.inl h) h2
        · exact absurd (Or.inr (Or.inl h)) h2
        · exact absurd (Or.inr (Or.inr h)) h2
      rw [if_neg (by simp [hc]), hg] at h
      simp only [Option.some.injEq] at h
      subst h
      exact primitive_content_finish_whole env pval cbs _ _ utype it a1 hk hr

theorem asn1_d2i_ex_primitive_whole (env : Env) (pval : ASN1_VALUE) (cbs : CBS)
    (it : ASN1_ITEM) (tag cls : Int) (opt : Bool) {constructed : Bool} {r : Out}
    (h : CompleteObject cbs.data constructed)
    (hform : constructed = false ∨
      (it.utype = V_ASN1_SEQUENCE ∨ it.utype = V_ASN1_SET))
    (hd : asn1_d2i_ex_primitive env pval cbs it tag cls opt = some r) (hr : r.ret = 1) :
    r.cbs = ⟨[], cbs.initial_len⟩ := by
  unfold asn1_d2i_ex_primitive at hd
  by_cases h1 : it.itype = ASN1_ITYPE_MSTRING
  · rw [if_pos h1] at hd
    cases hd
    simp at hr
  · rw [if_neg h1] at hd
    by_cases h2 : it.utype = V_ASN1_ANY
    · rw [if_pos h2] at hd
      have hc : constructed = false := by
        rcases hform with hf | hf | hf
        · exact hf
        · rw [h2] at hf
          exact absurd hf (by decide)
        · rw [h2] at hf
          exact absurd hf (by decide)
      subst hc
      obtain ⟨hT, _⟩ := asn1_check_tag_complete h (-1) 0 false
      unfold asn1_d2i_ex_any at hd
      rw [if_neg (by simp [h2])] at hd
      split at hd
      · cases hd
        simp at hr
      · split at hd
        · cases hd
          simp at hr
        · split at hd
          · cases hd
            simp at hr
          · rename_i h4
            have hr1 := of_not_not h4
            obtain ⟨hc, hi, hlen⟩ := hT hr1
            obtain ⟨⟨k0, _, a⟩, _⟩ := asn1_check_tag_ok hr1
            rw [hc, hi] at hd
            exact asn1_d2i_ex_primitive_content_whole env pval cbs _ _ false _ it a hlen
              (Or.inl rfl) hd hr
    · rw [if_neg h2] at hd
      generalize (if tag = -1 then it.utype else tag) = et at hd
      generalize (if tag = -1 then V_ASN1_UNIVERSAL else cls) = ec at hd
      obtain ⟨hT, _⟩ := asn1_check_tag_complete h et ec opt
      split at hd
      · cases hd
        simp at hr
      · split at hd
        · cases hd
          simp at hr
        · rename_i h4
          have hr1 := of_not_not h4
          obtain ⟨hc, hi, hlen⟩ := hT hr1
          obtain ⟨⟨k0, _, a⟩, _⟩ := asn1_check_tag_ok hr1
          rw [hi] at hd
          exact asn1_d2i_ex_primitive_content_whole env pval cbs _ _ _ _ it a hlen (by
            rw [hc]
            rcases hform with hf | hf | hf
            · exact Or.inl hf
            · exact Or.inr (Or.inl hf)
            · exact Or.inr (Or.inr (Or.inl hf))) hd hr

theorem asn1_d2i_ex_mstring_whole (env : Env) (pval : ASN1_VALUE) (cbs : CBS)
    (it : ASN1_ITEM) (tag cls : Int) (opt : Bool) {r : Out}
    (h : CompleteObject cbs.data false)
    (hd : asn1_d2i_ex_mstring env pval cbs it tag cls opt = some r) (hr : r.ret = 1) :
    r.cbs = ⟨[], cbs.initial_len⟩ := by
  obtain ⟨hT, _⟩ := asn1_check_tag_complete h (-1) 0 true
  unfold asn1_d2i_ex_mstring at hd
  split at hd
  · cases hd
    simp at hr
  · split at hd
    · cases hd
      simp at hr
    · rename_i h4
      have hr1 := of_not_not h4
      obtain ⟨hc, hi, hlen⟩ := hT hr1
      obtain ⟨⟨k0, _, a⟩, _⟩ := asn1_check_tag_ok hr1
      split at hd
      · split at hd
        · cases hd
          simp at hr
        · cases hd
          simp at hr
      · split at hd
        · split at hd
          · cases hd
            simp at hr
          · cases hd
            simp at hr
        · rw [hc, hi] at hd
          exact asn1_d2i_ex_primitive_content_whole env pval cbs _ _ false _ it a hlen
            (Or.inl rfl) hd hr

/-! ## The cursor after a failure -/

/-- The D2I_POST callback of the item, if it has one, does not fail. -/
def PostOk (it : ASN1_ITEM) : Prop := ∀ v, run_asn1_cb it ASN1_OP_D2I_POST v ≠ none

/-- No D2I_POST callback of an item of the descriptor table fails. -/
def PostCallbacksSucceed (env : Env) : Prop := ∀ k, PostOk (env.item k)

/-- Whatever the item decoder `d2i` returns other than success, it leaves
the caller's cursor where it was, for an item whose D2I_POST callback does
not fail. -/
def ItemDec.Keeps (d2i : ItemDec) : Prop :=
  ∀ pval (cbs : CBS) (it : ASN1_ITEM) tag cls opt depth r, PostOk it →
    d2i pval cbs it tag cls opt depth = some r → r.ret ≠ 1 → r.cbs = cbs

/-- Whatever the template decoder `tdec` returns other than success, it
leaves the caller's cursor where it was. -/
def TemplateDec.Keeps (tdec : TemplateDec) : Prop :=
  ∀ pval (cbs : CBS) tt opt depth r,
    tdec pval cbs tt opt depth = some r → r.ret ≠ 1 → r.cbs = cbs

theorem primitive_content_finish_keeps (env : Env) (pval : ASN1_VALUE) (cbs x content : CBS)
    (utype : Int) (it : ASN1_ITEM)
    (hr : (primitive_content_finish env pval cbs x content utype it).ret ≠ 1) :
    (primitive_content_finish env pval cbs x content utype it).cbs = cbs := by
  unfold primitive_content_finish at hr ⊢
  split
  · rfl
  · rename_i h0
    rw [if_neg h0] at hr
    split
    · rfl
    · rename_i c1 hc1
      rw [hc1] at hr
      exact absurd rfl hr

theorem asn1_d2i_ex_primitive_content_keeps {env : Env} {pval : ASN1_VALUE} {cbs x : CBS}
    {utype : Int} {constructed indefinite : Bool} {length : Nat} {it : ASN1_ITEM} {r : Out}
    (h : asn1_d2i_ex_primitive_content env pval cbs x utype constructed indefinite length it
      = some r) (hr : r.ret ≠ 1) : r.cbs = cbs := by
  unfold asn1_d2i_ex_primitive_content at h
  repeat' split at h
  all_goals first
    | (cases h; done)
    | (cases h; rfl)
    | (cases h; exact primitive_content_finish_keeps _ _ _ _ _ _ _ hr)

theorem asn1_d2i_ex_any_keeps {env : Env} {pval : ASN1_VALUE} {cbs : CBS} {it : ASN1_ITEM}
    {tag cls : Int} {opt : Bool} {r : Out}
    (h : asn1_d2i_ex_any env pval cbs it tag cls opt = some r) (hr : r.ret ≠ 1) :
    r.cbs = cbs := by
  unfold asn1_d2i_ex_any at h
  repeat' split at h
  all_goals first
    | (cases h; rfl)
    | exact asn1_d2i_ex_primitive_content_keeps h hr

theorem asn1_d2i_ex_mstring_keeps {env : Env} {pval : ASN1_VALUE} {cbs : CBS} {it : ASN1_ITEM}
    {tag cls : Int} {opt : Bool} {r : Out}
    (h : asn1_d2i_ex_mstring env pval cbs it tag cls opt = some r) (hr : r.ret ≠ 1) :
    r.cbs = cbs := by
  unfold asn1_d2i_ex_mstring at h
  repeat' split at h
  all_goals first
    | (cases h; rfl)
    | exact asn1_d2i_ex_primitive_content_keeps h hr

theorem asn1_d2i_ex_primitive_keeps {env : Env} {pval : ASN1_VALUE} {cbs : CBS}
    {it : ASN1_ITEM} {tag cls : Int} {opt : Bool} {r : Out}
    (h : asn1_d2i_ex_primitive env pval cbs it tag cls opt = some r) (hr : r.ret ≠ 1) :
    r.cbs = cbs := by
  unfold asn1_d2i_ex_primitive at h
  repeat' split at h
  all_goals first
    | (cases h; rfl)
    | exact asn1_d2i_ex_any_keeps h hr
    | exact asn1_d2i_ex_primitive_content_keeps h hr

theorem stack_of_body_keeps {d2i : ItemDec} {env : Env} {cbs x content : CBS}
    {tt : ASN1_TEMPLATE} {indefinite : Bool} {depth : Int} {r : Out}
    (h : stack_of_body d2i env cbs x content tt indefinite depth = some r) (hr : r.ret ≠ 1) :
    r.cbs = cbs := by
  unfold stack_of_body at h
  repeat' split at h
  all_goals first
    | (cases h; done)
    | (cases h; rfl)
    | (cases h; exact absurd rfl hr)

theorem asn1_template_stack_of_d2i_keeps {d2i : ItemDec} {env : Env}
    {pval : Option ASN1_VALUE} {cbs : CBS} {tt : ASN1_TEMPLATE} {opt : Bool} {depth : Int}
    {r : Out} (h : asn1_template_stack_of_d2i d2i env pval cbs tt opt depth = some r)
    (hr : r.ret ≠ 1) : r.cbs = cbs := by
  unfold asn1_template_stack_of_d2i at h
  repeat' split at h
  all_goals first
    | (cases h; rfl)
    | exact stack_of_body_keeps h hr

theorem asn1_template_noexp_d2i_keeps {d2i : ItemDec} (hd : ItemDec.Keeps d2i) {env : Env}
    (hp : PostCallbacksSucceed env) {pval : Option ASN1_VALUE} {cbs : CBS}
    {tt : ASN1_TEMPLATE} {opt : Bool} {depth : Int} {r : Out}
    (h : asn1_template_noexp_d2i d2i env pval cbs tt opt depth = some r) (hr : r.ret ≠ 1) :
    r.cbs = cbs := by
  unfold asn1_template_noexp_d2i at h
  split at h
  · cases h; rfl
  · split at h
    · exact asn1_template_stack_of_d2i_keeps h hr
    · split at h
      · cases h
      · rename_i r1 hr1
        have hk := hd _ _ _ _ _ _ _ _ (hp tt.item) hr1
        split at h
        · rename_i h1
          cases h
          exact hk (by rw [h1]; decide)
        · split at h
          · rename_i h2
            cases h
            exact hk h2
          · cases h
            exact absurd rfl hr

theorem template_explicit_body_keeps {d2i : ItemDec} {env : Env} {v : ASN1_VALUE}
    {cbs x content : CBS} {tt : ASN1_TEMPLATE} {indefinite : Bool} {depth : Int} {r : Out}
    (h : template_explicit_body d2i env v cbs x content tt indefinite depth = some r)
    (hr : r.ret ≠ 1) : r.cbs = cbs := by
  unfold template_explicit_body at h
  repeat' split at h
  all_goals first
    | (cases h; done)
    | (cases h; rfl)
    | (cases h; exact absurd rfl hr)

theorem asn1_template_ex_d2i_keeps {d2i : ItemDec} (hd : ItemDec.Keeps d2i) {env : Env}
    (hp : PostCallbacksSucceed env) : TemplateDec.Keeps (asn1_template_ex_d2i d2i env) := by
  intro pval cbs tt opt depth r h hr
  unfold asn1_template_ex_d2i at h
  split at h
  · cases h; rfl
  · split at h
    · exact asn1_template_noexp_d2i_keeps hd hp h hr
    · repeat' split at h
      all_goals first
        | (cases h; rfl)
        | exact template_explicit_body_keeps h hr

theorem choice_fields_keeps {tdec : TemplateDec} (ht : TemplateDec.Keeps tdec) {depth : Int} :
    ∀ (tts : List ASN1_TEMPLATE) (i : Nat) (a : ASN1_VALUE) (c : CBS) (e : List ASN1_R)
      (l : Out), choice_fields tdec depth tts i a c e = some l → l.ret ≠ 1 → l.cbs = c
  | [], i, a, c, e, l, h, _ => by
    rw [choice_fields_nil] at h
    cases h
    rfl
  | tt :: rest, i, a, c, e, l, h, hl => by
    rw [choice_fields_cons] at h
    cases htd : tdec (some (asn1_get_field a tt)) c tt true depth with
    | none => simp [htd] at h
    | some r =>
      simp only [htd] at h
      have hk := ht _ _ _ _ _ _ htd
      split at h
      · rename_i h1
        have hc := hk (by rw [h1]; decide)
        rw [hc] at h
        exact choice_fields_keeps ht rest _ _ c _ l h hl
      · split at h
        · rename_i h2
          cases h
          exact hk h2
        · cases h
          exact absurd rfl hl

theorem asn1_item_ex_d2i_choice_keeps {tdec : TemplateDec} (ht : TemplateDec.Keeps tdec)
    {pval : ASN1_VALUE} {cbs : CBS} {it : ASN1_ITEM} (hp : PostOk it) {tag cls : Int}
    {opt : Bool} {depth : Int} {r : Out}
    (h : asn1_item_ex_d2i_choice tdec pval cbs it tag cls opt depth = some r)
    (hr : r.ret ≠ 1) : r.cbs = cbs := by
  unfold asn1_item_ex_d2i_choice at h
  split at h
  · cases h; rfl
  · split at h
    · cases h; rfl
    · split at h
      · cases h; rfl
      · split at h
        · cases h; rfl
        · split at h
          · cases h
          · rename_i l hl
            have hk := choice_fields_keeps ht _ _ _ _ _ l hl
            split at h
            · rename_i h0
              cases h
              exact hk (by rw [h0]; decide)
            · split at h
              · rename_i h1
                split at h
                · cases h
                  exact hk (by rw [h1]; decide)
                · cases h
                  exact hk (by rw [h1]; decide)
              · split at h
                · rename_i hcb
                  exact absurd hcb (hp _)
                · cases h
                  exact absurd rfl hr

theorem sequence_publish_keeps (env : Env) (cbs x : CBS) (it : ASN1_ITEM) (hp : PostOk it)
    (l : SeqLoopOut) (hr : (sequence_publish env cbs x it l).ret ≠ 1) :
    (sequence_publish env cbs x it l).cbs = cbs := by
  unfold sequence_publish at hr ⊢
  split
  · rfl
  · rename_i h0
    rw [if_neg h0] at hr
    split
    · rfl
    · rename_i cbs_object cbs1 hg
      rw [hg] at hr
      simp only at hr ⊢
      cases hs : asn1_enc_save (sequence_missing env (it.templates.drop l.i) l.aseq).aseq
          cbs_object.data with
      | none =>
        exfalso
        unfold asn1_enc_save at hs
        split at hs <;> cases hs
      | some aseq1 =>
        rw [hs] at hr
        simp only at hr ⊢
        cases hcb : run_asn1_cb it ASN1_OP_D2I_POST aseq1 with
        | none => exact absurd hcb (hp _)
        | some aseq2 =>
          rw [hcb] at hr
          exact absurd rfl hr

theorem sequence_finish_keeps (env : Env) (cbs x : CBS) (it : ASN1_ITEM) (hp : PostOk it)
    (indefinite : Bool) (l : SeqLoopOut)
    (hr : (sequence_finish env cbs x it indefinite l).ret ≠ 1) :
    (sequence_finish env cbs x it indefinite l).cbs = cbs := by
  unfold sequence_finish at hr ⊢
  split
  · rename_i hi
    rw [if_pos hi] at hr
    split
    · rfl
    · rename_i x1 hx1
      rw [hx1] at hr
      exact sequence_publish_keeps env cbs x1 it hp l hr
  · rename_i hi
    rw [if_neg hi] at hr
    split
    · rfl
    · rename_i h2
      rw [if_neg h2] at hr
      exact sequence_publish_keeps env cbs x it hp l hr

theorem sequence_body_keeps {env : Env} {tdec : TemplateDec} {cbs x content : CBS}
    {it : ASN1_ITEM} (hp : PostOk it) {indefinite : Bool} {depth : Int} {r : Out}
    (h : sequence_body env tdec cbs x content it indefinite depth = some r) (hr : r.ret ≠ 1) :
    r.cbs = cbs := by
  unfold sequence_body at h
  repeat' split at h
  all_goals first
    | (cases h; done)
    | (cases h; rfl)
    | (cases h; exact sequence_finish_keeps _ _ _ _ hp _ _ hr)

theorem asn1_item_ex_d2i_sequence_keeps {env : Env} {tdec : TemplateDec} {pval : ASN1_VALUE}
    {cbs : CBS} {it : ASN1_ITEM} (hp : PostOk it) {tag cls : Int} {opt : Bool} {depth : Int}
    {r : Out} (h : asn1_item_ex_d2i_sequence env tdec pval cbs it tag cls opt depth = some r)
    (hr : r.ret ≠ 1) : r.cbs = cbs := by
  unfold asn1_item_ex_d2i_sequence at h
  repeat' split at h
  all_goals first
    | (cases h; rfl)
    | exact sequence_body_keeps hp h hr

theorem extern_item_d2i_keeps (v : ASN1_VALUE) (cbs : CBS) (it : ASN1_ITEM) (tag cls : Int)
    (opt : Bool) (hr : (extern_item_d2i v cbs it tag cls opt).ret ≠ 1) :
    (extern_item_d2i v cbs it tag cls opt).cbs = cbs := by
  unfold extern_item_d2i at hr ⊢
  repeat' split
  all_goals first
    | rfl
    | simp_all

theorem asn1_item_ex_d2i_keeps {env : Env} (hp : PostCallbacksSucceed env) :
    ∀ fuel : Nat, ItemDec.Keeps (asn1_item_ex_d2i env fuel)
  | 0 => by
    intro pval cbs it tag cls opt depth r _ h
    simp [asn1_item_ex_d2i] at h
  | fuel + 1 => by
    have ih := asn1_item_ex_d2i_keeps hp fuel
    have iht := asn1_template_ex_d2i_keeps ih hp
    intro pval cbs it tag cls opt depth r hpi h hr
    rw [asn1_item_ex_d2i] at h
    simp only at h
    split at h
    · cases h; rfl
    · split at h
      · cases h; rfl
      · split at h
        · split at h
          · split at h
            · cases h; rfl
            · exact iht _ _ _ _ _ _ h hr
          · exact asn1_d2i_ex_primitive_keeps h hr
        · split at h
          · exact asn1_d2i_ex_mstring_keeps h hr
          · split at h
            · cases h
              exact extern_item_d2i_keeps _ _ _ _ _ _ hr
            · split at h
              · exact asn1_item_ex_d2i_choice_keeps iht hpi h hr
              · split at h
                · exact asn1_item_ex_d2i_sequence_keeps hpi h hr
                · cases h; rfl

/-! ## The claims -/

/-- C1, the code at the failing input. Against the OCTET STRING item the five
bytes `24 00 04 01 41` begin with the header of a constructed string of
definite content length 0, which ends after 2 bytes and is followed by
three more bytes. `ASN1_item_ex_d2i` returns 1, collects the byte `41` of
the object that follows and advances the caller's input pointer by 5. -/
theorem C1_constructed_string_reads_past_declared_length :
    (asn1_check_tag (CBS_init [0x24, 0x00, 0x04, 0x01, 0x41]) V_ASN1_OCTET_STRING
        V_ASN1_UNIVERSAL false
      = ⟨1, ⟨[0x04, 0x01, 0x41], 5⟩, 0, 4, 0, false, true, []⟩) ∧
    ASN1_item_ex_d2i scenarioEnv (some ASN1_VALUE.null) [0x24, 0x00, 0x04, 0x01, 0x41] 5
        (scenarioItems 7) (-1) 0 false
      = some ⟨1, ASN1_VALUE.string V_ASN1_OCTET_STRING [0x41], 5, []⟩ :=
  ⟨by decide, by rfl⟩

/-- The 31 nested indefinite-length SEQUENCE headers `30 80`. -/
def nested31 : List UInt8 := (List.replicate 31 [0x30, 0x80]).flatten

/-- The 30 nested indefinite-length SEQUENCE headers `30 80` closed by 30
end-of-contents markers `00 00`. -/
def nested30 : List UInt8 :=
  (List.replicate 30 [0x30, 0x80]).flatten ++ (List.replicate 30 [0x00, 0x00]).flatten

set_option maxRecDepth 1000000 in
/-- C3. Called with a non-null value slot at depth `d ≥ 30`,
`asn1_item_ex_d2i` returns 0 with NESTED_TOO_DEEP and the cursor where it
was, for every item and every input. At depth `d < 30` the guard does not
fire: the call is the call of the decoder of the item's kind at depth
`d + 1`. Decoding from depth 0 against the SEQUENCE whose single OPTIONAL
field is the same SEQUENCE, 31 nested indefinite-length headers fail with
NESTED_TOO_DEEP as the first error and nothing consumed, and 30 nested
headers closed by 30 end-of-contents markers decode, all 120 bytes
consumed. -/
theorem C3_depth_guard :
    (∀ (env : Env) (fuel : Nat) (v : ASN1_VALUE) (cbs : CBS) (it : ASN1_ITEM) (tag cls : Int)
        (opt : Bool) (d : Int), 30 ≤ d →
      asn1_item_ex_d2i env (fuel + 1) (some v) cbs it tag cls opt d
        = some ⟨0, ASN1_VALUE.null, cbs, [ASN1_R.NESTED_TOO_DEEP]⟩) ∧
    (∀ (env : Env) (fuel : Nat) (v : ASN1_VALUE) (cbs : CBS) (it : ASN1_ITEM) (tag cls : Int)
        (opt : Bool) (d : Int), d < 30 →
      (it.itype = ASN1_ITYPE_PRIMITIVE → it.templates = [] →
        asn1_item_ex_d2i env (fuel + 1) (some v) cbs it tag cls opt d
          = asn1_d2i_ex_primitive env v cbs it tag cls opt) ∧
      (it.itype = ASN1_ITYPE_MSTRING →
        asn1_item_ex_d2i env (fuel + 1) (some v) cbs it tag cls opt d
          = asn1_d2i_ex_mstring env v cbs it tag cls opt) ∧
      (it.itype = ASN1_ITYPE_EXTERN →
        asn1_item_ex_d2i env (fuel + 1) (some v) cbs it tag cls opt d
          = some (extern_item_d2i v cbs it tag cls opt)) ∧
      (it.itype = ASN1_ITYPE_CHOICE →
        asn1_item_ex_d2i env (fuel + 1) (some v) cbs it tag cls opt d
          = asn1_item_ex_d2i_choice (asn1_template_ex_d2i (asn1_item_ex_d2i env fuel) env)
              v cbs it tag cls opt (d + 1)) ∧
      (it.itype = ASN1_ITYPE_SEQUENCE ∨ it.itype = ASN1_ITYPE_NDEF_SEQUENCE →
        asn1_item_ex_d2i env (fuel + 1) (some v) cbs it tag cls opt d
          = asn1_item_ex_d2i_sequence env
              (asn1_template_ex_d2i (asn1_item_ex_d2i env fuel) env)
              v cbs it tag cls opt (d + 1))) ∧
    ((ASN1_item_ex_d2i scenarioEnv (some ASN1_VALUE.null) nested31 62 (scenarioItems 5)
        (-1) 0 false).map (fun r => (r.ret, r.advanced, r.errs.head?))
      = some (0, 0, some ASN1_R.NESTED_TOO_DEEP)) ∧
    ((ASN1_item_ex_d2i scenarioEnv (some ASN1_VALUE.null) nested30 120 (scenarioItems 5)
        (-1) 0 false).map (fun r => (r.ret, r.advanced, r.errs))
      = some (1, 120, [])) := by
  refine ⟨?_, ?_, by decide, by decide⟩
  · intro env fuel v cbs it tag cls opt d hd
    unfold asn1_item_ex_d2i
    have : d + 1 > ASN1_MAX_CONSTRUCTED_NEST := by
      simp only [ASN1_MAX_CONSTRUCTED_NEST]; omega
    simp [this]
  · intro env fuel v cbs it tag cls opt d hd
    have hg : ¬ (d + 1 > ASN1_MAX_CONSTRUCTED_NEST) := by
      simp only [ASN1_MAX_CONSTRUCTED_NEST]; omega
    refine ⟨?_, ?_, ?_, ?_, ?_⟩
    · intro h1 h2
      rw [asn1_item_ex_d2i]
      simp [hg, h1, h2]
    · intro h1
      rw [asn1_item_ex_d2i]
      simp [hg, h1, ASN1_ITYPE_MSTRING, ASN1_ITYPE_PRIMITIVE]
    · intro h1
      rw [asn1_item_ex_d2i]
      simp [hg, h1, ASN1_ITYPE_MSTRING, ASN1_ITYPE_PRIMITIVE, ASN1_ITYPE_EXTERN]
    · intro h1
      rw [asn1_item_ex_d2i]
      simp [hg, h1, ASN1_ITYPE_MSTRING, ASN1_ITYPE_PRIMITIVE, ASN1_ITYPE_EXTERN,
        ASN1_ITYPE_CHOICE]
    · intro h1
      rw [asn1_item_ex_d2i]
      rcases h1 with h1 | h1 <;>
      simp [hg, h1, ASN1_ITYPE_MSTRING, ASN1_ITYPE_PRIMITIVE, ASN1_ITYPE_EXTERN,
        ASN1_ITYPE_CHOICE, ASN1_ITYPE_SEQUENCE, ASN1_ITYPE_NDEF_SEQUENCE]

/-- C6. The CHOICE loop `choice_fields` tries the fields in declaration
order, each with optional = true, and is decided by the first field whose
decode is not absent: the fields split into those before it, each tried and
absent, the field itself, and the fields after it, which are not tried; if
that field succeeds the selector stored is its index, if it fails hard the
loop fails. If the loop falls off the end every field was tried and absent.
`asn1_item_ex_d2i_choice` (no IMPLICIT tag, pre callback passed) succeeds
with the loop's value when a field succeeded (and the post callback, if
any, passes), fails when a field failed hard, and when every field is
absent returns absent if the CHOICE is optional and fails with
NO_MATCHING_CHOICE_TYPE otherwise. For CHOICE {INTEGER, UTF8STRING},
`0C 03 66 6F 6F` selects index 1 with content `66 6F 6F`, and `05 00` fails
with NO_MATCHING_CHOICE_TYPE. -/
theorem C6_choice_first_present_field :
    (∀ (tdec : TemplateDec) (depth : Int) (tts : List ASN1_TEMPLATE) (s : Int)
        (fs : List ASN1_VALUE) (enc : Option (List UInt8)) (c : CBS) (e : List ASN1_R)
        (l : Out),
      choice_fields tdec depth tts 0 (ASN1_VALUE.aggregate s fs enc) c e = some l →
      (l.ret = -1 ∧
        ∀ pre tt rest, tts = pre ++ tt :: rest →
          ∃ A c1 e1 r,
            choice_fields tdec depth pre 0 (ASN1_VALUE.aggregate s fs enc) c e
              = some ⟨-1, A, c1, e1⟩ ∧
            tdec (some (asn1_get_field A tt)) c1 tt true depth = some r ∧ r.ret = -1) ∨
      (∃ pre tt rest A c1 e1 r, tts = pre ++ tt :: rest ∧
        choice_fields tdec depth pre 0 (ASN1_VALUE.aggregate s fs enc) c e
          = some ⟨-1, A, c1, e1⟩ ∧
        tdec (some (asn1_get_field A tt)) c1 tt true depth = some r ∧ r.ret ≠ -1 ∧
        (r.ret = 1 →
          l = ⟨1, asn1_set_choice_selector (asn1_set_field A tt r.pval) pre.length, r.cbs,
            e1 ++ r.errs⟩ ∧
          l.pval.selector = some (pre.length : Int)) ∧
        (r.ret ≠ 1 →
          l = ⟨0, asn1_set_field A tt r.pval, r.cbs,
            e1 ++ r.errs ++ [ASN1_R.NESTED_ASN1_ERROR]⟩))) ∧
    (∀ (tdec : TemplateDec) (pval : ASN1_VALUE) (cbs : CBS) (it : ASN1_ITEM) (cls : Int)
        (opt : Bool) (depth : Int) (a1 : ASN1_VALUE) (l : Out),
      it.itype = ASN1_ITYPE_CHOICE →
      run_asn1_cb it ASN1_OP_D2I_PRE
        (ASN1_VALUE.aggregate (-1) (List.replicate it.size ASN1_VALUE.null) none) = some a1 →
      choice_fields tdec depth it.templates 0 a1 cbs [] = some l →
      (l.ret = 1 → ∀ a2, run_asn1_cb it ASN1_OP_D2I_POST l.pval = some a2 →
        asn1_item_ex_d2i_choice tdec pval cbs it (-1) cls opt depth
          = some ⟨1, a2, l.cbs, l.errs⟩) ∧
      (l.ret = 0 →
        asn1_item_ex_d2i_choice tdec pval cbs it (-1) cls opt depth
          = some ⟨0, ASN1_VALUE.null, l.cbs, l.errs⟩) ∧
      (l.ret = -1 → opt = true →
        asn1_item_ex_d2i_choice tdec pval cbs it (-1) cls opt depth
          = some ⟨-1, ASN1_VALUE.null, l.cbs, l.errs⟩) ∧
      (l.ret = -1 → opt = false →
        asn1_item_ex_d2i_choice tdec pval cbs it (-1) cls opt depth
          = some ⟨0, ASN1_VALUE.null, l.cbs,
              l.errs ++ [ASN1_R.NO_MATCHING_CHOICE_TYPE]⟩)) ∧
    (ASN1_item_ex_d2i scenarioEnv (some ASN1_VALUE.null) [0x0C, 0x03, 0x66, 0x6F, 0x6F] 5
        (scenarioItems 3) (-1) 0 false
      = some ⟨1, ASN1_VALUE.aggregate 1 [ASN1_VALUE.string V_ASN1_UTF8STRING [0x66, 0x6F, 0x6F]]
          none, 5, []⟩) ∧
    (ASN1_item_ex_d2i scenarioEnv (some ASN1_VALUE.null) [0x05, 0x00] 2
        (scenarioItems 3) (-1) 0 false
      = some ⟨0, ASN1_VALUE.null, 0, [ASN1_R.NO_MATCHING_CHOICE_TYPE]⟩) := by
  refine ⟨?_, ?_, by rfl, by rfl⟩
  · intro tdec depth tts s fs enc c e l h
    rcases choice_fields_first_present tts 0 _ c e l h with h1 | h1
    · exact Or.inl ⟨h1, choice_fields_all_absent tts 0 _ c e l h h1⟩
    · obtain ⟨pre, tt, rest, A, c1, e1, r, h2, h3, h4, h5, h6⟩ := h1
      refine Or.inr ⟨pre, tt, rest, A, c1, e1, r, h2, h3, h4, h5, ?_, ?_⟩
      · intro hr
        simp only [hr, if_true, Nat.cast_zero, zero_add] at h6
        refine ⟨h6, ?_⟩
        obtain ⟨s1, fs1, hA, _, _⟩ := choice_fields_aggregate pre 0 s fs enc c e _ h3
        simp only at hA
        rw [h6, hA]
        rfl
      · intro hr
        simpa only [hr, if_false] using h6
  · intro tdec pval cbs it cls opt depth a1 l hit hpre hl
    refine ⟨?_, ?_, ?_, ?_⟩
    · intro h1 a2 h2
      unfold asn1_item_ex_d2i_choice
      simp [hit, ASN1_item_ex_new, hpre, hl, h1, h2]
    · intro h1
      unfold asn1_item_ex_d2i_choice
      simp [hit, ASN1_item_ex_new, hpre, hl, h1]
    · intro h1 h2
      unfold asn1_item_ex_d2i_choice
      simp [hit, ASN1_item_ex_new, hpre, hl, h1, h2]
    · intro h1 h2
      unfold asn1_item_ex_d2i_choice
      simp [hit, ASN1_item_ex_new, hpre, hl, h1, h2]

/-- C7. When `asn1_template_stack_of_d2i` succeeds on a SET OF / SEQUENCE OF
field, the header was read, and the container holds exactly the values of
the element encodings found one after the other in the content, in the
order met: the i-th element is the decode of the item at the place where
the (i-1)-th ended, with no tag override and optional = 0; the elements
end where the definite content ends or at the end-of-contents marker of
indefinite content. The loop does not depend on the SET OF flag, so nothing
about the order of SET OF elements is checked; a SET OF INTEGER holding 2
before 1 decodes to [2, 1]. For SEQUENCE OF INTEGER the input
`30 80 02 01 01 02 01 02 00 00` yields [1, 2] and consumes all 10 bytes. -/
theorem C7_stack_of_elements_in_order :
    (∀ (d2i : ItemDec) (env : Env) (v : ASN1_VALUE) (cbs : CBS) (tt : ASN1_TEMPLATE)
        (opt : Bool) (depth : Int) (r : Out),
      asn1_template_stack_of_d2i d2i env (some v) cbs tt opt depth = some r → r.ret = 1 →
      (asn1_check_tag (CBS_init cbs.data) (stack_of_tag_number tt) (stack_of_tag_class tt)
        opt).ret = 1 ∧
      ∃ rs c1,
        ElemChain d2i (env.item tt.item) depth
          (CBS_init
            (if (asn1_check_tag (CBS_init cbs.data) (stack_of_tag_number tt)
                (stack_of_tag_class tt) opt).indefinite
              then (asn1_check_tag (CBS_init cbs.data) (stack_of_tag_number tt)
                (stack_of_tag_class tt) opt).cbs.data
              else (asn1_check_tag (CBS_init cbs.data) (stack_of_tag_number tt)
                (stack_of_tag_class tt) opt).cbs.data.take
                  (asn1_check_tag (CBS_init cbs.data) (stack_of_tag_number tt)
                    (stack_of_tag_class tt) opt).len))
          rs c1 ∧
        r.pval = ASN1_VALUE.stack (rs.map (fun e => e.pval)) ∧
        (if (asn1_check_tag (CBS_init cbs.data) (stack_of_tag_number tt)
              (stack_of_tag_class tt) opt).indefinite
          then ∃ c2, asn1_check_eoc c1 = some c2 else CBS_len c1 = 0)) ∧
    (∀ (d2i : ItemDec) (env : Env) (cbs x content : CBS) (tt tt1 : ASN1_TEMPLATE)
        (indefinite : Bool) (depth : Int), tt.item = tt1.item →
      stack_of_body d2i env cbs x content tt indefinite depth
        = stack_of_body d2i env cbs x content tt1 indefinite depth) ∧
    (ASN1_item_ex_d2i scenarioEnv (some ASN1_VALUE.null)
        [0x31, 0x06, 0x02, 0x01, 0x02, 0x02, 0x01, 0x01] 8 (scenarioItems 11) (-1) 0 false
      = some ⟨1, ASN1_VALUE.stack [ASN1_VALUE.string V_ASN1_INTEGER [2],
          ASN1_VALUE.string V_ASN1_INTEGER [1]], 8, []⟩) ∧
    (ASN1_item_ex_d2i scenarioEnv (some ASN1_VALUE.null)
        [0x30, 0x80, 0x02, 0x01, 0x01, 0x02, 0x01, 0x02, 0x00, 0x00] 10 (scenarioItems 6)
        (-1) 0 false
      = some ⟨1, ASN1_VALUE.stack [ASN1_VALUE.string V_ASN1_INTEGER [1],
          ASN1_VALUE.string V_ASN1_INTEGER [2]], 10, []⟩) := by
  refine ⟨?_, ?_, by rfl, by rfl⟩
  · intro d2i env v cbs tt opt depth r h hr
    unfold asn1_template_stack_of_d2i at h
    simp only at h
    split at h
    · cases h
      simp at hr
    · split at h
      · cases h
        simp at hr
      · rename_i h1
        have h1 := of_not_not h1
        refine ⟨h1, ?_⟩
        split at h
        · rename_i hi
          obtain ⟨rs, c1, h2, h3, h4⟩ := stack_of_body_chain h hr
          refine ⟨rs, c1, ?_, h3, ?_⟩
          · simpa only [hi, if_true] using h2
          · simpa only [hi, if_true] using h4
        · rename_i hi
          split at h
          · cases h
            simp at hr
          · rename_i content x hg
            obtain ⟨_, hc⟩ := CBS_get_bytes_advanced hg
            obtain ⟨rs, c1, h2, h3, h4⟩ := stack_of_body_chain h hr
            refine ⟨rs, c1, ?_, h3, ?_⟩
            · simp only [hi, Bool.false_eq_true, if_false]
              rw [← hc]
              exact h2
            · simp only [hi, Bool.false_eq_true, if_false]
              simpa using h4
  · intro d2i env cbs x content tt tt1 indefinite depth h
    unfold stack_of_body
    rw [h]

/-- C8. In optional mode, whenever the input starts with a well-formed
identifier whose (tag number, class) differs from the expected pair, the
decode returns absent (-1), pushes no error and leaves the caller's cursor
where it was: for a primitive item with an expected pair (not ANY), for a
SEQUENCE item, for a SET OF / SEQUENCE OF field and for an EXPLICIT-tagged
field; and so for `asn1_item_ex_d2i` on a primitive or SEQUENCE item at any
depth below 30. -/
theorem C8_optional_tag_mismatch_is_absent :
    (∀ (env : Env) (pval : ASN1_VALUE) (cbs : CBS) (it : ASN1_ITEM) (tag cls : Int)
        (id : IdentOut),
      it.itype ≠ ASN1_ITYPE_MSTRING → it.utype ≠ V_ASN1_ANY →
      asn1_get_identifier_cbs (CBS_init cbs.data) = some id →
      0 ≤ (if tag = -1 then it.utype else tag) →
      ((if tag = -1 then it.utype else tag) ≠ (id.tag_number : Int) ∨
        (if tag = -1 then V_ASN1_UNIVERSAL else cls) ≠ ((id.tag_class <<< 6 : Nat) : Int)) →
      asn1_d2i_ex_primitive env pval cbs it tag cls true = some ⟨-1, pval, cbs, []⟩) ∧
    (∀ (env : Env) (tdec : TemplateDec) (pval : ASN1_VALUE) (cbs : CBS) (it : ASN1_ITEM)
        (tag cls : Int) (depth : Int) (id : IdentOut),
      it.itype = ASN1_ITYPE_SEQUENCE ∨ it.itype = ASN1_ITYPE_NDEF_SEQUENCE →
      asn1_get_identifier_cbs (CBS_init cbs.data) = some id →
      0 ≤ (if tag = -1 then V_ASN1_SEQUENCE else tag) →
      ((if tag = -1 then V_ASN1_SEQUENCE else tag) ≠ (id.tag_number : Int) ∨
        (if tag = -1 then V_ASN1_UNIVERSAL else cls) ≠ ((id.tag_class <<< 6 : Nat) : Int)) →
      asn1_item_ex_d2i_sequence env tdec pval cbs it tag cls true depth
        = some ⟨-1, ASN1_VALUE.null, cbs, []⟩) ∧
    (∀ (d2i : ItemDec) (env : Env) (v : ASN1_VALUE) (cbs : CBS) (tt : ASN1_TEMPLATE)
        (depth : Int) (id : IdentOut),
      asn1_get_identifier_cbs (CBS_init cbs.data) = some id →
      0 ≤ stack_of_tag_number tt →
      (stack_of_tag_number tt ≠ (id.tag_number : Int) ∨
        stack_of_tag_class tt ≠ ((id.tag_class <<< 6 : Nat) : Int)) →
      asn1_template_stack_of_d2i d2i env (some v) cbs tt true depth
        = some ⟨-1, ASN1_VALUE.null, cbs, []⟩) ∧
    (∀ (d2i : ItemDec) (env : Env) (v : ASN1_VALUE) (cbs : CBS) (tt : ASN1_TEMPLATE)
        (depth : Int) (id : IdentOut),
      tt.flags &&& ASN1_TFLG_EXPTAG ≠ 0 →
      asn1_get_identifier_cbs (CBS_init cbs.data) = some id →
      0 ≤ tt.tag →
      (tt.tag ≠ (id.tag_number : Int) ∨
        ((tt.flags &&& ASN1_TFLG_TAG_CLASS : Nat) : Int) ≠ ((id.tag_class <<< 6 : Nat) : Int)) →
      asn1_template_ex_d2i d2i env (some v) cbs tt true depth = some ⟨-1, v, cbs, []⟩) ∧
    (∀ (env : Env) (fuel : Nat) (v : ASN1_VALUE) (cbs : CBS) (it : ASN1_ITEM) (tag cls : Int)
        (d : Int) (id : IdentOut), d < 30 →
      asn1_get_identifier_cbs (CBS_init cbs.data) = some id →
      (it.itype = ASN1_ITYPE_PRIMITIVE → it.templates = [] → it.utype ≠ V_ASN1_ANY →
        0 ≤ (if tag = -1 then it.utype else tag) →
        ((if tag = -1 then it.utype else tag) ≠ (id.tag_number : Int) ∨
          (if tag = -1 then V_ASN1_UNIVERSAL else cls)
            ≠ ((id.tag_class <<< 6 : Nat) : Int)) →
        asn1_item_ex_d2i env (fuel + 1) (some v) cbs it tag cls true d
          = some ⟨-1, v, cbs, []⟩) ∧
      (it.itype = ASN1_ITYPE_SEQUENCE ∨ it.itype = ASN1_ITYPE_NDEF_SEQUENCE →
        0 ≤ (if tag = -1 then V_ASN1_SEQUENCE else tag) →
        ((if tag = -1 then V_ASN1_SEQUENCE else tag) ≠ (id.tag_number : Int) ∨
          (if tag = -1 then V_ASN1_UNIVERSAL else cls)
            ≠ ((id.tag_class <<< 6 : Nat) : Int)) →
        asn1_item_ex_d2i env (fuel + 1) (some v) cbs it tag cls true d
          = some ⟨-1, ASN1_VALUE.null, cbs, []⟩)) := by
  have hprim : ∀ (env : Env) (pval : ASN1_VALUE) (cbs : CBS) (it : ASN1_ITEM) (tag cls : Int)
      (id : IdentOut),
      it.itype ≠ ASN1_ITYPE_MSTRING → it.utype ≠ V_ASN1_ANY →
      asn1_get_identifier_cbs (CBS_init cbs.data) = some id →
      0 ≤ (if tag = -1 then it.utype else tag) →
      ((if tag = -1 then it.utype else tag) ≠ (id.tag_number : Int) ∨
        (if tag = -1 then V_ASN1_UNIVERSAL else cls) ≠ ((id.tag_class <<< 6 : Nat) : Int)) →
      asn1_d2i_ex_primitive env pval cbs it tag cls true = some ⟨-1, pval, cbs, []⟩ := by
    intro env pval cbs it tag cls id h1 h2 hid h0 hm
    unfold asn1_d2i_ex_primitive
    rw [asn1_check_tag_mismatch hid h0 hm]
    simp [h1, h2]
  have hseq : ∀ (env : Env) (tdec : TemplateDec) (pval : ASN1_VALUE) (cbs : CBS)
      (it : ASN1_ITEM) (tag cls : Int) (depth : Int) (id : IdentOut),
      it.itype = ASN1_ITYPE_SEQUENCE ∨ it.itype = ASN1_ITYPE_NDEF_SEQUENCE →
      asn1_get_identifier_cbs (CBS_init cbs.data) = some id →
      0 ≤ (if tag = -1 then V_ASN1_SEQUENCE else tag) →
      ((if tag = -1 then V_ASN1_SEQUENCE else tag) ≠ (id.tag_number : Int) ∨
        (if tag = -1 then V_ASN1_UNIVERSAL else cls) ≠ ((id.tag_class <<< 6 : Nat) : Int)) →
      asn1_item_ex_d2i_sequence env tdec pval cbs it tag cls true depth
        = some ⟨-1, ASN1_VALUE.null, cbs, []⟩ := by
    intro env tdec pval cbs it tag cls depth id h1 hid h0 hm
    unfold asn1_item_ex_d2i_sequence
    rw [asn1_check_tag_mismatch hid h0 hm]
    rcases h1 with h1 | h1 <;> simp [h1, ASN1_ITYPE_SEQUENCE, ASN1_ITYPE_NDEF_SEQUENCE]
  refine ⟨hprim, hseq, ?_, ?_, ?_⟩
  · intro d2i env v cbs tt depth id hid h0 hm
    unfold asn1_template_stack_of_d2i
    simp only
    rw [asn1_check_tag_mismatch hid h0 hm]
    simp
  · intro d2i env v cbs tt depth id hx hid h0 hm
    unfold asn1_template_ex_d2i
    simp only
    rw [asn1_check_tag_mismatch hid h0 hm]
    simp [hx]
  · intro env fuel v cbs it tag cls d id hd hid
    have hg : ¬ (d + 1 > ASN1_MAX_CONSTRUCTED_NEST) := by
      simp only [ASN1_MAX_CONSTRUCTED_NEST]; omega
    constructor
    · intro h1 h2 h3 h0 hm
      rw [asn1_item_ex_d2i]
      simp only [hg, if_false, h1, if_true, h2]
      exact hprim env v cbs it tag cls id (by rw [h1]; decide) h3 hid h0 hm
    · intro h1 h0 hm
      rw [asn1_item_ex_d2i]
      have := hseq env (asn1_template_ex_d2i (asn1_item_ex_d2i env fuel) env) v cbs it tag cls
        (d + 1) id h1 hid h0 hm
      rcases h1 with h1 | h1 <;>
      simp [hg, h1, ASN1_ITYPE_MSTRING, ASN1_ITYPE_PRIMITIVE, ASN1_ITYPE_EXTERN,
        ASN1_ITYPE_CHOICE, ASN1_ITYPE_SEQUENCE, ASN1_ITYPE_NDEF_SEQUENCE] <;>
      simpa [h1, ASN1_ITYPE_SEQUENCE, ASN1_ITYPE_NDEF_SEQUENCE] using this

/-- C10. For templates without ADB flags, the loop over the fields that
were not read succeeds exactly when each of them is OPTIONAL, in which case
each of them is absent (null) in the structure; otherwise it fails with
FIELD_MISSING. So a successful `asn1_item_ex_d2i_sequence` whose field loop
stopped at field index `l.i` has every field from `l.i` on OPTIONAL and
(when the item has no callback) absent in the result; and when the loop
stopped with the definite content exhausted, or with the closing marker of
indefinite content consumed, and a field from `l.i` on is not OPTIONAL, the
rest of the function fails with FIELD_MISSING. SEQUENCE {INTEGER, BOOLEAN} on `30 03 02 01 05` fails with
FIELD_MISSING; SEQUENCE {INTEGER, BOOLEAN OPTIONAL} on the same input
succeeds with the second field absent. -/
theorem C10_unread_fields_must_be_optional :
    (∀ (env : Env) (tts : List ASN1_TEMPLATE) (a : ASN1_VALUE), NoAdb tts →
      ((sequence_missing env tts a).ret = 1 ↔ ∀ t ∈ tts, t.flags &&& ASN1_TFLG_OPTIONAL ≠ 0) ∧
      ((sequence_missing env tts a).ret = 1 →
        ∀ t ∈ tts, asn1_get_field (sequence_missing env tts a).aseq t = ASN1_VALUE.null) ∧
      ((sequence_missing env tts a).ret ≠ 1 →
        (sequence_missing env tts a).ret = 0 ∧
        (sequence_missing env tts a).errs = [ASN1_R.FIELD_MISSING])) ∧
    (∀ (env : Env) (tdec : TemplateDec) (pval : ASN1_VALUE) (cbs : CBS) (it : ASN1_ITEM)
        (tag cls : Int) (opt : Bool) (depth : Int) (r : Out), NoAdb it.templates →
      asn1_item_ex_d2i_sequence env tdec pval cbs it tag cls opt depth = some r → r.ret = 1 →
      ∃ aseq1 content indefinite l,
        sequence_fields env tdec it depth indefinite it.templates 0 aseq1 content indefinite []
          = some l ∧ l.ret = 1 ∧
        (∀ t ∈ it.templates.drop l.i, t.flags &&& ASN1_TFLG_OPTIONAL ≠ 0) ∧
        (it.asn1_cb = none →
          ∀ t ∈ it.templates.drop l.i, asn1_get_field r.pval t = ASN1_VALUE.null)) ∧
    (∀ (env : Env) (cbs x : CBS) (it : ASN1_ITEM) (indefinite : Bool) (l : SeqLoopOut),
      NoAdb it.templates →
      (∃ t ∈ it.templates.drop l.i, t.flags &&& ASN1_TFLG_OPTIONAL = 0) →
      (if indefinite then CBS_offset l.cbs ≤ x.data.length else CBS_len l.cbs = 0) →
      sequence_finish env cbs x it indefinite l
        = ⟨0, ASN1_VALUE.null, cbs, l.errs ++ [ASN1_R.FIELD_MISSING]⟩) ∧
    (ASN1_item_ex_d2i scenarioEnv (some ASN1_VALUE.null) [0x30, 0x03, 0x02, 0x01, 0x05] 5
        (scenarioItems 4) (-1) 0 false
      = some ⟨0, ASN1_VALUE.null, 0, [ASN1_R.FIELD_MISSING]⟩) ∧
    (ASN1_item_ex_d2i scenarioEnv (some ASN1_VALUE.null) [0x30, 0x03, 0x02, 0x01, 0x05] 5
        (scenarioItems 10) (-1) 0 false
      = some ⟨1, ASN1_VALUE.aggregate (-1)
          [ASN1_VALUE.string V_ASN1_INTEGER [5], ASN1_VALUE.null]
          (some [0x30, 0x03, 0x02, 0x01, 0x05]), 5, []⟩) := by
  have hdrop : ∀ (it : ASN1_ITEM) (i : Nat), NoAdb it.templates → NoAdb (it.templates.drop i) :=
    fun it i h t ht => h t (List.mem_of_mem_drop ht)
  have hiff : ∀ (env : Env) (tts : List ASN1_TEMPLATE) (a : ASN1_VALUE), NoAdb tts →
      ((sequence_missing env tts a).ret = 1 ↔
        ∀ t ∈ tts, t.flags &&& ASN1_TFLG_OPTIONAL ≠ 0) := by
    intro env tts a hadb
    constructor
    · intro h1 t ht h0
      have := (sequence_missing_not_optional env tts a hadb ⟨t, ht, h0⟩).1
      omega
    · intro h
      exact (sequence_missing_all_optional env tts a hadb h).1
  refine ⟨?_, ?_, ?_, by rfl, by rfl⟩
  · intro env tts a hadb
    refine ⟨hiff env tts a hadb, ?_, ?_⟩
    · intro h1
      exact (sequence_missing_all_optional env tts a hadb ((hiff env tts a hadb).mp h1)).2.2
    · intro h1
      have hne : ¬ ∀ t ∈ tts, t.flags &&& ASN1_TFLG_OPTIONAL ≠ 0 :=
        fun h => h1 ((hiff env tts a hadb).mpr h)
      push_neg at hne
      exact sequence_missing_not_optional env tts a hadb hne
  · intro env tdec pval cbs it tag cls opt depth r hadb h hr
    obtain ⟨aseq1, content, indefinite, x, l, l2, h1, h2, h3, h4, _, h6⟩ :=
      asn1_item_ex_d2i_sequence_success h hr
    rw [h6] at hr
    obtain ⟨h7, h8⟩ := sequence_publish_success hr
    rw [h3, h4] at h7 h8
    refine ⟨aseq1, content, indefinite, l, h1, h2, ?_, ?_⟩
    · exact (hiff env _ _ (hdrop it l.i hadb)).mp h7
    · intro hcb t ht
      rw [h6, h8 hcb t]
      exact (sequence_missing_all_optional env _ _ (hdrop it l.i hadb)
        ((hiff env _ _ (hdrop it l.i hadb)).mp h7)).2.2 t ht
  · intro env cbs x it indefinite l hadb hex hend
    obtain ⟨h1, h2⟩ := sequence_missing_not_optional env _ l.aseq (hdrop it l.i hadb) hex
    unfold sequence_finish
    cases indefinite with
    | true =>
      simp only [if_true] at hend ⊢
      rw [CBS_skip_of_le x _ hend]
      simp only
      unfold sequence_publish
      simp only [h1, if_true, h2]
    | false =>
      simp only [Bool.false_eq_true, if_false] at hend ⊢
      simp only [hend, ne_eq, not_true_eq_false, if_false]
      unfold sequence_publish
      simp only [h1, if_true, h2]

/-- C9. In the field loop of `asn1_item_ex_d2i_sequence` the `optional`
argument of a field's decode is the field's OPTIONAL flag for every field
except the last, and false for the last field (index `tcount - 1`) whatever
its flag. Hence, for the decoder of the file and a descriptor table without
EXTERN items: when the fields before the last have been read, content
remains (not empty, not an end-of-contents marker) and the last field does
not match it (its decode in optional mode would report absent), the loop
ends with a hard error at the last field, and so does the SEQUENCE decode.
SEQUENCE {INTEGER, BOOLEAN OPTIONAL} on `30 05 02 01 05 05 00` fails with
WRONG_TAG although the BOOLEAN field decoded in optional mode on `05 00` is
absent. -/
theorem C9_last_field_is_never_optional :
    (∀ (it : ASN1_ITEM) (i : Nat) (tt : ASN1_TEMPLATE),
      ((i : Int) = (it.tcount : Int) - 1 → optional_field it i tt = false) ∧
      ((i : Int) ≠ (it.tcount : Int) - 1 →
        optional_field it i tt = decide (tt.flags &&& ASN1_TFLG_OPTIONAL ≠ 0))) ∧
    (∀ (env : Env) (tdec : TemplateDec) (it : ASN1_ITEM) (depth : Int) (indefinite : Bool)
        (tt : ASN1_TEMPLATE) (rest : List ASN1_TEMPLATE) (i : Nat) (aseq : ASN1_VALUE)
        (content : CBS) (eoc_needed : Bool) (errs : List ASN1_R),
      asn1_check_eoc content = none → CBS_len content ≠ 0 →
      tt.flags &&& ASN1_TFLG_ADB_MASK = 0 →
      sequence_fields env tdec it depth indefinite (tt :: rest) i aseq content eoc_needed errs =
        match tdec (some (asn1_get_field aseq tt)) content tt (optional_field it i tt) depth with
        | none => none
        | some r =>
          if r.ret = -1 then
            sequence_fields env tdec it depth indefinite rest (i + 1)
              (asn1_set_field aseq tt ASN1_VALUE.null) r.cbs eoc_needed (errs ++ r.errs)
          else if r.ret ≠ 1 then
            some ⟨0, i, asn1_set_field aseq tt r.pval, r.cbs, eoc_needed, errs ++ r.errs⟩
          else
            sequence_fields env tdec it depth indefinite rest (i + 1)
              (asn1_set_field aseq tt r.pval) r.cbs eoc_needed (errs ++ r.errs)) ∧
    (∀ (env : Env) (fuel : Nat) (it : ASN1_ITEM) (depth : Int) (indefinite : Bool)
        (pre : List ASN1_TEMPLATE) (last : ASN1_TEMPLATE) (aseq0 A : ASN1_VALUE)
        (content0 c : CBS) (eoc0 eoc : Bool) (e : List ASN1_R) (r : Out),
      NoExtern env → it.templates = pre ++ [last] →
      last.flags &&& ASN1_TFLG_ADB_MASK = 0 →
      sequence_fields env (asn1_template_ex_d2i (asn1_item_ex_d2i env fuel) env) it depth
        indefinite pre 0 aseq0 content0 eoc0 [] = some ⟨1, pre.length, A, c, eoc, e⟩ →
      asn1_check_eoc c = none → CBS_len c ≠ 0 →
      asn1_template_ex_d2i (asn1_item_ex_d2i env fuel) env (some (asn1_get_field A last)) c
        last true depth = some r →
      r.ret = -1 →
      ∃ l, sequence_fields env (asn1_template_ex_d2i (asn1_item_ex_d2i env fuel) env) it depth
          indefinite it.templates 0 aseq0 content0 eoc0 [] = some l ∧
        l.ret = 0 ∧ l.i = pre.length) ∧
    (∀ (env : Env) (tdec : TemplateDec) (cbs x content : CBS) (it : ASN1_ITEM)
        (indefinite : Bool) (depth : Int) (aseq1 : ASN1_VALUE) (l : SeqLoopOut),
      run_asn1_cb it ASN1_OP_D2I_PRE
        (ASN1_VALUE.aggregate (-1) (List.replicate it.size ASN1_VALUE.null) none)
        = some aseq1 →
      sequence_fields env tdec it depth indefinite it.templates 0 aseq1 content indefinite []
        = some l →
      l.ret = 0 →
      sequence_body env tdec cbs x content it indefinite depth
        = some ⟨0, ASN1_VALUE.null, cbs, l.errs⟩) ∧
    (ASN1_item_ex_d2i scenarioEnv (some ASN1_VALUE.null)
        [0x30, 0x05, 0x02, 0x01, 0x05, 0x05, 0x00] 7 (scenarioItems 10) (-1) 0 false
      = some ⟨0, ASN1_VALUE.null, 0,
          [ASN1_R.WRONG_TAG, ASN1_R.NESTED_ASN1_ERROR, ASN1_R.NESTED_ASN1_ERROR]⟩) ∧
    (asn1_template_ex_d2i (asn1_item_ex_d2i scenarioEnv 30) scenarioEnv (some ASN1_VALUE.null)
        (CBS_init [0x05, 0x00]) ⟨ASN1_TFLG_OPTIONAL, 0, 1, 2⟩ true 1
      = some ⟨-1, ASN1_VALUE.null, CBS_init [0x05, 0x00], []⟩) := by
  refine ⟨?_, ?_, ?_, ?_, by rfl, by rfl⟩
  · intro it i tt
    constructor
    · intro h
      simp [optional_field, h]
    · intro h
      simp [optional_field, h]
  · intro env tdec it depth indefinite tt rest i aseq content eoc_needed errs h1 h2 h3
    exact sequence_fields_step env tdec it depth indefinite tt rest i aseq content eoc_needed
      errs h1 h2 h3
  · intro env fuel it depth indefinite pre last aseq0 A content0 c eoc0 eoc e r he htts hadb
      hpre hc hz hr hret
    have hpre1 : sequence_fields env (asn1_template_ex_d2i (asn1_item_ex_d2i env fuel) env) it
        depth indefinite pre 0 aseq0 content0 eoc0 []
        = some ⟨1, 0 + pre.length, A, c, eoc, e⟩ := by
      simpa using hpre
    rw [htts, sequence_fields_append pre [last] 0 _ _ _ _ A c eoc e hpre1]
    rw [sequence_fields_step _ _ _ _ _ _ _ _ _ _ _ _ hc hz hadb]
    have hlast : optional_field it (0 + pre.length) last = false := by
      have : ((0 + pre.length : Nat) : Int) = (it.tcount : Int) - 1 := by
        simp [ASN1_ITEM.tcount, htts]
      unfold optional_field
      rw [if_pos this]
    rw [hlast]
    obtain ⟨r1, h1, h2⟩ := asn1_template_ex_d2i_flip (asn1_item_ex_d2i_flip env fuel depth) he
      hr hret
    simp only [h1]
    have hn1 : ¬ (r1.ret = -1) := by omega
    have hn2 : r1.ret ≠ 1 := by omega
    simp only [hn1, if_false, hn2, ne_eq, not_false_eq_true, if_true]
    exact ⟨_, rfl, rfl, by simp⟩
  · intro env tdec cbs x content it indefinite depth aseq1 l hpre hl h0
    unfold sequence_body
    simp only [ASN1_item_ex_new, hpre, hl, h0, if_true]

/-- C2. For a descriptor table without EXTERN items and an item that is not
an EXTERN item (the table may refer to itself), decoding terminates:
`ASN1_item_ex_d2i` and `ASN1_template_d2i` return a result for every input;
`asn1_item_ex_d2i` entered at depth `d` returns a result within `31 - d`
nested calls (one call from depth 30 on), so item recursion is bounded by
the nesting limit 30;
`asn1_collect` and `asn1_find_end` return a result for every input, and
`asn1_collect` entered at a depth above 5 fails with NESTED_ASN1_STRING
without another call; and every iteration of the loops shortens the
remaining input: an element decoded by the SET OF / SEQUENCE OF loop leaves
a shorter content, and the end-of-contents marker or header read by an
iteration of the collect and find-end loops leaves a shorter cursor. -/
theorem C2_decoding_terminates (env : Env) (he : NoExtern env) (it : ASN1_ITEM)
    (hit : it.itype ≠ ASN1_ITYPE_EXTERN) :
    (∀ pval input inlen tag cls opt,
      ∃ r, ASN1_item_ex_d2i env pval input inlen it tag cls opt = some r) ∧
    (∀ pval input len tt, ∃ r, ASN1_template_d2i env pval input len tt = some r) ∧
    (∀ (fuel : Nat) (depth : Int) pval cbs tag cls opt, 1 ≤ fuel → 31 ≤ (fuel : Int) + depth →
      ∃ r, asn1_item_ex_d2i env fuel pval cbs it tag cls opt depth = some r) ∧
    (∀ cbb cbs indefinite etag ecls depth,
      ∃ r, asn1_collect cbb cbs indefinite etag ecls depth = some r) ∧
    (∀ (fuel : Nat) cbb cbs indefinite etag ecls (depth : Int), depth > 5 →
      asn1_collect_fuel (fuel + 1) cbb cbs indefinite etag ecls depth
        = some ⟨0, cbb, cbs, [ASN1_R.NESTED_ASN1_STRING]⟩) ∧
    (∀ cbs length indefinite, ∃ r, asn1_find_end cbs length indefinite = some r) ∧
    (∀ (fuel : Nat) (depth : Int) (k : Nat) content r, 31 ≤ (fuel : Int) + depth →
      asn1_item_ex_d2i env fuel (some ASN1_VALUE.null) content (env.item k) (-1) 0 false depth
        = some r →
      r.ret ≠ 0 → r.cbs.data.length < content.data.length) ∧
    (∀ cbs c1, asn1_check_eoc cbs = some c1 → c1.data.length < cbs.data.length) ∧
    (∀ cbs etag ecls, (asn1_check_tag cbs etag ecls false).ret ≠ 0 →
      (asn1_check_tag cbs etag ecls false).cbs.data.length < cbs.data.length) := by
  have hgood : ∀ (fuel : Nat) (depth : Int), 31 ≤ (fuel : Int) + depth → 1 ≤ fuel →
      ItemDec.GoodAt (asn1_item_ex_d2i env fuel) depth :=
    fun fuel depth h hf => asn1_item_ex_d2i_total he fuel depth h hf
  refine ⟨?_, ?_, ?_, ?_, ?_, ?_, ?_, ?_, ?_⟩
  · intro pval input inlen tag cls opt
    unfold ASN1_item_ex_d2i
    split
    · exact ⟨_, rfl⟩
    · obtain ⟨r, hr, _⟩ := hgood 31 0 (by norm_num) (by norm_num) pval
        (CBS_init (input.take inlen.toNat)) it tag cls opt hit
      rw [hr]
      simp only
      split <;> exact ⟨_, rfl⟩
  · intro pval input len tt
    unfold ASN1_template_d2i
    split
    · exact ⟨_, rfl⟩
    · obtain ⟨r, hr, _⟩ := asn1_template_ex_d2i_ok (hgood 31 0 (by norm_num) (by norm_num)) he
        pval (CBS_init (input.take len.toNat)) tt false
      rw [hr]
      simp only
      split <;> exact ⟨_, rfl⟩
  · intro fuel depth pval cbs tag cls opt hf h
    obtain ⟨r, hr, _⟩ := hgood fuel depth h hf pval cbs it tag cls opt hit
    exact ⟨r, hr⟩
  · intro cbb cbs indefinite etag ecls depth
    obtain ⟨r, hr, _⟩ := asn1_collect_total cbb cbs indefinite etag ecls depth
    exact ⟨r, hr⟩
  · intro fuel cbb cbs indefinite etag ecls depth hd
    rw [asn1_collect_fuel]
    have : depth > ASN1_MAX_STRING_NEST := by simpa [ASN1_MAX_STRING_NEST] using hd
    simp [this]
  · intro cbs length indefinite
    obtain ⟨r, hr, _⟩ := asn1_find_end_total cbs length indefinite
    exact ⟨r, hr⟩
  · intro fuel depth k content r h hr h0
    cases fuel with
    | zero => simp [asn1_item_ex_d2i] at hr
    | succ fuel =>
      obtain ⟨r1, hr1, h1, h2, h3⟩ := hgood (fuel + 1) depth h (by omega)
        (some ASN1_VALUE.null) content (env.item k) (-1) 0 false (he k)
      rw [hr] at hr1
      cases hr1
      have h4 : r.ret = 1 := by
        rcases h1 with h1 | h1 | h1
        · exact h1
        · exact absurd h1 h0
        · have := (h3 h1).1
          cases this
      obtain ⟨j, hj, a⟩ := h2 h4
      have := CBS.advanced_length a
      omega
  · intro cbs c1 h
    have := CBS.advanced_length (asn1_check_eoc_advanced h).1
    omega
  · intro cbs etag ecls h
    obtain ⟨⟨j, hj, a⟩, _⟩ := asn1_check_tag_ok (asn1_check_tag_ok_of_ne_zero h)
    have := CBS.advanced_length a
    omega

/-- C2 at a concrete input: the self-referential SEQUENCE of the scenarios on
31 nested indefinite-length headers. -/
theorem C2_decoding_terminates_witness :
    NoExtern scenarioEnv ∧ (scenarioItems 5).itype ≠ ASN1_ITYPE_EXTERN ∧
    ∃ r, ASN1_item_ex_d2i scenarioEnv (some ASN1_VALUE.null) nested31 62 (scenarioItems 5)
      (-1) 0 false = some r :=
  ⟨scenario_table_without_extern_items, by decide,
    (C2_decoding_terminates scenarioEnv scenario_table_without_extern_items (scenarioItems 5) (by decide)).1
      (some ASN1_VALUE.null) nested31 62 (-1) 0 false⟩

/-- C4. Let the functions that the descriptors bring along (a primitive
item's `prim_c2i`, an EXTERN item's decode function) leave the slot as it
was or null when they do not succeed. Then whenever `ASN1_item_ex_d2i` or
`ASN1_template_d2i`, called with a value slot, returns an error (or
absent), the slot holds its value on entry or null. -/
theorem C4_slot_untouched_or_null_on_error (env : Env) (he : CallbacksKeepSlot env)
    (it : ASN1_ITEM) (hit : ItemKeepsSlot it) (v : ASN1_VALUE) (input : List UInt8)
    (inlen : Int) (tag cls : Int) (opt : Bool) (tt : ASN1_TEMPLATE) :
    (∀ r, ASN1_item_ex_d2i env (some v) input inlen it tag cls opt = some r → r.ret ≠ 1 →
      r.pval = v ∨ r.pval = ASN1_VALUE.null) ∧
    (∀ r, ASN1_template_d2i env (some v) input inlen tt = some r → r.ret ≠ 1 →
      r.pval = v ∨ r.pval = ASN1_VALUE.null) := by
  constructor
  · intro r h hr
    unfold ASN1_item_ex_d2i at h
    split at h
    · cases h; exact Or.inl rfl
    · cases h0 : asn1_item_ex_d2i env 31 (some v) (CBS_init (input.take inlen.toNat)) it tag
          cls opt 0 with
      | none => simp [h0] at h
      | some r0 =>
        simp only [h0] at h
        have hk := asn1_item_ex_d2i_slot he 31 v _ it tag cls opt 0 r0 hit h0
        split at h
        · cases h
          rename_i h1
          exact absurd h1 hr
        · rename_i h1
          cases h
          exact hk h1
  · intro r h hr
    unfold ASN1_template_d2i at h
    split at h
    · cases h; exact Or.inl rfl
    · cases h0 : asn1_template_ex_d2i (asn1_item_ex_d2i env 31) env (some v)
          (CBS_init (input.take inlen.toNat)) tt false 0 with
      | none => simp [h0] at h
      | some r0 =>
        simp only [h0] at h
        have hk := asn1_template_ex_d2i_slot (asn1_item_ex_d2i_slot he 31) he h0
        split at h
        · cases h
          rename_i h1
          exact absurd h1 hr
        · rename_i h1
          cases h
          exact hk h1

/-- C4 at a concrete input: SEQUENCE {INTEGER, BOOLEAN} on `30 03 02 01 05`
(FIELD_MISSING) with an INTEGER in the slot on entry. -/
theorem C4_slot_untouched_or_null_on_error_witness :
    CallbacksKeepSlot scenarioEnv ∧ ItemKeepsSlot (scenarioItems 4) ∧
    ∀ r, ASN1_item_ex_d2i scenarioEnv (some (ASN1_VALUE.string V_ASN1_INTEGER [7]))
        [0x30, 0x03, 0x02, 0x01, 0x05] 5 (scenarioItems 4) (-1) 0 false = some r →
      r.ret ≠ 1 →
      r.pval = ASN1_VALUE.string V_ASN1_INTEGER [7] ∨ r.pval = ASN1_VALUE.null :=
  ⟨scenario_callbacks_keep_slot, scenario_callbacks_keep_slot 4,
    (C4_slot_untouched_or_null_on_error scenarioEnv scenario_callbacks_keep_slot
      (scenarioItems 4) (scenario_callbacks_keep_slot 4)
      (ASN1_VALUE.string V_ASN1_INTEGER [7]) [0x30, 0x03, 0x02, 0x01, 0x05] 5 (-1) 0 false
      ⟨0, 0, 0, 0⟩).1⟩

/-- C5 (as written, refuted). SEQUENCE {a INTEGER OPTIONAL, b INTEGER}:
`30 06 02 01 01 02 01 02` decodes with a = 1 and b = 2. With the
tag-length-value `02 01 01` of the OPTIONAL field `a` removed and the length
adjusted, `30 03 02 01 02`, the decoder reads the remaining INTEGER as `a`
and fails with FIELD_MISSING for `b`. -/
theorem C5_removing_optional_field_can_fail :
    (scenarioItems 9).itype = ASN1_ITYPE_SEQUENCE ∧
    (scenarioItems 9).templates = [⟨ASN1_TFLG_OPTIONAL, 0, 0, 0⟩, ⟨0, 0, 1, 0⟩] ∧
    ASN1_item_ex_d2i scenarioEnv (some ASN1_VALUE.null)
        [0x30, 0x06, 0x02, 0x01, 0x01, 0x02, 0x01, 0x02] 8 (scenarioItems 9) (-1) 0 false
      = some ⟨1, ASN1_VALUE.aggregate (-1)
          [ASN1_VALUE.string V_ASN1_INTEGER [1], ASN1_VALUE.string V_ASN1_INTEGER [2]]
          (some [0x30, 0x06, 0x02, 0x01, 0x01, 0x02, 0x01, 0x02]), 8, []⟩ ∧
    ASN1_item_ex_d2i scenarioEnv (some ASN1_VALUE.null)
        [0x30, 0x03, 0x02, 0x01, 0x02] 5 (scenarioItems 9) (-1) 0 false
      = some ⟨0, ASN1_VALUE.null, 0, [ASN1_R.FIELD_MISSING]⟩ :=
  ⟨rfl, rfl, by rfl, by rfl⟩

/-- C5 (amended). Let `it` be a SEQUENCE descriptor without callback and
without ADB templates, `tt` one of its fields, OPTIONAL, whose slot no later
field uses, and let an input decode successfully with `tt` present: the
fields `pre` before `tt` are read, leaving the structure `A` and the cursor
`c`, and `tt` is decoded at `c`, leaving the cursor `rk.cbs`. Take a second
input whose header is accepted with the same length form, in whose content
the fields `pre` are read with the same result `A`, leaving exactly the bytes
that followed `tt` in the original and, unless the content ends there, the
decoder of `tt` reports the field absent at that place. Then the second input
decodes successfully, with the slot of `tt` holding the absence sentinel and
every other slot holding its value of the original decode. -/
theorem C5_optional_absence_stability (env : Env) (he : NoExtern env) (fuel : Nat)
    (hf : 1 ≤ fuel) (depth : Int) (hd : 31 ≤ (fuel : Int) + depth)
    (it : ASN1_ITEM) (pre rest : List ASN1_TEMPLATE) (tt : ASN1_TEMPLATE)
    (hit : it.templates = pre ++ tt :: rest)
    (hopt : tt.flags &&& ASN1_TFLG_OPTIONAL ≠ 0)
    (hadb : NoAdb it.templates) (hcb : it.asn1_cb = none)
    (hoff : ∀ t ∈ rest, t.offset ≠ tt.offset)
    (aseq0 : ASN1_VALUE) (hnew : ASN1_item_ex_new it = some aseq0)
    (pval : ASN1_VALUE) (tag cls : Int) (opt : Bool) (indef : Bool)
    (cbs : CBS) (r : Out)
    (hr : asn1_item_ex_d2i_sequence env
        (asn1_template_ex_d2i (asn1_item_ex_d2i env fuel) env) pval cbs it tag cls opt depth
      = some r)
    (hr1 : r.ret = 1)
    (x : CBS) (len : Nat) (tn tc : Int) (eh : List ASN1_R)
    (hh : asn1_check_tag (CBS_init cbs.data) (if tag = -1 then V_ASN1_SEQUENCE else tag)
        (if tag = -1 then V_ASN1_UNIVERSAL else cls) opt
      = ⟨1, x, len, tn, tc, indef, true, eh⟩)
    (A : ASN1_VALUE) (c : CBS) (e : List ASN1_R)
    (hpre : sequence_fields env (asn1_template_ex_d2i (asn1_item_ex_d2i env fuel) env) it depth
        indef pre 0 aseq0 (if indef then CBS_init x.data else CBS_init (x.data.take len))
        indef []
      = some ⟨1, pre.length, A, c, indef, e⟩)
    (hce : asn1_check_eoc c = none) (hcl : CBS_len c ≠ 0) (rk : Out)
    (hk : asn1_template_ex_d2i (asn1_item_ex_d2i env fuel) env (some (asn1_get_field A tt)) c tt
        (optional_field it pre.length tt) depth = some rk)
    (hk1 : rk.ret = 1)
    (cbs1 : CBS) (x1 : CBS) (len1 : Nat) (tn1 tc1 : Int) (eh1 : List ASN1_R)
    (hh1 : asn1_check_tag (CBS_init cbs1.data) (if tag = -1 then V_ASN1_SEQUENCE else tag)
        (if tag = -1 then V_ASN1_UNIVERSAL else cls) opt
      = ⟨1, x1, len1, tn1, tc1, indef, true, eh1⟩)
    (cm : CBS) (e1 : List ASN1_R)
    (hpre1 : sequence_fields env (asn1_template_ex_d2i (asn1_item_ex_d2i env fuel) env) it
        depth indef pre 0 aseq0
        (if indef then CBS_init x1.data else CBS_init (x1.data.take len1)) indef []
      = some ⟨1, pre.length, A, cm, indef, e1⟩)
    (hcm : cm.data = rk.cbs.data)
    (habs : asn1_check_eoc cm = none → CBS_len cm ≠ 0 →
      ∃ ra, asn1_template_ex_d2i (asn1_item_ex_d2i env fuel) env (some (asn1_get_field A tt))
          cm tt (optional_field it pre.length tt) depth = some ra ∧ ra.ret = -1) :
    ∃ r1, asn1_item_ex_d2i_sequence env
        (asn1_template_ex_d2i (asn1_item_ex_d2i env fuel) env) pval cbs1 it tag cls opt depth
        = some r1 ∧
      r1.ret = 1 ∧ asn1_get_field r1.pval tt = ASN1_VALUE.null ∧
      ∀ t : ASN1_TEMPLATE, t.offset ≠ tt.offset →
        asn1_get_field r1.pval t = asn1_get_field r.pval t := by
  have hg : TemplateDec.GoodAt (asn1_template_ex_d2i (asn1_item_ex_d2i env fuel) env) depth :=
    asn1_template_ex_d2i_ok (asn1_item_ex_d2i_total he fuel depth hd hf) he
  have hp : TemplateDec.PosIndep (asn1_template_ex_d2i (asn1_item_ex_d2i env fuel) env) :=
    asn1_template_ex_d2i_reloc (asn1_item_ex_d2i_reloc env fuel) env
  have hty := asn1_item_ex_d2i_sequence_itype hr hr1
  obtain ⟨xs, k0, _, _, _, heq⟩ := @asn1_item_ex_d2i_sequence_body env
    (asn1_template_ex_d2i (asn1_item_ex_d2i env fuel) env) pval cbs it tag cls opt depth
    x len tn tc indef eh hty hh
  obtain ⟨xs1, k1, _, a1, hc1, heq1⟩ := @asn1_item_ex_d2i_sequence_body env
    (asn1_template_ex_d2i (asn1_item_ex_d2i env fuel) env) pval cbs1 it tag cls opt depth
    x1 len1 tn1 tc1 indef eh1 hty hh1
  rw [heq] at hr
  rw [heq1]
  exact sequence_body_without_field hg hp hit hopt hadb hcb hoff hnew hr hr1 hpre hce hcl hk
    hk1 a1 hc1 hpre1 hcm habs

/-- C5 (amended) at a concrete input: SEQUENCE {a BOOLEAN OPTIONAL,
b INTEGER} on `30 06 01 01 FF 02 01 05` and, with the field `a` removed, on
`30 03 02 01 05`. -/
theorem C5_optional_absence_stability_witness :
    asn1_item_ex_d2i_sequence scenarioEnv
        (asn1_template_ex_d2i (asn1_item_ex_d2i scenarioEnv 31) scenarioEnv) ASN1_VALUE.null
        (CBS_init [0x30, 0x06, 0x01, 0x01, 0xFF, 0x02, 0x01, 0x05]) (scenarioItems 12) (-1) 0
        false 0
      = some ⟨1, ASN1_VALUE.aggregate (-1)
          [ASN1_VALUE.boolean 255, ASN1_VALUE.string V_ASN1_INTEGER [5]]
          (some [0x30, 0x06, 0x01, 0x01, 0xFF, 0x02, 0x01, 0x05]), ⟨[], 8⟩, []⟩ ∧
    ∃ r1, asn1_item_ex_d2i_sequence scenarioEnv
        (asn1_template_ex_d2i (asn1_item_ex_d2i scenarioEnv 31) scenarioEnv) ASN1_VALUE.null
        (CBS_init [0x30, 0x03, 0x02, 0x01, 0x05]) (scenarioItems 12) (-1) 0 false 0 = some r1 ∧
      r1.ret = 1 ∧ asn1_get_field r1.pval ⟨ASN1_TFLG_OPTIONAL, 0, 0, 2⟩ = ASN1_VALUE.null ∧
      ∀ t : ASN1_TEMPLATE, t.offset ≠ 0 →
        asn1_get_field r1.pval t
          = asn1_get_field (ASN1_VALUE.aggregate (-1)
              [ASN1_VALUE.boolean 255, ASN1_VALUE.string V_ASN1_INTEGER [5]]
              (some [0x30, 0x06, 0x01, 0x01, 0xFF, 0x02, 0x01, 0x05])) t :=
  ⟨by rfl,
    C5_optional_absence_stability scenarioEnv scenario_table_without_extern_items 31
      (by decide) 0 (by decide) (scenarioItems 12) [] [⟨0, 0, 1, 0⟩]
      ⟨ASN1_TFLG_OPTIONAL, 0, 0, 2⟩ rfl (by decide) (by unfold NoAdb; decide) rfl (by decide)
      (ASN1_VALUE.aggregate (-1) [ASN1_VALUE.null, ASN1_VALUE.null] none) rfl
      ASN1_VALUE.null (-1) 0 false false
      (CBS_init [0x30, 0x06, 0x01, 0x01, 0xFF, 0x02, 0x01, 0x05])
      ⟨1, ASN1_VALUE.aggregate (-1)
          [ASN1_VALUE.boolean 255, ASN1_VALUE.string V_ASN1_INTEGER [5]]
          (some [0x30, 0x06, 0x01, 0x01, 0xFF, 0x02, 0x01, 0x05]), ⟨[], 8⟩, []⟩
      (by rfl) rfl
      ⟨[0x01, 0x01, 0xFF, 0x02, 0x01, 0x05], 8⟩ 6 16 0 [] (by rfl)
      (ASN1_VALUE.aggregate (-1) [ASN1_VALUE.null, ASN1_VALUE.null] none)
      (CBS_init [0x01, 0x01, 0xFF, 0x02, 0x01, 0x05]) [] (by rfl) (by rfl) (by decide)
      ⟨1, ASN1_VALUE.boolean 255, ⟨[0x02, 0x01, 0x05], 6⟩, []⟩ (by rfl) rfl
      (CBS_init [0x30, 0x03, 0x02, 0x01, 0x05])
      ⟨[0x02, 0x01, 0x05], 5⟩ 3 16 0 [] (by rfl)
      (CBS_init [0x02, 0x01, 0x05]) [] (by rfl) rfl
      (fun _ _ => ⟨⟨-1, ASN1_VALUE.null, ⟨[0x02, 0x01, 0x05], 3⟩, []⟩, by rfl, rfl⟩)⟩

/-- C14 (code bug). The claim: in a constructed string every nested fragment
header must have class UNIVERSAL, and a fragment of class APPLICATION,
CONTEXT or PRIVATE is rejected. The code: `asn1_d2i_ex_primitive_content`
collects with the expectation `(-1, V_ASN1_UNIVERSAL)`, and `asn1_check_tag`
compares tag and class only under `expected_tag >= 0`, so the expected class
never takes part: `asn1_collect` gives the same result whatever class it is
asked for, and the OCTET STRING `24 03 xx 01 41` is accepted with the content
`41` for a fragment header `xx` of class CONTEXT (`80`), APPLICATION (`44`)
and PRIVATE (`C4`) as it is for the UNIVERSAL `04`. -/
theorem C14_fragment_class_is_not_checked :
    (∀ (c : CBS) (ecls : Int) (opt : Bool),
      asn1_check_tag c (-1) ecls opt = asn1_check_tag c (-1) 0 false) ∧
    (∀ (cbb : List UInt8) (cbs : CBS) (indefinite : Bool) (ecls depth : Int),
      asn1_collect cbb cbs indefinite (-1) ecls depth
        = asn1_collect cbb cbs indefinite (-1) 0 depth) ∧
    ASN1_item_ex_d2i scenarioEnv (some ASN1_VALUE.null) [0x24, 0x03, 0x80, 0x01, 0x41] 5
        (scenarioItems 7) (-1) 0 false
      = some ⟨1, ASN1_VALUE.string V_ASN1_OCTET_STRING [0x41], 5, []⟩ ∧
    ASN1_item_ex_d2i scenarioEnv (some ASN1_VALUE.null) [0x24, 0x03, 0x44, 0x01, 0x41] 5
        (scenarioItems 7) (-1) 0 false
      = some ⟨1, ASN1_VALUE.string V_ASN1_OCTET_STRING [0x41], 5, []⟩ ∧
    ASN1_item_ex_d2i scenarioEnv (some ASN1_VALUE.null) [0x24, 0x03, 0xC4, 0x01, 0x41] 5
        (scenarioItems 7) (-1) 0 false
      = some ⟨1, ASN1_VALUE.string V_ASN1_OCTET_STRING [0x41], 5, []⟩ ∧
    ASN1_item_ex_d2i scenarioEnv (some ASN1_VALUE.null) [0x24, 0x03, 0x04, 0x01, 0x41] 5
        (scenarioItems 7) (-1) 0 false
      = some ⟨1, ASN1_VALUE.string V_ASN1_OCTET_STRING [0x41], 5, []⟩ :=
  ⟨fun c ecls opt => asn1_check_tag_neg c (-1) ecls opt (by decide),
    fun cbb cbs indefinite ecls depth =>
      (asn1_collect_fuel_class (CBS_len cbs + 2) ecls).1 cbb cbs indefinite depth,
    by rfl, by rfl, by rfl, by rfl⟩

/-- C15 (code bug). `asn1_collect` entered at a depth above 5 fails with
NESTED_ASN1_STRING on every input, and a string whose fragments are nested
properly is rejected exactly from the sixth level of constructed fragments
on. But `asn1_collect` runs the nested call for a definite-length constructed
fragment on the cursor of all the remaining bytes, so the fragments that
follow it count as nested in it: the OCTET STRING made of six empty
constructed fragments side by side, none nested in another, is rejected
with NESTED_ASN1_STRING, while five side by side are accepted. -/
theorem C15_sibling_fragments_count_as_nested :
    (∀ (cbb : List UInt8) (cbs : CBS) (indefinite : Bool) (etag ecls depth : Int),
      depth > 5 →
      asn1_collect cbb cbs indefinite etag ecls depth
        = some ⟨0, cbb, cbs, [ASN1_R.NESTED_ASN1_STRING]⟩) ∧
    ASN1_item_ex_d2i scenarioEnv (some ASN1_VALUE.null)
        [0x24, 0x0C, 0x24, 0x00, 0x24, 0x00, 0x24, 0x00, 0x24, 0x00, 0x24, 0x00, 0x24, 0x00] 14
        (scenarioItems 7) (-1) 0 false
      = some ⟨0, ASN1_VALUE.null, 0, [ASN1_R.NESTED_ASN1_STRING]⟩ ∧
    ASN1_item_ex_d2i scenarioEnv (some ASN1_VALUE.null)
        [0x24, 0x0A, 0x24, 0x00, 0x24, 0x00, 0x24, 0x00, 0x24, 0x00, 0x24, 0x00] 12
        (scenarioItems 7) (-1) 0 false
      = some ⟨1, ASN1_VALUE.string V_ASN1_OCTET_STRING [], 12, []⟩ ∧
    ASN1_item_ex_d2i scenarioEnv (some ASN1_VALUE.null)
        [0x24, 0x0D, 0x24, 0x0B, 0x24, 0x09, 0x24, 0x07, 0x24, 0x05, 0x24, 0x03,
          0x04, 0x01, 0x41] 15
        (scenarioItems 7) (-1) 0 false
      = some ⟨1, ASN1_VALUE.string V_ASN1_OCTET_STRING [0x41], 15, []⟩ ∧
    ASN1_item_ex_d2i scenarioEnv (some ASN1_VALUE.null)
        [0x24, 0x0F, 0x24, 0x0D, 0x24, 0x0B, 0x24, 0x09, 0x24, 0x07, 0x24, 0x05, 0x24, 0x03,
          0x04, 0x01, 0x41] 17
        (scenarioItems 7) (-1) 0 false
      = some ⟨0, ASN1_VALUE.null, 0, [ASN1_R.NESTED_ASN1_STRING]⟩ := by
  refine ⟨?_, by rfl, by rfl, by rfl, by rfl⟩
  intro cbb cbs indefinite etag ecls depth hd
  unfold asn1_collect
  rw [asn1_collect_fuel]
  have : depth > ASN1_MAX_STRING_NEST := by simpa [ASN1_MAX_STRING_NEST] using hd
  simp [this]

/-- C18. `asn1_d2i_ex_mstring` without tag override, on a header that
`asn1_check_tag` accepts: a class other than UNIVERSAL gives absent in
optional mode and MSTRING_NOT_UNIVERSAL otherwise; a UNIVERSAL tag whose bit
is not in the bit-set `it.utype` gives absent in optional mode and
MSTRING_WRONG_TAG otherwise; a permitted tag continues as
`asn1_d2i_ex_primitive_content` with the observed tag as `utype`, so that on
success the value is the one `asn1_ex_c2i` builds for that type. -/
theorem C18_mstring_class_and_tag :
    (∀ (env : Env) (pval : ASN1_VALUE) (cbs : CBS) (it : ASN1_ITEM) (cls : Int) (opt : Bool),
      (asn1_check_tag (CBS_init cbs.data) (-1) 0 true).ret = 1 →
      ((asn1_check_tag (CBS_init cbs.data) (-1) 0 true).cls ≠ V_ASN1_UNIVERSAL →
        asn1_d2i_ex_mstring env pval cbs it (-1) cls opt
          = if opt then some ⟨-1, pval, cbs, []⟩
            else some ⟨0, pval, cbs, [ASN1_R.MSTRING_NOT_UNIVERSAL]⟩) ∧
      ((asn1_check_tag (CBS_init cbs.data) (-1) 0 true).cls = V_ASN1_UNIVERSAL →
        Int.land (env.ASN1_tag2bit (asn1_check_tag (CBS_init cbs.data) (-1) 0 true).tag)
          it.utype = 0 →
        asn1_d2i_ex_mstring env pval cbs it (-1) cls opt
          = if opt then some ⟨-1, pval, cbs, []⟩
            else some ⟨0, pval, cbs, [ASN1_R.MSTRING_WRONG_TAG]⟩) ∧
      ((asn1_check_tag (CBS_init cbs.data) (-1) 0 true).cls = V_ASN1_UNIVERSAL →
        Int.land (env.ASN1_tag2bit (asn1_check_tag (CBS_init cbs.data) (-1) 0 true).tag)
          it.utype ≠ 0 →
        asn1_d2i_ex_mstring env pval cbs it (-1) cls opt
          = asn1_d2i_ex_primitive_content env pval cbs
              (asn1_check_tag (CBS_init cbs.data) (-1) 0 true).cbs
              (asn1_check_tag (CBS_init cbs.data) (-1) 0 true).tag
              (asn1_check_tag (CBS_init cbs.data) (-1) 0 true).constructed
              (asn1_check_tag (CBS_init cbs.data) (-1) 0 true).indefinite
              (asn1_check_tag (CBS_init cbs.data) (-1) 0 true).len it ∧
        ∀ r, asn1_d2i_ex_mstring env pval cbs it (-1) cls opt = some r → r.ret = 1 →
          ∃ content,
            r.pval = (asn1_ex_c2i env pval content
              (asn1_check_tag (CBS_init cbs.data) (-1) 0 true).tag it).pval)) ∧
    ASN1_item_ex_d2i scenarioEnv (some ASN1_VALUE.null) [0x0C, 0x03, 0x66, 0x6F, 0x6F] 5
        (scenarioItems 14) (-1) 0 false
      = some ⟨1, ASN1_VALUE.string V_ASN1_UTF8STRING [0x66, 0x6F, 0x6F], 5, []⟩ ∧
    ASN1_item_ex_d2i scenarioEnv (some ASN1_VALUE.null) [0x13, 0x01, 0x41] 3
        (scenarioItems 14) (-1) 0 false
      = some ⟨1, ASN1_VALUE.string 19 [0x41], 3, []⟩ ∧
    ASN1_item_ex_d2i scenarioEnv (some ASN1_VALUE.null) [0x04, 0x01, 0x41] 3
        (scenarioItems 14) (-1) 0 false
      = some ⟨0, ASN1_VALUE.null, 0, [ASN1_R.MSTRING_WRONG_TAG]⟩ ∧
    ASN1_item_ex_d2i scenarioEnv (some ASN1_VALUE.null) [0x04, 0x01, 0x41] 3
        (scenarioItems 14) (-1) 0 true
      = some ⟨-1, ASN1_VALUE.null, 0, []⟩ ∧
    ASN1_item_ex_d2i scenarioEnv (some ASN1_VALUE.null) [0x8C, 0x01, 0x41] 3
        (scenarioItems 14) (-1) 0 false
      = some ⟨0, ASN1_VALUE.null, 0, [ASN1_R.MSTRING_NOT_UNIVERSAL]⟩ ∧
    ASN1_item_ex_d2i scenarioEnv (some ASN1_VALUE.null) [0x8C, 0x01, 0x41] 3
        (scenarioItems 14) (-1) 0 true
      = some ⟨-1, ASN1_VALUE.null, 0, []⟩ := by
  refine ⟨?_, by rfl, by rfl, by rfl, by rfl, by rfl, by rfl⟩
  intro env pval cbs it cls opt h1
  have e0 : ¬ ((-1 : Int) ≠ -1) := by decide
  have e1 : ¬ ((asn1_check_tag (CBS_init cbs.data) (-1) 0 true).ret ≠ 1) := by
    rw [h1]
    decide
  refine ⟨?_, ?_, ?_⟩
  · intro hc
    unfold asn1_d2i_ex_mstring
    rw [if_neg e0, if_neg e1, if_pos hc]
  · intro hc hb
    unfold asn1_d2i_ex_mstring
    rw [if_neg e0, if_neg e1, if_neg (not_not.mpr hc), if_pos hb]
  · intro hc hb
    have heq : asn1_d2i_ex_mstring env pval cbs it (-1) cls opt
        = asn1_d2i_ex_primitive_content env pval cbs
            (asn1_check_tag (CBS_init cbs.data) (-1) 0 true).cbs
            (asn1_check_tag (CBS_init cbs.data) (-1) 0 true).tag
            (asn1_check_tag (CBS_init cbs.data) (-1) 0 true).constructed
            (asn1_check_tag (CBS_init cbs.data) (-1) 0 true).indefinite
            (asn1_check_tag (CBS_init cbs.data) (-1) 0 true).len it := by
      unfold asn1_d2i_ex_mstring
      rw [if_neg e0, if_neg e1, if_neg (not_not.mpr hc), if_neg hb]
    refine ⟨heq, ?_⟩
    intro r hr hr1
    rw [heq] at hr
    obtain ⟨content, _, q⟩ := asn1_d2i_ex_primitive_content_value hr hr1
    exact ⟨content, q⟩

/-- C19. Template errors do not depend on the input bytes. At every depth
that passes the nesting guard and for every cursor, `asn1_item_ex_d2i`
answers: BAD_TEMPLATE for a CHOICE or a multi-string item with a tag
override; ILLEGAL_TAGGED_ANY for an ANY item with a tag override (a tag
number that is not negative) and ILLEGAL_OPTIONAL_ANY for an ANY item without
one and optional set; ILLEGAL_OPTIONS_ON_ITEM_TEMPLATE for a PRIMITIVE item
with an attached template, with a tag override or with optional set. -/
theorem C19_template_errors_whatever_the_input :
    (∀ (env : Env) (fuel : Nat) (v : ASN1_VALUE) (cbs : CBS) (it : ASN1_ITEM) (tag cls : Int)
        (opt : Bool) (depth : Int), depth + 1 ≤ ASN1_MAX_CONSTRUCTED_NEST →
      it.itype = ASN1_ITYPE_CHOICE → tag ≠ -1 →
      asn1_item_ex_d2i env (fuel + 1) (some v) cbs it tag cls opt depth
        = some ⟨0, v, cbs, [ASN1_R.BAD_TEMPLATE]⟩) ∧
    (∀ (env : Env) (fuel : Nat) (v : ASN1_VALUE) (cbs : CBS) (it : ASN1_ITEM) (tag cls : Int)
        (opt : Bool) (depth : Int), depth + 1 ≤ ASN1_MAX_CONSTRUCTED_NEST →
      it.itype = ASN1_ITYPE_MSTRING → tag ≠ -1 →
      asn1_item_ex_d2i env (fuel + 1) (some v) cbs it tag cls opt depth
        = some ⟨0, v, cbs, [ASN1_R.BAD_TEMPLATE]⟩) ∧
    (∀ (env : Env) (fuel : Nat) (v : ASN1_VALUE) (cbs : CBS) (it : ASN1_ITEM) (tag cls : Int)
        (opt : Bool) (depth : Int), depth + 1 ≤ ASN1_MAX_CONSTRUCTED_NEST →
      it.itype = ASN1_ITYPE_PRIMITIVE → it.templates = [] → it.utype = V_ASN1_ANY →
      tag ≥ 0 →
      asn1_item_ex_d2i env (fuel + 1) (some v) cbs it tag cls opt depth
        = some ⟨0, v, cbs, [ASN1_R.ILLEGAL_TAGGED_ANY]⟩) ∧
    (∀ (env : Env) (fuel : Nat) (v : ASN1_VALUE) (cbs : CBS) (it : ASN1_ITEM) (cls : Int)
        (depth : Int), depth + 1 ≤ ASN1_MAX_CONSTRUCTED_NEST →
      it.itype = ASN1_ITYPE_PRIMITIVE → it.templates = [] → it.utype = V_ASN1_ANY →
      asn1_item_ex_d2i env (fuel + 1) (some v) cbs it (-1) cls true depth
        = some ⟨0, v, cbs, [ASN1_R.ILLEGAL_OPTIONAL_ANY]⟩) ∧
    (∀ (env : Env) (fuel : Nat) (v : ASN1_VALUE) (cbs : CBS) (it : ASN1_ITEM) (tag cls : Int)
        (opt : Bool) (depth : Int) (tt : ASN1_TEMPLATE) (rest : List ASN1_TEMPLATE),
      depth + 1 ≤ ASN1_MAX_CONSTRUCTED_NEST →
      it.itype = ASN1_ITYPE_PRIMITIVE → it.templates = tt :: rest → tag ≠ -1 ∨ opt = true →
      asn1_item_ex_d2i env (fuel + 1) (some v) cbs it tag cls opt depth
        = some ⟨0, ASN1_VALUE.null, cbs, [ASN1_R.ILLEGAL_OPTIONS_ON_ITEM_TEMPLATE]⟩) ∧
    (∀ (input : List UInt8) (inlen : Int), 0 ≤ inlen →
      ASN1_item_ex_d2i scenarioEnv (some ASN1_VALUE.null) input inlen (scenarioItems 3) 0 0x80
          false
        = some ⟨0, ASN1_VALUE.null, 0, [ASN1_R.BAD_TEMPLATE]⟩ ∧
      ASN1_item_ex_d2i scenarioEnv (some ASN1_VALUE.null) input inlen (scenarioItems 14) 12 0
          false
        = some ⟨0, ASN1_VALUE.null, 0, [ASN1_R.BAD_TEMPLATE]⟩ ∧
      ASN1_item_ex_d2i scenarioEnv (some ASN1_VALUE.null) input inlen (scenarioItems 13) 0 0x80
          false
        = some ⟨0, ASN1_VALUE.null, 0, [ASN1_R.ILLEGAL_TAGGED_ANY]⟩ ∧
      ASN1_item_ex_d2i scenarioEnv (some ASN1_VALUE.null) input inlen (scenarioItems 13) (-1) 0
          true
        = some ⟨0, ASN1_VALUE.null, 0, [ASN1_R.ILLEGAL_OPTIONAL_ANY]⟩ ∧
      ASN1_item_ex_d2i scenarioEnv (some ASN1_VALUE.null) input inlen (scenarioItems 6) 0 0x80
          false
        = some ⟨0, ASN1_VALUE.null, 0, [ASN1_R.ILLEGAL_OPTIONS_ON_ITEM_TEMPLATE]⟩ ∧
      ASN1_item_ex_d2i scenarioEnv (some ASN1_VALUE.null) input inlen (scenarioItems 6) (-1) 0
          true
        = some ⟨0, ASN1_VALUE.null, 0, [ASN1_R.ILLEGAL_OPTIONS_ON_ITEM_TEMPLATE]⟩) := by
  have hchoice : ∀ (env : Env) (fuel : Nat) (v : ASN1_VALUE) (cbs : CBS) (it : ASN1_ITEM)
      (tag cls : Int) (opt : Bool) (depth : Int), depth + 1 ≤ ASN1_MAX_CONSTRUCTED_NEST →
      it.itype = ASN1_ITYPE_CHOICE → tag ≠ -1 →
      asn1_item_ex_d2i env (fuel + 1) (some v) cbs it tag cls opt depth
        = some ⟨0, v, cbs, [ASN1_R.BAD_TEMPLATE]⟩ := by
    intro env fuel v cbs it tag cls opt depth hd hi ht
    rw [asn1_item_ex_d2i]
    simp only
    rw [if_neg (by omega), if_neg (by rw [hi]; decide), if_neg (by rw [hi]; decide),
      if_neg (by rw [hi]; decide), if_pos hi]
    unfold asn1_item_ex_d2i_choice
    rw [if_neg (not_not.mpr hi), if_pos ht]
  have hmstring : ∀ (env : Env) (fuel : Nat) (v : ASN1_VALUE) (cbs : CBS) (it : ASN1_ITEM)
      (tag cls : Int) (opt : Bool) (depth : Int), depth + 1 ≤ ASN1_MAX_CONSTRUCTED_NEST →
      it.itype = ASN1_ITYPE_MSTRING → tag ≠ -1 →
      asn1_item_ex_d2i env (fuel + 1) (some v) cbs it tag cls opt depth
        = some ⟨0, v, cbs, [ASN1_R.BAD_TEMPLATE]⟩ := by
    intro env fuel v cbs it tag cls opt depth hd hi ht
    rw [asn1_item_ex_d2i]
    simp only
    rw [if_neg (by omega), if_neg (by rw [hi]; decide), if_pos hi]
    unfold asn1_d2i_ex_mstring
    rw [if_pos ht]
  have hany : ∀ (env : Env) (fuel : Nat) (v : ASN1_VALUE) (cbs : CBS) (it : ASN1_ITEM)
      (tag cls : Int) (opt : Bool) (depth : Int), depth + 1 ≤ ASN1_MAX_CONSTRUCTED_NEST →
      it.itype = ASN1_ITYPE_PRIMITIVE → it.templates = [] → it.utype = V_ASN1_ANY →
      asn1_item_ex_d2i env (fuel + 1) (some v) cbs it tag cls opt depth
        = asn1_d2i_ex_any env v cbs it tag cls opt := by
    intro env fuel v cbs it tag cls opt depth hd hi htt hu
    rw [asn1_item_ex_d2i]
    simp only
    rw [if_neg (by omega), if_pos hi, htt]
    simp only
    unfold asn1_d2i_ex_primitive
    rw [if_neg (by rw [hi]; decide), if_pos hu]
  have htemplate : ∀ (env : Env) (fuel : Nat) (v : ASN1_VALUE) (cbs : CBS) (it : ASN1_ITEM)
      (tag cls : Int) (opt : Bool) (depth : Int) (tt : ASN1_TEMPLATE)
      (rest : List ASN1_TEMPLATE), depth + 1 ≤ ASN1_MAX_CONSTRUCTED_NEST →
      it.itype = ASN1_ITYPE_PRIMITIVE → it.templates = tt :: rest → tag ≠ -1 ∨ opt = true →
      asn1_item_ex_d2i env (fuel + 1) (some v) cbs it tag cls opt depth
        = some ⟨0, ASN1_VALUE.null, cbs, [ASN1_R.ILLEGAL_OPTIONS_ON_ITEM_TEMPLATE]⟩ := by
    intro env fuel v cbs it tag cls opt depth tt rest hd hi htt ho
    rw [asn1_item_ex_d2i]
    simp only
    rw [if_neg (by omega), if_pos hi, htt]
    simp only
    rw [if_pos ho]
  have htagged : ∀ (env : Env) (v : ASN1_VALUE) (cbs : CBS) (it : ASN1_ITEM) (tag cls : Int)
      (opt : Bool), it.utype = V_ASN1_ANY → tag ≥ 0 →
      asn1_d2i_ex_any env v cbs it tag cls opt
        = some ⟨0, v, cbs, [ASN1_R.ILLEGAL_TAGGED_ANY]⟩ := by
    intro env v cbs it tag cls opt hu ht
    unfold asn1_d2i_ex_any
    rw [if_neg (not_not.mpr hu), if_pos ht]
  have hoptional : ∀ (env : Env) (v : ASN1_VALUE) (cbs : CBS) (it : ASN1_ITEM) (cls : Int),
      it.utype = V_ASN1_ANY →
      asn1_d2i_ex_any env v cbs it (-1) cls true
        = some ⟨0, v, cbs, [ASN1_R.ILLEGAL_OPTIONAL_ANY]⟩ := by
    intro env v cbs it cls hu
    unfold asn1_d2i_ex_any
    rw [if_neg (not_not.mpr hu), if_neg (by decide), if_pos rfl]
  have hd0 : (0 : Int) + 1 ≤ ASN1_MAX_CONSTRUCTED_NEST := by decide
  refine ⟨hchoice, hmstring, ?_, ?_, htemplate, ?_⟩
  · intro env fuel v cbs it tag cls opt depth hd hi htt hu ht
    rw [hany env fuel v cbs it tag cls opt depth hd hi htt hu]
    exact htagged env v cbs it tag cls opt hu ht
  · intro env fuel v cbs it cls depth hd hi htt hu
    rw [hany env fuel v cbs it (-1) cls true depth hd hi htt hu]
    exact hoptional env v cbs it cls hu
  · intro input inlen hlen
    have hn : ¬ inlen < 0 := by omega
    unfold ASN1_item_ex_d2i
    simp only [if_neg hn]
    rw [hchoice scenarioEnv 30 _ _ (scenarioItems 3) 0 0x80 false 0 hd0 rfl (by decide),
      hmstring scenarioEnv 30 _ _ (scenarioItems 14) 12 0 false 0 hd0 rfl (by decide),
      hany scenarioEnv 30 _ _ (scenarioItems 13) 0 0x80 false 0 hd0 rfl rfl rfl,
      htagged scenarioEnv _ _ (scenarioItems 13) 0 0x80 false rfl (by decide),
      hany scenarioEnv 30 _ _ (scenarioItems 13) (-1) 0 true 0 hd0 rfl rfl rfl,
      hoptional scenarioEnv _ _ (scenarioItems 13) 0 rfl,
      htemplate scenarioEnv 30 _ _ (scenarioItems 6) 0 0x80 false 0 _ _ hd0 rfl rfl
        (Or.inl (by decide)),
      htemplate scenarioEnv 30 _ _ (scenarioItems 6) (-1) 0 true 0 _ _ hd0 rfl rfl
        (Or.inr rfl)]
    exact ⟨rfl, rfl, rfl, rfl, rfl, rfl⟩
/-- C20. Headers that must be constructed. When `asn1_check_tag` accepts the
header (it matches the expectation and its length is readable) and the
constructed bit is clear, `asn1_item_ex_d2i_sequence` fails with
SEQUENCE_NOT_CONSTRUCTED and the EXPLICIT case of `asn1_template_ex_d2i`
with EXPLICIT_TAG_NOT_CONSTRUCTED; `asn1_d2i_ex_primitive_content` for the
type SEQUENCE or SET fails with TYPE_NOT_CONSTRUCTED whenever the header it
is told about was not constructed. -/
theorem C20_constructed_bit_required :
    (∀ (env : Env) (tdec : TemplateDec) (pval : ASN1_VALUE) (cbs : CBS) (it : ASN1_ITEM)
        (tag cls : Int) (opt : Bool) (depth : Int),
      it.itype = ASN1_ITYPE_SEQUENCE ∨ it.itype = ASN1_ITYPE_NDEF_SEQUENCE →
      (asn1_check_tag (CBS_init cbs.data) (if tag = -1 then V_ASN1_SEQUENCE else tag)
        (if tag = -1 then V_ASN1_UNIVERSAL else cls) opt).ret = 1 →
      (asn1_check_tag (CBS_init cbs.data) (if tag = -1 then V_ASN1_SEQUENCE else tag)
        (if tag = -1 then V_ASN1_UNIVERSAL else cls) opt).constructed = false →
      asn1_item_ex_d2i_sequence env tdec pval cbs it tag cls opt depth
        = some ⟨0, ASN1_VALUE.null, cbs, [ASN1_R.SEQUENCE_NOT_CONSTRUCTED]⟩) ∧
    (∀ (d2i : ItemDec) (env : Env) (v : ASN1_VALUE) (cbs : CBS) (tt : ASN1_TEMPLATE)
        (opt : Bool) (depth : Int), tt.flags &&& ASN1_TFLG_EXPTAG ≠ 0 →
      (asn1_check_tag (CBS_init cbs.data) tt.tag
        ((tt.flags &&& ASN1_TFLG_TAG_CLASS : Nat) : Int) opt).ret = 1 →
      (asn1_check_tag (CBS_init cbs.data) tt.tag
        ((tt.flags &&& ASN1_TFLG_TAG_CLASS : Nat) : Int) opt).constructed = false →
      asn1_template_ex_d2i d2i env (some v) cbs tt opt depth
        = some ⟨0, v, cbs, [ASN1_R.EXPLICIT_TAG_NOT_CONSTRUCTED]⟩) ∧
    (∀ (env : Env) (pval : ASN1_VALUE) (cbs x : CBS) (utype : Int) (indefinite : Bool)
        (length : Nat) (it : ASN1_ITEM), utype = V_ASN1_SEQUENCE ∨ utype = V_ASN1_SET →
      asn1_d2i_ex_primitive_content env pval cbs x utype false indefinite length it
        = some ⟨0, pval, cbs, [ASN1_R.TYPE_NOT_CONSTRUCTED]⟩) ∧
    ASN1_item_ex_d2i scenarioEnv (some ASN1_VALUE.null) [0x10, 0x03, 0x02, 0x01, 0x05] 5
        (scenarioItems 4) (-1) 0 false
      = some ⟨0, ASN1_VALUE.null, 0, [ASN1_R.SEQUENCE_NOT_CONSTRUCTED]⟩ ∧
    ASN1_template_d2i scenarioEnv (some ASN1_VALUE.null) [0x80, 0x03, 0x02, 0x01, 0x05] 5
        ⟨0x90, 0, 0, 0⟩
      = some ⟨0, ASN1_VALUE.null, 0, [ASN1_R.EXPLICIT_TAG_NOT_CONSTRUCTED]⟩ ∧
    ASN1_template_d2i scenarioEnv (some ASN1_VALUE.null) [0xA0, 0x03, 0x02, 0x01, 0x05] 5
        ⟨0x90, 0, 0, 0⟩
      = some ⟨1, ASN1_VALUE.string V_ASN1_INTEGER [5], 5, []⟩ ∧
    ASN1_item_ex_d2i scenarioEnv (some ASN1_VALUE.null) [0x10, 0x03, 0x02, 0x01, 0x05] 5
        (scenarioItems 13) (-1) 0 false
      = some ⟨0, ASN1_VALUE.null, 0, [ASN1_R.TYPE_NOT_CONSTRUCTED]⟩ := by
  refine ⟨?_, ?_, ?_, by rfl, by rfl, by rfl, by rfl⟩
  · intro env tdec pval cbs it tag cls opt depth hit
    unfold asn1_item_ex_d2i_sequence
    generalize (if tag = -1 then V_ASN1_SEQUENCE else tag) = et
    generalize (if tag = -1 then V_ASN1_UNIVERSAL else cls) = ec
    intro h1 hc
    have hit1 : ¬ (it.itype ≠ ASN1_ITYPE_NDEF_SEQUENCE ∧ it.itype ≠ ASN1_ITYPE_SEQUENCE) := by
      rcases hit with h | h <;> simp [h]
    rw [if_neg hit1, if_neg (by rw [h1]; decide), if_neg (by rw [h1]; decide),
      if_pos (by rw [hc]; decide)]
  · intro d2i env v cbs tt opt depth hf h1 hc
    unfold asn1_template_ex_d2i
    simp only
    rw [if_neg hf, if_neg (by rw [h1]; decide), if_neg (by rw [h1]; decide),
      if_pos (by rw [hc]; decide)]
  · intro env pval cbs x utype indefinite length it hu
    unfold asn1_d2i_ex_primitive_content
    rw [if_pos ⟨hu, by decide⟩]

/-- C11. Definite length. When `asn1_item_ex_d2i_sequence` succeeds on a
definite-length header, its field loop ended without error with nothing left
of the `len` content bytes (having advanced by exactly `len` when the field
decoders are well behaved), and the caller's cursor stands header plus `len`
bytes further; when the loop ends without error and content bytes remain,
the call fails with SEQUENCE_LENGTH_MISMATCH. The same holds for the
EXPLICIT case of `asn1_template_ex_d2i` and the object it wraps. -/
theorem C11_definite_content_is_consumed_exactly :
    (∀ (env : Env) (tdec : TemplateDec) (pval : ASN1_VALUE) (cbs : CBS) (it : ASN1_ITEM)
        (tag cls : Int) (opt : Bool) (depth : Int) (H : TagOut) (r : Out),
      asn1_check_tag (CBS_init cbs.data) (if tag = -1 then V_ASN1_SEQUENCE else tag)
        (if tag = -1 then V_ASN1_UNIVERSAL else cls) opt = H →
      H.indefinite = false →
      asn1_item_ex_d2i_sequence env tdec pval cbs it tag cls opt depth = some r → r.ret = 1 →
      (∃ aseq1 l,
        sequence_fields env tdec it depth false it.templates 0 aseq1
          (CBS_init (H.cbs.data.take H.len)) false [] = some l ∧
        l.ret = 1 ∧ CBS_len l.cbs = 0 ∧
        (TemplateDec.GoodAt tdec depth →
          CBS.advanced (CBS_init (H.cbs.data.take H.len)) l.cbs H.len)) ∧
      r.cbs = ⟨cbs.data.drop (CBS_offset H.cbs + H.len), cbs.initial_len⟩ ∧
      CBS_offset H.cbs + H.len ≤ cbs.data.length) ∧
    (∀ (env : Env) (tdec : TemplateDec) (pval : ASN1_VALUE) (cbs : CBS) (it : ASN1_ITEM)
        (tag cls : Int) (opt : Bool) (depth : Int) (H : TagOut) (aseq0 aseq1 : ASN1_VALUE)
        (l : SeqLoopOut),
      it.itype = ASN1_ITYPE_SEQUENCE ∨ it.itype = ASN1_ITYPE_NDEF_SEQUENCE →
      asn1_check_tag (CBS_init cbs.data) (if tag = -1 then V_ASN1_SEQUENCE else tag)
        (if tag = -1 then V_ASN1_UNIVERSAL else cls) opt = H →
      H.ret = 1 → H.constructed = true → H.indefinite = false →
      ASN1_item_ex_new it = some aseq0 →
      run_asn1_cb it ASN1_OP_D2I_PRE aseq0 = some aseq1 →
      sequence_fields env tdec it depth false it.templates 0 aseq1
        (CBS_init (H.cbs.data.take H.len)) false [] = some l →
      l.ret = 1 → CBS_len l.cbs ≠ 0 →
      asn1_item_ex_d2i_sequence env tdec pval cbs it tag cls opt depth
        = some ⟨0, ASN1_VALUE.null, cbs, l.errs ++ [ASN1_R.SEQUENCE_LENGTH_MISMATCH]⟩) ∧
    (∀ (d2i : ItemDec) (env : Env) (v : ASN1_VALUE) (cbs : CBS) (tt : ASN1_TEMPLATE)
        (opt : Bool) (depth : Int) (H : TagOut) (r : Out),
      tt.flags &&& ASN1_TFLG_EXPTAG ≠ 0 →
      asn1_check_tag (CBS_init cbs.data) tt.tag
        ((tt.flags &&& ASN1_TFLG_TAG_CLASS : Nat) : Int) opt = H →
      H.indefinite = false →
      asn1_template_ex_d2i d2i env (some v) cbs tt opt depth = some r → r.ret = 1 →
      (∃ ri, asn1_template_noexp_d2i d2i env (some v) (CBS_init (H.cbs.data.take H.len)) tt
          false depth = some ri ∧
        ri.ret = 1 ∧ CBS_len ri.cbs = 0 ∧ r.pval = ri.pval ∧
        (ItemDec.GoodAt d2i depth → NoExtern env →
          CBS.advanced (CBS_init (H.cbs.data.take H.len)) ri.cbs H.len)) ∧
      r.cbs = ⟨cbs.data.drop (CBS_offset H.cbs + H.len), cbs.initial_len⟩ ∧
      CBS_offset H.cbs + H.len ≤ cbs.data.length) ∧
    (∀ (d2i : ItemDec) (env : Env) (v : ASN1_VALUE) (cbs : CBS) (tt : ASN1_TEMPLATE)
        (opt : Bool) (depth : Int) (H : TagOut) (ri : Out),
      tt.flags &&& ASN1_TFLG_EXPTAG ≠ 0 →
      asn1_check_tag (CBS_init cbs.data) tt.tag
        ((tt.flags &&& ASN1_TFLG_TAG_CLASS : Nat) : Int) opt = H →
      H.ret = 1 → H.constructed = true → H.indefinite = false →
      asn1_template_noexp_d2i d2i env (some v) (CBS_init (H.cbs.data.take H.len)) tt false
        depth = some ri →
      ri.ret = 1 → CBS_len ri.cbs ≠ 0 →
      asn1_template_ex_d2i d2i env (some v) cbs tt opt depth
        = some ⟨0, ASN1_VALUE.null, cbs, ri.errs ++ [ASN1_R.SEQUENCE_LENGTH_MISMATCH]⟩) ∧
    ASN1_item_ex_d2i scenarioEnv (some ASN1_VALUE.null)
        [0x30, 0x08, 0x02, 0x01, 0x05, 0x01, 0x01, 0xFF, 0x05, 0x00] 10 (scenarioItems 4)
        (-1) 0 false
      = some ⟨0, ASN1_VALUE.null, 0, [ASN1_R.SEQUENCE_LENGTH_MISMATCH]⟩ ∧
    ASN1_item_ex_d2i scenarioEnv (some ASN1_VALUE.null)
        [0x30, 0x08, 0x02, 0x01, 0x05, 0x01, 0x01, 0xFF, 0x00, 0x00] 10 (scenarioItems 4)
        (-1) 0 false
      = some ⟨0, ASN1_VALUE.null, 0, [ASN1_R.SEQUENCE_LENGTH_MISMATCH]⟩ ∧
    ASN1_item_ex_d2i scenarioEnv (some ASN1_VALUE.null)
        [0x30, 0x06, 0x02, 0x01, 0x05, 0x01, 0x01, 0xFF, 0x05, 0x00] 10 (scenarioItems 4)
        (-1) 0 false
      = some ⟨1, ASN1_VALUE.aggregate (-1)
          [ASN1_VALUE.string V_ASN1_INTEGER [5], ASN1_VALUE.boolean 255]
          (some [0x30, 0x06, 0x02, 0x01, 0x05, 0x01, 0x01, 0xFF]), 8, []⟩ ∧
    ASN1_template_d2i scenarioEnv (some ASN1_VALUE.null)
        [0xA0, 0x05, 0x02, 0x01, 0x05, 0x05, 0x00] 7 ⟨0x90, 0, 0, 0⟩
      = some ⟨0, ASN1_VALUE.null, 0, [ASN1_R.SEQUENCE_LENGTH_MISMATCH]⟩ ∧
    ASN1_template_d2i scenarioEnv (some ASN1_VALUE.null)
        [0xA0, 0x03, 0x02, 0x01, 0x05, 0x05, 0x00] 7 ⟨0x90, 0, 0, 0⟩
      = some ⟨1, ASN1_VALUE.string V_ASN1_INTEGER [5], 5, []⟩ := by
  refine ⟨?_, ?_, ?_, ?_, by rfl, by rfl, by rfl, by rfl, by rfl⟩
  · intro env tdec pval cbs it tag cls opt depth H r hH hi hr hr1
    obtain ⟨hit, h1, hc⟩ := asn1_item_ex_d2i_sequence_accepts hr hr1
    rw [hH] at h1 hc
    obtain ⟨_, _, _, hdef⟩ := @asn1_item_ex_d2i_sequence_header env tdec pval cbs it tag cls opt
      depth H hit hH h1 hc
    obtain ⟨hle, a0, heq⟩ := hdef hi
    rw [heq] at hr
    obtain ⟨aseq0, aseq1, l, l2, _, _, hl, hl1, hcl, rfl⟩ := sequence_body_success_cb hr hr1
    have he : l.eoc_needed = false := by
      cases h : l.eoc_needed with
      | false => rfl
      | true =>
        have := sequence_fields_eoc_needed _ _ _ _ _ _ l hl h
        cases this
    have hl2 : l2 = l := by
      rcases hcl with ⟨h, _⟩ | ⟨_, h⟩
      · rw [he] at h
        cases h
      · exact h
    subst hl2
    have hz := sequence_finish_len hr1
    obtain ⟨_, _, _, q3, q4⟩ := sequence_finish_span a0 hr1
    simp only [Bool.false_eq_true, if_false] at q3 q4
    refine ⟨⟨aseq1, l2, hl, hl1, hz, ?_⟩, q3, q4⟩
    intro hg
    obtain ⟨lt, hlt, _, hadv⟩ := sequence_fields_total hg env it false it.templates 0 aseq1
      (CBS_init (H.cbs.data.take H.len)) false []
    rw [hl] at hlt
    cases hlt
    obtain ⟨k, a⟩ := hadv hl1
    have hk := CBS.advanced_length a
    have hlen : (CBS_init (H.cbs.data.take H.len)).data.length = H.len := by
      show (H.cbs.data.take H.len).length = H.len
      rw [List.length_take]
      omega
    have hk2 : k = H.len := by
      unfold CBS_len at hz
      omega
    rw [hk2] at a
    exact a
  · intro env tdec pval cbs it tag cls opt depth H aseq0 aseq1 l hit hH h1 hc hi hnew hpre hl
      hl1 hz
    obtain ⟨_, _, _, hdef⟩ := @asn1_item_ex_d2i_sequence_header env tdec pval cbs it tag cls opt
      depth H hit hH h1 hc
    obtain ⟨_, _, heq⟩ := hdef hi
    have he : l.eoc_needed = false := by
      cases h : l.eoc_needed with
      | false => rfl
      | true =>
        have := sequence_fields_eoc_needed _ _ _ _ _ _ l hl h
        cases this
    rw [heq, sequence_body_closed hnew hpre hl hl1 (Or.inr ⟨he, rfl⟩),
      sequence_finish_mismatch env cbs _ it l hz]
  · intro d2i env v cbs tt opt depth H r hf hH hi hr hr1
    obtain ⟨h1, hc⟩ := asn1_template_ex_d2i_accepts hf hr hr1
    rw [hH] at h1 hc
    obtain ⟨_, _, _, hdef⟩ := @asn1_template_ex_d2i_header d2i env v cbs tt opt depth H hf hH
      h1 hc
    obtain ⟨hle, a0, heq⟩ := hdef hi
    rw [heq] at hr
    obtain ⟨ri, hn, hri, hp, _, hfin⟩ := template_explicit_body_success hr hr1
    simp only [Bool.false_eq_true, if_false] at hfin
    obtain ⟨hz, hs⟩ := hfin
    have ho : CBS_offset (⟨H.cbs.data.drop H.len, H.cbs.initial_len⟩ : CBS)
        = CBS_offset H.cbs + H.len := CBS.advanced_offset a0 rfl
    rw [ho, CBS_skip_of_le cbs _ a0.1] at hs
    refine ⟨⟨ri, hn, hri, hz, hp, ?_⟩, (Option.some.inj hs).symm, a0.1⟩
    intro hg hne
    obtain ⟨rt, hrt, _, hadv, _⟩ := asn1_template_noexp_d2i_ok hg hne (some v)
      (CBS_init (H.cbs.data.take H.len)) tt false
    rw [hn] at hrt
    cases hrt
    obtain ⟨k, _, a⟩ := hadv hri
    have hk := CBS.advanced_length a
    have hlen : (CBS_init (H.cbs.data.take H.len)).data.length = H.len := by
      show (H.cbs.data.take H.len).length = H.len
      rw [List.length_take]
      omega
    have hk2 : k = H.len := by
      unfold CBS_len at hz
      omega
    rw [hk2] at a
    exact a
  · intro d2i env v cbs tt opt depth H ri hf hH h1 hc hi hn hri hz
    obtain ⟨_, _, _, hdef⟩ := @asn1_template_ex_d2i_header d2i env v cbs tt opt depth H hf hH
      h1 hc
    obtain ⟨_, _, heq⟩ := hdef hi
    rw [heq, template_explicit_body_mismatch hn hri hz]

/-- C12. End-of-contents markers in SEQUENCE and SET OF / SEQUENCE OF.
Definite length: when the field loop of a SEQUENCE has read the fields `pre`
and finds a marker where the next field would start, or the element loop of
a SET OF finds one where the next element would start, the call fails with
UNEXPECTED_EOC. Indefinite length: when the field loop ends without error
still needing its marker and none stands there, or the element loop has used
up the content, the call fails with MISSING_EOC; and on success the
caller's cursor stands right behind one marker, the one found behind the `k`
content bytes of the fields (of the elements). The element decoders are
taken to be well behaved where the statement counts bytes or follows the
element loop. -/
theorem C12_end_of_contents_discipline :
    (∀ (env : Env) (tdec : TemplateDec) (pval : ASN1_VALUE) (cbs : CBS) (it : ASN1_ITEM)
        (tag cls : Int) (opt : Bool) (depth : Int) (H : TagOut) (aseq0 aseq1 A : ASN1_VALUE)
        (pre rest : List ASN1_TEMPLATE) (tt : ASN1_TEMPLATE) (c c1 : CBS) (e : List ASN1_R),
      it.itype = ASN1_ITYPE_SEQUENCE ∨ it.itype = ASN1_ITYPE_NDEF_SEQUENCE →
      asn1_check_tag (CBS_init cbs.data) (if tag = -1 then V_ASN1_SEQUENCE else tag)
        (if tag = -1 then V_ASN1_UNIVERSAL else cls) opt = H →
      H.ret = 1 → H.constructed = true → H.indefinite = false →
      ASN1_item_ex_new it = some aseq0 →
      run_asn1_cb it ASN1_OP_D2I_PRE aseq0 = some aseq1 →
      it.templates = pre ++ tt :: rest →
      sequence_fields env tdec it depth false pre 0 aseq1 (CBS_init (H.cbs.data.take H.len))
        false [] = some ⟨1, pre.length, A, c, false, e⟩ →
      asn1_check_eoc c = some c1 →
      asn1_item_ex_d2i_sequence env tdec pval cbs it tag cls opt depth
        = some ⟨0, ASN1_VALUE.null, cbs, e ++ [ASN1_R.UNEXPECTED_EOC]⟩) ∧
    (∀ (env : Env) (tdec : TemplateDec) (pval : ASN1_VALUE) (cbs : CBS) (it : ASN1_ITEM)
        (tag cls : Int) (opt : Bool) (depth : Int) (H : TagOut) (aseq0 aseq1 : ASN1_VALUE)
        (l : SeqLoopOut),
      it.itype = ASN1_ITYPE_SEQUENCE ∨ it.itype = ASN1_ITYPE_NDEF_SEQUENCE →
      asn1_check_tag (CBS_init cbs.data) (if tag = -1 then V_ASN1_SEQUENCE else tag)
        (if tag = -1 then V_ASN1_UNIVERSAL else cls) opt = H →
      H.ret = 1 → H.constructed = true → H.indefinite = true →
      ASN1_item_ex_new it = some aseq0 →
      run_asn1_cb it ASN1_OP_D2I_PRE aseq0 = some aseq1 →
      sequence_fields env tdec it depth true it.templates 0 aseq1 (CBS_init H.cbs.data) true []
        = some l →
      l.ret = 1 → l.eoc_needed = true → asn1_check_eoc l.cbs = none →
      asn1_item_ex_d2i_sequence env tdec pval cbs it tag cls opt depth
        = some ⟨0, ASN1_VALUE.null, cbs, l.errs ++ [ASN1_R.MISSING_EOC]⟩) ∧
    (∀ (env : Env) (tdec : TemplateDec) (pval : ASN1_VALUE) (cbs : CBS) (it : ASN1_ITEM)
        (tag cls : Int) (opt : Bool) (depth : Int) (H : TagOut) (r : Out),
      TemplateDec.GoodAt tdec depth →
      asn1_check_tag (CBS_init cbs.data) (if tag = -1 then V_ASN1_SEQUENCE else tag)
        (if tag = -1 then V_ASN1_UNIVERSAL else cls) opt = H →
      H.indefinite = true →
      asn1_item_ex_d2i_sequence env tdec pval cbs it tag cls opt depth = some r → r.ret = 1 →
      ∃ c0 c1 k, CBS.advanced (CBS_init H.cbs.data) c0 k ∧ asn1_check_eoc c0 = some c1 ∧
        r.cbs = ⟨cbs.data.drop (CBS_offset H.cbs + k + 2), cbs.initial_len⟩ ∧
        CBS_offset H.cbs + k + 2 ≤ cbs.data.length) ∧
    (∀ (d2i : ItemDec) (env : Env) (v : ASN1_VALUE) (cbs : CBS) (tt : ASN1_TEMPLATE)
        (opt : Bool) (depth : Int) (H : TagOut) (rs : List Out) (c1 c2 : CBS),
      ItemDec.GoodAt d2i depth → (env.item tt.item).itype ≠ ASN1_ITYPE_EXTERN →
      asn1_check_tag (CBS_init cbs.data) (stack_of_tag_number tt) (stack_of_tag_class tt) opt
        = H →
      H.ret = 1 → H.indefinite = false →
      ElemChain d2i (env.item tt.item) depth (CBS_init (H.cbs.data.take H.len)) rs c1 →
      asn1_check_eoc c1 = some c2 →
      ∃ errs, asn1_template_stack_of_d2i d2i env (some v) cbs tt opt depth
        = some ⟨0, ASN1_VALUE.null, cbs, errs ++ [ASN1_R.UNEXPECTED_EOC]⟩) ∧
    (∀ (d2i : ItemDec) (env : Env) (v : ASN1_VALUE) (cbs : CBS) (tt : ASN1_TEMPLATE)
        (opt : Bool) (depth : Int) (H : TagOut) (rs : List Out) (c1 : CBS),
      ItemDec.GoodAt d2i depth → (env.item tt.item).itype ≠ ASN1_ITYPE_EXTERN →
      asn1_check_tag (CBS_init cbs.data) (stack_of_tag_number tt) (stack_of_tag_class tt) opt
        = H →
      H.ret = 1 → H.indefinite = true →
      ElemChain d2i (env.item tt.item) depth (CBS_init H.cbs.data) rs c1 →
      CBS_len c1 = 0 →
      ∃ errs, asn1_template_stack_of_d2i d2i env (some v) cbs tt opt depth
        = some ⟨0, ASN1_VALUE.null, cbs, errs ++ [ASN1_R.MISSING_EOC]⟩) ∧
    (∀ (d2i : ItemDec) (env : Env) (v : ASN1_VALUE) (cbs : CBS) (tt : ASN1_TEMPLATE)
        (opt : Bool) (depth : Int) (H : TagOut) (r : Out),
      ItemDec.GoodAt d2i depth → (env.item tt.item).itype ≠ ASN1_ITYPE_EXTERN →
      asn1_check_tag (CBS_init cbs.data) (stack_of_tag_number tt) (stack_of_tag_class tt) opt
        = H →
      H.indefinite = true →
      asn1_template_stack_of_d2i d2i env (some v) cbs tt opt depth = some r → r.ret = 1 →
      ∃ rs c1 c2 k, ElemChain d2i (env.item tt.item) depth (CBS_init H.cbs.data) rs c1 ∧
        CBS.advanced (CBS_init H.cbs.data) c1 k ∧ asn1_check_eoc c1 = some c2 ∧
        r.pval = ASN1_VALUE.stack (rs.map (fun e => e.pval)) ∧
        r.cbs = ⟨cbs.data.drop (CBS_offset H.cbs + k + 2), cbs.initial_len⟩ ∧
        CBS_offset H.cbs + k + 2 ≤ cbs.data.length) ∧
    ASN1_item_ex_d2i scenarioEnv (some ASN1_VALUE.null)
        [0x30, 0x05, 0x02, 0x01, 0x05, 0x00, 0x00] 7 (scenarioItems 4) (-1) 0 false
      = some ⟨0, ASN1_VALUE.null, 0, [ASN1_R.UNEXPECTED_EOC]⟩ ∧
    ASN1_item_ex_d2i scenarioEnv (some ASN1_VALUE.null)
        [0x30, 0x80, 0x02, 0x01, 0x05, 0x01, 0x01, 0xFF] 8 (scenarioItems 4) (-1) 0 false
      = some ⟨0, ASN1_VALUE.null, 0, [ASN1_R.MISSING_EOC]⟩ ∧
    ASN1_item_ex_d2i scenarioEnv (some ASN1_VALUE.null)
        [0x30, 0x80, 0x02, 0x01, 0x05, 0x01, 0x01, 0xFF, 0x05, 0x00] 10 (scenarioItems 4)
        (-1) 0 false
      = some ⟨0, ASN1_VALUE.null, 0, [ASN1_R.MISSING_EOC]⟩ ∧
    ASN1_item_ex_d2i scenarioEnv (some ASN1_VALUE.null)
        [0x30, 0x80, 0x02, 0x01, 0x05, 0x01, 0x01, 0xFF, 0x00, 0x00, 0x00, 0x00] 12
        (scenarioItems 4) (-1) 0 false
      = some ⟨1, ASN1_VALUE.aggregate (-1)
          [ASN1_VALUE.string V_ASN1_INTEGER [5], ASN1_VALUE.boolean 255]
          (some [0x30, 0x80, 0x02, 0x01, 0x05, 0x01, 0x01, 0xFF, 0x00, 0x00]), 10, []⟩ ∧
    ASN1_item_ex_d2i scenarioEnv (some ASN1_VALUE.null)
        [0x30, 0x05, 0x02, 0x01, 0x05, 0x00, 0x00] 7 (scenarioItems 6) (-1) 0 false
      = some ⟨0, ASN1_VALUE.null, 0, [ASN1_R.UNEXPECTED_EOC]⟩ ∧
    ASN1_item_ex_d2i scenarioEnv (some ASN1_VALUE.null)
        [0x30, 0x80, 0x02, 0x01, 0x05, 0x02, 0x01, 0x06] 8 (scenarioItems 6) (-1) 0 false
      = some ⟨0, ASN1_VALUE.null, 0, [ASN1_R.MISSING_EOC]⟩ ∧
    ASN1_item_ex_d2i scenarioEnv (some ASN1_VALUE.null)
        [0x30, 0x80, 0x02, 0x01, 0x05, 0x02, 0x01, 0x06, 0x00, 0x00, 0x00, 0x00] 12
        (scenarioItems 6) (-1) 0 false
      = some ⟨1, ASN1_VALUE.stack [ASN1_VALUE.string V_ASN1_INTEGER [5],
          ASN1_VALUE.string V_ASN1_INTEGER [6]], 10, []⟩ := by
  refine ⟨?_, ?_, ?_, ?_, ?_, ?_, by rfl, by rfl, by rfl, by rfl, by rfl, by rfl, by rfl⟩
  · intro env tdec pval cbs it tag cls opt depth H aseq0 aseq1 A pre rest tt c c1 e hit hH h1
      hc hi hnew hpre htts hp hce
    obtain ⟨_, _, _, hdef⟩ := @asn1_item_ex_d2i_sequence_header env tdec pval cbs it tag cls opt
      depth H hit hH h1 hc
    obtain ⟨_, _, heq⟩ := hdef hi
    have hp0 : sequence_fields env tdec it depth false pre 0 aseq1
        (CBS_init (H.cbs.data.take H.len)) false []
        = some ⟨1, 0 + pre.length, A, c, false, e⟩ := by
      rw [Nat.zero_add]
      exact hp
    have hl := sequence_fields_append pre (tt :: rest) 0 aseq1 _ false [] A c false e hp0
    rw [← htts, sequence_fields_at_eoc env tdec it depth false tt rest _ _ c c1 _ _ hce] at hl
    simp only [Bool.false_eq_true, not_false_eq_true, if_true] at hl
    rw [heq, sequence_body_loop_error hnew hpre hl rfl]
  · intro env tdec pval cbs it tag cls opt depth H aseq0 aseq1 l hit hH h1 hc hi hnew hpre hl
      hl1 he hce
    obtain ⟨_, _, hindef, _⟩ := @asn1_item_ex_d2i_sequence_header env tdec pval cbs it tag cls
      opt depth H hit hH h1 hc
    rw [hindef hi, sequence_body_missing_eoc hnew hpre hl hl1 he hce]
  · intro env tdec pval cbs it tag cls opt depth H r hg hH hi hr hr1
    obtain ⟨hit, h1, hc⟩ := asn1_item_ex_d2i_sequence_accepts hr hr1
    rw [hH] at h1 hc
    obtain ⟨_, a, hindef, _⟩ := @asn1_item_ex_d2i_sequence_header env tdec pval cbs it tag cls
      opt depth H hit hH h1 hc
    rw [hindef hi] at hr
    obtain ⟨_, aseq1, l, l2, _, _, hl, hl1, hcl, rfl⟩ := sequence_body_success_cb hr hr1
    obtain ⟨_, _, _, q3, q4⟩ := sequence_finish_span a hr1
    simp only [if_true] at q3 q4
    obtain ⟨c0, k, a1, hc0, a2⟩ := sequence_closed_marker hg hl hl1 hcl
    have ho : CBS_offset l2.cbs = k + 2 := CBS.advanced_offset a2 rfl
    rw [ho, ← Nat.add_assoc] at q3 q4
    exact ⟨c0, l2.cbs, k, a1, hc0, q3, q4⟩
  · intro d2i env v cbs tt opt depth H rs c1 c2 hg hit hH h1 hi hch hce
    obtain ⟨_, _, _, hdef⟩ := @asn1_template_stack_of_d2i_header d2i env v cbs tt opt depth H
      hH h1
    obtain ⟨_, _, heq⟩ := hdef hi
    rw [heq]
    exact stack_of_body_unexpected_eoc hg hit cbs _ hch hce
  · intro d2i env v cbs tt opt depth H rs c1 hg hit hH h1 hi hch hz
    obtain ⟨_, _, hindef, _⟩ := @asn1_template_stack_of_d2i_header d2i env v cbs tt opt depth H
      hH h1
    rw [hindef hi]
    exact stack_of_body_missing_eoc hg hit cbs _ hch hz
  · intro d2i env v cbs tt opt depth H r hg hit hH hi hr hr1
    have h1 := asn1_template_stack_of_d2i_accepts hr hr1
    rw [hH] at h1
    obtain ⟨_, a, hindef, _⟩ := @asn1_template_stack_of_d2i_header d2i env v cbs tt opt depth H
      hH h1
    rw [hindef hi] at hr
    exact stack_of_body_marker hg hit a hr hr1
/-- C13. On every successful `asn1_item_ex_d2i_sequence` the bytes given to
`asn1_enc_save` are the first `n` bytes at the caller's cursor, the value
published is what the POST callback leaves of the structure with that
encoding saved, and the caller's cursor has advanced by `n`. For the
definite form `n` is the length of the header plus the declared content
length; for the indefinite form, with well-behaved field decoders, `n` is
the length of the header plus the `k` content bytes of the fields plus the 2
bytes of the closing marker found behind them. -/
theorem C13_saved_encoding_is_the_whole_sequence :
    (∀ (env : Env) (tdec : TemplateDec) (pval : ASN1_VALUE) (cbs : CBS) (it : ASN1_ITEM)
        (tag cls : Int) (opt : Bool) (depth : Int) (H : TagOut) (r : Out),
      asn1_check_tag (CBS_init cbs.data) (if tag = -1 then V_ASN1_SEQUENCE else tag)
        (if tag = -1 then V_ASN1_UNIVERSAL else cls) opt = H →
      asn1_item_ex_d2i_sequence env tdec pval cbs it tag cls opt depth = some r → r.ret = 1 →
      CBS.advanced (CBS_init cbs.data) H.cbs (CBS_offset H.cbs) ∧
      ∃ n aseq aseq1, n ≤ cbs.data.length ∧
        asn1_enc_save aseq (cbs.data.take n) = some aseq1 ∧
        run_asn1_cb it ASN1_OP_D2I_POST aseq1 = some r.pval ∧
        r.cbs = ⟨cbs.data.drop n, cbs.initial_len⟩ ∧
        (H.indefinite = false → n = CBS_offset H.cbs + H.len) ∧
        (H.indefinite = true → TemplateDec.GoodAt tdec depth →
          ∃ c0 c1 k, CBS.advanced (CBS_init H.cbs.data) c0 k ∧
            asn1_check_eoc c0 = some c1 ∧ n = CBS_offset H.cbs + k + 2)) ∧
    ASN1_item_ex_d2i scenarioEnv (some ASN1_VALUE.null)
        [0x30, 0x06, 0x02, 0x01, 0x05, 0x01, 0x01, 0xFF, 0x05, 0x00] 10 (scenarioItems 4)
        (-1) 0 false
      = some ⟨1, ASN1_VALUE.aggregate (-1)
          [ASN1_VALUE.string V_ASN1_INTEGER [5], ASN1_VALUE.boolean 255]
          (some [0x30, 0x06, 0x02, 0x01, 0x05, 0x01, 0x01, 0xFF]), 8, []⟩ ∧
    ASN1_item_ex_d2i scenarioEnv (some ASN1_VALUE.null)
        [0x30, 0x80, 0x02, 0x01, 0x05, 0x01, 0x01, 0xFF, 0x00, 0x00, 0x07] 11
        (scenarioItems 4) (-1) 0 false
      = some ⟨1, ASN1_VALUE.aggregate (-1)
          [ASN1_VALUE.string V_ASN1_INTEGER [5], ASN1_VALUE.boolean 255]
          (some [0x30, 0x80, 0x02, 0x01, 0x05, 0x01, 0x01, 0xFF, 0x00, 0x00]), 10, []⟩ ∧
    ASN1_item_ex_d2i scenarioEnv (some ASN1_VALUE.null)
        [0x30, 0x80, 0x02, 0x01, 0x05, 0x00, 0x00, 0x00, 0x00] 9
        (scenarioItems 10) (-1) 0 false
      = some ⟨1, ASN1_VALUE.aggregate (-1)
          [ASN1_VALUE.string V_ASN1_INTEGER [5], ASN1_VALUE.null]
          (some [0x30, 0x80, 0x02, 0x01, 0x05, 0x00, 0x00]), 7, []⟩ := by
  refine ⟨?_, by rfl, by rfl, by rfl⟩
  intro env tdec pval cbs it tag cls opt depth H r hH hr hr1
  obtain ⟨hit, h1, hc⟩ := asn1_item_ex_d2i_sequence_accepts hr hr1
  rw [hH] at h1 hc
  obtain ⟨_, a, hindef, hdef⟩ := @asn1_item_ex_d2i_sequence_header env tdec pval cbs it tag cls
    opt depth H hit hH h1 hc
  refine ⟨a, ?_⟩
  cases hi : H.indefinite with
  | false =>
    obtain ⟨_, a0, heq⟩ := hdef hi
    rw [heq] at hr
    obtain ⟨_, _, l, l2, _, _, _, _, _, rfl⟩ := sequence_body_success_cb hr hr1
    obtain ⟨aseq1, q1, q2, q3, q4⟩ := sequence_finish_span a0 hr1
    simp only [Bool.false_eq_true, if_false] at q1 q3 q4
    exact ⟨_, _, aseq1, q4, q1, q2, q3, fun _ => rfl, fun h => Bool.noConfusion h⟩
  | true =>
    have heq := hindef hi
    rw [heq] at hr
    obtain ⟨_, aseq1, l, l2, _, _, hl, hl1, hcl, rfl⟩ := sequence_body_success_cb hr hr1
    obtain ⟨aseq2, q1, q2, q3, q4⟩ := sequence_finish_span a hr1
    simp only [if_true] at q1 q3 q4
    refine ⟨_, _, aseq2, q4, q1, q2, q3, fun h => Bool.noConfusion h, fun _ hg => ?_⟩
    obtain ⟨c0, k, a1, hc0, a2⟩ := sequence_closed_marker hg hl hl1 hcl
    have ho : CBS_offset l2.cbs = k + 2 := CBS.advanced_offset a2 rfl
    exact ⟨c0, l2.cbs, k, a1, hc0, by rw [ho, Nat.add_assoc]⟩

/-- C16. Objects retained verbatim. For a primitive item of the type SEQUENCE,
SET or OTHER whose header `asn1_check_tag` read in `H` bytes (the offset of
the cursor it returns): with a definite length `L`, `asn1_d2i_ex_primitive`
hands `asn1_ex_c2i` the first `H + L` bytes at the object's start and on
success advances the cursor by `H + L`; whenever it succeeds, the value is
what `asn1_ex_c2i` builds from the first `n` bytes at the object's start and
the cursor advances by `n`, where `n = H + L` for a definite length and for an
indefinite length `n` runs through the end-of-contents marker that follows a
series of complete objects; `asn1_find_end` finds that marker whenever there
is one; and with no custom functions the value built is the string of exactly
those bytes. -/
theorem C16_verbatim_types_keep_their_encoding :
    (∀ (env : Env) (pval : ASN1_VALUE) (cbs : CBS) (it : ASN1_ITEM) (tag cls : Int)
        (opt : Bool) (H : TagOut),
      it.utype = V_ASN1_SEQUENCE ∨ it.utype = V_ASN1_SET ∨ it.utype = V_ASN1_OTHER →
      it.itype ≠ ASN1_ITYPE_MSTRING →
      asn1_check_tag (CBS_init cbs.data) (if tag = -1 then it.utype else tag)
        (if tag = -1 then V_ASN1_UNIVERSAL else cls) opt = H →
      H.ret = 1 → H.indefinite = false →
      it.utype = V_ASN1_OTHER ∨ H.constructed = true →
      asn1_d2i_ex_primitive env pval cbs it tag cls opt
        = some
          (if (asn1_ex_c2i env pval (CBS_init (cbs.data.take (CBS_offset H.cbs + H.len)))
              it.utype it).ret = 0 then
            ⟨0, (asn1_ex_c2i env pval (CBS_init (cbs.data.take (CBS_offset H.cbs + H.len)))
                it.utype it).pval, cbs,
              (asn1_ex_c2i env pval (CBS_init (cbs.data.take (CBS_offset H.cbs + H.len)))
                it.utype it).errs⟩
          else
            ⟨1, (asn1_ex_c2i env pval (CBS_init (cbs.data.take (CBS_offset H.cbs + H.len)))
                it.utype it).pval,
              ⟨cbs.data.drop (CBS_offset H.cbs + H.len), cbs.initial_len⟩,
              (asn1_ex_c2i env pval (CBS_init (cbs.data.take (CBS_offset H.cbs + H.len)))
                it.utype it).errs⟩)) ∧
    (∀ (env : Env) (pval : ASN1_VALUE) (cbs : CBS) (it : ASN1_ITEM) (tag cls : Int)
        (opt : Bool) (H : TagOut) (r : Out),
      it.utype = V_ASN1_SEQUENCE ∨ it.utype = V_ASN1_SET ∨ it.utype = V_ASN1_OTHER →
      asn1_check_tag (CBS_init cbs.data) (if tag = -1 then it.utype else tag)
        (if tag = -1 then V_ASN1_UNIVERSAL else cls) opt = H →
      asn1_d2i_ex_primitive env pval cbs it tag cls opt = some r → r.ret = 1 →
      H.ret = 1 ∧
      ∃ n, n ≤ cbs.data.length ∧
        (asn1_ex_c2i env pval (CBS_init (cbs.data.take n)) it.utype it).ret ≠ 0 ∧
        r.pval = (asn1_ex_c2i env pval (CBS_init (cbs.data.take n)) it.utype it).pval ∧
        r.cbs = ⟨cbs.data.drop n, cbs.initial_len⟩ ∧
        (H.indefinite = false → n = CBS_offset H.cbs + H.len) ∧
        (H.indefinite = true → H.cbs.data.length < SIZE_MAX →
          ∃ c1 c2 k, ObjectSeries H.cbs c1 ∧ CBS.advanced H.cbs c1 k ∧
            asn1_check_eoc c1 = some c2 ∧ n = CBS_offset H.cbs + k + 2)) ∧
    (∀ (x c1 c2 : CBS) (length : Nat), ObjectSeries x c1 → asn1_check_eoc c1 = some c2 →
      x.data.length < SIZE_MAX → asn1_find_end x length true = some ⟨1, c2, []⟩) ∧
    (∀ (env : Env) (pval : ASN1_VALUE) (content : CBS) (it : ASN1_ITEM),
      it.utype = V_ASN1_SEQUENCE ∨ it.utype = V_ASN1_SET ∨ it.utype = V_ASN1_OTHER →
      it.funcs = ASN1_FUNCS.null → CBS_len content ≤ INT_MAX →
      asn1_ex_c2i env pval content it.utype it
        = ⟨1, ASN1_VALUE.string it.utype content.data, []⟩) ∧
    ASN1_item_ex_d2i scenarioEnv (some ASN1_VALUE.null) [0x30, 0x03, 0x02, 0x01, 0x05, 0xFF] 6
        (scenarioItems 15) (-1) 0 false
      = some ⟨1, ASN1_VALUE.string V_ASN1_SEQUENCE [0x30, 0x03, 0x02, 0x01, 0x05], 5, []⟩ ∧
    ASN1_item_ex_d2i scenarioEnv (some ASN1_VALUE.null)
        [0x30, 0x80, 0x30, 0x80, 0x00, 0x00, 0x02, 0x01, 0x05, 0x00, 0x00, 0x07] 12
        (scenarioItems 15) (-1) 0 false
      = some ⟨1, ASN1_VALUE.string V_ASN1_SEQUENCE
          [0x30, 0x80, 0x30, 0x80, 0x00, 0x00, 0x02, 0x01, 0x05, 0x00, 0x00], 11, []⟩ ∧
    ASN1_item_ex_d2i scenarioEnv (some ASN1_VALUE.null)
        [0x30, 0x80, 0x30, 0x04, 0x00, 0x00, 0x00, 0x00, 0x00, 0x00, 0x07] 11
        (scenarioItems 15) (-1) 0 false
      = some ⟨1, ASN1_VALUE.string V_ASN1_SEQUENCE
          [0x30, 0x80, 0x30, 0x04, 0x00, 0x00, 0x00, 0x00, 0x00, 0x00], 10, []⟩ ∧
    ASN1_item_ex_d2i scenarioEnv (some ASN1_VALUE.null)
        [0x30, 0x80, 0x30, 0x80, 0x00, 0x00, 0x02, 0x01, 0x05] 9
        (scenarioItems 15) (-1) 0 false
      = some ⟨0, ASN1_VALUE.null, 0, [ASN1_R.MISSING_EOC]⟩ := by
  refine ⟨?_, ?_, ?_, ?_, by rfl, by rfl, by rfl, by rfl⟩
  · intro env pval cbs it tag cls opt H hu hit
    have hany : ¬ (it.utype = V_ASN1_ANY) := by
      rcases hu with h | h | h <;> rw [h] <;> decide
    unfold asn1_d2i_ex_primitive
    generalize (if tag = -1 then it.utype else tag) = et
    generalize (if tag = -1 then V_ASN1_UNIVERSAL else cls) = ec
    intro hH h1 hi hc
    subst hH
    obtain ⟨⟨k, _, a⟩, hlen, _, _⟩ := asn1_check_tag_ok h1
    have ho : CBS_offset (asn1_check_tag (CBS_init cbs.data) et ec opt).cbs = k :=
      CBS.advanced_offset a rfl
    rw [if_neg hit, if_neg hany, if_neg (by rw [h1]; decide), if_neg (by rw [h1]; decide), hi,
      ho]
    refine asn1_d2i_ex_primitive_content_definite hu ?_ a (hlen hi)
    rintro ⟨hs, hn⟩
    rcases hc with hc | hc
    · rw [hc] at hs
      rcases hs with hs | hs <;> exact absurd hs (by decide)
    · exact hn hc
  · intro env pval cbs it tag cls opt H r hu
    have hany : ¬ (it.utype = V_ASN1_ANY) := by
      rcases hu with h | h | h <;> rw [h] <;> decide
    unfold asn1_d2i_ex_primitive
    generalize (if tag = -1 then it.utype else tag) = et
    generalize (if tag = -1 then V_ASN1_UNIVERSAL else cls) = ec
    intro hH h hr
    subst hH
    by_cases hit : it.itype = ASN1_ITYPE_MSTRING
    · rw [if_pos hit] at h
      cases h
      simp at hr
    · rw [if_neg hit, if_neg hany] at h
      by_cases hm : (asn1_check_tag (CBS_init cbs.data) et ec opt).ret = -1
      · rw [if_pos hm] at h
        cases h
        simp at hr
      · rw [if_neg hm] at h
        by_cases h1 : (asn1_check_tag (CBS_init cbs.data) et ec opt).ret ≠ 1
        · rw [if_pos h1] at h
          cases h
          simp at hr
        · rw [if_neg h1] at h
          have h1 : (asn1_check_tag (CBS_init cbs.data) et ec opt).ret = 1 := not_not.mp h1
          obtain ⟨⟨k, _, a⟩, _, _, _⟩ := asn1_check_tag_ok h1
          have ho : CBS_offset (asn1_check_tag (CBS_init cbs.data) et ec opt).cbs = k :=
            CBS.advanced_offset a rfl
          rw [ho]
          exact ⟨h1, asn1_d2i_ex_primitive_content_span hu a h hr⟩
  · intro x c1 c2 length hs he hb
    exact asn1_find_end_series length hs he hb
  · intro env pval content it hu hf hl
    have hany : ¬ (it.utype = V_ASN1_ANY) := by
      rcases hu with h | h | h <;> rw [h] <;> decide
    unfold asn1_ex_c2i
    rw [if_neg (by omega), hf]
    simp only
    rw [if_neg hany]
    exact asn1_ex_c2i_primitive_verbatim env pval content it.utype it hf hu hl

/-- C17. Decoding ANY. `asn1_d2i_ex_primitive` hands an item of the type ANY
to `asn1_d2i_ex_any`, which reads one header with `asn1_check_tag` told to
expect no tag, fails when that header is not readable, and otherwise decodes
the content for the type OTHER when the observed class is not UNIVERSAL and
for the observed tag number when it is. When the call succeeds on an item
with no custom functions: for class UNIVERSAL the stored type is the observed
tag number and the stored value is what `asn1_ex_c2i_primitive` builds for that
tag number (from the content bytes behind the header when the encoding is
primitive); for any other class the stored type is OTHER, the stored bytes are
the first `n` bytes at the object's start, header included, and the cursor
advances by `n`, where `n` is header plus length for a definite length and
runs through the balancing end-of-contents marker for an indefinite one. -/
theorem C17_any_is_classified_by_its_header :
    (∀ (env : Env) (pval : ASN1_VALUE) (cbs : CBS) (it : ASN1_ITEM) (tag cls : Int)
        (opt : Bool), it.itype ≠ ASN1_ITYPE_MSTRING → it.utype = V_ASN1_ANY →
      asn1_d2i_ex_primitive env pval cbs it tag cls opt
        = asn1_d2i_ex_any env pval cbs it tag cls opt) ∧
    (∀ (env : Env) (pval : ASN1_VALUE) (cbs : CBS) (it : ASN1_ITEM) (tag cls : Int)
        (H : TagOut), it.utype = V_ASN1_ANY → tag < 0 →
      asn1_check_tag (CBS_init cbs.data) (-1) 0 false = H →
      (H.ret ≠ 1 → asn1_d2i_ex_any env pval cbs it tag cls false
        = some ⟨0, pval, cbs, H.errs ++ [ASN1_R.NESTED_ASN1_ERROR]⟩) ∧
      (H.ret = 1 → asn1_d2i_ex_any env pval cbs it tag cls false
        = asn1_d2i_ex_primitive_content env pval cbs H.cbs
            (if H.cls ≠ V_ASN1_UNIVERSAL then V_ASN1_OTHER else H.tag)
            H.constructed H.indefinite H.len it)) ∧
    (∀ (env : Env) (pval : ASN1_VALUE) (cbs : CBS) (it : ASN1_ITEM) (tag cls : Int)
        (opt : Bool) (H : TagOut) (r : Out), it.funcs = ASN1_FUNCS.null →
      asn1_check_tag (CBS_init cbs.data) (-1) 0 false = H →
      asn1_d2i_ex_any env pval cbs it tag cls opt = some r → r.ret = 1 →
      H.ret = 1 ∧
      (H.cls = V_ASN1_UNIVERSAL →
        ∃ content, (asn1_ex_c2i_primitive env ASN1_VALUE.null content H.tag it).ret ≠ 0 ∧
          r.pval = ASN1_VALUE.any H.tag
            (if H.tag = V_ASN1_NULL then ASN1_VALUE.null
              else (asn1_ex_c2i_primitive env ASN1_VALUE.null content H.tag it).pval) ∧
          (H.constructed = false → H.tag ≠ V_ASN1_SEQUENCE → H.tag ≠ V_ASN1_SET →
            H.tag ≠ V_ASN1_OTHER → content = CBS_init (H.cbs.data.take H.len))) ∧
      (H.cls ≠ V_ASN1_UNIVERSAL →
        ∃ n, n ≤ cbs.data.length ∧
          r.pval = ASN1_VALUE.any V_ASN1_OTHER
            (ASN1_VALUE.string V_ASN1_OTHER (cbs.data.take n)) ∧
          r.cbs = ⟨cbs.data.drop n, cbs.initial_len⟩ ∧
          (H.indefinite = false → n = CBS_offset H.cbs + H.len) ∧
          (H.indefinite = true → H.cbs.data.length < SIZE_MAX →
            ∃ c1 c2 k, ObjectSeries H.cbs c1 ∧ CBS.advanced H.cbs c1 k ∧
              asn1_check_eoc c1 = some c2 ∧ n = CBS_offset H.cbs + k + 2))) ∧
    ASN1_item_ex_d2i scenarioEnv (some ASN1_VALUE.null) [0x02, 0x01, 0x05] 3
        (scenarioItems 13) (-1) 0 false
      = some ⟨1, ASN1_VALUE.any V_ASN1_INTEGER (ASN1_VALUE.string V_ASN1_INTEGER [5]), 3, []⟩ ∧
    ASN1_item_ex_d2i scenarioEnv (some ASN1_VALUE.null) [0x05, 0x00] 2
        (scenarioItems 13) (-1) 0 false
      = some ⟨1, ASN1_VALUE.any V_ASN1_NULL ASN1_VALUE.null, 2, []⟩ ∧
    ASN1_item_ex_d2i scenarioEnv (some ASN1_VALUE.null) [0x30, 0x03, 0x02, 0x01, 0x05] 5
        (scenarioItems 13) (-1) 0 false
      = some ⟨1, ASN1_VALUE.any V_ASN1_SEQUENCE
          (ASN1_VALUE.string V_ASN1_SEQUENCE [0x30, 0x03, 0x02, 0x01, 0x05]), 5, []⟩ ∧
    ASN1_item_ex_d2i scenarioEnv (some ASN1_VALUE.null) [0x80, 0x01, 0x41] 3
        (scenarioItems 13) (-1) 0 false
      = some ⟨1, ASN1_VALUE.any V_ASN1_OTHER
          (ASN1_VALUE.string V_ASN1_OTHER [0x80, 0x01, 0x41]), 3, []⟩ ∧
    ASN1_item_ex_d2i scenarioEnv (some ASN1_VALUE.null)
        [0xA0, 0x80, 0x02, 0x01, 0x05, 0x00, 0x00, 0x07] 8 (scenarioItems 13) (-1) 0 false
      = some ⟨1, ASN1_VALUE.any V_ASN1_OTHER
          (ASN1_VALUE.string V_ASN1_OTHER [0xA0, 0x80, 0x02, 0x01, 0x05, 0x00, 0x00]), 7, []⟩ ∧
    ASN1_item_ex_d2i scenarioEnv (some ASN1_VALUE.null) [0x02, 0x01, 0x05] 3
        (scenarioItems 13) 0 0x80 false
      = some ⟨0, ASN1_VALUE.null, 0, [ASN1_R.ILLEGAL_TAGGED_ANY]⟩ := by
  refine ⟨?_, ?_, ?_, by rfl, by rfl, by rfl, by rfl, by rfl, by rfl⟩
  · intro env pval cbs it tag cls opt hit hu
    unfold asn1_d2i_ex_primitive
    rw [if_neg hit, if_pos hu]
  · intro env pval cbs it tag cls H hu ht hH
    subst hH
    unfold asn1_d2i_ex_any
    rw [if_neg (by simp [hu]), if_neg (by omega)]
    simp only [Bool.false_eq_true, if_false]
    constructor
    · intro h1
      rw [if_pos h1]
    · intro h1
      rw [if_neg (by simp [h1])]
  · intro env pval cbs it tag cls opt H r hf hH h hr
    subst hH
    unfold asn1_d2i_ex_any at h
    by_cases hu : it.utype ≠ V_ASN1_ANY
    · rw [if_pos hu] at h
      cases h
      simp at hr
    rw [if_neg hu] at h
    have hu : it.utype = V_ASN1_ANY := not_not.mp hu
    by_cases ht : tag ≥ 0
    · rw [if_pos ht] at h
      cases h
      simp at hr
    rw [if_neg ht] at h
    cases opt with
    | true =>
      rw [if_pos rfl] at h
      cases h
      simp at hr
    | false =>
      rw [if_neg (by decide)] at h
      by_cases h1 : (asn1_check_tag (CBS_init cbs.data) (-1) 0 false).ret ≠ 1
      · rw [if_pos h1] at h
        cases h
        simp at hr
      rw [if_neg h1] at h
      have h1 : (asn1_check_tag (CBS_init cbs.data) (-1) 0 false).ret = 1 := not_not.mp h1
      refine ⟨h1, ?_, ?_⟩
      · intro hc
        rw [if_neg (by simp [hc])] at h
        by_cases hp : (asn1_check_tag (CBS_init cbs.data) (-1) 0 false).constructed = false ∧
            ¬ ((asn1_check_tag (CBS_init cbs.data) (-1) 0 false).tag = V_ASN1_SEQUENCE ∨
              (asn1_check_tag (CBS_init cbs.data) (-1) 0 false).tag = V_ASN1_SET ∨
              (asn1_check_tag (CBS_init cbs.data) (-1) 0 false).tag = V_ASN1_OTHER)
        · obtain ⟨hp1, hp2⟩ := hp
          rw [hp1] at h
          obtain ⟨_, q1, q2⟩ := asn1_d2i_ex_primitive_content_plain hp2 h hr
          obtain ⟨_, p1, p2⟩ := asn1_ex_c2i_any_value hf hu q1
          exact ⟨_, p1, q2.trans p2, fun _ _ _ _ => rfl⟩
        · obtain ⟨content, q1, q2⟩ := asn1_d2i_ex_primitive_content_value h hr
          obtain ⟨_, p1, p2⟩ := asn1_ex_c2i_any_value hf hu q1
          refine ⟨content, p1, q2.trans p2, ?_⟩
          intro a1 a2 a3 a4
          refine absurd ⟨a1, ?_⟩ hp
          rintro (hh | hh | hh)
          · exact a2 hh
          · exact a3 hh
          · exact a4 hh
      · intro hc
        rw [if_pos hc] at h
        obtain ⟨⟨k, _, a⟩, _, _, _⟩ := asn1_check_tag_ok h1
        have ho : CBS_offset (asn1_check_tag (CBS_init cbs.data) (-1) 0 false).cbs = k :=
          CBS.advanced_offset a rfl
        rw [ho]
        obtain ⟨n, hn, q1, q2, q3, q4, q5⟩ :=
          asn1_d2i_ex_primitive_content_span (Or.inr (Or.inr rfl)) a h hr
        obtain ⟨pl, _, p2⟩ := asn1_ex_c2i_any_value hf hu q1
        refine ⟨n, hn, ?_, q3, q4, q5⟩
        rw [q2, p2, if_neg (by decide),
          asn1_ex_c2i_primitive_verbatim env ASN1_VALUE.null _ V_ASN1_OTHER it hf
            (Or.inr (Or.inr rfl)) pl]
        rfl

/-- C21. What a successful `asn1_check_tag` reports. When the return value is
1 the cursor stands behind the header, an indefinite length comes with the
constructed flag, a definite length is at most the number of bytes left
behind the header, and for an indefinite length the reported length is that
number of bytes. When identifier and length are readable and the expectation
is met, an indefinite length without the constructed bit fails with
BAD_OBJECT_HEADER and a definite length above the number of bytes left fails
with TOO_LONG. -/
theorem C21_header_form_and_length :
    (∀ (c : CBS) (etag ecls : Int) (opt : Bool) (H : TagOut),
      asn1_check_tag c etag ecls opt = H → H.ret = 1 →
      (∃ k, 2 ≤ k ∧ CBS.advanced c H.cbs k) ∧
      (H.indefinite = true → H.constructed = true) ∧
      (H.indefinite = false → H.len ≤ CBS_len H.cbs) ∧
      (H.indefinite = true → H.len = CBS_len H.cbs)) ∧
    (∀ (c : CBS) (etag ecls : Int) (opt : Bool) (id : IdentOut) (l : LengthOut),
      asn1_get_identifier_cbs c = some id →
      ¬ (etag ≥ 0 ∧
        (etag ≠ (id.tag_number : Int) ∨ ecls ≠ ((id.tag_class <<< 6 : Nat) : Int))) →
      asn1_get_length_cbs id.cbs = some l →
      (l.indefinite = true → id.constructed = false →
        asn1_check_tag c etag ecls opt
          = ⟨0, l.cbs, 0, 0, 0, false, false, [ASN1_R.BAD_OBJECT_HEADER]⟩) ∧
      (l.indefinite = false → CBS_len l.cbs < l.length →
        asn1_check_tag c etag ecls opt
          = ⟨0, l.cbs, 0, 0, 0, false, false, [ASN1_R.TOO_LONG]⟩)) ∧
    asn1_check_tag (CBS_init [0x04, 0x80]) (-1) 0 false
      = ⟨0, ⟨[], 2⟩, 0, 0, 0, false, false, [ASN1_R.BAD_OBJECT_HEADER]⟩ ∧
    asn1_check_tag (CBS_init [0x04, 0x05, 0x01]) 4 0 false
      = ⟨0, ⟨[0x01], 3⟩, 0, 0, 0, false, false, [ASN1_R.TOO_LONG]⟩ ∧
    asn1_check_tag (CBS_init [0x24, 0x80, 0x01, 0x02, 0x03]) (-1) 0 false
      = ⟨1, ⟨[0x01, 0x02, 0x03], 5⟩, 3, 4, 0, true, true, []⟩ ∧
    asn1_check_tag (CBS_init [0x04, 0x02, 0x01, 0x02, 0x03]) 4 0 false
      = ⟨1, ⟨[0x01, 0x02, 0x03], 5⟩, 2, 4, 0, false, false, []⟩ ∧
    ASN1_item_ex_d2i scenarioEnv (some ASN1_VALUE.null) [0x04, 0x80] 2
        (scenarioItems 7) (-1) 0 false
      = some ⟨0, ASN1_VALUE.null, 0, [ASN1_R.BAD_OBJECT_HEADER, ASN1_R.NESTED_ASN1_ERROR]⟩ ∧
    ASN1_item_ex_d2i scenarioEnv (some ASN1_VALUE.null) [0x04, 0x05, 0x01] 3
        (scenarioItems 7) (-1) 0 false
      = some ⟨0, ASN1_VALUE.null, 0, [ASN1_R.TOO_LONG, ASN1_R.NESTED_ASN1_ERROR]⟩ := by
  refine ⟨?_, ?_, by rfl, by rfl, by rfl, by rfl, by rfl, by rfl⟩
  · intro c etag ecls opt H hH h1
    subst hH
    obtain ⟨a, b1, b2, _⟩ := asn1_check_tag_ok h1
    exact ⟨a, fun hi => (b2 hi).1, b1, fun hi => (b2 hi).2⟩
  · intro c etag ecls opt id l hid hm hl
    constructor
    · intro hi hc
      unfold asn1_check_tag
      simp only [hid, hl]
      rw [if_neg hm, if_pos (by simp [hi, hc])]
    · intro hi hlt
      unfold asn1_check_tag
      simp only [hid, hl]
      rw [if_neg hm, if_neg (by simp [hi]), if_pos (by simp [hi, hlt])]

/-- C22. The expectation of `asn1_check_tag`. With an expected tag `≥ 0` and
an identifier whose tag number or class differs, the call returns -1 when
optional is set and otherwise 0 with WRONG_TAG, the cursor standing right
behind the identifier octets (nothing of the length is read). With an
expected tag `< 0` the result is that of a call with no expectation and
optional clear: never -1 and never WRONG_TAG. On success the reported tag
number and class are those of the identifier read. -/
theorem C22_tag_expectation :
    (∀ (c : CBS) (etag ecls : Int) (opt : Bool) (id : IdentOut),
      asn1_get_identifier_cbs c = some id → 0 ≤ etag →
      etag ≠ (id.tag_number : Int) ∨ ecls ≠ ((id.tag_class <<< 6 : Nat) : Int) →
      asn1_check_tag c etag ecls opt
        = if opt then ⟨-1, id.cbs, 0, 0, 0, false, false, []⟩
          else ⟨0, id.cbs, 0, 0, 0, false, false, [ASN1_R.WRONG_TAG]⟩) ∧
    (∀ (c : CBS) (etag ecls : Int) (opt : Bool), etag < 0 →
      asn1_check_tag c etag ecls opt = asn1_check_tag c (-1) 0 false ∧
      (asn1_check_tag c etag ecls opt).ret ≠ -1 ∧
      ASN1_R.WRONG_TAG ∉ (asn1_check_tag c etag ecls opt).errs) ∧
    (∀ (c : CBS) (etag ecls : Int) (opt : Bool) (H : TagOut),
      asn1_check_tag c etag ecls opt = H → H.ret = 1 →
      ∃ id, asn1_get_identifier_cbs c = some id ∧ H.tag = (id.tag_number : Int) ∧
        H.cls = ((id.tag_class <<< 6 : Nat) : Int) ∧
        (0 ≤ etag → H.tag = etag ∧ H.cls = ecls)) ∧
    asn1_check_tag (CBS_init [0x04]) 2 0 true
      = ⟨-1, ⟨[], 1⟩, 0, 0, 0, false, false, []⟩ ∧
    asn1_check_tag (CBS_init [0x04]) 2 0 false
      = ⟨0, ⟨[], 1⟩, 0, 0, 0, false, false, [ASN1_R.WRONG_TAG]⟩ ∧
    asn1_check_tag (CBS_init [0x04]) 4 0 false
      = ⟨0, ⟨[], 1⟩, 0, 0, 0, false, false, [ASN1_R.BAD_OBJECT_HEADER]⟩ ∧
    asn1_check_tag (CBS_init [0x84, 0x01, 0x07]) 4 0 true
      = ⟨-1, ⟨[0x01, 0x07], 3⟩, 0, 0, 0, false, false, []⟩ ∧
    asn1_check_tag (CBS_init [0x84, 0x01, 0x07]) (-1) 0 true
      = ⟨1, ⟨[0x07], 3⟩, 1, 4, 0x80, false, false, []⟩ ∧
    asn1_check_tag (CBS_init [0x84, 0x01, 0x07]) 4 0x80 true
      = ⟨1, ⟨[0x07], 3⟩, 1, 4, 0x80, false, false, []⟩ := by
  refine ⟨?_, ?_, ?_, by rfl, by rfl, by rfl, by rfl, by rfl, by rfl⟩
  · intro c etag ecls opt id hid h0 hm
    unfold asn1_check_tag
    simp only [hid]
    rw [if_pos ⟨h0, hm⟩]
  · intro c etag ecls opt h
    refine ⟨asn1_check_tag_neg c etag ecls opt h, asn1_check_tag_no_expectation c etag ecls opt h,
      ?_⟩
    unfold asn1_check_tag
    have h1 : ¬ (etag ≥ 0) := by omega
    simp only [h1, false_and, if_false]
    repeat' split
    all_goals simp
  · intro c etag ecls opt H hH h1
    subst hH
    unfold asn1_check_tag at h1 ⊢
    cases hid : asn1_get_identifier_cbs c with
    | none =>
      simp only [hid] at h1
      simp at h1
    | some id =>
      simp only [hid] at h1 ⊢
      refine ⟨id, rfl, ?_⟩
      by_cases hm : etag ≥ 0 ∧
          (etag ≠ (id.tag_number : Int) ∨ ecls ≠ ((id.tag_class <<< 6 : Nat) : Int))
      · rw [if_pos hm] at h1
        cases opt <;> simp at h1
      · rw [if_neg hm] at h1 ⊢
        cases hl : asn1_get_length_cbs id.cbs with
        | none =>
          simp only [hl] at h1
          simp at h1
        | some l =>
          simp only [hl] at h1 ⊢
          split at h1
          · simp at h1
          · split at h1
            · simp at h1
            · split at h1
              · simp at h1
              · rename_i e1 e2 e3
                rw [if_neg e1, if_neg e2, if_neg e3]
                refine ⟨rfl, rfl, ?_⟩
                intro h0
                simp only
                by_contra hne
                apply hm
                refine ⟨h0, ?_⟩
                by_contra hcon
                push_neg at hcon
                exact hne ⟨hcon.1.symm, hcon.2.symm⟩

/-- C23. NULL and BOOLEAN content. With no custom functions,
`asn1_ex_c2i_primitive` accepts content for the type NULL exactly when it is
empty, giving the unit value, and otherwise (up to `INT_MAX` bytes, beyond
which it fails without a reason code) fails with NULL_IS_WRONG_LENGTH; it
accepts content for the type BOOLEAN exactly when it is one byte, giving that
byte, and otherwise fails with BOOLEAN_IS_WRONG_LENGTH. -/
theorem C23_null_and_boolean_content :
    (∀ (env : Env) (pval : ASN1_VALUE) (content : CBS) (it : ASN1_ITEM),
      it.funcs = ASN1_FUNCS.null →
      ((asn1_ex_c2i_primitive env pval content V_ASN1_NULL it).ret = 1 ↔ CBS_len content = 0) ∧
      (CBS_len content = 0 →
        asn1_ex_c2i_primitive env pval content V_ASN1_NULL it = ⟨1, ASN1_VALUE.unit, []⟩) ∧
      (CBS_len content ≠ 0 → CBS_len content ≤ INT_MAX →
        asn1_ex_c2i_primitive env pval content V_ASN1_NULL it
          = ⟨0, pval, [ASN1_R.NULL_IS_WRONG_LENGTH]⟩)) ∧
    (∀ (env : Env) (pval : ASN1_VALUE) (content : CBS) (it : ASN1_ITEM),
      it.funcs = ASN1_FUNCS.null →
      ((asn1_ex_c2i_primitive env pval content V_ASN1_BOOLEAN it).ret = 1
        ↔ CBS_len content = 1) ∧
      (∀ b : UInt8, content.data = [b] →
        asn1_ex_c2i_primitive env pval content V_ASN1_BOOLEAN it
          = ⟨1, ASN1_VALUE.boolean b.toNat, []⟩) ∧
      (CBS_len content ≠ 1 → CBS_len content ≤ INT_MAX →
        asn1_ex_c2i_primitive env pval content V_ASN1_BOOLEAN it
          = ⟨0, pval, [ASN1_R.BOOLEAN_IS_WRONG_LENGTH]⟩)) ∧
    ASN1_item_ex_d2i scenarioEnv (some ASN1_VALUE.null) [0x05, 0x00] 2
        (scenarioItems 8) (-1) 0 false
      = some ⟨1, ASN1_VALUE.unit, 2, []⟩ ∧
    ASN1_item_ex_d2i scenarioEnv (some ASN1_VALUE.null) [0x05, 0x01, 0x00] 3
        (scenarioItems 8) (-1) 0 false
      = some ⟨0, ASN1_VALUE.null, 0, [ASN1_R.NULL_IS_WRONG_LENGTH]⟩ ∧
    ASN1_item_ex_d2i scenarioEnv (some ASN1_VALUE.null) [0x01, 0x01, 0xFF] 3
        (scenarioItems 2) (-1) 0 false
      = some ⟨1, ASN1_VALUE.boolean 0xFF, 3, []⟩ ∧
    ASN1_item_ex_d2i scenarioEnv (some ASN1_VALUE.null) [0x01, 0x00] 2
        (scenarioItems 2) (-1) 0 false
      = some ⟨0, ASN1_VALUE.null, 0, [ASN1_R.BOOLEAN_IS_WRONG_LENGTH]⟩ ∧
    ASN1_item_ex_d2i scenarioEnv (some ASN1_VALUE.null) [0x01, 0x02, 0x00, 0x00] 4
        (scenarioItems 2) (-1) 0 false
      = some ⟨0, ASN1_VALUE.null, 0, [ASN1_R.BOOLEAN_IS_WRONG_LENGTH]⟩ := by
  have hmax : (0 : Nat) ≤ INT_MAX ∧ (1 : Nat) ≤ INT_MAX := by decide
  refine ⟨?_, ?_, by rfl, by rfl, by rfl, by rfl, by rfl⟩
  · intro env pval content it hf
    have hfn : it.funcs_null = true := by
      unfold ASN1_ITEM.funcs_null
      rw [hf]
    have e1 : ¬ (V_ASN1_NULL = V_ASN1_OBJECT) := by decide
    have hz : CBS_len content = 0 →
        asn1_ex_c2i_primitive env pval content V_ASN1_NULL it = ⟨1, ASN1_VALUE.unit, []⟩ := by
      intro h0
      unfold asn1_ex_c2i_primitive
      rw [if_neg (by rw [hfn]; simp), if_neg (by omega), if_neg e1, if_pos rfl,
        if_neg (by simp [h0])]
    refine ⟨⟨?_, fun h0 => by rw [hz h0]⟩, hz, ?_⟩
    · intro hr
      by_contra h0
      unfold asn1_ex_c2i_primitive at hr
      rw [if_neg (by rw [hfn]; simp)] at hr
      by_cases hl : CBS_len content > INT_MAX
      · rw [if_pos hl] at hr
        simp at hr
      · rw [if_neg hl, if_neg e1, if_pos rfl, if_pos h0] at hr
        simp at hr
    · intro h0 hl
      unfold asn1_ex_c2i_primitive
      rw [if_neg (by rw [hfn]; simp), if_neg (by omega), if_neg e1, if_pos rfl, if_pos h0]
  · intro env pval content it hf
    have hfn : it.funcs_null = true := by
      unfold ASN1_ITEM.funcs_null
      rw [hf]
    have e1 : ¬ (V_ASN1_BOOLEAN = V_ASN1_OBJECT) := by decide
    have e2 : ¬ (V_ASN1_BOOLEAN = V_ASN1_NULL) := by decide
    have hone : ∀ b : UInt8, content.data = [b] →
        asn1_ex_c2i_primitive env pval content V_ASN1_BOOLEAN it
          = ⟨1, ASN1_VALUE.boolean b.toNat, []⟩ := by
      intro b hb
      have h1 : CBS_len content = 1 := by simp [CBS_len, hb]
      unfold asn1_ex_c2i_primitive
      rw [if_neg (by rw [hfn]; simp), if_neg (by omega), if_neg e1, if_neg e2, if_pos rfl,
        if_neg (by simp [h1])]
      simp [CBS_get_u8, hb]
    refine ⟨⟨?_, ?_⟩, hone, ?_⟩
    · intro hr
      by_contra h0
      unfold asn1_ex_c2i_primitive at hr
      rw [if_neg (by rw [hfn]; simp)] at hr
      by_cases hl : CBS_len content > INT_MAX
      · rw [if_pos hl] at hr
        simp at hr
      · rw [if_neg hl, if_neg e1, if_neg e2, if_pos rfl, if_pos h0] at hr
        simp at hr
    · intro h1
      have : ∃ b, content.data = [b] := by
        unfold CBS_len at h1
        exact List.length_eq_one.mp h1
      obtain ⟨b, hb⟩ := this
      rw [hone b hb]
    · intro h0 hl
      unfold asn1_ex_c2i_primitive
      rw [if_neg (by rw [hfn]; simp), if_neg (by omega), if_neg e1, if_neg e2, if_pos rfl,
        if_pos h0]

/-- C24. String and time content. With no custom functions and content of at
most `INT_MAX` bytes, `asn1_ex_c2i_primitive` for a string or time type fails
exactly when the type is BMPSTRING and the length is odd
(BMPSTRING_IS_WRONG_LENGTH) or the type is UNIVERSALSTRING and the length is
not a multiple of 4 (UNIVERSALSTRING_IS_WRONG_LENGTH); otherwise the value is
the string of the requested type holding exactly the content bytes. -/
theorem C24_string_content :
    (∀ (env : Env) (pval : ASN1_VALUE) (content : CBS) (utype : Int) (it : ASN1_ITEM),
      it.funcs = ASN1_FUNCS.null → utype ∈ string_and_time_types →
      CBS_len content ≤ INT_MAX →
      ((asn1_ex_c2i_primitive env pval content utype it).ret = 0 ↔
        (utype = V_ASN1_BMPSTRING ∧ CBS_len content % 2 = 1) ∨
        (utype = V_ASN1_UNIVERSALSTRING ∧ CBS_len content % 4 ≠ 0)) ∧
      (utype = V_ASN1_BMPSTRING → CBS_len content % 2 = 1 →
        asn1_ex_c2i_primitive env pval content utype it
          = ⟨0, pval, [ASN1_R.BMPSTRING_IS_WRONG_LENGTH]⟩) ∧
      (utype = V_ASN1_UNIVERSALSTRING → CBS_len content % 4 ≠ 0 →
        asn1_ex_c2i_primitive env pval content utype it
          = ⟨0, pval, [ASN1_R.UNIVERSALSTRING_IS_WRONG_LENGTH]⟩) ∧
      (¬ ((utype = V_ASN1_BMPSTRING ∧ CBS_len content % 2 = 1) ∨
          (utype = V_ASN1_UNIVERSALSTRING ∧ CBS_len content % 4 ≠ 0)) →
        asn1_ex_c2i_primitive env pval content utype it
          = ⟨1, ASN1_VALUE.string utype content.data, []⟩)) ∧
    ASN1_item_ex_d2i scenarioEnv (some ASN1_VALUE.null) [0x1e, 0x03, 0x00, 0x41, 0x00] 5
        (primitiveItem V_ASN1_BMPSTRING) (-1) 0 false
      = some ⟨0, ASN1_VALUE.null, 0, [ASN1_R.BMPSTRING_IS_WRONG_LENGTH]⟩ ∧
    ASN1_item_ex_d2i scenarioEnv (some ASN1_VALUE.null) [0x1e, 0x02, 0x00, 0x41] 4
        (primitiveItem V_ASN1_BMPSTRING) (-1) 0 false
      = some ⟨1, ASN1_VALUE.string V_ASN1_BMPSTRING [0x00, 0x41], 4, []⟩ ∧
    ASN1_item_ex_d2i scenarioEnv (some ASN1_VALUE.null) [0x1c, 0x02, 0x00, 0x41] 4
        (primitiveItem V_ASN1_UNIVERSALSTRING) (-1) 0 false
      = some ⟨0, ASN1_VALUE.null, 0, [ASN1_R.UNIVERSALSTRING_IS_WRONG_LENGTH]⟩ ∧
    ASN1_item_ex_d2i scenarioEnv (some ASN1_VALUE.null)
        [0x1c, 0x04, 0x00, 0x00, 0x00, 0x41] 6 (primitiveItem V_ASN1_UNIVERSALSTRING) (-1) 0 false
      = some ⟨1, ASN1_VALUE.string V_ASN1_UNIVERSALSTRING [0x00, 0x00, 0x00, 0x41], 6, []⟩ ∧
    ASN1_item_ex_d2i scenarioEnv (some ASN1_VALUE.null) [0x17, 0x03, 0x31, 0x32, 0x5a] 5
        (primitiveItem 23) (-1) 0 false
      = some ⟨1, ASN1_VALUE.string 23 [0x31, 0x32, 0x5a], 5, []⟩ := by
  refine ⟨?_, by rfl, by rfl, by rfl, by rfl, by rfl⟩
  intro env pval content utype it hf hu hl
  have hfn : it.funcs_null = true := by
    unfold ASN1_ITEM.funcs_null
    rw [hf]
  have h2 : CBS_len content &&& 1 = CBS_len content % 2 := Nat.and_one_is_mod _
  have h4 : CBS_len content &&& 3 = CBS_len content % 4 :=
    Nat.and_pow_two_sub_one_eq_mod _ 2
  have hne : utype ≠ V_ASN1_OBJECT ∧ utype ≠ V_ASN1_NULL ∧ utype ≠ V_ASN1_BOOLEAN ∧
      utype ≠ V_ASN1_BIT_STRING ∧ ¬ (utype = V_ASN1_INTEGER ∨ utype = V_ASN1_ENUMERATED) := by
    simp only [string_and_time_types, List.mem_cons, List.mem_singleton] at hu
    rcases hu with h | h | h | h | h | h | h | h | h | h | h | h | h | h | h <;>
      first
      | (subst h; decide)
      | exact absurd h (List.not_mem_nil _)
  obtain ⟨n1, n2, n3, n4, n5⟩ := hne
  have hb : utype = V_ASN1_BMPSTRING → CBS_len content % 2 = 1 →
      asn1_ex_c2i_primitive env pval content utype it
        = ⟨0, pval, [ASN1_R.BMPSTRING_IS_WRONG_LENGTH]⟩ := by
    intro e ho
    unfold asn1_ex_c2i_primitive
    rw [if_neg (by rw [hfn]; simp), if_neg (by omega), if_neg n1, if_neg n2, if_neg n3,
      if_neg n4, if_neg n5, if_pos ⟨e, by rw [h2, ho]; decide⟩]
  have hv : utype = V_ASN1_UNIVERSALSTRING → CBS_len content % 4 ≠ 0 →
      asn1_ex_c2i_primitive env pval content utype it
        = ⟨0, pval, [ASN1_R.UNIVERSALSTRING_IS_WRONG_LENGTH]⟩ := by
    intro e ho
    have nb : ¬ (utype = V_ASN1_BMPSTRING ∧ CBS_len content &&& 1 ≠ 0) := by
      rw [e]
      intro hh
      exact absurd hh.1 (by decide)
    unfold asn1_ex_c2i_primitive
    rw [if_neg (by rw [hfn]; simp), if_neg (by omega), if_neg n1, if_neg n2, if_neg n3,
      if_neg n4, if_neg n5, if_neg nb, if_pos ⟨e, by rw [h4]; exact ho⟩]
  have hok : ¬ ((utype = V_ASN1_BMPSTRING ∧ CBS_len content % 2 = 1) ∨
        (utype = V_ASN1_UNIVERSALSTRING ∧ CBS_len content % 4 ≠ 0)) →
      asn1_ex_c2i_primitive env pval content utype it
        = ⟨1, ASN1_VALUE.string utype content.data, []⟩ := by
    intro hn
    have nb : ¬ (utype = V_ASN1_BMPSTRING ∧ CBS_len content &&& 1 ≠ 0) := by
      rw [h2]
      intro hh
      exact hn (Or.inl ⟨hh.1, by omega⟩)
    have nu : ¬ (utype = V_ASN1_UNIVERSALSTRING ∧ CBS_len content &&& 3 ≠ 0) := by
      rw [h4]
      intro hh
      exact hn (Or.inr hh)
    unfold asn1_ex_c2i_primitive
    rw [if_neg (by rw [hfn]; simp), if_neg (by omega), if_neg n1, if_neg n2, if_neg n3,
      if_neg n4, if_neg n5, if_neg nb, if_neg nu]
  refine ⟨⟨?_, ?_⟩, hb, hv, hok⟩
  · intro hr
    by_contra hn
    rw [hok hn] at hr
    simp at hr
  · rintro (⟨e, ho⟩ | ⟨e, ho⟩)
    · rw [hb e ho]
    · rw [hv e ho]

/-- C25, as stated, fails: the row `INITIAL` of `handshakes` is defined and
its last entry is SERVER_HELLO, which is not a terminal action; the row has
no APPLICATION_DATA entry at all. -/
theorem C25_initial_row_has_no_terminal_action :
    ¬ (∀ k, handshakes k ≠ [] →
        (handshakes k).getLast? = some tls13_message_type.APPLICATION_DATA) ∧
    handshakes INITIAL
      = [tls13_message_type.CLIENT_HELLO, tls13_message_type.SERVER_HELLO_RETRY_REQUEST,
          tls13_message_type.CLIENT_HELLO_RETRY, tls13_message_type.SERVER_HELLO] ∧
    (handshakes INITIAL).getLast? = some tls13_message_type.SERVER_HELLO ∧
    (state_machine tls13_message_type.SERVER_HELLO).handshake_complete = 0 ∧
    tls13_message_type.APPLICATION_DATA ∉ handshakes INITIAL := by
  refine ⟨?_, by rfl, by rfl, by rfl, by decide⟩
  intro h
  exact absurd (h INITIAL (by decide)) (by decide)

/-- C25, amended. Every row of `handshakes` that is defined for a key other
than `INITIAL` is the row of a NEGOTIATED variant, fits a row of the table,
ends with APPLICATION_DATA and holds, before that, only non-terminal actions
with an entry in `state_machine`; the row `INITIAL` is the first four entries
of the row `NEGOTIATED` and ends with SERVER_HELLO. APPLICATION_DATA is the
only terminal entry of `state_machine`, and every other entry of a message id
has a non-null `send`, a non-null `recv` and the client or the server as its
sender. -/
theorem C25_negotiated_rows_end_with_application_data :
    (∀ k, handshakes k ≠ [] → k ≠ INITIAL →
      k &&& NEGOTIATED = NEGOTIATED ∧ k < handshake_count ∧
      (handshakes k).length ≤ TLS13_NUM_MESSAGE_TYPES ∧
      (handshakes k).getLast? = some tls13_message_type.APPLICATION_DATA ∧
      ∀ mt ∈ (handshakes k).dropLast,
        mt ≠ tls13_message_type.INVALID ∧ (state_machine mt).handshake_complete = 0) ∧
    handshakes INITIAL = (handshakes NEGOTIATED).take 4 ∧
    (handshakes INITIAL).getLast? = some tls13_message_type.SERVER_HELLO ∧
    (∀ mt, (state_machine mt).handshake_complete ≠ 0 ↔
      mt = tls13_message_type.APPLICATION_DATA) ∧
    (∀ mt, mt ≠ tls13_message_type.INVALID → (state_machine mt).handshake_complete = 0 →
      (state_machine mt).send ≠ none ∧ (state_machine mt).recv ≠ none ∧
      ((state_machine mt).sender = TLS13_HS_CLIENT ∨
        (state_machine mt).sender = TLS13_HS_SERVER)) := by
  refine ⟨?_, by rfl, by rfl, ?_, ?_⟩
  · intro k hk hi
    rcases handshakes_cases k with h | h | h | h | h | h | h | h | h | h
    · exact absurd h hi
    all_goals first
      | exact absurd h hk
      | (subst h; decide)
  · intro mt
    cases mt <;> simp [state_machine]
  · intro mt
    cases mt <;> simp [state_machine, TLS13_HS_CLIENT, TLS13_HS_SERVER]

/-- C26. The handshake of variant `NEGOTIATED | WITHOUT_HRR`. Starting at
index 0 of that variant with no alert pending, when the nine actions
CLIENT_HELLO, SERVER_HELLO, SERVER_ENCRYPTED_EXTENSIONS,
SERVER_CERTIFICATE_REQUEST, SERVER_CERTIFICATE, SERVER_CERTIFICATE_VERIFY,
SERVER_FINISHED, CLIENT_CERTIFICATE and CLIENT_FINISHED, dispatched in this
order, each succeed and leave the handshake state and the alert slot as they
found them, `tls13_handshake_perform` (with fuel for ten iterations) runs
exactly these dispatches, stands at index 9 on APPLICATION_DATA, sets the
completion flag, notifies the record layer and returns SUCCESS. A dispatch is
the send path when the sender of the action is the local role and the receive
path otherwise; the logs of a client and of a server run show the paths
taken. -/
theorem C26_handshake_without_hrr_runs_in_order :
    (∀ (σ μ : Type) (env : HsEnv σ μ) (ctx ctx9 : tls13_ctx σ μ) (fuel : Nat),
      ctx.handshake_stage = ⟨NEGOTIATED ||| WITHOUT_HRR, 0⟩ → ctx.alert = 0 →
      dispatch_in_order env
        [tls13_message_type.CLIENT_HELLO, tls13_message_type.SERVER_HELLO,
          tls13_message_type.SERVER_ENCRYPTED_EXTENSIONS,
          tls13_message_type.SERVER_CERTIFICATE_REQUEST, tls13_message_type.SERVER_CERTIFICATE,
          tls13_message_type.SERVER_CERTIFICATE_VERIFY, tls13_message_type.SERVER_FINISHED,
          tls13_message_type.CLIENT_CERTIFICATE, tls13_message_type.CLIENT_FINISHED] ctx
        = some ctx9 →
      10 ≤ fuel →
      ctx9.handshake_stage = ⟨NEGOTIATED ||| WITHOUT_HRR, 9⟩ ∧
      tls13_handshake_active_state ctx9 = tls13_message_type.APPLICATION_DATA ∧
      tls13_handshake_perform env fuel ctx
        = some ⟨TLS13_IO_SUCCESS,
            { ctx9 with handshake_completed := 1,
                        ext := env.tls13_record_layer_handshake_completed ctx9.ext }⟩) ∧
    (∀ (σ μ : Type) (env : HsEnv σ μ) (ctx : tls13_ctx σ μ) (action : tls13_handshake_action),
      (action.sender = ctx.mode →
        tls13_handshake_dispatch env ctx action = tls13_handshake_send_action env ctx action) ∧
      (action.sender ≠ ctx.mode →
        tls13_handshake_dispatch env ctx action
          = tls13_handshake_recv_action env ctx action)) ∧
    handshakes (NEGOTIATED ||| WITHOUT_HRR)
      = [tls13_message_type.CLIENT_HELLO, tls13_message_type.SERVER_HELLO,
          tls13_message_type.SERVER_ENCRYPTED_EXTENSIONS,
          tls13_message_type.SERVER_CERTIFICATE_REQUEST, tls13_message_type.SERVER_CERTIFICATE,
          tls13_message_type.SERVER_CERTIFICATE_VERIFY, tls13_message_type.SERVER_FINISHED,
          tls13_message_type.CLIENT_CERTIFICATE, tls13_message_type.CLIENT_FINISHED,
          tls13_message_type.APPLICATION_DATA] ∧
    (tls13_handshake_perform scenarioHsEnv 10
        (scenarioCtx TLS13_HS_CLIENT (NEGOTIATED ||| WITHOUT_HRR) 0
          [(TLS13_MT_SERVER_HELLO, [0x03, 0x04]), (TLS13_MT_ENCRYPTED_EXTENSIONS, []),
            (TLS13_MT_CERTIFICATE_REQUEST, []), (TLS13_MT_CERTIFICATE, []),
            (TLS13_MT_CERTIFICATE_VERIFY, []), (TLS13_MT_FINISHED, [])])).map HsResult.summary
      = some (TLS13_IO_SUCCESS, ⟨NEGOTIATED ||| WITHOUT_HRR, 9⟩, 1, 0,
          [HsEvent.built tls13_fn.tls13_client_hello_send,
            HsEvent.transmitted TLS13_MT_CLIENT_HELLO,
            HsEvent.after_send tls13_fn.tls13_client_hello_sent,
            HsEvent.parsed tls13_fn.tls13_server_hello_recv,
            HsEvent.parsed tls13_fn.tls13_server_encrypted_extensions_recv,
            HsEvent.parsed tls13_fn.tls13_server_certificate_request_recv,
            HsEvent.parsed tls13_fn.tls13_server_certificate_recv,
            HsEvent.parsed tls13_fn.tls13_server_certificate_verify_recv,
            HsEvent.parsed tls13_fn.tls13_server_finished_recv,
            HsEvent.built tls13_fn.tls13_client_certificate_send,
            HsEvent.transmitted TLS13_MT_CERTIFICATE,
            HsEvent.built tls13_fn.tls13_client_finished_send,
            HsEvent.transmitted TLS13_MT_FINISHED,
            HsEvent.after_send tls13_fn.tls13_client_finished_sent,
            HsEvent.completed]) ∧
    (tls13_handshake_perform scenarioHsEnv 10
        (scenarioCtx TLS13_HS_SERVER (NEGOTIATED ||| WITHOUT_HRR) 0
          [(TLS13_MT_CLIENT_HELLO, []), (TLS13_MT_CERTIFICATE, []),
            (TLS13_MT_FINISHED, [])])).map HsResult.summary
      = some (TLS13_IO_SUCCESS, ⟨NEGOTIATED ||| WITHOUT_HRR, 9⟩, 1, 0,
          [HsEvent.parsed tls13_fn.tls13_client_hello_recv,
            HsEvent.built tls13_fn.tls13_server_hello_send,
            HsEvent.transmitted TLS13_MT_SERVER_HELLO,
            HsEvent.after_send tls13_fn.tls13_server_hello_sent,
            HsEvent.built tls13_fn.tls13_server_encrypted_extensions_send,
            HsEvent.transmitted TLS13_MT_ENCRYPTED_EXTENSIONS,
            HsEvent.built tls13_fn.tls13_server_certificate_request_send,
            HsEvent.transmitted TLS13_MT_CERTIFICATE_REQUEST,
            HsEvent.built tls13_fn.tls13_server_certificate_send,
            HsEvent.transmitted TLS13_MT_CERTIFICATE,
            HsEvent.built tls13_fn.tls13_server_certificate_verify_send,
            HsEvent.transmitted TLS13_MT_CERTIFICATE_VERIFY,
            HsEvent.built tls13_fn.tls13_server_finished_send,
            HsEvent.transmitted TLS13_MT_FINISHED,
            HsEvent.after_send tls13_fn.tls13_server_finished_sent,
            HsEvent.parsed tls13_fn.tls13_client_certificate_recv,
            HsEvent.parsed tls13_fn.tls13_client_finished_recv,
            HsEvent.completed]) := by
  refine ⟨?_, ?_, by rfl, by rfl, by rfl⟩
  · intro σ μ env ctx ctx9 fuel hst ha hd hf
    obtain ⟨k, rfl⟩ : ∃ k, fuel = (k + 1) + 9 := ⟨fuel - 10, by omega⟩
    have hrow : ∀ (i : Nat)
        (h : i < [tls13_message_type.CLIENT_HELLO, tls13_message_type.SERVER_HELLO,
          tls13_message_type.SERVER_ENCRYPTED_EXTENSIONS,
          tls13_message_type.SERVER_CERTIFICATE_REQUEST, tls13_message_type.SERVER_CERTIFICATE,
          tls13_message_type.SERVER_CERTIFICATE_VERIFY, tls13_message_type.SERVER_FINISHED,
          tls13_message_type.CLIENT_CERTIFICATE, tls13_message_type.CLIENT_FINISHED].length)
        (c : tls13_ctx σ μ), c.handshake_stage = ⟨NEGOTIATED ||| WITHOUT_HRR, 0 + i⟩ →
        tls13_handshake_active_state c
          = [tls13_message_type.CLIENT_HELLO, tls13_message_type.SERVER_HELLO,
          tls13_message_type.SERVER_ENCRYPTED_EXTENSIONS,
          tls13_message_type.SERVER_CERTIFICATE_REQUEST, tls13_message_type.SERVER_CERTIFICATE,
          tls13_message_type.SERVER_CERTIFICATE_VERIFY, tls13_message_type.SERVER_FINISHED,
          tls13_message_type.CLIENT_CERTIFICATE, tls13_message_type.CLIENT_FINISHED].get
            ⟨i, h⟩ := by
      intro i h c hc
      unfold tls13_handshake_active_state
      rw [hc]
      have h9 : i < 9 := h
      interval_cases i <;> rfl
    obtain ⟨g1, _, g3⟩ := tls13_handshake_perform_follows env _ _ 0 ctx ctx9 (k + 1) hst ha
      hrow (by decide) (by decide) hd
    have f1 : ctx9.handshake_stage = ⟨NEGOTIATED ||| WITHOUT_HRR, 9⟩ := g1
    have f3 : tls13_handshake_perform env (k + 1 + 9) ctx
        = tls13_handshake_perform env (k + 1) ctx9 := g3
    have hs9 : tls13_handshake_active_state ctx9 = tls13_message_type.APPLICATION_DATA := by
      unfold tls13_handshake_active_state
      rw [f1]
      rfl
    refine ⟨f1, hs9, ?_⟩
    rw [f3]
    exact tls13_handshake_perform_done env k
      (tls13_handshake_perform_iteration_complete env hs9 (by decide) (by decide))
  · intro σ μ env ctx action
    unfold tls13_handshake_dispatch
    constructor
    · intro h
      rw [if_pos h]
    · intro h
      rw [if_neg h]

/-- C27. The order of the decisions of one iteration of
`tls13_handshake_perform`. The active state is INVALID exactly when the
variant or the index is out of range or the table holds INVALID there, and
then the iteration returns FAILURE. Otherwise, when the action is terminal,
it sets the completion flag, notifies the record layer and returns SUCCESS,
whatever the alert slot holds. Otherwise, when an alert is pending, it returns
what `tls13_send_alert` returns for it, and nothing but that function is
called. Otherwise the action is dispatched; a value `≤ 0` is returned, and
behind a value above 0 the index is advanced by one, with FAILURE when it
reaches `TLS13_NUM_MESSAGE_TYPES`, and the loop goes on otherwise. -/
theorem C27_iteration_decides_in_order :
    (∀ (σ μ : Type) (ctx : tls13_ctx σ μ),
      tls13_handshake_active_state ctx = tls13_message_type.INVALID ↔
        (ctx.handshake_stage.hs_type ≥ handshake_count ∨
          ctx.handshake_stage.message_number ≥ TLS13_NUM_MESSAGE_TYPES ∨
          (handshakes ctx.handshake_stage.hs_type).getD ctx.handshake_stage.message_number
            tls13_message_type.INVALID = tls13_message_type.INVALID)) ∧
    (∀ (σ μ : Type) (env : HsEnv σ μ) (ctx : tls13_ctx σ μ),
      tls13_handshake_active_state ctx = tls13_message_type.INVALID →
      tls13_handshake_perform_iteration env ctx
        = some (HsStep.done ⟨TLS13_IO_FAILURE, ctx⟩)) ∧
    (∀ (σ μ : Type) (env : HsEnv σ μ) (ctx : tls13_ctx σ μ),
      tls13_handshake_active_state ctx ≠ tls13_message_type.INVALID →
      (state_machine (tls13_handshake_active_state ctx)).handshake_complete ≠ 0 →
      tls13_handshake_perform_iteration env ctx
        = some (HsStep.done ⟨TLS13_IO_SUCCESS,
            { ctx with handshake_completed := 1,
                       ext := env.tls13_record_layer_handshake_completed ctx.ext }⟩)) ∧
    (∀ (σ μ : Type) (env : HsEnv σ μ) (ctx : tls13_ctx σ μ),
      tls13_handshake_active_state ctx ≠ tls13_message_type.INVALID →
      (state_machine (tls13_handshake_active_state ctx)).handshake_complete = 0 →
      ctx.alert ≠ 0 →
      tls13_handshake_perform_iteration env ctx
        = some (HsStep.done ⟨(env.tls13_send_alert ctx.ext ctx.alert).1,
            { ctx with ext := (env.tls13_send_alert ctx.ext ctx.alert).2 }⟩) ∧
      ∀ env1 : HsEnv σ μ, env1.tls13_send_alert = env.tls13_send_alert →
        tls13_handshake_perform_iteration env1 ctx
          = tls13_handshake_perform_iteration env ctx) ∧
    (∀ (σ μ : Type) (env : HsEnv σ μ) (ctx : tls13_ctx σ μ),
      tls13_handshake_active_state ctx ≠ tls13_message_type.INVALID →
      (state_machine (tls13_handshake_active_state ctx)).handshake_complete = 0 →
      ctx.alert = 0 →
      tls13_handshake_perform_iteration env ctx
        = match tls13_handshake_dispatch env ctx
            (state_machine (tls13_handshake_active_state ctx)) with
          | none => none
          | some r =>
            if r.ret ≤ 0 then some (HsStep.done r)
            else if r.ctx.handshake_stage.message_number + 1 ≥ TLS13_NUM_MESSAGE_TYPES then
              some (HsStep.done ⟨TLS13_IO_FAILURE,
                { r.ctx with handshake_stage :=
                    ⟨r.ctx.handshake_stage.hs_type,
                      r.ctx.handshake_stage.message_number + 1⟩ }⟩)
            else
              some (HsStep.next
                { r.ctx with handshake_stage :=
                    ⟨r.ctx.handshake_stage.hs_type,
                      r.ctx.handshake_stage.message_number + 1⟩ })) ∧
    (∀ (σ μ : Type) (env : HsEnv σ μ) (ctx : tls13_ctx σ μ) (fuel : Nat),
      tls13_handshake_perform env (fuel + 1) ctx
        = match tls13_handshake_perform_iteration env ctx with
          | none => none
          | some (HsStep.done r) => some r
          | some (HsStep.next c) => tls13_handshake_perform env fuel c) ∧
    (tls13_handshake_perform scenarioHsEnv 1
        (scenarioCtx TLS13_HS_CLIENT INITIAL 4 [])).map HsResult.summary
      = some (TLS13_IO_FAILURE, ⟨INITIAL, 4⟩, 0, 0, []) ∧
    (tls13_handshake_perform scenarioHsEnv 1
        (scenarioCtx TLS13_HS_CLIENT WITHOUT_HRR 0 [])).map HsResult.summary
      = some (TLS13_IO_FAILURE, ⟨WITHOUT_HRR, 0⟩, 0, 0, []) ∧
    (tls13_handshake_perform scenarioHsEnv 1
        (scenarioCtx TLS13_HS_CLIENT 200 0 [])).map HsResult.summary
      = some (TLS13_IO_FAILURE, ⟨200, 0⟩, 0, 0, []) ∧
    (tls13_handshake_perform scenarioHsEnv 1
        ⟨⟨NEGOTIATED ||| WITHOUT_HRR, 9⟩, 0, SSL_AD_DECODE_ERROR, TLS13_HS_CLIENT, none,
          ⟨[], [], TLS1_3_VERSION⟩⟩).map HsResult.summary
      = some (TLS13_IO_SUCCESS, ⟨NEGOTIATED ||| WITHOUT_HRR, 9⟩, 1, SSL_AD_DECODE_ERROR,
          [HsEvent.completed]) ∧
    (tls13_handshake_perform scenarioHsEnv 1
        ⟨⟨NEGOTIATED ||| WITHOUT_HRR, 1⟩, 0, SSL_AD_DECODE_ERROR, TLS13_HS_CLIENT, none,
          ⟨[], [(TLS13_MT_SERVER_HELLO, [0x03, 0x04])], TLS1_3_VERSION⟩⟩).map HsResult.summary
      = some (TLS13_IO_ALERT, ⟨NEGOTIATED ||| WITHOUT_HRR, 1⟩, 0, SSL_AD_DECODE_ERROR,
          [HsEvent.alert_sent SSL_AD_DECODE_ERROR]) := by
  refine ⟨?_, ?_, ?_, ?_, ?_, ?_, by rfl, by rfl, by rfl, by rfl, by rfl⟩
  · intro σ μ ctx
    unfold tls13_handshake_active_state
    by_cases h1 : ctx.handshake_stage.hs_type ≥ handshake_count
    · simp [h1]
    · by_cases h2 : ctx.handshake_stage.message_number ≥ TLS13_NUM_MESSAGE_TYPES
      · simp [h1, h2]
      · simp [h1, h2]
  · intro σ μ env ctx h
    unfold tls13_handshake_perform_iteration tls13_handshake_active_action
    rw [if_pos h]
  · intro σ μ env ctx hv hc
    exact tls13_handshake_perform_iteration_complete env rfl hv hc
  · intro σ μ env ctx hv hc ha
    have key : ∀ e : HsEnv σ μ, tls13_handshake_perform_iteration e ctx
        = some (HsStep.done ⟨(e.tls13_send_alert ctx.ext ctx.alert).1,
            { ctx with ext := (e.tls13_send_alert ctx.ext ctx.alert).2 }⟩) := by
      intro e
      unfold tls13_handshake_perform_iteration
      rw [tls13_handshake_active_action_of_state rfl hv]
      simp only
      rw [if_neg (by simp [hc]), if_pos ha]
    refine ⟨key env, ?_⟩
    intro env1 he
    rw [key env1, key env, he]
  · intro σ μ env ctx hv hc ha
    unfold tls13_handshake_perform_iteration
    rw [tls13_handshake_active_action_of_state rfl hv]
    simp only
    rw [if_neg (by simp [hc]), if_neg (by simp [ha])]
    cases hd : tls13_handshake_dispatch env ctx
      (state_machine (tls13_handshake_active_state ctx)) with
    | none => rfl
    | some r =>
      simp only
      by_cases hr : r.ret ≤ 0
      · rw [if_pos hr, if_pos hr]
      · rw [if_neg hr, if_neg hr]
        unfold tls13_handshake_advance_state_machine
        simp only
        by_cases hn : r.ctx.handshake_stage.message_number + 1 ≥ TLS13_NUM_MESSAGE_TYPES
        · rw [if_pos hn, if_pos hn, if_pos rfl]
        · rw [if_neg hn, if_neg hn, if_neg (by decide)]
  · intro σ μ env ctx fuel
    cases h : tls13_handshake_perform_iteration env ctx with
    | none => simp only [tls13_handshake_perform, h]
    | some s => cases s <;> simp only [tls13_handshake_perform, h]

/-- C28, as stated, fails. A client at index 1 of the variant `INITIAL`
receives a ServerHello whose body has a trailing byte. The parser of the
action accepts the message and moves the handshake to the variant
`NEGOTIATED | WITHOUT_HRR`; the driver then finds the byte left over, and the
receive action returns the value of `tls13_send_alert`, which is `≤ 0`.
`tls13_handshake_perform` returns that value, and the variant is no longer
the one the step was entered with. -/
theorem C28_variant_changed_in_a_step_that_failed :
    tls13_handshake_active_state
        (scenarioCtx TLS13_HS_CLIENT INITIAL 1 [(TLS13_MT_SERVER_HELLO, [0x03, 0x04, 0xFF])])
      = tls13_message_type.SERVER_HELLO_RETRY_REQUEST ∧
    (tls13_handshake_dispatch scenarioHsEnv
        (scenarioCtx TLS13_HS_CLIENT INITIAL 1 [(TLS13_MT_SERVER_HELLO, [0x03, 0x04, 0xFF])])
        (state_machine tls13_message_type.SERVER_HELLO_RETRY_REQUEST)).map HsResult.summary
      = some (TLS13_IO_ALERT, ⟨NEGOTIATED ||| WITHOUT_HRR, 1⟩, 0, SSL_AD_DECODE_ERROR,
          [HsEvent.parsed tls13_fn.tls13_server_hello_retry_request_recv,
            HsEvent.alert_sent SSL_AD_DECODE_ERROR]) ∧
    (tls13_handshake_perform scenarioHsEnv 1
        (scenarioCtx TLS13_HS_CLIENT INITIAL 1
          [(TLS13_MT_SERVER_HELLO, [0x03, 0x04, 0xFF])])).map HsResult.summary
      = some (TLS13_IO_ALERT, ⟨NEGOTIATED ||| WITHOUT_HRR, 1⟩, 0, SSL_AD_DECODE_ERROR,
          [HsEvent.parsed tls13_fn.tls13_server_hello_retry_request_recv,
            HsEvent.alert_sent SSL_AD_DECODE_ERROR]) ∧
    TLS13_IO_ALERT ≤ 0 ∧
    (scenarioCtx TLS13_HS_CLIENT INITIAL 1
        [(TLS13_MT_SERVER_HELLO, [0x03, 0x04, 0xFF])]).handshake_stage = ⟨INITIAL, 1⟩ ∧
    (⟨NEGOTIATED ||| WITHOUT_HRR, 1⟩ : tls13_handshake_stage) ≠ ⟨INITIAL, 1⟩ ∧
    ¬ (∀ (env : HsEnv ScenarioWorld ScenarioMsg) (ctx : tls13_ctx ScenarioWorld ScenarioMsg)
        (r : HsResult ScenarioWorld ScenarioMsg),
        tls13_handshake_dispatch env ctx (state_machine (tls13_handshake_active_state ctx))
          = some r → r.ret ≤ 0 → r.ctx.handshake_stage = ctx.handshake_stage) := by
  refine ⟨by rfl, by rfl, by rfl, by decide, by rfl, by decide, ?_⟩
  intro h
  have h1 := h scenarioHsEnv
    (scenarioCtx TLS13_HS_CLIENT INITIAL 1 [(TLS13_MT_SERVER_HELLO, [0x03, 0x04, 0xFF])])
    _ rfl (by decide)
  exact absurd h1 (by decide)

/-- C28, amended. When the send or receive action of the current step
returns a value `≤ 0`, `tls13_handshake_perform` returns that value and the
context exactly as the action left it: the driver writes neither the variant
nor the index. Neither do the send path and the receive path themselves, so
the handshake state is the one the step was entered with, and the same action
is active, whenever the functions that are handed the context (the builder,
the parser, the post-send function and the two message hooks) leave it alone;
and always when the step ends because `tls13_handshake_msg_recv`, or
`tls13_handshake_msg_send` for a message that was already built, returns a
value `≤ 0`. -/
theorem C28_failed_step_leaves_the_state_to_the_callbacks :
    (∀ (σ μ : Type) (env : HsEnv σ μ) (ctx : tls13_ctx σ μ) (r : HsResult σ μ) (fuel : Nat),
      tls13_handshake_active_state ctx ≠ tls13_message_type.INVALID →
      (state_machine (tls13_handshake_active_state ctx)).handshake_complete = 0 →
      ctx.alert = 0 →
      tls13_handshake_dispatch env ctx (state_machine (tls13_handshake_active_state ctx))
        = some r →
      r.ret ≤ 0 → tls13_handshake_perform env (fuel + 1) ctx = some r) ∧
    (∀ (σ μ : Type) (env : HsEnv σ μ), env.KeepsStage →
      ∀ (ctx : tls13_ctx σ μ) (action : tls13_handshake_action) (r : HsResult σ μ),
        tls13_handshake_dispatch env ctx action = some r →
        r.ctx.handshake_stage = ctx.handshake_stage ∧
        tls13_handshake_active_state r.ctx = tls13_handshake_active_state ctx) ∧
    (∀ (σ μ : Type) (env : HsEnv σ μ) (ctx : tls13_ctx σ μ) (action : tls13_handshake_action)
        (m : μ),
      (if ctx.hs_msg.isSome then ctx.hs_msg else env.tls13_handshake_msg_new ctx.ext) = some m →
      (env.tls13_handshake_msg_recv (some m) ctx.ext).1 ≤ 0 →
      tls13_handshake_recv_action env ctx action
        = some ⟨(env.tls13_handshake_msg_recv (some m) ctx.ext).1,
            { ctx with hs_msg := (env.tls13_handshake_msg_recv (some m) ctx.ext).2.1,
                       ext := (env.tls13_handshake_msg_recv (some m) ctx.ext).2.2 }⟩) ∧
    (∀ (σ μ : Type) (env : HsEnv σ μ) (ctx : tls13_ctx σ μ) (action : tls13_handshake_action),
      ctx.hs_msg.isSome = true →
      (env.tls13_handshake_msg_send ctx.hs_msg ctx.ext).1 ≤ 0 →
      tls13_handshake_send_action env ctx action
        = some ⟨(env.tls13_handshake_msg_send ctx.hs_msg ctx.ext).1,
            { ctx with hs_msg := (env.tls13_handshake_msg_send ctx.hs_msg ctx.ext).2.1,
                       ext := (env.tls13_handshake_msg_send ctx.hs_msg ctx.ext).2.2 }⟩) ∧
    (scenarioHsEnvOf false).KeepsStage ∧
    (tls13_handshake_perform scenarioHsEnv 5
        (scenarioCtx TLS13_HS_CLIENT (NEGOTIATED ||| WITHOUT_HRR) 1 [])).map HsResult.summary
      = some (TLS13_IO_WANT_POLLIN, ⟨NEGOTIATED ||| WITHOUT_HRR, 1⟩, 0, 0, []) ∧
    (tls13_handshake_perform scenarioHsEnv 5
        (scenarioCtx TLS13_HS_CLIENT (NEGOTIATED ||| WITHOUT_HRR) 1 [])).map
          (fun r => tls13_handshake_active_state r.ctx)
      = some tls13_message_type.SERVER_HELLO := by
  refine ⟨?_, ?_, ?_, ?_, ?_, by rfl, by rfl⟩
  · intro σ μ env ctx r fuel hv hc ha hd hr
    apply tls13_handshake_perform_done
    unfold tls13_handshake_perform_iteration
    rw [tls13_handshake_active_action_of_state rfl hv]
    simp only
    rw [if_neg (by simp [hc]), if_neg (by simp [ha]), hd]
    simp only
    rw [if_pos hr]
  · intro σ μ env hk ctx action r hd
    have h := tls13_handshake_dispatch_stage hk hd
    exact ⟨h, tls13_handshake_active_state_stage _ _ h⟩
  · intro σ μ env ctx action m hm hr
    unfold tls13_handshake_recv_action tls13_handshake_recv_action_read
    rw [hm]
    simp only
    rw [if_pos hr]
  · intro σ μ env ctx action hm hr
    unfold tls13_handshake_send_action tls13_handshake_send_action_build
    rw [if_pos hm]
    simp only
    unfold tls13_handshake_send_action_transmit
    simp only
    rw [if_pos hr]
  · refine ⟨fun fn ctx => rfl, fun fn ctx => rfl, ?_, ?_, ?_⟩
    · intro fn ctx cbs
      simp [scenarioHsEnvOf, scenario_recv]
    · intro cb h
      cases h
    · intro cb h
      cases h

/-- C29. The receive path. As long as sending an alert never reports SUCCESS
(`tls13_send_alert` is defined outside the driver), the receive path returns
SUCCESS only behind a message that was read, whose type is the handshake type
of the action, or CERTIFICATE while the action expects CERTIFICATE_REQUEST,
and whose content the `recv` function of the action accepted and read to the
end. A message of another type is answered with the UNEXPECTED_MESSAGE alert
and the result does not depend on the `recv` functions; when the `recv`
function succeeds and leaves bytes unread, the pending alert becomes
DECODE_ERROR, the alert is sent, and the return value is that of
`tls13_send_alert` or USE_LEGACY. -/
theorem C29_receive_path_accepts_one_well_formed_message :
    (∀ (σ μ : Type) (env : HsEnv σ μ) (ctx : tls13_ctx σ μ) (action : tls13_handshake_action)
        (r : HsResult σ μ),
      (∀ s a, (env.tls13_send_alert s a).1 ≠ TLS13_IO_SUCCESS) →
      tls13_handshake_recv_action env ctx action = some r → r.ret = TLS13_IO_SUCCESS →
      ∃ c cbs fn, tls13_handshake_recv_action_read env ctx action = HsStep.next c ∧
        (env.tls13_handshake_msg_type c.hs_msg = action.handshake_type ∨
          (env.tls13_handshake_msg_type c.hs_msg = TLS13_MT_CERTIFICATE ∧
            action.handshake_type = TLS13_MT_CERTIFICATE_REQUEST)) ∧
        env.tls13_handshake_msg_content c.hs_msg = some cbs ∧
        action.recv = some fn ∧ (env.recv fn c cbs).1 ≠ 0 ∧
        CBS_len (env.recv fn c cbs).2.2 = 0) ∧
    (∀ (σ μ : Type) (env : HsEnv σ μ) (ctx c : tls13_ctx σ μ)
        (action : tls13_handshake_action),
      tls13_handshake_recv_action_read env ctx action = HsStep.next c →
      env.tls13_handshake_msg_type c.hs_msg ≠ action.handshake_type →
      (env.tls13_handshake_msg_type c.hs_msg ≠ TLS13_MT_CERTIFICATE ∨
        action.handshake_type ≠ TLS13_MT_CERTIFICATE_REQUEST) →
      tls13_handshake_recv_action env ctx action
        = some ⟨(env.tls13_send_alert c.ext SSL_AD_UNEXPECTED_MESSAGE).1,
            { c with ext := (env.tls13_send_alert c.ext SSL_AD_UNEXPECTED_MESSAGE).2 }⟩ ∧
      ∀ recv1, tls13_handshake_recv_action { env with recv := recv1 } ctx action
        = tls13_handshake_recv_action env ctx action) ∧
    (∀ (σ μ : Type) (env : HsEnv σ μ) (c : tls13_ctx σ μ) (action : tls13_handshake_action)
        (cbs : CBS) (fn : tls13_fn),
      action.recv = some fn → (env.recv fn c cbs).1 ≠ 0 →
      CBS_len (env.recv fn c cbs).2.2 ≠ 0 →
      ∃ r, tls13_handshake_recv_action_parse env c action cbs = some r ∧
        r.ctx.alert = SSL_AD_DECODE_ERROR ∧
        (r.ret = TLS13_IO_USE_LEGACY ∨
          r.ret = (env.tls13_send_alert (env.tls13_set_errorx (env.recv fn c cbs).2.1.ext)
            SSL_AD_DECODE_ERROR).1) ∧
        ((∀ s a, (env.tls13_send_alert s a).1 ≠ TLS13_IO_SUCCESS) →
          r.ret ≠ TLS13_IO_SUCCESS)) ∧
    (tls13_handshake_recv_action scenarioHsEnv
        (scenarioCtx TLS13_HS_CLIENT (NEGOTIATED ||| WITHOUT_HRR) 2
          [(TLS13_MT_CERTIFICATE_REQUEST, [])])
        (state_machine tls13_message_type.SERVER_ENCRYPTED_EXTENSIONS)).map HsResult.summary
      = some (TLS13_IO_ALERT, ⟨NEGOTIATED ||| WITHOUT_HRR, 2⟩, 0, 0,
          [HsEvent.alert_sent SSL_AD_UNEXPECTED_MESSAGE]) ∧
    (tls13_handshake_recv_action scenarioHsEnv
        (scenarioCtx TLS13_HS_CLIENT (NEGOTIATED ||| WITHOUT_HRR) 4
          [(TLS13_MT_CERTIFICATE_REQUEST, [])])
        (state_machine tls13_message_type.SERVER_CERTIFICATE)).map HsResult.summary
      = some (TLS13_IO_ALERT, ⟨NEGOTIATED ||| WITHOUT_HRR, 4⟩, 0, 0,
          [HsEvent.alert_sent SSL_AD_UNEXPECTED_MESSAGE]) ∧
    (tls13_handshake_recv_action scenarioHsEnv
        (scenarioCtx TLS13_HS_CLIENT (NEGOTIATED ||| WITHOUT_HRR) 3
          [(TLS13_MT_CERTIFICATE, [])])
        (state_machine tls13_message_type.SERVER_CERTIFICATE_REQUEST)).map HsResult.summary
      = some (TLS13_IO_SUCCESS, ⟨NEGOTIATED ||| WITHOUT_HRR, 3⟩, 0, 0,
          [HsEvent.parsed tls13_fn.tls13_server_certificate_request_recv]) ∧
    (tls13_handshake_recv_action scenarioHsEnv
        (scenarioCtx TLS13_HS_CLIENT (NEGOTIATED ||| WITHOUT_HRR) 1
          [(TLS13_MT_SERVER_HELLO, [0x03, 0x04])])
        (state_machine tls13_message_type.SERVER_HELLO)).map HsResult.summary
      = some (TLS13_IO_SUCCESS, ⟨NEGOTIATED ||| WITHOUT_HRR, 1⟩, 0, 0,
          [HsEvent.parsed tls13_fn.tls13_server_hello_recv]) ∧
    (tls13_handshake_recv_action scenarioHsEnv
        (scenarioCtx TLS13_HS_CLIENT (NEGOTIATED ||| WITHOUT_HRR) 1
          [(TLS13_MT_SERVER_HELLO, [0x03, 0x04, 0xFF, 0x01])])
        (state_machine tls13_message_type.SERVER_HELLO)).map HsResult.summary
      = some (TLS13_IO_ALERT, ⟨NEGOTIATED ||| WITHOUT_HRR, 1⟩, 0, SSL_AD_DECODE_ERROR,
          [HsEvent.parsed tls13_fn.tls13_server_hello_recv,
            HsEvent.alert_sent SSL_AD_DECODE_ERROR]) ∧
    (tls13_handshake_recv_action scenarioHsEnv
        (scenarioCtx TLS13_HS_CLIENT (NEGOTIATED ||| WITHOUT_HRR) 1
          [(TLS13_MT_SERVER_HELLO, [0xEE])])
        (state_machine tls13_message_type.SERVER_HELLO)).map HsResult.summary
      = some (TLS13_IO_FAILURE, ⟨NEGOTIATED ||| WITHOUT_HRR, 1⟩, 0, 0,
          [HsEvent.parsed tls13_fn.tls13_server_hello_recv]) := by
  refine ⟨?_, ?_, ?_, by rfl, by rfl, by rfl, by rfl, by rfl, by rfl⟩
  · intro σ μ env ctx action r hal h hs
    cases hr : tls13_handshake_recv_action_read env ctx action with
    | done r1 =>
      unfold tls13_handshake_recv_action at h
      simp only [hr] at h
      cases h
      have := tls13_handshake_recv_action_read_ret env ctx action _ hr
      rw [hs] at this
      exact absurd this (by decide)
    | next c =>
      by_cases hm : env.tls13_handshake_msg_type c.hs_msg ≠ action.handshake_type ∧
          (env.tls13_handshake_msg_type c.hs_msg ≠ TLS13_MT_CERTIFICATE ∨
            action.handshake_type ≠ TLS13_MT_CERTIFICATE_REQUEST)
      · rw [tls13_handshake_recv_action_mismatch env hr hm.1 hm.2] at h
        cases h
        exact absurd hs (hal _ _)
      · have ht : env.tls13_handshake_msg_type c.hs_msg = action.handshake_type ∨
            (env.tls13_handshake_msg_type c.hs_msg = TLS13_MT_CERTIFICATE ∧
              action.handshake_type = TLS13_MT_CERTIFICATE_REQUEST) := by
          by_contra hn
          push_neg at hn
          apply hm
          refine ⟨hn.1, ?_⟩
          by_contra hc
          push_neg at hc
          exact hn.2 hc.1 hc.2
        cases hc : env.tls13_handshake_msg_content c.hs_msg with
        | none =>
          unfold tls13_handshake_recv_action at h
          simp only [hr] at h
          rw [if_neg hm, hc] at h
          cases h
          exact absurd hs (show TLS13_IO_FAILURE ≠ TLS13_IO_SUCCESS by decide)
        | some cbs =>
          rw [tls13_handshake_recv_action_accepted env hr ht hc] at h
          obtain ⟨fn, p1, p2, p3⟩ := tls13_handshake_recv_action_parse_success env hal h hs
          exact ⟨c, cbs, fn, rfl, ht, hc, p1, p2, p3⟩
  · intro σ μ env ctx c action hr h1 h2
    refine ⟨tls13_handshake_recv_action_mismatch env hr h1 h2, ?_⟩
    intro recv1
    have hr1 : tls13_handshake_recv_action_read { env with recv := recv1 } ctx action
        = HsStep.next c := hr
    rw [tls13_handshake_recv_action_mismatch { env with recv := recv1 } hr1 h1 h2,
      tls13_handshake_recv_action_mismatch env hr h1 h2]
  · intro σ μ env c action cbs fn hf h1 h2
    refine ⟨_, tls13_handshake_recv_action_parse_trailing env c action cbs fn hf h1 h2, rfl,
      ?_, ?_⟩
    · simp only
      split
      · exact Or.inl rfl
      · exact Or.inr rfl
    · intro hal
      simp only
      split
      · decide
      · exact hal _ _

/-- C30. The legacy fallback. Whenever the receive path has handed a message
to the `recv` function of the action and the protocol version of the method
in use is below TLS 1.3 afterwards, the receive path returns USE_LEGACY; in a
step of `tls13_handshake_perform` that takes the receive path, the loop ends
and the call returns USE_LEGACY. So it is for a client whose first server
response makes it fall back. -/
theorem C30_legacy_version_ends_the_handshake :
    TLS13_IO_USE_LEGACY ≤ 0 ∧
    (∀ (σ μ : Type) (env : HsEnv σ μ) (c : tls13_ctx σ μ) (action : tls13_handshake_action)
        (cbs : CBS) (r : HsResult σ μ),
      tls13_handshake_recv_action_parse env c action cbs = some r →
      env.version r.ctx.ext < TLS1_3_VERSION → r.ret = TLS13_IO_USE_LEGACY) ∧
    (∀ (σ μ : Type) (env : HsEnv σ μ) (c : tls13_ctx σ μ) (action : tls13_handshake_action)
        (cbs : CBS), action.recv ≠ none →
      ∃ r, tls13_handshake_recv_action_parse env c action cbs = some r) ∧
    (∀ (σ μ : Type) (env : HsEnv σ μ) (ctx c : tls13_ctx σ μ) (cbs : CBS) (r : HsResult σ μ)
        (fuel : Nat),
      tls13_handshake_active_state ctx ≠ tls13_message_type.INVALID →
      (state_machine (tls13_handshake_active_state ctx)).handshake_complete = 0 →
      ctx.alert = 0 →
      (state_machine (tls13_handshake_active_state ctx)).sender ≠ ctx.mode →
      tls13_handshake_recv_action_read env ctx (state_machine (tls13_handshake_active_state ctx))
        = HsStep.next c →
      (env.tls13_handshake_msg_type c.hs_msg
          = (state_machine (tls13_handshake_active_state ctx)).handshake_type ∨
        (env.tls13_handshake_msg_type c.hs_msg = TLS13_MT_CERTIFICATE ∧
          (state_machine (tls13_handshake_active_state ctx)).handshake_type
            = TLS13_MT_CERTIFICATE_REQUEST)) →
      env.tls13_handshake_msg_content c.hs_msg = some cbs →
      tls13_handshake_recv_action_parse env c
        (state_machine (tls13_handshake_active_state ctx)) cbs = some r →
      env.version r.ctx.ext < TLS1_3_VERSION →
      r.ret = TLS13_IO_USE_LEGACY ∧
      tls13_handshake_perform env (fuel + 1) ctx = some r) ∧
    (tls13_handshake_perform scenarioHsEnv 2
        (scenarioCtx TLS13_HS_CLIENT INITIAL 0
          [(TLS13_MT_SERVER_HELLO, [0x03, 0x03])])).map HsResult.summary
      = some (TLS13_IO_USE_LEGACY, ⟨NEGOTIATED ||| WITHOUT_HRR, 1⟩, 0, 0,
          [HsEvent.built tls13_fn.tls13_client_hello_send,
            HsEvent.transmitted TLS13_MT_CLIENT_HELLO,
            HsEvent.after_send tls13_fn.tls13_client_hello_sent,
            HsEvent.parsed tls13_fn.tls13_server_hello_retry_request_recv]) ∧
    (tls13_handshake_perform scenarioHsEnv 2
        (scenarioCtx TLS13_HS_CLIENT INITIAL 0
          [(TLS13_MT_SERVER_HELLO, [0x03, 0x03, 0xFF])])).map HsResult.summary
      = some (TLS13_IO_USE_LEGACY, ⟨NEGOTIATED ||| WITHOUT_HRR, 1⟩, 0, SSL_AD_DECODE_ERROR,
          [HsEvent.built tls13_fn.tls13_client_hello_send,
            HsEvent.transmitted TLS13_MT_CLIENT_HELLO,
            HsEvent.after_send tls13_fn.tls13_client_hello_sent,
            HsEvent.parsed tls13_fn.tls13_server_hello_retry_request_recv,
            HsEvent.alert_sent SSL_AD_DECODE_ERROR]) := by
  refine ⟨by decide, ?_, ?_, ?_, by rfl, by rfl⟩
  · intro σ μ env c action cbs r h hv
    exact tls13_handshake_recv_action_parse_legacy env h hv
  · intro σ μ env c action cbs hf
    cases hr : action.recv with
    | none => exact absurd hr hf
    | some fn =>
      by_cases ht : (env.recv fn c cbs).1 ≠ 0 ∧ CBS_len (env.recv fn c cbs).2.2 ≠ 0
      · exact ⟨_, tls13_handshake_recv_action_parse_trailing env c action cbs fn hr ht.1 ht.2⟩
      · by_cases ha : (env.recv fn c cbs).2.1.alert ≠ 0
        · exact ⟨_, tls13_handshake_recv_action_parse_alert env c action cbs fn hr ht ha⟩
        · exact ⟨_, tls13_handshake_recv_action_parse_plain env c action cbs fn hr ht
            (not_not.mp ha)⟩
  · intro σ μ env ctx c cbs r fuel hv hc ha hm hr ht hcon hp hver
    have hret := tls13_handshake_recv_action_parse_legacy env hp hver
    refine ⟨hret, ?_⟩
    apply tls13_handshake_perform_done
    unfold tls13_handshake_perform_iteration
    rw [tls13_handshake_active_action_of_state rfl hv]
    simp only
    rw [if_neg (by simp [hc]), if_neg (by simp [ha])]
    unfold tls13_handshake_dispatch
    rw [if_neg hm, tls13_handshake_recv_action_accepted env hr ht hcon, hp]
    simp only
    rw [if_pos (by rw [hret]; decide)]

/-- C32. The function `asn1_find_end`. For a definite length it advances the
cursor by exactly `length` bytes and fails with NESTED_ASN1_ERROR, the
cursor where it was, when fewer remain. For an indefinite length it runs
its loop with the counter at 1. One turn of the loop with the counter at
`n`, `1 ≤ n < SIZE_MAX`: at an end-of-contents marker the counter goes down
by one, and when that makes it zero the call succeeds with the cursor right
behind that marker; an indefinite-length header takes the counter up by
one; a definite-length object is skipped whole, header and content, the
counter as it was; a header that cannot be read fails the call; and when
the input is exhausted the call fails with MISSING_EOC. The call always
returns, 1 or 0. On a buffer shorter than `SIZE_MAX` it succeeds exactly
when the content is a series of complete objects followed by the marker
that closes the region, and the cursor it leaves is the one right behind
that marker. Three examples follow. -/
theorem C32_find_end_counts_markers :
    (∀ (cbs : CBS) (length : Nat),
      asn1_find_end cbs length false
        = if length ≤ CBS_len cbs then some ⟨1, ⟨cbs.data.drop length, cbs.initial_len⟩, []⟩
          else some ⟨0, cbs, [ASN1_R.NESTED_ASN1_ERROR]⟩) ∧
    (∀ (cbs : CBS) (length : Nat),
      asn1_find_end cbs length true = asn1_find_end_loop (CBS_len cbs + 1) cbs 1) ∧
    (∀ (fuel : Nat) (c : CBS) (n : Nat), 1 ≤ n → n < SIZE_MAX →
      (∀ c2, asn1_check_eoc c = some c2 →
        asn1_find_end_loop (fuel + 1) c n
          = if n = 1 then some ⟨1, c2, []⟩ else asn1_find_end_loop fuel c2 (n - 1)) ∧
      (asn1_check_eoc c = none → CBS_len c > 0 →
        ((asn1_check_tag c (-1) 0 false).ret = 0 →
          asn1_find_end_loop (fuel + 1) c n
            = some ⟨0, (asn1_check_tag c (-1) 0 false).cbs,
                (asn1_check_tag c (-1) 0 false).errs ++ [ASN1_R.NESTED_ASN1_ERROR]⟩) ∧
        ((asn1_check_tag c (-1) 0 false).ret ≠ 0 →
          (asn1_check_tag c (-1) 0 false).indefinite = true →
          asn1_find_end_loop (fuel + 1) c n
            = asn1_find_end_loop fuel (asn1_check_tag c (-1) 0 false).cbs (n + 1)) ∧
        ((asn1_check_tag c (-1) 0 false).ret ≠ 0 →
          (asn1_check_tag c (-1) 0 false).indefinite = false →
          (asn1_check_tag c (-1) 0 false).len ≤ CBS_len (asn1_check_tag c (-1) 0 false).cbs ∧
          asn1_find_end_loop (fuel + 1) c n
            = asn1_find_end_loop fuel
                ⟨(asn1_check_tag c (-1) 0 false).cbs.data.drop
                    (asn1_check_tag c (-1) 0 false).len,
                  (asn1_check_tag c (-1) 0 false).cbs.initial_len⟩ n)) ∧
      (CBS_len c = 0 →
        asn1_find_end_loop (fuel + 1) c n = some ⟨0, c, [ASN1_R.MISSING_EOC]⟩)) ∧
    (∀ (cbs : CBS) (length : Nat) (indefinite : Bool),
      ∃ r, asn1_find_end cbs length indefinite = some r ∧ (r.ret = 1 ∨ r.ret = 0)) ∧
    (∀ (x : CBS) (length : Nat), x.data.length < SIZE_MAX →
      (∀ c1 c2, ObjectSeries x c1 → asn1_check_eoc c1 = some c2 →
        asn1_find_end x length true = some ⟨1, c2, []⟩) ∧
      (∀ r, asn1_find_end x length true = some r → r.ret = 1 →
        ∃ c1, ObjectSeries x c1 ∧ asn1_check_eoc c1 = some r.cbs)) ∧
    asn1_find_end (CBS_init [0x30, 0x80, 0x04, 0x01, 0x41, 0x00, 0x00, 0x00, 0x00, 0x09]) 0 true
      = some ⟨1, ⟨[0x09], 10⟩, []⟩ ∧
    asn1_find_end (CBS_init [0x30, 0x80, 0x04, 0x01, 0x41, 0x00, 0x00]) 0 true
      = some ⟨0, ⟨[], 7⟩, [ASN1_R.MISSING_EOC]⟩ ∧
    asn1_find_end (CBS_init [0x04, 0x02, 0x00, 0x00, 0x00, 0x00, 0x09]) 0 true
      = some ⟨1, ⟨[0x09], 7⟩, []⟩ := by
  refine ⟨?_, ?_, ?_, ?_, ?_, by decide, by decide, by decide⟩
  · intro cbs length
    unfold asn1_find_end CBS_skip CBS_len
    by_cases h : length ≤ cbs.data.length <;> simp [h]
  · intro cbs length
    unfold asn1_find_end
    simp
  · intro fuel c n h1 hb
    have hinc : (n + 1) % (SIZE_MAX + 1) = n + 1 := by
      unfold SIZE_MAX at hb ⊢
      omega
    refine ⟨fun c2 he => asn1_find_end_loop_at_eoc fuel c c2 n he h1 (by omega), ?_, ?_⟩
    · intro he hpos
      refine ⟨?_, ?_, ?_⟩
      · intro h0
        rw [asn1_find_end_loop]
        simp only [he]
        rw [if_pos hpos, if_pos h0]
      · intro h0 hi
        rw [asn1_find_end_loop]
        simp only [he]
        rw [if_pos hpos, if_neg h0, if_pos hi, hinc]
      · intro h0 hi
        have hok := asn1_check_tag_ok_of_ne_zero h0
        obtain ⟨_, hdef, _, _⟩ := asn1_check_tag_ok hok
        have hle : (asn1_check_tag c (-1) 0 false).len
            ≤ CBS_len (asn1_check_tag c (-1) 0 false).cbs := by
          have := hdef hi
          unfold CBS_len
          omega
        refine ⟨hle, ?_⟩
        rw [asn1_find_end_loop]
        simp only [he]
        rw [if_pos hpos, if_neg h0, if_neg (by simp [hi]), CBS_skip_of_le _ _ hle]
    · intro h0
      rw [asn1_find_end_loop]
      rw [if_neg (by omega), if_pos (by omega)]
  · intro cbs length indefinite
    obtain ⟨r, hr, h, _⟩ := asn1_find_end_total cbs length indefinite
    exact ⟨r, hr, h⟩
  · intro x length hb
    exact ⟨fun c1 c2 hs he => asn1_find_end_series length hs he hb,
      fun r h hr => asn1_find_end_closes h hr hb⟩

/-- C35. A decode with `optional` = 0 never reports absent. For every
descriptor table without EXTERN items, every item that is not an EXTERN
item, every input and every depth, `asn1_item_ex_d2i` and
`asn1_template_ex_d2i` called with `optional` = 0 finish and return 0 or 1;
so do the entry points. This covers the two calls that rely on it: the
element decode in the loop of `asn1_template_stack_of_d2i`, whose result is
only tested against 0, and the decode of the inner object of an EXPLICIT
wrapper through `asn1_template_noexp_d2i`. With `optional` = 1 the value -1
does occur: the INTEGER item reports the OCTET STRING `04 01 41` absent,
and returns 0 for it with `optional` = 0. -/
theorem C35_mandatory_decode_is_never_absent :
    (∀ (env : Env), NoExtern env →
      ∀ (fuel : Nat) (depth : Int), 31 ≤ (fuel : Int) + depth → 1 ≤ fuel →
      (∀ (pval : Option ASN1_VALUE) (cbs : CBS) (it : ASN1_ITEM) (tag cls : Int),
        it.itype ≠ ASN1_ITYPE_EXTERN →
        ∃ r, asn1_item_ex_d2i env fuel pval cbs it tag cls false depth = some r ∧
          (r.ret = 0 ∨ r.ret = 1)) ∧
      (∀ (pval : Option ASN1_VALUE) (cbs : CBS) (tt : ASN1_TEMPLATE),
        ∃ r, asn1_template_ex_d2i (asn1_item_ex_d2i env fuel) env pval cbs tt false depth
            = some r ∧ (r.ret = 0 ∨ r.ret = 1)) ∧
      (∀ (content : CBS) (tt : ASN1_TEMPLATE),
        ∃ r, asn1_item_ex_d2i env fuel (some ASN1_VALUE.null) content (env.item tt.item) (-1) 0
            false depth = some r ∧ (r.ret ≠ 0 ↔ r.ret = 1)) ∧
      (∀ (v : ASN1_VALUE) (content : CBS) (tt : ASN1_TEMPLATE),
        ∃ r, asn1_template_noexp_d2i (asn1_item_ex_d2i env fuel) env (some v) content tt
            false depth = some r ∧ (r.ret ≠ 1 ↔ r.ret = 0))) ∧
    (∀ (env : Env), NoExtern env →
      ∀ (pval : Option ASN1_VALUE) (input : List UInt8) (len : Int),
      (∀ (it : ASN1_ITEM) (tag cls : Int), it.itype ≠ ASN1_ITYPE_EXTERN →
        ∃ r, ASN1_item_ex_d2i env pval input len it tag cls false = some r ∧
          (r.ret = 0 ∨ r.ret = 1)) ∧
      (∀ (tt : ASN1_TEMPLATE),
        ∃ r, ASN1_template_d2i env pval input len tt = some r ∧ (r.ret = 0 ∨ r.ret = 1))) ∧
    ASN1_item_ex_d2i scenarioEnv (some ASN1_VALUE.null) [0x04, 0x01, 0x41] 3 (scenarioItems 0)
        (-1) 0 true
      = some ⟨-1, ASN1_VALUE.null, 0, []⟩ ∧
    ASN1_item_ex_d2i scenarioEnv (some ASN1_VALUE.null) [0x04, 0x01, 0x41] 3 (scenarioItems 0)
        (-1) 0 false
      = some ⟨0, ASN1_VALUE.null, 0, [ASN1_R.WRONG_TAG, ASN1_R.NESTED_ASN1_ERROR]⟩ := by
  have key : ∀ {cbs : CBS} {o : Option Out}, DecOk cbs false o →
      ∃ r, o = some r ∧ (r.ret = 0 ∨ r.ret = 1) := by
    rintro cbs o ⟨r, hr, h1, _, h3⟩
    refine ⟨r, hr, ?_⟩
    rcases h1 with h | h | h
    · exact Or.inr h
    · exact Or.inl h
    · have := (h3 h).1
      cases this
  refine ⟨?_, ?_, by rfl, by rfl⟩
  · intro env he fuel depth hf h1
    have hd := asn1_item_ex_d2i_total he fuel depth hf h1
    refine ⟨fun pval cbs it tag cls hx => key (hd pval cbs it tag cls false hx),
      fun pval cbs tt => key (asn1_template_ex_d2i_ok hd he pval cbs tt false), ?_, ?_⟩
    · intro content tt
      obtain ⟨r, hr, h⟩ := key (hd (some ASN1_VALUE.null) content (env.item tt.item) (-1) 0
        false (he tt.item))
      refine ⟨r, hr, ?_⟩
      rcases h with h | h <;> simp [h]
    · intro v content tt
      obtain ⟨r, hr, h⟩ := key (asn1_template_noexp_d2i_ok hd he (some v) content tt false)
      refine ⟨r, hr, ?_⟩
      rcases h with h | h <;> simp [h]
  · intro env he pval input len
    have hd := asn1_item_ex_d2i_total he 31 0 (by decide) (by decide)
    constructor
    · intro it tag cls hx
      unfold ASN1_item_ex_d2i
      split
      · exact ⟨_, rfl, Or.inl rfl⟩
      · obtain ⟨r, hr, h⟩ := key (hd pval (CBS_init (input.take len.toNat)) it tag cls false hx)
        rw [hr]
        simp only
        split
        · exact ⟨_, rfl, h⟩
        · exact ⟨_, rfl, h⟩
    · intro tt
      unfold ASN1_template_d2i
      split
      · exact ⟨_, rfl, Or.inl rfl⟩
      · obtain ⟨r, hr, h⟩ := key (asn1_template_ex_d2i_ok hd he pval
          (CBS_init (input.take len.toNat)) tt false)
        rw [hr]
        simp only
        split
        · exact ⟨_, rfl, h⟩
        · exact ⟨_, rfl, h⟩

/-- C37. `asn1_template_stack_of_d2i` does not examine the constructed bit of
the outer header. On a header of definite length, `asn1_check_tag` reports
the same return value, length, tag, class and errors when bit 0x20 of the
identifier octet is cleared, only the constructed flag differs; and the
SET OF / SEQUENCE OF decoder, which does not ask for that flag, gives the
same result on the two encodings: the same return value, value and errors,
on success the same cursor, otherwise the caller's cursor where it was. So
`10 00` and `30 00` both decode against a SEQUENCE OF INTEGER field as the
empty container with 2 bytes consumed, and `10 03 02 01 05` decodes as
`30 03 02 01 05` does. `asn1_item_ex_d2i_sequence` asks for the flag: a
header it accepts that is not constructed fails with
SEQUENCE_NOT_CONSTRUCTED, as `10 00` does for a SEQUENCE item whose
encoding `30 00` decodes. -/
theorem C37_stack_of_ignores_the_constructed_bit :
    (∀ (b b1 : UInt8) (rest : List UInt8) (etag ecls : Int) (opt : Bool),
      b1.toNat = b.toNat &&& 0xDF → DefiniteHeader (b :: rest) →
      (asn1_check_tag (CBS_init (b1 :: rest)) etag ecls opt).ret
        = (asn1_check_tag (CBS_init (b :: rest)) etag ecls opt).ret ∧
      (asn1_check_tag (CBS_init (b1 :: rest)) etag ecls opt).len
        = (asn1_check_tag (CBS_init (b :: rest)) etag ecls opt).len ∧
      (asn1_check_tag (CBS_init (b1 :: rest)) etag ecls opt).tag
        = (asn1_check_tag (CBS_init (b :: rest)) etag ecls opt).tag ∧
      (asn1_check_tag (CBS_init (b1 :: rest)) etag ecls opt).cls
        = (asn1_check_tag (CBS_init (b :: rest)) etag ecls opt).cls ∧
      (asn1_check_tag (CBS_init (b1 :: rest)) etag ecls opt).errs
        = (asn1_check_tag (CBS_init (b :: rest)) etag ecls opt).errs ∧
      (asn1_check_tag (CBS_init (b1 :: rest)) etag ecls opt).constructed = false) ∧
    (∀ (d2i : ItemDec) (env : Env) (pval : Option ASN1_VALUE) (b b1 : UInt8)
        (rest : List UInt8) (n : Nat) (tt : ASN1_TEMPLATE) (opt : Bool) (depth : Int),
      b1.toNat = b.toNat &&& 0xDF → DefiniteHeader (b :: rest) →
      asn1_template_stack_of_d2i d2i env pval ⟨b1 :: rest, n⟩ tt opt depth
        = (asn1_template_stack_of_d2i d2i env pval ⟨b :: rest, n⟩ tt opt depth).map
            (fun r => if r.ret = 1 then r else ⟨r.ret, r.pval, ⟨b1 :: rest, n⟩, r.errs⟩)) ∧
    (∀ (env : Env) (tdec : TemplateDec) (pval : ASN1_VALUE) (cbs : CBS) (it : ASN1_ITEM)
        (opt : Bool) (depth : Int),
      it.itype = ASN1_ITYPE_SEQUENCE ∨ it.itype = ASN1_ITYPE_NDEF_SEQUENCE →
      (asn1_check_tag (CBS_init cbs.data) V_ASN1_SEQUENCE V_ASN1_UNIVERSAL opt).ret = 1 →
      (asn1_check_tag (CBS_init cbs.data) V_ASN1_SEQUENCE V_ASN1_UNIVERSAL opt).constructed
        = false →
      asn1_item_ex_d2i_sequence env tdec pval cbs it (-1) 0 opt depth
        = some ⟨0, ASN1_VALUE.null, cbs, [ASN1_R.SEQUENCE_NOT_CONSTRUCTED]⟩) ∧
    ((0x10 : UInt8).toNat = (0x30 : UInt8).toNat &&& 0xDF ∧ DefiniteHeader [0x30, 0x00]) ∧
    ASN1_template_d2i scenarioEnv (some ASN1_VALUE.null) [0x10, 0x00] 2
        ⟨ASN1_TFLG_SEQUENCE_OF, 0, 0, 0⟩
      = some ⟨1, ASN1_VALUE.stack [], 2, []⟩ ∧
    ASN1_template_d2i scenarioEnv (some ASN1_VALUE.null) [0x30, 0x00] 2
        ⟨ASN1_TFLG_SEQUENCE_OF, 0, 0, 0⟩
      = some ⟨1, ASN1_VALUE.stack [], 2, []⟩ ∧
    ASN1_item_ex_d2i scenarioEnv (some ASN1_VALUE.null) [0x10, 0x00] 2 (scenarioItems 6)
        (-1) 0 false
      = some ⟨1, ASN1_VALUE.stack [], 2, []⟩ ∧
    ASN1_template_d2i scenarioEnv (some ASN1_VALUE.null) [0x11, 0x00] 2
        ⟨ASN1_TFLG_SET_OF, 0, 0, 0⟩
      = some ⟨1, ASN1_VALUE.stack [], 2, []⟩ ∧
    ASN1_template_d2i scenarioEnv (some ASN1_VALUE.null) [0x10, 0x03, 0x02, 0x01, 0x05] 5
        ⟨ASN1_TFLG_SEQUENCE_OF, 0, 0, 0⟩
      = some ⟨1, ASN1_VALUE.stack [ASN1_VALUE.string V_ASN1_INTEGER [0x05]], 5, []⟩ ∧
    ASN1_template_d2i scenarioEnv (some ASN1_VALUE.null) [0x30, 0x03, 0x02, 0x01, 0x05] 5
        ⟨ASN1_TFLG_SEQUENCE_OF, 0, 0, 0⟩
      = some ⟨1, ASN1_VALUE.stack [ASN1_VALUE.string V_ASN1_INTEGER [0x05]], 5, []⟩ ∧
    ASN1_item_ex_d2i scenarioEnv (some ASN1_VALUE.null) [0x10, 0x00] 2 (scenarioItems 5)
        (-1) 0 false
      = some ⟨0, ASN1_VALUE.null, 0, [ASN1_R.SEQUENCE_NOT_CONSTRUCTED]⟩ ∧
    ASN1_item_ex_d2i scenarioEnv (some ASN1_VALUE.null) [0x30, 0x00] 2 (scenarioItems 5)
        (-1) 0 false
      = some ⟨1, ASN1_VALUE.aggregate (-1) [ASN1_VALUE.null] (some [0x30, 0x00]), 2, []⟩ := by
  refine ⟨?_, ?_, ?_, ⟨by decide, ?_⟩, by rfl, by rfl, by rfl, by rfl, by rfl, by rfl, by rfl,
    by rfl⟩
  · intro b b1 rest etag ecls opt hb hdef
    obtain ⟨e1, e2, e3, e4, _, e6, e7, _⟩ := asn1_check_tag_clear b b1 rest etag ecls opt hb hdef
    exact ⟨e1, e2, e3, e4, e6, e7⟩
  · intro d2i env pval b b1 rest n tt opt depth hb hdef
    exact asn1_template_stack_of_d2i_clear d2i env pval b b1 rest n tt opt depth hb hdef
  · intro env tdec pval cbs it opt depth hs hr hc
    unfold asn1_item_ex_d2i_sequence
    have hi : ¬ (it.itype ≠ ASN1_ITYPE_NDEF_SEQUENCE ∧ it.itype ≠ ASN1_ITYPE_SEQUENCE) := by
      rcases hs with h | h <;> simp [h]
    simp [hi, hr, hc]
  · intro id l hid hl
    have h1 : asn1_get_identifier_cbs (CBS_init [0x30, 0x00]) = some ⟨0, true, 16, ⟨[0x00], 2⟩⟩ := by
      decide
    rw [h1] at hid
    cases hid
    have h2 : asn1_get_length_cbs ⟨[0x00], 2⟩ = some ⟨false, 0, ⟨[], 2⟩⟩ := by decide
    rw [h2] at hl
    cases hl
    rfl

/-- The CHOICE item without alternatives. -/
def emptyChoice : ASN1_ITEM := ⟨ASN1_ITYPE_CHOICE, 0, [], ASN1_FUNCS.null, 0⟩

/-- C38. On a cursor with no bytes `asn1_check_tag` returns 0 with
BAD_OBJECT_HEADER whatever the expectation and the optional flag are. So,
in optional mode as in mandatory mode, on empty input a primitive, a
SEQUENCE and a SET OF / SEQUENCE OF fail with BAD_OBJECT_HEADER, and
`asn1_item_ex_d2i` and `asn1_template_ex_d2i` return 0, never -1, for every
descriptor tree without EXTERN items whose CHOICE items have at least one
alternative; so does the entry point on a length of 0. The INTEGER, the
CHOICE, the SEQUENCE and the multi-string of the scenarios and the
SEQUENCE OF field return 0 on empty input in optional mode, where a tag
mismatch returns -1. A CHOICE without alternatives has nothing to try and
in optional mode reports absent on every input. -/
theorem C38_empty_input_is_an_error :
    (∀ (n : Nat) (etag ecls : Int) (opt : Bool),
      asn1_check_tag ⟨[], n⟩ etag ecls opt
        = ⟨0, ⟨[], n⟩, 0, 0, 0, false, false, [ASN1_R.BAD_OBJECT_HEADER]⟩) ∧
    (∀ (env : Env) (pval : ASN1_VALUE) (n : Nat) (it : ASN1_ITEM) (tag cls : Int) (opt : Bool),
      it.itype ≠ ASN1_ITYPE_MSTRING → it.utype ≠ V_ASN1_ANY →
      asn1_d2i_ex_primitive env pval ⟨[], n⟩ it tag cls opt
        = some ⟨0, pval, ⟨[], n⟩, [ASN1_R.BAD_OBJECT_HEADER, ASN1_R.NESTED_ASN1_ERROR]⟩) ∧
    (∀ (env : Env) (tdec : TemplateDec) (pval : ASN1_VALUE) (n : Nat) (it : ASN1_ITEM)
        (tag cls : Int) (opt : Bool) (depth : Int),
      it.itype = ASN1_ITYPE_SEQUENCE ∨ it.itype = ASN1_ITYPE_NDEF_SEQUENCE →
      asn1_item_ex_d2i_sequence env tdec pval ⟨[], n⟩ it tag cls opt depth
        = some ⟨0, ASN1_VALUE.null, ⟨[], n⟩,
            [ASN1_R.BAD_OBJECT_HEADER, ASN1_R.NESTED_ASN1_ERROR]⟩) ∧
    (∀ (d2i : ItemDec) (env : Env) (v : ASN1_VALUE) (n : Nat) (tt : ASN1_TEMPLATE) (opt : Bool)
        (depth : Int),
      asn1_template_stack_of_d2i d2i env (some v) ⟨[], n⟩ tt opt depth
        = some ⟨0, ASN1_VALUE.null, ⟨[], n⟩,
            [ASN1_R.BAD_OBJECT_HEADER, ASN1_R.NESTED_ASN1_ERROR]⟩) ∧
    (∀ (env : Env), NoExtern env → ChoicesInhabited env →
      ∀ (fuel : Nat) (depth : Int), 31 ≤ (fuel : Int) + depth → 1 ≤ fuel →
      (∀ (pval : Option ASN1_VALUE) (n : Nat) (it : ASN1_ITEM) (tag cls : Int) (opt : Bool),
        it.itype ≠ ASN1_ITYPE_EXTERN → (it.itype = ASN1_ITYPE_CHOICE → it.templates ≠ []) →
        ∃ r, asn1_item_ex_d2i env fuel pval ⟨[], n⟩ it tag cls opt depth = some r ∧
          r.ret = 0) ∧
      (∀ (pval : Option ASN1_VALUE) (n : Nat) (tt : ASN1_TEMPLATE) (opt : Bool),
        ∃ r, asn1_template_ex_d2i (asn1_item_ex_d2i env fuel) env pval ⟨[], n⟩ tt opt depth
            = some r ∧ r.ret = 0)) ∧
    (∀ (env : Env), NoExtern env → ChoicesInhabited env →
      ∀ (pval : Option ASN1_VALUE) (input : List UInt8) (it : ASN1_ITEM) (tag cls : Int)
        (opt : Bool),
      it.itype ≠ ASN1_ITYPE_EXTERN → (it.itype = ASN1_ITYPE_CHOICE → it.templates ≠ []) →
      ∃ r, ASN1_item_ex_d2i env pval input 0 it tag cls opt = some r ∧ r.ret = 0 ∧
        r.advanced = 0) ∧
    ChoicesInhabited scenarioEnv ∧
    ASN1_item_ex_d2i scenarioEnv (some ASN1_VALUE.null) [] 0 (scenarioItems 0) (-1) 0 true
      = some ⟨0, ASN1_VALUE.null, 0, [ASN1_R.BAD_OBJECT_HEADER, ASN1_R.NESTED_ASN1_ERROR]⟩ ∧
    ASN1_item_ex_d2i scenarioEnv (some ASN1_VALUE.null) [0x04, 0x01, 0x41] 3 (scenarioItems 0)
        (-1) 0 true
      = some ⟨-1, ASN1_VALUE.null, 0, []⟩ ∧
    ASN1_item_ex_d2i scenarioEnv (some ASN1_VALUE.null) [] 0 (scenarioItems 3) (-1) 0 true
      = some ⟨0, ASN1_VALUE.null, 0, [ASN1_R.BAD_OBJECT_HEADER, ASN1_R.NESTED_ASN1_ERROR,
          ASN1_R.NESTED_ASN1_ERROR, ASN1_R.NESTED_ASN1_ERROR]⟩ ∧
    ASN1_item_ex_d2i scenarioEnv (some ASN1_VALUE.null) [0x04, 0x01, 0x41] 3 (scenarioItems 3)
        (-1) 0 true
      = some ⟨-1, ASN1_VALUE.null, 0, []⟩ ∧
    ASN1_item_ex_d2i scenarioEnv (some ASN1_VALUE.null) [] 0 (scenarioItems 4) (-1) 0 true
      = some ⟨0, ASN1_VALUE.null, 0, [ASN1_R.BAD_OBJECT_HEADER, ASN1_R.NESTED_ASN1_ERROR]⟩ ∧
    ASN1_item_ex_d2i scenarioEnv (some ASN1_VALUE.null) [] 0 (scenarioItems 14) (-1) 0 true
      = some ⟨0, ASN1_VALUE.null, 0, [ASN1_R.BAD_OBJECT_HEADER, ASN1_R.NESTED_ASN1_ERROR]⟩ ∧
    asn1_template_ex_d2i (asn1_item_ex_d2i scenarioEnv 31) scenarioEnv (some ASN1_VALUE.null)
        (CBS_init []) ⟨ASN1_TFLG_SEQUENCE_OF, 0, 0, 0⟩ true 0
      = some ⟨0, ASN1_VALUE.null, CBS_init [],
          [ASN1_R.BAD_OBJECT_HEADER, ASN1_R.NESTED_ASN1_ERROR]⟩ ∧
    asn1_template_ex_d2i (asn1_item_ex_d2i scenarioEnv 31) scenarioEnv (some ASN1_VALUE.null)
        (CBS_init [0x04, 0x01, 0x41]) ⟨ASN1_TFLG_SEQUENCE_OF, 0, 0, 0⟩ true 0
      = some ⟨-1, ASN1_VALUE.null, CBS_init [0x04, 0x01, 0x41], []⟩ ∧
    (∀ (input : List UInt8) (inlen : Int), 0 ≤ inlen →
      ASN1_item_ex_d2i scenarioEnv (some ASN1_VALUE.null) input inlen emptyChoice (-1) 0 true
        = some ⟨-1, ASN1_VALUE.null, 0, []⟩) := by
  refine ⟨asn1_check_tag_empty, ?_, ?_, ?_, ?_, ?_, ?_, by rfl, by rfl, by rfl, by rfl, by rfl,
    by rfl, by rfl, by rfl, ?_⟩
  · intro env pval n it tag cls opt hm ha
    unfold asn1_d2i_ex_primitive
    have hc : CBS_init (⟨[], n⟩ : CBS).data = ⟨[], 0⟩ := rfl
    rw [hc]
    simp [asn1_check_tag_empty, hm, ha]
  · intro env tdec pval n it tag cls opt depth hs
    unfold asn1_item_ex_d2i_sequence
    have hc : CBS_init (⟨[], n⟩ : CBS).data = ⟨[], 0⟩ := rfl
    rw [hc]
    have hi : ¬ (it.itype ≠ ASN1_ITYPE_NDEF_SEQUENCE ∧ it.itype ≠ ASN1_ITYPE_SEQUENCE) := by
      rcases hs with h | h <;> simp [h]
    simp [asn1_check_tag_empty, hi]
  · intro d2i env v n tt opt depth
    unfold asn1_template_stack_of_d2i
    have hc : CBS_init (⟨[], n⟩ : CBS).data = ⟨[], 0⟩ := rfl
    rw [hc]
    simp [asn1_check_tag_empty]
  · intro env he hch fuel depth hf h1
    exact ⟨fun pval n it tag cls opt hx hne =>
        asn1_item_ex_d2i_on_empty he hch fuel depth hf h1 pval ⟨[], n⟩ it tag cls opt hx hne rfl,
      fun pval n tt opt =>
        asn1_template_ex_d2i_on_empty he hch fuel depth hf h1 pval ⟨[], n⟩ tt opt rfl⟩
  · intro env he hch pval input it tag cls opt hx hne
    obtain ⟨r, hr, h0⟩ := asn1_item_ex_d2i_on_empty he hch 31 0 (by decide) (by decide) pval
      (CBS_init (input.take (0 : Int).toNat)) it tag cls opt hx hne (by simp [CBS_init])
    unfold ASN1_item_ex_d2i
    rw [if_neg (by decide), hr]
    simp [h0]
  · intro k hk
    unfold scenarioEnv specEnv scenarioItems at hk ⊢
    simp only at hk ⊢
    split at hk <;> first
      | (simp [primitiveItem, ASN1_ITYPE_CHOICE, ASN1_ITYPE_PRIMITIVE, ASN1_ITYPE_SEQUENCE,
          ASN1_ITYPE_MSTRING] at hk; done)
      | simp
  · intro input inlen hl
    unfold ASN1_item_ex_d2i
    rw [if_neg (by omega)]
    rfl

/-- C39. The HelloRetryRequest variants. For each of the four base variants
NEGOTIATED, NEGOTIATED|WITHOUT_CR, NEGOTIATED|WITH_PSK and
NEGOTIATED|WITH_CCV, the row of the variant with WITHOUT_HRR added is the row
of the base variant with SERVER_HELLO_RETRY_REQUEST and CLIENT_HELLO_RETRY
taken out, both of which the base row holds. Every defined row starts with
CLIENT_HELLO, holds no message id twice, fits a row of the table, and holds
only message ids that are not `INVALID`, are no larger than the last
designator `APPLICATION_DATA` of `state_machine` and have an initialiser
there, so the lookup of `tls13_handshake_active_action` stays inside the
action table. -/
theorem C39_retry_variants_are_consistent :
    (∀ v, v = NEGOTIATED ∨ v = NEGOTIATED ||| WITHOUT_CR ∨ v = NEGOTIATED ||| WITH_PSK ∨
        v = NEGOTIATED ||| WITH_CCV →
      handshakes (v ||| WITHOUT_HRR)
        = (handshakes v).filter (fun mt =>
            decide (mt ≠ tls13_message_type.SERVER_HELLO_RETRY_REQUEST ∧
              mt ≠ tls13_message_type.CLIENT_HELLO_RETRY)) ∧
      tls13_message_type.SERVER_HELLO_RETRY_REQUEST ∈ handshakes v ∧
      tls13_message_type.CLIENT_HELLO_RETRY ∈ handshakes v ∧
      (handshakes (v ||| WITHOUT_HRR)).length + 2 = (handshakes v).length) ∧
    (∀ k, handshakes k ≠ [] →
      (handshakes k).head? = some tls13_message_type.CLIENT_HELLO ∧
      (handshakes k).Nodup ∧
      (handshakes k).length ≤ TLS13_NUM_MESSAGE_TYPES ∧
      ∀ mt ∈ handshakes k, mt ≠ tls13_message_type.INVALID ∧
        mt.toCtorIdx ≤ tls13_message_type.APPLICATION_DATA.toCtorIdx ∧
        mt.toCtorIdx < TLS13_NUM_MESSAGE_TYPES ∧
        state_machine mt ≠ state_machine tls13_message_type.INVALID) ∧
    (∀ (σ μ : Type) (ctx : tls13_ctx σ μ) (action : tls13_handshake_action),
      tls13_handshake_active_action ctx = some action →
      ∃ mt, mt ∈ handshakes ctx.handshake_stage.hs_type ∧
        mt ≠ tls13_message_type.INVALID ∧ action = state_machine mt) := by
  refine ⟨?_, ?_, ?_⟩
  · intro v hv
    rcases hv with h | h | h | h <;> subst h <;> decide
  · intro k hk
    rcases handshakes_cases k with h | h | h | h | h | h | h | h | h | h
    all_goals first
      | exact absurd h hk
      | (subst h; decide)
  · intro σ μ ctx action h
    unfold tls13_handshake_active_action at h
    by_cases hi : tls13_handshake_active_state ctx = tls13_message_type.INVALID
    · rw [if_pos hi] at h
      cases h
    · rw [if_neg hi] at h
      cases h
      refine ⟨tls13_handshake_active_state ctx, ?_, hi, rfl⟩
      unfold tls13_handshake_active_state at hi ⊢
      by_cases h1 : ctx.handshake_stage.hs_type ≥ handshake_count
      · rw [if_pos h1] at hi
        exact absurd rfl hi
      · rw [if_neg h1] at hi ⊢
        by_cases h2 : ctx.handshake_stage.message_number ≥ TLS13_NUM_MESSAGE_TYPES
        · rw [if_pos h2] at hi
          exact absurd rfl hi
        · rw [if_neg h2] at hi ⊢
          by_cases h3 : ctx.handshake_stage.message_number
              < (handshakes ctx.handshake_stage.hs_type).length
          · rw [List.getD_eq_getElem _ _ h3]
            exact List.getElem_mem _
          · rw [List.getD_eq_default _ _ (by omega)] at hi
            exact absurd rfl hi

/-- C31 (code bug). For a constructed string of indefinite length whose
content is a series of fragments (primitive fragments and constructed
fragments of indefinite length, nested no deeper than the limit) followed by
an end-of-contents marker, and for one of definite length whose fragments
reach the end of the input, `asn1_collect` gathers the contents of the
primitive fragments in input order, `asn1_d2i_ex_primitive_content` hands
exactly these bytes to the value constructor and the caller's cursor
advances to the end of the series (behind the marker). `24 06 04 01 41 04
01 42` and `24 80 04 01 41 04 01 42 00 00` both yield `41 42`, and so does
the nested `24 80 24 80 04 01 41 00 00 04 01 42 00 00`. A marker met at a
level of definite length fails with UNEXPECTED_EOC, and a level of
indefinite length that runs out of input fails with MISSING_EOC. But
`asn1_collect` never uses the length of a constructed fragment of definite
length: it collects at the next depth whatever follows the header. So the
well-formed string `24 80 24 03 04 01 41 00 00`, a fragment of definite
length 3 nested in a string of indefinite length, is rejected with
UNEXPECTED_EOC, and `24 03 04 01 41` followed by two more bytes is rejected
where the same string at the end of the input decodes. -/
theorem C31_constructed_string_collects_fragments :
    (∀ (x c1 c2 : CBS) (bs : List UInt8), FragmentSeries 0 x bs c1 →
      (asn1_check_eoc c1 = some c2 →
        asn1_collect [] x true (-1) V_ASN1_UNIVERSAL 0 = some ⟨1, bs, c2, []⟩) ∧
      (CBS_len c1 = 0 →
        asn1_collect [] x false (-1) V_ASN1_UNIVERSAL 0 = some ⟨1, bs, c1, []⟩)) ∧
    FragmentSeries 0 ⟨[0x04, 0x01, 0x41, 0x04, 0x01, 0x42, 0x00, 0x00], 10⟩ [0x41, 0x42]
      ⟨[0x00, 0x00], 10⟩ ∧
    (∀ (env : Env) (pval : ASN1_VALUE) (cbs x c1 c2 : CBS) (bs : List UInt8) (utype : Int)
        (length : Nat) (it : ASN1_ITEM),
      utype ≠ V_ASN1_SEQUENCE → utype ≠ V_ASN1_SET → utype ≠ V_ASN1_OTHER →
      FragmentSeries 0 x bs c1 →
      (asn1_check_eoc c1 = some c2 →
        asn1_d2i_ex_primitive_content env pval cbs x utype true true length it
          = some (primitive_content_finish env pval cbs c2 (CBS_init bs) utype it)) ∧
      (CBS_len c1 = 0 →
        asn1_d2i_ex_primitive_content env pval cbs x utype true false length it
          = some (primitive_content_finish env pval cbs c1 (CBS_init bs) utype it))) ∧
    (∀ (env : Env) (pval : ASN1_VALUE) (cbs x cbs1 : CBS) (bs : List UInt8) (utype : Int)
        (it : ASN1_ITEM),
      (asn1_ex_c2i env pval (CBS_init bs) utype it).ret ≠ 0 →
      CBS_skip cbs (CBS_offset x) = some cbs1 →
      primitive_content_finish env pval cbs x (CBS_init bs) utype it
        = ⟨1, (asn1_ex_c2i env pval (CBS_init bs) utype it).pval, cbs1,
            (asn1_ex_c2i env pval (CBS_init bs) utype it).errs⟩) ∧
    (∀ (fuel : Nat) (cbb : List UInt8) (c c2 : CBS) (etag ecls depth : Int),
      asn1_check_eoc c = some c2 →
      asn1_collect_loop (fuel + 1) cbb c false etag ecls depth
        = some ⟨0, cbb, c2, [ASN1_R.UNEXPECTED_EOC]⟩) ∧
    (∀ (fuel : Nat) (cbb : List UInt8) (c : CBS) (etag ecls depth : Int),
      CBS_len c = 0 →
      asn1_collect_loop (fuel + 1) cbb c true etag ecls depth
        = some ⟨0, cbb, c, [ASN1_R.MISSING_EOC]⟩) ∧
    ASN1_item_ex_d2i scenarioEnv (some ASN1_VALUE.null)
        [0x24, 0x06, 0x04, 0x01, 0x41, 0x04, 0x01, 0x42] 8 (scenarioItems 7) (-1) 0 false
      = some ⟨1, ASN1_VALUE.string V_ASN1_OCTET_STRING [0x41, 0x42], 8, []⟩ ∧
    ASN1_item_ex_d2i scenarioEnv (some ASN1_VALUE.null)
        [0x24, 0x80, 0x04, 0x01, 0x41, 0x04, 0x01, 0x42, 0x00, 0x00] 10 (scenarioItems 7)
        (-1) 0 false
      = some ⟨1, ASN1_VALUE.string V_ASN1_OCTET_STRING [0x41, 0x42], 10, []⟩ ∧
    ASN1_item_ex_d2i scenarioEnv (some ASN1_VALUE.null)
        [0x24, 0x80, 0x24, 0x80, 0x04, 0x01, 0x41, 0x00, 0x00, 0x04, 0x01, 0x42, 0x00, 0x00] 14
        (scenarioItems 7) (-1) 0 false
      = some ⟨1, ASN1_VALUE.string V_ASN1_OCTET_STRING [0x41, 0x42], 14, []⟩ ∧
    ASN1_item_ex_d2i scenarioEnv (some ASN1_VALUE.null) [0x24, 0x02, 0x00, 0x00] 4
        (scenarioItems 7) (-1) 0 false
      = some ⟨0, ASN1_VALUE.null, 0, [ASN1_R.UNEXPECTED_EOC]⟩ ∧
    ASN1_item_ex_d2i scenarioEnv (some ASN1_VALUE.null) [0x24, 0x80, 0x04, 0x01, 0x41] 5
        (scenarioItems 7) (-1) 0 false
      = some ⟨0, ASN1_VALUE.null, 0, [ASN1_R.MISSING_EOC]⟩ ∧
    ASN1_item_ex_d2i scenarioEnv (some ASN1_VALUE.null)
        [0x24, 0x80, 0x24, 0x03, 0x04, 0x01, 0x41, 0x00, 0x00] 9 (scenarioItems 7) (-1) 0 false
      = some ⟨0, ASN1_VALUE.null, 0, [ASN1_R.UNEXPECTED_EOC]⟩ ∧
    ASN1_item_ex_d2i scenarioEnv (some ASN1_VALUE.null) [0x24, 0x03, 0x04, 0x01, 0x41] 5
        (scenarioItems 7) (-1) 0 false
      = some ⟨1, ASN1_VALUE.string V_ASN1_OCTET_STRING [0x41], 5, []⟩ ∧
    ASN1_item_ex_d2i scenarioEnv (some ASN1_VALUE.null)
        [0x24, 0x03, 0x04, 0x01, 0x41, 0x09, 0x09] 7 (scenarioItems 7) (-1) 0 false
      = some ⟨0, ASN1_VALUE.null, 0, [ASN1_R.TOO_LONG, ASN1_R.NESTED_ASN1_ERROR]⟩ := by
  refine ⟨?_, ?_, ?_, ?_, ?_, ?_, by rfl, by rfl, by rfl, by rfl, by rfl, by rfl, by rfl,
    by rfl⟩
  · intro x c1 c2 bs h
    exact ⟨fun he => asn1_collect_indefinite h he, fun he => asn1_collect_definite h he⟩
  · exact FragmentSeries.primitive 0 ⟨[0x04, 0x01, 0x41, 0x04, 0x01, 0x42, 0x00, 0x00], 10⟩
      (CBS_init [0x41]) ⟨[0x04, 0x01, 0x42, 0x00, 0x00], 10⟩ ⟨[0x00, 0x00], 10⟩ [0x42]
      (by decide) (by decide) (by decide) (by decide)
      (FragmentSeries.primitive 0 ⟨[0x04, 0x01, 0x42, 0x00, 0x00], 10⟩ (CBS_init [0x42])
        ⟨[0x00, 0x00], 10⟩ ⟨[0x00, 0x00], 10⟩ [] (by decide) (by decide) (by decide)
        (by decide) (FragmentSeries.done 0 _))
  · intro env pval cbs x c1 c2 bs utype length it h1 h2 h3 h
    constructor
    · intro he
      unfold asn1_d2i_ex_primitive_content
      rw [if_neg (by simp [h1, h2]), if_neg (by simp [h1, h2, h3]), if_pos rfl,
        asn1_collect_indefinite h he]
      simp
    · intro he
      unfold asn1_d2i_ex_primitive_content
      rw [if_neg (by simp [h1, h2]), if_neg (by simp [h1, h2, h3]), if_pos rfl,
        asn1_collect_definite h he]
      simp
  · intro env pval cbs x cbs1 bs utype it h1 h2
    unfold primitive_content_finish
    rw [if_neg h1, h2]
  · intro fuel cbb c c2 etag ecls depth he
    rw [asn1_collect_loop_at_eoc fuel cbb c c2 false etag ecls depth he]
    simp
  · intro fuel cbb c etag ecls depth he
    rw [asn1_collect_loop_at_end fuel cbb c true etag ecls depth he]
    simp

/-- C33. The order of recording and hashing, with the transcript modelled as
the list of recorded handshake messages and the preserved hash as the list
of messages it covers. Let `tls1_transcript_record` add a message to the
transcript and `tls1_transcript_hash_value` take the preserved hash over
the transcript as it is, and let the other outside functions leave both
alone. On the receive path, up to the message hook and for the whole of a
step that returns a value above 0, the received message is added to the
transcript, and with `recv_preserve_transcript_hash` set the preserved hash
covers the transcript without that message. On the send path, from the
transmission on and for the whole of a step that returns a value above 0,
the sent message is added to the transcript, and with
`send_preserve_transcript_hash` set the preserved hash covers the
transcript with that message. With the flag clear the preserved hash is
what it was. In the transcript scenarios a client that receives the
server's Finished (flag set) keeps the hash over the two earlier messages,
one that receives EncryptedExtensions (flag clear) keeps the hash it had; a
client that sends its Certificate (flag set) has the hash over all three
messages, one that sends its Finished (flag clear) keeps the hash it had. -/
theorem C33_transcript_hash_order :
    (∀ (σ μ : Type) (env : HsEnv σ μ) (tv : TranscriptView σ),
      env.Transcript tv → env.KeepsTranscript tv →
      (∀ (ctx c : tls13_ctx σ μ) (action : tls13_handshake_action),
        tls13_handshake_recv_action_read env ctx action = HsStep.next c →
        ∃ m, (if ctx.hs_msg.isSome then ctx.hs_msg else env.tls13_handshake_msg_new ctx.ext)
            = some m ∧
          tv.recorded c.ext = tv.recorded ctx.ext
            ++ [env.tls13_handshake_msg_data
                (env.tls13_handshake_msg_recv (some m) ctx.ext).2.1] ∧
          (action.recv_preserve_transcript_hash ≠ 0 →
            tv.preserved c.ext = tv.recorded ctx.ext) ∧
          (action.recv_preserve_transcript_hash = 0 →
            tv.preserved c.ext = tv.preserved ctx.ext)) ∧
      (∀ (c : tls13_ctx σ μ) (action : tls13_handshake_action),
        0 < (tls13_handshake_send_action_transmit env c action).ret →
        tv.recorded (tls13_handshake_send_action_transmit env c action).ctx.ext
          = tv.recorded c.ext
            ++ [env.tls13_handshake_msg_data
                (env.tls13_handshake_msg_send c.hs_msg c.ext).2.1] ∧
        (action.send_preserve_transcript_hash ≠ 0 →
          tv.preserved (tls13_handshake_send_action_transmit env c action).ctx.ext
            = tv.recorded c.ext
              ++ [env.tls13_handshake_msg_data
                  (env.tls13_handshake_msg_send c.hs_msg c.ext).2.1]) ∧
        (action.send_preserve_transcript_hash = 0 →
          tv.preserved (tls13_handshake_send_action_transmit env c action).ctx.ext
            = tv.preserved c.ext)) ∧
      ((∀ s a, (env.tls13_send_alert s a).1 ≤ 0) →
        (∀ (ctx : tls13_ctx σ μ) (action : tls13_handshake_action) (r : HsResult σ μ),
          tls13_handshake_recv_action env ctx action = some r → 0 < r.ret →
          ∃ msg, tv.recorded r.ctx.ext = tv.recorded ctx.ext ++ [msg] ∧
            (action.recv_preserve_transcript_hash ≠ 0 →
              tv.preserved r.ctx.ext = tv.recorded ctx.ext) ∧
            (action.recv_preserve_transcript_hash = 0 →
              tv.preserved r.ctx.ext = tv.preserved ctx.ext)) ∧
        (∀ (ctx : tls13_ctx σ μ) (action : tls13_handshake_action) (r : HsResult σ μ),
          tls13_handshake_send_action env ctx action = some r → 0 < r.ret →
          ∃ msg, tv.recorded r.ctx.ext = tv.recorded ctx.ext ++ [msg] ∧
            (action.send_preserve_transcript_hash ≠ 0 →
              tv.preserved r.ctx.ext = tv.recorded ctx.ext ++ [msg]) ∧
            (action.send_preserve_transcript_hash = 0 →
              tv.preserved r.ctx.ext = tv.preserved ctx.ext)))) ∧
    (transcriptHsEnv.Transcript transcriptView ∧
      transcriptHsEnv.KeepsTranscript transcriptView ∧
      ∀ s a, (transcriptHsEnv.tls13_send_alert s a).1 ≤ 0) ∧
    ((state_machine tls13_message_type.SERVER_FINISHED).recv_preserve_transcript_hash = 1 ∧
      (state_machine tls13_message_type.SERVER_ENCRYPTED_EXTENSIONS).recv_preserve_transcript_hash
        = 0 ∧
      (state_machine tls13_message_type.CLIENT_CERTIFICATE).send_preserve_transcript_hash = 1 ∧
      (state_machine tls13_message_type.CLIENT_FINISHED).send_preserve_transcript_hash = 0) ∧
    (tls13_handshake_dispatch transcriptHsEnv
        (transcriptCtx TLS13_HS_CLIENT NEGOTIATED 0 [[1], [2]] [[9]]
          [(TLS13_MT_FINISHED, [7, 7])])
        (state_machine tls13_message_type.SERVER_FINISHED)).map
        (fun r => (r.ret, r.ctx.ext))
      = some (1, ⟨[[1], [2], [20, 7, 7]], [[1], [2]], []⟩) ∧
    (tls13_handshake_dispatch transcriptHsEnv
        (transcriptCtx TLS13_HS_CLIENT NEGOTIATED 0 [[1], [2]] [[9]]
          [(TLS13_MT_ENCRYPTED_EXTENSIONS, [7, 7])])
        (state_machine tls13_message_type.SERVER_ENCRYPTED_EXTENSIONS)).map
        (fun r => (r.ret, r.ctx.ext))
      = some (1, ⟨[[1], [2], [8, 7, 7]], [[9]], []⟩) ∧
    (tls13_handshake_dispatch transcriptHsEnv
        (transcriptCtx TLS13_HS_CLIENT NEGOTIATED 0 [[1], [2]] [[9]] [])
        (state_machine tls13_message_type.CLIENT_CERTIFICATE)).map
        (fun r => (r.ret, r.ctx.ext))
      = some (1, ⟨[[1], [2], [11, 0xAA]], [[1], [2], [11, 0xAA]], []⟩) ∧
    (tls13_handshake_dispatch transcriptHsEnv
        (transcriptCtx TLS13_HS_CLIENT NEGOTIATED 0 [[1], [2]] [[9]] [])
        (state_machine tls13_message_type.CLIENT_FINISHED)).map
        (fun r => (r.ret, r.ctx.ext))
      = some (1, ⟨[[1], [2], [20, 0xAA]], [[9]], []⟩) := by
  refine ⟨?_, ⟨?_, ?_, ?_⟩, ⟨rfl, rfl, rfl, rfl⟩, by rfl, by rfl, by rfl, by rfl⟩
  · intro σ μ env tv ht hk
    refine ⟨fun ctx c action h => tls13_handshake_recv_action_read_transcript ht hk h,
      fun c action hr => tls13_handshake_send_action_transmit_transcript ht hk c action hr,
      fun hal => ⟨fun ctx action r h hr => tls13_handshake_recv_action_transcript ht hk h hr hal,
        fun ctx action r h hr => tls13_handshake_send_action_transcript ht hk h hr hal⟩⟩
  · exact ⟨fun s d _ => ⟨rfl, rfl⟩, fun s _ => ⟨rfl, rfl⟩⟩
  · refine ⟨fun _ _ => ⟨rfl, rfl⟩, fun _ _ => ⟨rfl, rfl⟩, fun _ _ _ => ⟨rfl, rfl⟩,
      fun _ _ => ⟨rfl, rfl⟩, ?_, fun _ _ => ⟨rfl, rfl⟩, fun _ => ⟨rfl, rfl⟩, ?_, ?_⟩
    · intro m s
      show transcriptView.Same (match s.inbox with
        | [] => ((TLS13_IO_WANT_POLLIN, m, s) : Int × Option ScenarioMsg × TranscriptWorld)
        | (t, b) :: rest => (1, some ⟨t, b⟩, ⟨s.recorded, s.preserved, rest⟩)).2.2 s
      cases s.inbox with
      | nil => exact ⟨rfl, rfl⟩
      | cons p rest => exact ⟨rfl, rfl⟩
    · intro cb h
      cases h
    · intro cb h
      cases h
  · intro s a
    exact (by decide : TLS13_IO_ALERT ≤ 0)

/-- C34 (code bug). Let `x` be one complete object of definite length. For
`asn1_d2i_ex_primitive`, when `x` is of primitive form or the item is of the
type SEQUENCE or SET, and for `asn1_d2i_ex_mstring`, when `x` is of
primitive form, the decode of `x` followed by any bytes `t` is the decode of
`x` alone with `t` left behind the cursor: the same return value, value and
errors whatever follows, and on success exactly the bytes of `x` consumed.
For a string in constructed form this fails: `asn1_collect` is handed the
cursor over all the remaining input and never uses the declared length, so
what follows the object is read as its content. The complete object `24 00`
decodes against the OCTET STRING item as the empty string with 2 bytes
consumed, and followed by `04 01 41` as the string `41` with 5 bytes
consumed; `24 03 04 01 41` decodes, and followed by `09 09` fails; the
multi-string decodes `2C 00` as the empty UTF8String and, followed by `0C 01
41`, as `41`. The primitive form `04 01 41` decodes the same with and
without following bytes. -/
theorem C34_trailing_bytes_reach_constructed_strings :
    (∀ (env : Env) (pval : ASN1_VALUE) (x : List UInt8) (constructed : Bool) (it : ASN1_ITEM)
        (tag cls : Int) (opt : Bool),
      CompleteObject x constructed →
      (constructed = false ∨ (it.utype = V_ASN1_SEQUENCE ∨ it.utype = V_ASN1_SET)) →
      (∀ t, asn1_d2i_ex_primitive env pval (CBS_init (x ++ t)) it tag cls opt
        = (asn1_d2i_ex_primitive env pval (CBS_init x) it tag cls opt).map
            (fun r => ⟨r.ret, r.pval, ⟨r.cbs.data ++ t, r.cbs.initial_len + t.length⟩,
              r.errs⟩)) ∧
      (∀ t1 t2,
        (asn1_d2i_ex_primitive env pval (CBS_init (x ++ t1)) it tag cls opt).map
            (fun r => (r.ret, r.pval, r.errs))
          = (asn1_d2i_ex_primitive env pval (CBS_init (x ++ t2)) it tag cls opt).map
            (fun r => (r.ret, r.pval, r.errs))) ∧
      (∀ t r, asn1_d2i_ex_primitive env pval (CBS_init (x ++ t)) it tag cls opt = some r →
        r.ret = 1 → r.cbs.data = t ∧ CBS_offset r.cbs = x.length)) ∧
    (∀ (env : Env) (pval : ASN1_VALUE) (x : List UInt8) (it : ASN1_ITEM) (tag cls : Int)
        (opt : Bool),
      CompleteObject x false →
      (∀ t, asn1_d2i_ex_mstring env pval (CBS_init (x ++ t)) it tag cls opt
        = (asn1_d2i_ex_mstring env pval (CBS_init x) it tag cls opt).map
            (fun r => ⟨r.ret, r.pval, ⟨r.cbs.data ++ t, r.cbs.initial_len + t.length⟩,
              r.errs⟩)) ∧
      (∀ t1 t2,
        (asn1_d2i_ex_mstring env pval (CBS_init (x ++ t1)) it tag cls opt).map
            (fun r => (r.ret, r.pval, r.errs))
          = (asn1_d2i_ex_mstring env pval (CBS_init (x ++ t2)) it tag cls opt).map
            (fun r => (r.ret, r.pval, r.errs))) ∧
      (∀ t r, asn1_d2i_ex_mstring env pval (CBS_init (x ++ t)) it tag cls opt = some r →
        r.ret = 1 → r.cbs.data = t ∧ CBS_offset r.cbs = x.length)) ∧
    (CompleteObject [0x24, 0x00] true ∧ CompleteObject [0x24, 0x03, 0x04, 0x01, 0x41] true ∧
      CompleteObject [0x2C, 0x00] true ∧ CompleteObject [0x04, 0x01, 0x41] false) ∧
    ASN1_item_ex_d2i scenarioEnv (some ASN1_VALUE.null) [0x24, 0x00] 2 (scenarioItems 7)
        (-1) 0 false
      = some ⟨1, ASN1_VALUE.string V_ASN1_OCTET_STRING [], 2, []⟩ ∧
    ASN1_item_ex_d2i scenarioEnv (some ASN1_VALUE.null) [0x24, 0x00, 0x04, 0x01, 0x41] 5
        (scenarioItems 7) (-1) 0 false
      = some ⟨1, ASN1_VALUE.string V_ASN1_OCTET_STRING [0x41], 5, []⟩ ∧
    ASN1_item_ex_d2i scenarioEnv (some ASN1_VALUE.null) [0x24, 0x03, 0x04, 0x01, 0x41] 5
        (scenarioItems 7) (-1) 0 false
      = some ⟨1, ASN1_VALUE.string V_ASN1_OCTET_STRING [0x41], 5, []⟩ ∧
    ASN1_item_ex_d2i scenarioEnv (some ASN1_VALUE.null)
        [0x24, 0x03, 0x04, 0x01, 0x41, 0x09, 0x09] 7 (scenarioItems 7) (-1) 0 false
      = some ⟨0, ASN1_VALUE.null, 0, [ASN1_R.TOO_LONG, ASN1_R.NESTED_ASN1_ERROR]⟩ ∧
    ASN1_item_ex_d2i scenarioEnv (some ASN1_VALUE.null) [0x2C, 0x00] 2 (scenarioItems 14)
        (-1) 0 false
      = some ⟨1, ASN1_VALUE.string V_ASN1_UTF8STRING [], 2, []⟩ ∧
    ASN1_item_ex_d2i scenarioEnv (some ASN1_VALUE.null) [0x2C, 0x00, 0x0C, 0x01, 0x41] 5
        (scenarioItems 14) (-1) 0 false
      = some ⟨1, ASN1_VALUE.string V_ASN1_UTF8STRING [0x41], 5, []⟩ ∧
    ASN1_item_ex_d2i scenarioEnv (some ASN1_VALUE.null) [0x04, 0x01, 0x41] 3 (scenarioItems 7)
        (-1) 0 false
      = some ⟨1, ASN1_VALUE.string V_ASN1_OCTET_STRING [0x41], 3, []⟩ ∧
    ASN1_item_ex_d2i scenarioEnv (some ASN1_VALUE.null) [0x04, 0x01, 0x41, 0x04, 0x01, 0x42] 6
        (scenarioItems 7) (-1) 0 false
      = some ⟨1, ASN1_VALUE.string V_ASN1_OCTET_STRING [0x41], 3, []⟩ := by
  have complete : ∀ (x : List UInt8) (id : IdentOut) (l : LengthOut),
      asn1_get_identifier_cbs (CBS_init x) = some id → asn1_get_length_cbs id.cbs = some l →
      l.indefinite = false → l.length = CBS_len l.cbs →
      CompleteObject x id.constructed :=
    fun x id l h1 h2 h3 h4 => ⟨id, l, h1, h2, h3, h4, rfl⟩
  refine ⟨?_, ?_, ⟨?_, ?_, ?_, ?_⟩, by rfl, by rfl, by rfl, by rfl, by rfl, by rfl, by rfl,
    by rfl⟩
  · intro env pval x constructed it tag cls opt hx hform
    have e : ∀ t, asn1_d2i_ex_primitive env pval (CBS_init (x ++ t)) it tag cls opt
        = (asn1_d2i_ex_primitive env pval (CBS_init x) it tag cls opt).map
            (fun r => r.extend t) := by
      intro t
      rw [CBS_init_append]
      exact asn1_d2i_ex_primitive_extend env pval (CBS_init x) it tag cls opt t hx hform
    refine ⟨e, ?_, ?_⟩
    · intro t1 t2
      rw [e t1, e t2, Option.map_map, Option.map_map]
      rfl
    · intro t r h hr
      rw [e t] at h
      cases h0 : asn1_d2i_ex_primitive env pval (CBS_init x) it tag cls opt with
      | none => simp [h0] at h
      | some r0 =>
        simp only [h0, Option.map, Option.some.injEq] at h
        subst h
        have hw := asn1_d2i_ex_primitive_whole env pval (CBS_init x) it tag cls opt hx hform
          h0 hr
        simp only [Out.extend, CBS.extend, hw, CBS_offset, CBS_init, List.nil_append,
          List.length_append]
        exact ⟨trivial, by omega⟩
  · intro env pval x it tag cls opt hx
    have e : ∀ t, asn1_d2i_ex_mstring env pval (CBS_init (x ++ t)) it tag cls opt
        = (asn1_d2i_ex_mstring env pval (CBS_init x) it tag cls opt).map
            (fun r => r.extend t) := by
      intro t
      rw [CBS_init_append]
      exact asn1_d2i_ex_mstring_extend env pval (CBS_init x) it tag cls opt t hx
    refine ⟨e, ?_, ?_⟩
    · intro t1 t2
      rw [e t1, e t2, Option.map_map, Option.map_map]
      rfl
    · intro t r h hr
      rw [e t] at h
      cases h0 : asn1_d2i_ex_mstring env pval (CBS_init x) it tag cls opt with
      | none => simp [h0] at h
      | some r0 =>
        simp only [h0, Option.map, Option.some.injEq] at h
        subst h
        have hw := asn1_d2i_ex_mstring_whole env pval (CBS_init x) it tag cls opt hx h0 hr
        simp only [Out.extend, CBS.extend, hw, CBS_offset, CBS_init, List.nil_append,
          List.length_append]
        exact ⟨trivial, by omega⟩
  · exact complete [0x24, 0x00] ⟨0, true, 4, ⟨[0x00], 2⟩⟩ ⟨false, 0, ⟨[], 2⟩⟩
      (by decide) (by decide) rfl rfl
  · exact complete [0x24, 0x03, 0x04, 0x01, 0x41] ⟨0, true, 4, ⟨[0x03, 0x04, 0x01, 0x41], 5⟩⟩
      ⟨false, 3, ⟨[0x04, 0x01, 0x41], 5⟩⟩ (by decide) (by decide) rfl rfl
  · exact complete [0x2C, 0x00] ⟨0, true, 12, ⟨[0x00], 2⟩⟩ ⟨false, 0, ⟨[], 2⟩⟩
      (by decide) (by decide) rfl rfl
  · exact complete [0x04, 0x01, 0x41] ⟨0, false, 4, ⟨[0x01, 0x41], 3⟩⟩
      ⟨false, 1, ⟨[0x41], 3⟩⟩ (by decide) (by decide) rfl rfl

/-- An `asn1_cb` callback that fails for the operation D2I_POST and succeeds
for every other operation, leaving the value as it is. -/
def failing_post_cb (op : Int) (v : ASN1_VALUE) : CbOut :=
  if op = ASN1_OP_D2I_POST then ⟨0, v⟩ else ⟨1, v⟩

/-- The SEQUENCE {INTEGER} whose `asn1_cb` is `failing_post_cb`. -/
def postFailSequence : ASN1_ITEM :=
  ⟨ASN1_ITYPE_SEQUENCE, V_ASN1_SEQUENCE, [⟨0, 0, 0, 0⟩], ASN1_FUNCS.aux (some failing_post_cb), 1⟩

/-- The CHOICE {INTEGER, UTF8STRING} whose `asn1_cb` is `failing_post_cb`. -/
def postFailChoice : ASN1_ITEM :=
  ⟨ASN1_ITYPE_CHOICE, 0, [⟨0, 0, 0, 0⟩, ⟨0, 0, 0, 1⟩], ASN1_FUNCS.aux (some failing_post_cb), 1⟩

/-- The descriptor table of the scenarios with `postFailSequence` as item
20. -/
def postFailItems (k : Nat) : ASN1_ITEM := if k = 20 then postFailSequence else scenarioItems k

/-- C36 (counterexample). A SEQUENCE whose D2I_POST callback fails:
`asn1_item_ex_d2i_sequence` has advanced the caller's cursor behind the
object before it runs the callback, so `asn1_item_ex_d2i` and
`asn1_template_ex_d2i` return 0 on `30 03 02 01 05` with AUX_ERROR and the
cursor 5 bytes further. A CHOICE decodes its alternative on the caller's
cursor, so with a failing D2I_POST callback it returns 0 on `02 01 05` with
the cursor 3 bytes further. The entry point reports no advance. -/
theorem C36_cursor_moved_by_a_failed_post_callback :
    asn1_item_ex_d2i scenarioEnv 31 (some ASN1_VALUE.null)
        (CBS_init [0x30, 0x03, 0x02, 0x01, 0x05]) postFailSequence (-1) 0 false 0
      = some ⟨0, ASN1_VALUE.null, ⟨[], 5⟩, [ASN1_R.AUX_ERROR]⟩ ∧
    asn1_item_ex_d2i scenarioEnv 31 (some ASN1_VALUE.null)
        (CBS_init [0x02, 0x01, 0x05]) postFailChoice (-1) 0 false 0
      = some ⟨0, ASN1_VALUE.null, ⟨[], 3⟩, [ASN1_R.AUX_ERROR]⟩ ∧
    asn1_template_ex_d2i (asn1_item_ex_d2i (specEnv postFailItems) 31) (specEnv postFailItems)
        (some ASN1_VALUE.null) (CBS_init [0x30, 0x03, 0x02, 0x01, 0x05]) ⟨0, 0, 0, 20⟩ false 0
      = some ⟨0, ASN1_VALUE.null, ⟨[], 5⟩, [ASN1_R.AUX_ERROR, ASN1_R.NESTED_ASN1_ERROR]⟩ ∧
    run_asn1_cb postFailSequence ASN1_OP_D2I_POST ASN1_VALUE.null = none ∧
    NoExtern scenarioEnv ∧ NoExtern (specEnv postFailItems) ∧
    postFailSequence.itype ≠ ASN1_ITYPE_EXTERN ∧ postFailChoice.itype ≠ ASN1_ITYPE_EXTERN ∧
    ASN1_item_ex_d2i scenarioEnv (some ASN1_VALUE.null) [0x30, 0x03, 0x02, 0x01, 0x05] 5
        postFailSequence (-1) 0 false
      = some ⟨0, ASN1_VALUE.null, 0, [ASN1_R.AUX_ERROR]⟩ := by
  refine ⟨by rfl, by rfl, by rfl, by rfl, scenario_table_without_extern_items, ?_, by decide,
    by decide, by rfl⟩
  intro k
  show (postFailItems k).itype ≠ ASN1_ITYPE_EXTERN
  unfold postFailItems
  split
  · decide
  · exact scenario_table_without_extern_items k

/-- C36. Progress and bounds of consumption. For every descriptor table
without EXTERN items, every item that is not an EXTERN item and every
input, `asn1_item_ex_d2i` and `asn1_template_ex_d2i` finish; when they
return 1 the cursor has advanced by a number of bytes `c` with
`2 ≤ c ≤ n`, `n` the number of bytes that were left; when they return -1 the
cursor is where it was; and when they return 0 the cursor is where it was
provided no D2I_POST callback in the descriptor tree fails. Whatever the
callbacks do, an entry point that does not return 1 reports no advance. In
the scenarios the SEQUENCE {INTEGER, BOOLEAN} consumes the 8 bytes of its
encoding out of 9, and fails on a truncated encoding with the cursor where
it was. -/
theorem C36_consumption_bounds_and_cursor_after_failure :
    (∀ (env : Env), NoExtern env →
      ∀ (fuel : Nat) (depth : Int), 31 ≤ (fuel : Int) + depth → 1 ≤ fuel →
      (∀ (pval : Option ASN1_VALUE) (cbs : CBS) (it : ASN1_ITEM) (tag cls : Int) (opt : Bool),
        it.itype ≠ ASN1_ITYPE_EXTERN →
        ∃ r, asn1_item_ex_d2i env fuel pval cbs it tag cls opt depth = some r ∧
          (r.ret = 1 → ∃ c, 2 ≤ c ∧ c ≤ cbs.data.length ∧
            r.cbs = ⟨cbs.data.drop c, cbs.initial_len⟩) ∧
          (r.ret = -1 → r.cbs = cbs) ∧
          (PostCallbacksSucceed env → PostOk it → r.ret = 0 → r.cbs = cbs)) ∧
      (∀ (pval : Option ASN1_VALUE) (cbs : CBS) (tt : ASN1_TEMPLATE) (opt : Bool),
        ∃ r, asn1_template_ex_d2i (asn1_item_ex_d2i env fuel) env pval cbs tt opt depth
            = some r ∧
          (r.ret = 1 → ∃ c, 2 ≤ c ∧ c ≤ cbs.data.length ∧
            r.cbs = ⟨cbs.data.drop c, cbs.initial_len⟩) ∧
          (r.ret = -1 → r.cbs = cbs) ∧
          (PostCallbacksSucceed env → r.ret = 0 → r.cbs = cbs))) ∧
    (∀ (env : Env) (pval : Option ASN1_VALUE) (input : List UInt8) (len : Int)
        (it : ASN1_ITEM) (tag cls : Int) (opt : Bool) (r : TopOut),
      ASN1_item_ex_d2i env pval input len it tag cls opt = some r → r.ret ≠ 1 →
      r.advanced = 0) ∧
    (∀ (env : Env) (pval : Option ASN1_VALUE) (input : List UInt8) (len : Int)
        (tt : ASN1_TEMPLATE) (r : TopOut),
      ASN1_template_d2i env pval input len tt = some r → r.ret ≠ 1 → r.advanced = 0) ∧
    PostCallbacksSucceed scenarioEnv ∧
    asn1_item_ex_d2i scenarioEnv 31 (some ASN1_VALUE.null)
        (CBS_init [0x30, 0x06, 0x02, 0x01, 0x05, 0x01, 0x01, 0xFF, 0x09]) (scenarioItems 4)
        (-1) 0 false 0
      = some ⟨1, ASN1_VALUE.aggregate (-1)
          [ASN1_VALUE.string V_ASN1_INTEGER [0x05], ASN1_VALUE.boolean 0xFF]
          (some [0x30, 0x06, 0x02, 0x01, 0x05, 0x01, 0x01, 0xFF]), ⟨[0x09], 9⟩, []⟩ ∧
    asn1_item_ex_d2i scenarioEnv 31 (some ASN1_VALUE.null)
        (CBS_init [0x30, 0x03, 0x02, 0x01, 0x05]) (scenarioItems 4) (-1) 0 false 0
      = some ⟨0, ASN1_VALUE.null, CBS_init [0x30, 0x03, 0x02, 0x01, 0x05],
          [ASN1_R.FIELD_MISSING]⟩ := by
  have adv : ∀ {cbs c1 : CBS}, (∃ k, 2 ≤ k ∧ CBS.advanced cbs c1 k) →
      ∃ c, 2 ≤ c ∧ c ≤ cbs.data.length ∧ c1 = ⟨cbs.data.drop c, cbs.initial_len⟩ := by
    rintro cbs c1 ⟨k, hk, h1, h2, h3⟩
    refine ⟨k, hk, h1, ?_⟩
    cases c1
    simp only at h2 h3
    rw [h2, h3]
  refine ⟨?_, ?_, ?_, ?_, by rfl, by rfl⟩
  · intro env he fuel depth hf h1
    have hd := asn1_item_ex_d2i_total he fuel depth hf h1
    constructor
    · intro pval cbs it tag cls opt hx
      obtain ⟨r, hr, _, w2, w3⟩ := hd pval cbs it tag cls opt hx
      refine ⟨r, hr, fun h => adv (w2 h), fun h => (w3 h).2.1, ?_⟩
      intro hp hpi h0
      exact asn1_item_ex_d2i_keeps hp fuel pval cbs it tag cls opt depth r hpi hr
        (by rw [h0]; decide)
    · intro pval cbs tt opt
      obtain ⟨r, hr, _, w2, w3⟩ := asn1_template_ex_d2i_ok hd he pval cbs tt opt
      refine ⟨r, hr, fun h => adv (w2 h), fun h => (w3 h).2.1, ?_⟩
      intro hp h0
      exact asn1_template_ex_d2i_keeps (asn1_item_ex_d2i_keeps hp fuel) hp pval cbs tt opt
        depth r hr (by rw [h0]; decide)
  · intro env pval input len it tag cls opt r h hr
    unfold ASN1_item_ex_d2i at h
    split at h
    · cases h
      rfl
    · split at h
      · cases h
      · split at h
        · rename_i h1
          cases h
          exact absurd h1 hr
        · cases h
          rfl
  · intro env pval input len tt r h hr
    unfold ASN1_template_d2i at h
    split at h
    · cases h
      rfl
    · split at h
      · cases h
      · split at h
        · rename_i h1
          cases h
          exact absurd h1 hr
        · cases h
          rfl
  · intro k v
    have hn : (scenarioItems k).asn1_cb = none := by
      unfold scenarioItems
      split <;> rfl
    show run_asn1_cb (scenarioItems k) ASN1_OP_D2I_POST v ≠ none
    unfold run_asn1_cb
    rw [hn]
    simp

end TasnDec
